import Mathlib

/-!
# Ride-sharing match engine: scoring, discovery and confirmation

A shallow embedding of `service/ride_service.go`, `repository/ride_repository.go`
and `domain/model/ride.go`.

Modelling conventions.

* `float64` values are `GoFloat K`: a finite value of an ordered field `K`
  (`ℚ` when the model is run, `ℝ` when trigonometry is needed), or one of the
  three exceptional values `+Inf`, `-Inf`, `NaN`.  Arithmetic on finite values
  is exact and the two zeros are identified; the exceptional values follow
  IEEE-754 as Go does. Rounding and overflow to infinity enter in the section
  on the haversine formula in float64 arithmetic, where they decide what
  `CalculateDistanceBetweenPoints` returns.
* Go `int` is `Int`, `uuid.UUID` is `Nat` (with `uuid.Nil = 0`), `time.Time`
  is the number of nanoseconds since the epoch, as an `Int`. Seat counts,
  passenger counts and departure times are taken to be far from the 64-bit
  limits: wrap-around of `int` and the saturation of `Time.Sub` are not
  modelled.
* The relational store is a record of tables, each a list of rows; every
  repository call takes the error the database raises on that call, if any.
* The columns the ORM manages by itself (`CreatedAt`, `UpdatedAt` and the
  association structs `Driver`, `Passenger`, `RideOffer`, `RideRequest`) are
  not part of the engine state.
-/

namespace RideSharing

/-! ## float64 -/

/-- A `float64`: a finite value, or `+Inf`, `-Inf`, `NaN`. -/
inductive GoFloat (K : Type) where
  | fin (x : K)
  | pinf
  | ninf
  | nan
  deriving DecidableEq

namespace GoFloat

variable {K : Type} [LinearOrderedField K]

/-- Unary minus. -/
def neg : GoFloat K → GoFloat K
  | fin x => fin (-x)
  | pinf => ninf
  | ninf => pinf
  | nan => nan

/-- Go `x + y` on `float64`. -/
def add : GoFloat K → GoFloat K → GoFloat K
  | nan, _ => nan
  | _, nan => nan
  | pinf, ninf => nan
  | ninf, pinf => nan
  | pinf, _ => pinf
  | _, pinf => pinf
  | ninf, _ => ninf
  | _, ninf => ninf
  | fin x, fin y => fin (x + y)

/-- Go `x - y` on `float64`. -/
def sub (x y : GoFloat K) : GoFloat K := add x (neg y)

/-- Go `x * y` on `float64`. -/
def mul : GoFloat K → GoFloat K → GoFloat K
  | nan, _ => nan
  | _, nan => nan
  | fin x, fin y => fin (x * y)
  | fin x, pinf => if x = 0 then nan else if 0 < x then pinf else ninf
  | fin x, ninf => if x = 0 then nan else if 0 < x then ninf else pinf
  | pinf, fin y => if y = 0 then nan else if 0 < y then pinf else ninf
  | ninf, fin y => if y = 0 then nan else if 0 < y then ninf else pinf
  | pinf, pinf => pinf
  | pinf, ninf => ninf
  | ninf, pinf => ninf
  | ninf, ninf => pinf

/-- Go `x / y` on `float64`; a finite nonzero value over zero is an infinity,
zero over zero is `NaN`. -/
def div : GoFloat K → GoFloat K → GoFloat K
  | nan, _ => nan
  | _, nan => nan
  | fin x, fin y =>
      if y = 0 then (if x = 0 then nan else if 0 < x then pinf else ninf)
      else fin (x / y)
  | fin _, pinf => fin 0
  | fin _, ninf => fin 0
  | pinf, fin y => if 0 ≤ y then pinf else ninf
  | ninf, fin y => if 0 ≤ y then ninf else pinf
  | pinf, pinf => nan
  | pinf, ninf => nan
  | ninf, pinf => nan
  | ninf, ninf => nan

/-- Go `x < y` on `float64`; every comparison with `NaN` is false. -/
def lt : GoFloat K → GoFloat K → Bool
  | nan, _ => false
  | _, nan => false
  | fin x, fin y => decide (x < y)
  | fin _, pinf => true
  | fin _, ninf => false
  | pinf, _ => false
  | ninf, ninf => false
  | ninf, _ => true

/-- Go `x > y` on `float64`. -/
def gt (x y : GoFloat K) : Bool := lt y x

/-- Go `x <= y` on `float64`; every comparison with `NaN` is false. -/
def le : GoFloat K → GoFloat K → Bool
  | nan, _ => false
  | _, nan => false
  | fin x, fin y => decide (x ≤ y)
  | _, pinf => true
  | ninf, _ => true
  | pinf, _ => false
  | fin _, ninf => false

/-- Go `math.Abs`. -/
def abs : GoFloat K → GoFloat K
  | fin x => fin |x|
  | pinf => pinf
  | ninf => pinf
  | nan => nan

/-- Go `math.Max`: `+Inf` if either argument is `+Inf`, otherwise `NaN` if
either argument is `NaN`, otherwise the larger argument. -/
def max : GoFloat K → GoFloat K → GoFloat K
  | pinf, _ => pinf
  | _, pinf => pinf
  | nan, _ => nan
  | _, nan => nan
  | ninf, y => y
  | x, ninf => x
  | fin x, fin y => fin (Max.max x y)

/-- Go `float64(n)` for an `int`. -/
def ofInt (n : Int) : GoFloat K := fin (n : K)

/-- Go `x == 0` on `float64`: the ORM's test for a blank float field. -/
def isZero : GoFloat K → Bool
  | fin x => decide (x = 0)
  | _ => false

end GoFloat

/-! ## Domain model (`domain/model/ride.go`, `domain/model/user.go`) -/

/-- A `uuid.UUID`; `0` is `uuid.Nil`. -/
abbrev UUID := Nat

/-- A `time.Time`, in nanoseconds since the epoch. -/
abbrev Time := Int

/-- A `time.Duration`, in nanoseconds. -/
abbrev Duration := Int

/-- The constant `time.Minute`. -/
def Minute : Duration := 60000000000

/-- The declared values of `RideStatus` (a string type in Go; the service reads
and writes no other value). -/
inductive RideStatus where
  | StatusPending
  | StatusMatched
  | StatusConfirmed
  | StatusInProgress
  | StatusCompleted
  | StatusCancelled
  deriving DecidableEq

open RideStatus

/-- Struct `Location`. -/
structure Location (K : Type) where
  Latitude : GoFloat K
  Longitude : GoFloat K
  Address : String
  deriving DecidableEq

/-- Struct `RideOffer`. -/
structure RideOffer (K : Type) where
  ID : UUID
  DriverID : UUID
  StartLocation : Location K
  EndLocation : Location K
  DepartureTime : Time
  AvailableSeats : Int
  Status : RideStatus
  PricePerSeat : GoFloat K
  AllowedDetourKm : GoFloat K
  deriving DecidableEq

/-- Struct `RideRequest`. -/
structure RideRequest (K : Type) where
  ID : UUID
  PassengerID : UUID
  StartLocation : Location K
  EndLocation : Location K
  DepartureTime : Time
  NumPassengers : Int
  Status : RideStatus
  MaxPrice : GoFloat K
  deriving DecidableEq

/-- Struct `RideMatch`. -/
structure RideMatch (K : Type) where
  ID : UUID
  RideOfferID : UUID
  RideRequestID : UUID
  Status : RideStatus
  MatchScore : GoFloat K
  Price : GoFloat K
  deriving DecidableEq

/-- Struct `User`, reduced to its key (the engine only tests existence). -/
structure User where
  ID : UUID
  deriving DecidableEq

/-- Struct `DriverProfile`, reduced to its key and the seat ceiling. -/
structure DriverProfile where
  UserID : UUID
  NumSeats : Int
  deriving DecidableEq

/-! ## Scoring (`calculateMatchScore`) -/

section Scoring

variable {K : Type} [LinearOrderedField K]

/-- The signature of `CalculateDistanceBetweenPoints(lat1, lng1, lat2, lng2)`.
The scorer and the discovery workers are embedded over an arbitrary function
of this type, so what is proved of them holds for the haversine formula. -/
abbrev DistanceFn (K : Type) := GoFloat K → GoFloat K → GoFloat K → GoFloat K → GoFloat K

/-- The method `Duration.Minutes` of the Go standard library:
`float64(d / Minute) + float64(d % Minute) / (60 * 1e9)`, with Go's
truncating integer division. -/
def Duration.Minutes (d : Duration) : GoFloat K :=
  GoFloat.add (GoFloat.ofInt (Int.tdiv d Minute))
    (GoFloat.div (GoFloat.ofInt (Int.tmod d Minute)) (GoFloat.fin (60 * 1000000000)))

/-- Local `pickupDistance` of `calculateMatchScore`. -/
def pickupDistance (dist : DistanceFn K) (offer : RideOffer K) (request : RideRequest K) :
    GoFloat K :=
  dist request.StartLocation.Latitude request.StartLocation.Longitude
    offer.StartLocation.Latitude offer.StartLocation.Longitude

/-- Local `dropoffDistance` of `calculateMatchScore`. -/
def dropoffDistance (dist : DistanceFn K) (offer : RideOffer K) (request : RideRequest K) :
    GoFloat K :=
  dist request.EndLocation.Latitude request.EndLocation.Longitude
    offer.EndLocation.Latitude offer.EndLocation.Longitude

/-- Local `timeDiff` of `calculateMatchScore`:
`math.Abs(offer.DepartureTime.Sub(request.DepartureTime).Minutes())`. -/
def timeDiff (offer : RideOffer K) (request : RideRequest K) : GoFloat K :=
  GoFloat.abs (Duration.Minutes (offer.DepartureTime - request.DepartureTime))

/-- Local `maxPricePerSeat` of `calculateMatchScore`. -/
def maxPricePerSeat (request : RideRequest K) : GoFloat K :=
  GoFloat.div request.MaxPrice (GoFloat.ofInt request.NumPassengers)

/-- Local `priceCompat` of `calculateMatchScore`. -/
def priceCompat (offer : RideOffer K) (request : RideRequest K) : GoFloat K :=
  if GoFloat.gt offer.PricePerSeat (maxPricePerSeat request) then GoFloat.fin 0
  else GoFloat.fin 1

/-- Local `timeCompat` of `calculateMatchScore`. -/
def timeCompat (offer : RideOffer K) (request : RideRequest K) : GoFloat K :=
  GoFloat.max (GoFloat.fin 0)
    (GoFloat.sub (GoFloat.fin 1) (GoFloat.div (timeDiff offer request) (GoFloat.fin 30)))

/-- Local `locationCompat` of `calculateMatchScore`. -/
def locationCompat (dist : DistanceFn K) (offer : RideOffer K) (request : RideRequest K) :
    GoFloat K :=
  GoFloat.max (GoFloat.fin 0)
    (GoFloat.sub (GoFloat.fin 1)
      (GoFloat.div
        (GoFloat.add (pickupDistance dist offer request) (dropoffDistance dist offer request))
        (GoFloat.mul (GoFloat.fin 2) offer.AllowedDetourKm)))

/-- Constant `priceWeight`. -/
def priceWeight : GoFloat K := GoFloat.fin (3 / 10)

/-- Constant `timeWeight`. -/
def timeWeight : GoFloat K := GoFloat.fin (3 / 10)

/-- Constant `locationWeight`. -/
def locationWeight : GoFloat K := GoFloat.fin (4 / 10)

/-- Method `RideService.calculateMatchScore`. -/
def calculateMatchScore (dist : DistanceFn K) (offer : RideOffer K) (request : RideRequest K) :
    GoFloat K :=
  if offer.AvailableSeats < request.NumPassengers then GoFloat.fin 0
  else if GoFloat.gt (pickupDistance dist offer request) offer.AllowedDetourKm
      || GoFloat.gt (dropoffDistance dist offer request) offer.AllowedDetourKm then
    GoFloat.fin 0
  else
    GoFloat.add
      (GoFloat.add (GoFloat.mul (priceCompat offer request) priceWeight)
        (GoFloat.mul (timeCompat offer request) timeWeight))
      (GoFloat.mul (locationCompat dist offer request) locationWeight)

end Scoring

/-! ## Errors -/

/-- An error raised by the database layer. `ErrRecordNotFound` is the ORM's
own error for an empty `First`; `ErrDuplicateKey` is a primary-key conflict on
insert; every other failure is an opaque code. -/
inductive StoreError where
  | ErrRecordNotFound
  | ErrDuplicateKey
  | other (code : Nat)
  deriving DecidableEq

/-- The `error` values the ride service returns: either an error of the
repository passed through unchanged, or one of the service's own
`errors.New(...)` values (see `Err.message` for their texts). -/
inductive Err where
  | store (e : StoreError)
  | driverProfileNotFound
  | invalidSeats
  | departureInPast
  | passengerNotFound
  | invalidPassengers
  | offerNotFound
  | requestNotFound
  | matchNotFound
  | notDriver
  | notPassenger
  | invalidState
  deriving DecidableEq

/-- The text of each error of the service. -/
def Err.message : Err → String
  | .store _ => "store error"
  | .driverProfileNotFound => "driver profile not found"
  | .invalidSeats => "invalid number of available seats"
  | .departureInPast => "departure time must be in the future"
  | .passengerNotFound => "passenger not found"
  | .invalidPassengers => "invalid number of passengers"
  | .offerNotFound => "ride offer not found"
  | .requestNotFound => "ride request not found"
  | .matchNotFound => "match not found"
  | .notDriver => "unauthorized: user is not the driver for this match"
  | .notPassenger => "unauthorized: user is not the passenger for this match"
  | .invalidState => "match cannot be confirmed in its current state"

/-- The error taxonomy of the specification. -/
inductive ErrorClass where
  | ValidationError
  | NotFound
  | Unauthorized
  | InvalidState
  | CapacityExceeded
  | StoreError
  deriving DecidableEq

/-- The class of each error the service can return. No error of the service is
a capacity error. -/
def Err.errorClass : Err → ErrorClass
  | .store _ => .StoreError
  | .driverProfileNotFound => .NotFound
  | .invalidSeats => .ValidationError
  | .departureInPast => .ValidationError
  | .passengerNotFound => .NotFound
  | .invalidPassengers => .ValidationError
  | .offerNotFound => .NotFound
  | .requestNotFound => .NotFound
  | .matchNotFound => .NotFound
  | .notDriver => .Unauthorized
  | .notPassenger => .Unauthorized
  | .invalidState => .InvalidState

/-- How a call of a service method ends: it returns `nil`, returns an error,
or panics on a nil pointer dereference. -/
inductive CallResult where
  | ok
  | error (e : Err)
  | panic
  deriving DecidableEq

/-! ## The store and the ORM calls -/

/-- The database: one list of rows per table. -/
structure Store (K : Type) where
  rideOffers : List (RideOffer K)
  rideRequests : List (RideRequest K)
  rideMatches : List (RideMatch K)
  users : List User
  driverProfiles : List DriverProfile
  deriving DecidableEq

section Gorm

variable {α : Type}

/-- The ORM call `db.Where(cond).First(&x)`: the first row satisfying the
condition, `ErrRecordNotFound` when there is none; `fault` is the error the
database raises on this call, if any. -/
def gormFirst (rows : List α) (cond : α → Bool) (fault : Option StoreError) :
    Except StoreError α :=
  match fault with
  | some e => .error e
  | none =>
    match rows.find? cond with
    | some r => .ok r
    | none => .error .ErrRecordNotFound

/-- The ORM call `db.Where(cond).Find(&xs)`: every row satisfying the
condition, in table order. -/
def gormFind (rows : List α) (cond : α → Bool) (fault : Option StoreError) :
    Except StoreError (List α) :=
  match fault with
  | some e => .error e
  | none => .ok (rows.filter cond)

/-- The ORM call `db.Save(x)`: the row with the primary key of `x` is replaced
by `x`; when there is no such row, `x` is inserted. A failed call writes
nothing. -/
def gormSave (key : α → UUID) (rows : List α) (x : α) (fault : Option StoreError) :
    Except StoreError (List α) :=
  match fault with
  | some e => .error e
  | none =>
    if rows.any (fun r => decide (key r = key x)) then
      .ok (rows.map (fun r => if key r = key x then x else r))
    else .ok (rows ++ [x])

/-- The ORM call `db.Create(x)`, after the `BeforeCreate` hook has run: `x` is
inserted, unless a row with its primary key exists. A failed call writes
nothing. -/
def gormCreate (key : α → UUID) (rows : List α) (x : α) (fault : Option StoreError) :
    Except StoreError (List α) :=
  match fault with
  | some e => .error e
  | none =>
    if rows.any (fun r => decide (key r = key x)) then .error .ErrDuplicateKey
    else .ok (rows ++ [x])

end Gorm

/-! ## Repository (`repository/ride_repository.go`, `repository/user_repository.go`) -/

section Repository

variable {K : Type} [LinearOrderedField K]

/-- Hook `RideOffer.BeforeCreate`; `newID` is the value of `uuid.New()`. -/
def RideOffer.BeforeCreate (r : RideOffer K) (newID : UUID) : RideOffer K :=
  if r.ID = 0 then { r with ID := newID } else r

/-- Hook `RideRequest.BeforeCreate`; `newID` is the value of `uuid.New()`. -/
def RideRequest.BeforeCreate (r : RideRequest K) (newID : UUID) : RideRequest K :=
  if r.ID = 0 then { r with ID := newID } else r

/-- Hook `RideMatch.BeforeCreate`; `newID` is the value of `uuid.New()`. -/
def RideMatch.BeforeCreate (r : RideMatch K) (newID : UUID) : RideMatch K :=
  if r.ID = 0 then { r with ID := newID } else r

/-- The column default of `RideOffer` (tag `gorm:"default:5"` on
`AllowedDetourKm`). On insert the ORM leaves out a field that has a default and
holds its zero value, the database fills in the default, and the ORM reads the
column back into the struct it was given. `Status` has a default too, but
every insert of the engine sets it. -/
def RideOffer.columnDefaults (r : RideOffer K) : RideOffer K :=
  if GoFloat.isZero r.AllowedDetourKm then { r with AllowedDetourKm := GoFloat.fin 5 } else r

/-- The column default of `RideRequest` (tag `gorm:"not null;default:1"` on
`NumPassengers`), as for `RideOffer.columnDefaults`. -/
def RideRequest.columnDefaults (r : RideRequest K) : RideRequest K :=
  if r.NumPassengers = 0 then { r with NumPassengers := 1 } else r

/-- The shape shared by the `Find...ByID` methods: an empty result is
`(nil, nil)`, every other error is returned. -/
def orNil {α : Type} (r : Except StoreError α) : Except StoreError (Option α) :=
  match r with
  | .ok x => .ok (some x)
  | .error e => if e = .ErrRecordNotFound then .ok none else .error e

/-- Method `GormUserRepository.FindByID`. -/
def FindByID (s : Store K) (fault : Option StoreError) (id : UUID) :
    Except StoreError (Option User) :=
  orNil (gormFirst s.users (fun u => decide (u.ID = id)) fault)

/-- Method `GormUserRepository.GetDriverProfile`. -/
def GetDriverProfile (s : Store K) (fault : Option StoreError) (userID : UUID) :
    Except StoreError (Option DriverProfile) :=
  orNil (gormFirst s.driverProfiles (fun p => decide (p.UserID = userID)) fault)

/-- Method `GormRideRepository.CreateRideOffer`; the offer (with its generated
ID and its column defaults) is returned with the new store. The row is stored
as the struct holds it: to which columns the ORM maps the two embedded
locations is not modelled. -/
def Repo.CreateRideOffer (s : Store K) (fault : Option StoreError) (newID : UUID)
    (offer : RideOffer K) : Except StoreError (Store K × RideOffer K) :=
  let offer := (offer.BeforeCreate newID).columnDefaults
  match gormCreate RideOffer.ID s.rideOffers offer fault with
  | .error e => .error e
  | .ok rows => .ok ({ s with rideOffers := rows }, offer)

/-- Method `GormRideRepository.FindRideOfferByID`. -/
def FindRideOfferByID (s : Store K) (fault : Option StoreError) (id : UUID) :
    Except StoreError (Option (RideOffer K)) :=
  orNil (gormFirst s.rideOffers (fun o => decide (o.ID = id)) fault)

/-- Method `GormRideRepository.UpdateRideOffer`. -/
def UpdateRideOffer (s : Store K) (fault : Option StoreError) (offer : RideOffer K) :
    Except StoreError (Store K) :=
  match gormSave RideOffer.ID s.rideOffers offer fault with
  | .error e => .error e
  | .ok rows => .ok { s with rideOffers := rows }

/-- Method `GormRideRepository.CreateRideRequest`; the request (with its
generated ID and its column defaults) is returned with the new store. The row
is stored as the struct holds it, as for `Repo.CreateRideOffer`. -/
def Repo.CreateRideRequest (s : Store K) (fault : Option StoreError) (newID : UUID)
    (request : RideRequest K) : Except StoreError (Store K × RideRequest K) :=
  let request := (request.BeforeCreate newID).columnDefaults
  match gormCreate RideRequest.ID s.rideRequests request fault with
  | .error e => .error e
  | .ok rows => .ok ({ s with rideRequests := rows }, request)

/-- Method `GormRideRepository.FindRideRequestByID`. -/
def FindRideRequestByID (s : Store K) (fault : Option StoreError) (id : UUID) :
    Except StoreError (Option (RideRequest K)) :=
  orNil (gormFirst s.rideRequests (fun r => decide (r.ID = id)) fault)

/-- Method `GormRideRepository.UpdateRideRequest`. -/
def UpdateRideRequest (s : Store K) (fault : Option StoreError) (request : RideRequest K) :
    Except StoreError (Store K) :=
  match gormSave RideRequest.ID s.rideRequests request fault with
  | .error e => .error e
  | .ok rows => .ok { s with rideRequests := rows }

/-- Method `GormRideRepository.CreateRideMatch`. -/
def CreateRideMatch (s : Store K) (fault : Option StoreError) (newID : UUID)
    (m : RideMatch K) : Except StoreError (Store K) :=
  match gormCreate RideMatch.ID s.rideMatches (m.BeforeCreate newID) fault with
  | .error e => .error e
  | .ok rows => .ok { s with rideMatches := rows }

/-- Method `GormRideRepository.FindRideMatchByID`. -/
def FindRideMatchByID (s : Store K) (fault : Option StoreError) (id : UUID) :
    Except StoreError (Option (RideMatch K)) :=
  orNil (gormFirst s.rideMatches (fun m => decide (m.ID = id)) fault)

/-- Method `GormRideRepository.UpdateRideMatch`. -/
def UpdateRideMatch (s : Store K) (fault : Option StoreError) (m : RideMatch K) :
    Except StoreError (Store K) :=
  match gormSave RideMatch.ID s.rideMatches m fault with
  | .error e => .error e
  | .ok rows => .ok { s with rideMatches := rows }

/-- Method `GormRideRepository.FindPotentialMatches`: the pending requests
leaving within 30 minutes of the offer and fitting its free seats. The error
of the first lookup, a missing row included, is returned as it is. -/
def FindPotentialMatches (s : Store K) (faultFirst faultFind : Option StoreError)
    (offerID : UUID) : Except StoreError (List (RideRequest K)) :=
  match gormFirst s.rideOffers (fun o => decide (o.ID = offerID)) faultFirst with
  | .error e => .error e
  | .ok offer =>
    let timeWindow : Duration := 30 * Minute
    let startTime := offer.DepartureTime + -timeWindow
    let endTime := offer.DepartureTime + timeWindow
    gormFind s.rideRequests
      (fun r => decide (r.Status = StatusPending)
        && (decide (startTime ≤ r.DepartureTime) && decide (r.DepartureTime ≤ endTime))
        && decide (r.NumPassengers ≤ offer.AvailableSeats))
      faultFind

/-- Method `GormRideRepository.FindPotentialOffers`: the pending offers
leaving within 30 minutes of the request, with enough free seats and a price
per seat within the request's budget per passenger. -/
def FindPotentialOffers (s : Store K) (faultFirst faultFind : Option StoreError)
    (requestID : UUID) : Except StoreError (List (RideOffer K)) :=
  match gormFirst s.rideRequests (fun r => decide (r.ID = requestID)) faultFirst with
  | .error e => .error e
  | .ok request =>
    let timeWindow : Duration := 30 * Minute
    let startTime := request.DepartureTime + -timeWindow
    let endTime := request.DepartureTime + timeWindow
    gormFind s.rideOffers
      (fun o => decide (o.Status = StatusPending)
        && (decide (startTime ≤ o.DepartureTime) && decide (o.DepartureTime ≤ endTime))
        && decide (o.AvailableSeats ≥ request.NumPassengers)
        && GoFloat.le o.PricePerSeat
            (GoFloat.div request.MaxPrice (GoFloat.ofInt request.NumPassengers)))
      faultFind

end Repository

/-! ## Service (`service/ride_service.go`) -/

section Service

variable {K : Type} [LinearOrderedField K]

/-- The database errors of one `CreateRideOffer` call, one per repository
call. -/
structure CreateOfferFaults where
  getDriverProfile : Option StoreError
  createRideOffer : Option StoreError

/-- The database errors of one `CreateRideRequest` call, one per repository
call. -/
structure CreateRequestFaults where
  findByID : Option StoreError
  createRideRequest : Option StoreError

/-- Method `RideService.CreateRideOffer`, up to the launch of the discovery
goroutine (which is `findMatchesForOffer` on the returned offer's ID). `now` is
the value of `time.Now()` and `newID` the value of `uuid.New()`. -/
def CreateRideOffer (s : Store K) (now : Time) (newID : UUID) (f : CreateOfferFaults)
    (driverID : UUID) (startLat startLng : GoFloat K) (startAddress : String)
    (endLat endLng : GoFloat K) (endAddress : String) (departureTime : Time)
    (availableSeats : Int) (pricePerSeat allowedDetourKm : GoFloat K) :
    Store K × Except Err (RideOffer K) :=
  match GetDriverProfile s f.getDriverProfile driverID with
  | .error e => (s, .error (.store e))
  | .ok none => (s, .error .driverProfileNotFound)
  | .ok (some driverProfile) =>
    if availableSeats ≤ 0 ∨ availableSeats > driverProfile.NumSeats then
      (s, .error .invalidSeats)
    else if departureTime < now then (s, .error .departureInPast)
    else
      let offer : RideOffer K :=
        { ID := 0
          DriverID := driverID
          StartLocation := { Latitude := startLat, Longitude := startLng, Address := startAddress }
          EndLocation := { Latitude := endLat, Longitude := endLng, Address := endAddress }
          DepartureTime := departureTime
          AvailableSeats := availableSeats
          PricePerSeat := pricePerSeat
          AllowedDetourKm := allowedDetourKm
          Status := StatusPending }
      match Repo.CreateRideOffer s f.createRideOffer newID offer with
      | .error e => (s, .error (.store e))
      | .ok (s1, offer) => (s1, .ok offer)

/-- Method `RideService.CreateRideRequest`, up to the launch of the discovery
goroutine (which is `findMatchesForRequest` on the returned request's ID). -/
def CreateRideRequest (s : Store K) (now : Time) (newID : UUID) (f : CreateRequestFaults)
    (passengerID : UUID) (startLat startLng : GoFloat K) (startAddress : String)
    (endLat endLng : GoFloat K) (endAddress : String) (departureTime : Time)
    (numPassengers : Int) (maxPrice : GoFloat K) :
    Store K × Except Err (RideRequest K) :=
  match FindByID s f.findByID passengerID with
  | .error e => (s, .error (.store e))
  | .ok none => (s, .error .passengerNotFound)
  | .ok (some _) =>
    if numPassengers ≤ 0 then (s, .error .invalidPassengers)
    else if departureTime < now then (s, .error .departureInPast)
    else
      let request : RideRequest K :=
        { ID := 0
          PassengerID := passengerID
          StartLocation := { Latitude := startLat, Longitude := startLng, Address := startAddress }
          EndLocation := { Latitude := endLat, Longitude := endLng, Address := endAddress }
          DepartureTime := departureTime
          NumPassengers := numPassengers
          MaxPrice := maxPrice
          Status := StatusPending }
      match Repo.CreateRideRequest s f.createRideRequest newID request with
      | .error e => (s, .error (.store e))
      | .ok (s1, request) => (s1, .ok request)

/-- The database errors met while one candidate is processed by a discovery
worker, one per repository call. -/
structure CandidateFaults where
  createRideMatch : Option StoreError
  updateRideOffer : Option StoreError
  updateRideRequest : Option StoreError

/-- The database errors of one run of a discovery worker: those of the lookup
of the anchor, of the two queries of the candidate search, and of each
candidate (by its position in the candidate list). -/
structure DiscoveryFaults where
  findByID : Option StoreError
  potentialFirst : Option StoreError
  potentialFind : Option StoreError
  candidate : Nat → CandidateFaults

/-- A repository update whose error is dropped by the caller: the store after
the call. -/
def ignoreError (s : Store K) (r : Except StoreError (Store K)) : Store K :=
  match r with
  | .ok s1 => s1
  | .error _ => s

/-- The acceptance threshold `0.6` of the discovery workers. -/
def matchThreshold : GoFloat K := GoFloat.fin (6 / 10)

/-- The `for` loop of `findMatchesForOffer`, from candidate number `i` on.
`offer` is the struct behind the pointer the worker holds (its status is
overwritten by earlier iterations); `newIDs i` is the value of `uuid.New()`
for candidate `i`. -/
def offerLoop (dist : DistanceFn K) (newIDs : Nat → UUID) (faults : Nat → CandidateFaults) :
    Nat → Store K → RideOffer K → List (RideRequest K) → Store K
  | _, s, _, [] => s
  | i, s, offer, request :: rest =>
    let matchScore := calculateMatchScore dist offer request
    if GoFloat.gt matchScore matchThreshold then
      let m : RideMatch K :=
        { ID := 0
          RideOfferID := offer.ID
          RideRequestID := request.ID
          Status := StatusMatched
          MatchScore := matchScore
          Price := GoFloat.mul offer.PricePerSeat (GoFloat.ofInt request.NumPassengers) }
      match CreateRideMatch s (faults i).createRideMatch (newIDs i) m with
      | .error _ => offerLoop dist newIDs faults (i + 1) s offer rest
      | .ok s1 =>
        let offer := { offer with Status := StatusMatched }
        let request := { request with Status := StatusMatched }
        let s2 := ignoreError s1 (UpdateRideOffer s1 (faults i).updateRideOffer offer)
        let s3 := ignoreError s2 (UpdateRideRequest s2 (faults i).updateRideRequest request)
        offerLoop dist newIDs faults (i + 1) s3 offer rest
    else offerLoop dist newIDs faults (i + 1) s offer rest

/-- Method `RideService.findMatchesForOffer`. -/
def findMatchesForOffer (dist : DistanceFn K) (s : Store K) (newIDs : Nat → UUID)
    (f : DiscoveryFaults) (offerID : UUID) : Store K × CallResult :=
  match FindRideOfferByID s f.findByID offerID with
  | .error e => (s, .error (.store e))
  | .ok none => (s, .error .offerNotFound)
  | .ok (some offer) =>
    match FindPotentialMatches s f.potentialFirst f.potentialFind offerID with
    | .error e => (s, .error (.store e))
    | .ok potentialRequests =>
      (offerLoop dist newIDs f.candidate 0 s offer potentialRequests, .ok)

/-- The `for` loop of `findMatchesForRequest`, from candidate number `i` on.
`request` is the struct behind the pointer the worker holds. -/
def requestLoop (dist : DistanceFn K) (newIDs : Nat → UUID) (faults : Nat → CandidateFaults) :
    Nat → Store K → RideRequest K → List (RideOffer K) → Store K
  | _, s, _, [] => s
  | i, s, request, offer :: rest =>
    let matchScore := calculateMatchScore dist offer request
    if GoFloat.gt matchScore matchThreshold then
      let m : RideMatch K :=
        { ID := 0
          RideOfferID := offer.ID
          RideRequestID := request.ID
          Status := StatusMatched
          MatchScore := matchScore
          Price := GoFloat.mul offer.PricePerSeat (GoFloat.ofInt request.NumPassengers) }
      match CreateRideMatch s (faults i).createRideMatch (newIDs i) m with
      | .error _ => requestLoop dist newIDs faults (i + 1) s request rest
      | .ok s1 =>
        let offer := { offer with Status := StatusMatched }
        let request := { request with Status := StatusMatched }
        let s2 := ignoreError s1 (UpdateRideOffer s1 (faults i).updateRideOffer offer)
        let s3 := ignoreError s2 (UpdateRideRequest s2 (faults i).updateRideRequest request)
        requestLoop dist newIDs faults (i + 1) s3 request rest
    else requestLoop dist newIDs faults (i + 1) s request rest

/-- Method `RideService.findMatchesForRequest`. -/
def findMatchesForRequest (dist : DistanceFn K) (s : Store K) (newIDs : Nat → UUID)
    (f : DiscoveryFaults) (requestID : UUID) : Store K × CallResult :=
  match FindRideRequestByID s f.findByID requestID with
  | .error e => (s, .error (.store e))
  | .ok none => (s, .error .requestNotFound)
  | .ok (some request) =>
    match FindPotentialOffers s f.potentialFirst f.potentialFind requestID with
    | .error e => (s, .error (.store e))
    | .ok potentialOffers =>
      (requestLoop dist newIDs f.candidate 0 s request potentialOffers, .ok)

/-- The database errors of one `ConfirmMatch` call, one per repository call in
program order: the lookup of the match, the lookup made by the authorization
check (the offer for a driver, the request for a passenger), the second
lookups of the offer and of the request, and the three updates. -/
structure ConfirmFaults where
  findMatch : Option StoreError
  findParty : Option StoreError
  findOffer : Option StoreError
  findRequest : Option StoreError
  updateMatch : Option StoreError
  updateOffer : Option StoreError
  updateRequest : Option StoreError

/-- The authorization check of `ConfirmMatch` ("Verify user is involved in
this match"): the error it returns, if any. -/
def verifyUser (s : Store K) (fault : Option StoreError) (m : RideMatch K) (userID : UUID)
    (isDriver : Bool) : Option Err :=
  if isDriver then
    match FindRideOfferByID s fault m.RideOfferID with
    | .error e => some (.store e)
    | .ok none => some .notDriver
    | .ok (some offer) => if offer.DriverID ≠ userID then some .notDriver else none
  else
    match FindRideRequestByID s fault m.RideRequestID with
    | .error e => some (.store e)
    | .ok none => some .notPassenger
    | .ok (some request) =>
      if request.PassengerID ≠ userID then some .notPassenger else none

/-- Method `RideService.ConfirmMatch`: the store after the call and how the
call ended. The second lookups of the offer and of the request are not checked
for `nil`, so a missing row there is a nil pointer dereference. -/
def ConfirmMatch (s : Store K) (f : ConfirmFaults) (matchID userID : UUID) (isDriver : Bool) :
    Store K × CallResult :=
  match FindRideMatchByID s f.findMatch matchID with
  | .error e => (s, .error (.store e))
  | .ok none => (s, .error .matchNotFound)
  | .ok (some m) =>
    match verifyUser s f.findParty m userID isDriver with
    | some e => (s, .error e)
    | none =>
      if m.Status ≠ StatusMatched then (s, .error .invalidState)
      else
        let m := { m with Status := StatusConfirmed }
        match FindRideOfferByID s f.findOffer m.RideOfferID with
        | .error e => (s, .error (.store e))
        | .ok offer? =>
          match FindRideRequestByID s f.findRequest m.RideRequestID with
          | .error e => (s, .error (.store e))
          | .ok request? =>
            match offer?, request? with
            | some offer, some request =>
              let offer := { offer with Status := StatusConfirmed }
              let request := { request with Status := StatusConfirmed }
              let offer :=
                { offer with AvailableSeats := offer.AvailableSeats - request.NumPassengers }
              match UpdateRideMatch s f.updateMatch m with
              | .error e => (s, .error (.store e))
              | .ok s1 =>
                match UpdateRideOffer s1 f.updateOffer offer with
                | .error e => (s1, .error (.store e))
                | .ok s2 =>
                  match UpdateRideRequest s2 f.updateRequest request with
                  | .error e => (s2, .error (.store e))
                  | .ok s3 => (s3, .ok)
            | _, _ => (s, .panic)

end Service

/-! ## Reachable stores -/

section Reachability

variable {K : Type} [LinearOrderedField K]

/-- The stores the engine can reach: it starts with no offer, no request and
no match (users and driver profiles are managed elsewhere), and each step is
one call of one of its five operations, with any arguments, any generated IDs
and any database errors. -/
inductive Reachable (dist : DistanceFn K) : Store K → Prop where
  | init (users : List User) (driverProfiles : List DriverProfile) :
      Reachable dist
        { rideOffers := [], rideRequests := [], rideMatches := [],
          users := users, driverProfiles := driverProfiles }
  | createRideOffer {s : Store K} (h : Reachable dist s) (now : Time) (newID : UUID)
      (f : CreateOfferFaults) (driverID : UUID) (startLat startLng : GoFloat K)
      (startAddress : String) (endLat endLng : GoFloat K) (endAddress : String)
      (departureTime : Time) (availableSeats : Int) (pricePerSeat allowedDetourKm : GoFloat K) :
      Reachable dist
        (CreateRideOffer s now newID f driverID startLat startLng startAddress endLat endLng
          endAddress departureTime availableSeats pricePerSeat allowedDetourKm).1
  | createRideRequest {s : Store K} (h : Reachable dist s) (now : Time) (newID : UUID)
      (f : CreateRequestFaults) (passengerID : UUID) (startLat startLng : GoFloat K)
      (startAddress : String) (endLat endLng : GoFloat K) (endAddress : String)
      (departureTime : Time) (numPassengers : Int) (maxPrice : GoFloat K) :
      Reachable dist
        (CreateRideRequest s now newID f passengerID startLat startLng startAddress endLat
          endLng endAddress departureTime numPassengers maxPrice).1
  | findMatchesForOffer {s : Store K} (h : Reachable dist s) (newIDs : Nat → UUID)
      (f : DiscoveryFaults) (offerID : UUID) :
      Reachable dist (findMatchesForOffer dist s newIDs f offerID).1
  | findMatchesForRequest {s : Store K} (h : Reachable dist s) (newIDs : Nat → UUID)
      (f : DiscoveryFaults) (requestID : UUID) :
      Reachable dist (findMatchesForRequest dist s newIDs f requestID).1
  | confirmMatch {s : Store K} (h : Reachable dist s) (f : ConfirmFaults)
      (matchID userID : UUID) (isDriver : Bool) :
      Reachable dist (ConfirmMatch s f matchID userID isDriver).1

end Reachability

/-! ## Fault-free runs and the stores used as concrete inputs -/

section Scenarios

/-- No database error during `CreateRideOffer`. -/
def noCreateOfferFaults : CreateOfferFaults :=
  { getDriverProfile := none, createRideOffer := none }

/-- No database error during `CreateRideRequest`. -/
def noCreateRequestFaults : CreateRequestFaults :=
  { findByID := none, createRideRequest := none }

/-- No database error while a candidate is processed. -/
def noCandidateFaults : CandidateFaults :=
  { createRideMatch := none, updateRideOffer := none, updateRideRequest := none }

/-- No database error during a discovery run. -/
def noDiscoveryFaults : DiscoveryFaults :=
  { findByID := none, potentialFirst := none, potentialFind := none,
    candidate := fun _ => noCandidateFaults }

/-- No database error during `ConfirmMatch`. -/
def noConfirmFaults : ConfirmFaults :=
  { findMatch := none, findParty := none, findOffer := none, findRequest := none,
    updateMatch := none, updateOffer := none, updateRequest := none }

variable {K : Type} [LinearOrderedField K]

/-- The store `s` in which the rows of the match `m`, of the offer `o` and of
the request `r` are replaced by their confirmed versions, the offer's seat
count being lowered by the request's passenger count. -/
def confirmedStore (s : Store K) (m : RideMatch K) (o : RideOffer K) (r : RideRequest K) :
    Store K :=
  { s with
    rideMatches :=
      s.rideMatches.map (fun x => if x.ID = m.ID then { m with Status := StatusConfirmed } else x)
    rideOffers :=
      s.rideOffers.map (fun x =>
        if x.ID = o.ID then
          { o with Status := StatusConfirmed,
                   AvailableSeats := o.AvailableSeats - r.NumPassengers }
        else x)
    rideRequests :=
      s.rideRequests.map (fun x =>
        if x.ID = r.ID then { r with Status := StatusConfirmed } else x) }

/-- A computable stand-in for the distance function, used where the model is
run on concrete data: 111 km per degree along the grid. It is zero for
identical finite points, as the haversine formula is. -/
def gridDistance : DistanceFn ℚ := fun lat1 lng1 lat2 lng2 =>
  GoFloat.mul (GoFloat.fin 111)
    (GoFloat.add (GoFloat.abs (GoFloat.sub lat2 lat1)) (GoFloat.abs (GoFloat.sub lng2 lng1)))

end Scenarios

/-! ## The oversell run

Two passengers each ask for two seats on the same trip, a driver then offers
the trip with three seats, discovery pairs the offer with both requests, and
both matches are confirmed. -/

section Oversell

/-- Start of the run: no ride data, two users and one driver with a four-seat
car. -/
def oversellStore0 : Store ℚ :=
  { rideOffers := [], rideRequests := [], rideMatches := [],
    users := [{ ID := 7 }, { ID := 8 }], driverProfiles := [{ UserID := 1, NumSeats := 4 }] }

/-- The request of passenger 7: two seats. -/
def oversellRequest1 : RideRequest ℚ :=
  { ID := 11, PassengerID := 7
    StartLocation := { Latitude := .fin 0, Longitude := .fin 0, Address := "A" }
    EndLocation := { Latitude := .fin 1, Longitude := .fin 1, Address := "B" }
    DepartureTime := 1000, NumPassengers := 2, Status := StatusPending, MaxPrice := .fin 25 }

/-- The request of passenger 8: two seats, same trip. -/
def oversellRequest2 : RideRequest ℚ :=
  { oversellRequest1 with ID := 12, PassengerID := 8 }

/-- The offer of driver 1: three seats, same trip. -/
def oversellOffer : RideOffer ℚ :=
  { ID := 21, DriverID := 1
    StartLocation := { Latitude := .fin 0, Longitude := .fin 0, Address := "A" }
    EndLocation := { Latitude := .fin 1, Longitude := .fin 1, Address := "B" }
    DepartureTime := 1000, AvailableSeats := 3, Status := StatusPending
    PricePerSeat := .fin 10, AllowedDetourKm := .fin 5 }

/-- The match of the offer with the first request. -/
def oversellMatch1 : RideMatch ℚ :=
  { ID := 31, RideOfferID := 21, RideRequestID := 11, Status := StatusMatched
    MatchScore := .fin 1, Price := .fin 20 }

/-- The match of the offer with the second request. -/
def oversellMatch2 : RideMatch ℚ :=
  { ID := 32, RideOfferID := 21, RideRequestID := 12, Status := StatusMatched
    MatchScore := .fin 1, Price := .fin 20 }

/-- The store once the two requests and the offer are created. -/
def oversellStore3 : Store ℚ :=
  { oversellStore0 with
    rideOffers := [oversellOffer], rideRequests := [oversellRequest1, oversellRequest2] }

/-- The offer once discovery has paired it. -/
def matchedOffer : RideOffer ℚ := { oversellOffer with Status := StatusMatched }

/-- The first request once discovery has paired it. -/
def matchedRequest1 : RideRequest ℚ := { oversellRequest1 with Status := StatusMatched }

/-- The second request once discovery has paired it. -/
def matchedRequest2 : RideRequest ℚ := { oversellRequest2 with Status := StatusMatched }

/-- The store once discovery has run for the offer. -/
def oversellStore4 : Store ℚ :=
  { oversellStore0 with
    rideOffers := [matchedOffer]
    rideRequests := [matchedRequest1, matchedRequest2]
    rideMatches := [oversellMatch1, oversellMatch2] }

/-- The first match once confirmed. -/
def confirmedMatch1 : RideMatch ℚ := { oversellMatch1 with Status := StatusConfirmed }

/-- The offer once the first match is confirmed: one seat is left. -/
def lastSeatOffer : RideOffer ℚ :=
  { oversellOffer with Status := StatusConfirmed, AvailableSeats := 1 }

/-- The first request once its match is confirmed. -/
def confirmedRequest1 : RideRequest ℚ := { oversellRequest1 with Status := StatusConfirmed }

/-- The store once the first match is confirmed: one seat is left, and the
second match still asks for two. -/
def oversellStore5 : Store ℚ :=
  { oversellStore0 with
    rideOffers := [lastSeatOffer]
    rideRequests := [confirmedRequest1, matchedRequest2]
    rideMatches := [confirmedMatch1, oversellMatch2] }

/-- The store once the second match is confirmed too: the offer has -1 free
seats. -/
def oversellStore6 : Store ℚ :=
  { oversellStore0 with
    rideOffers := [{ oversellOffer with Status := StatusConfirmed, AvailableSeats := -1 }]
    rideRequests := [confirmedRequest1, { oversellRequest2 with Status := StatusConfirmed }]
    rideMatches := [confirmedMatch1, { oversellMatch2 with Status := StatusConfirmed }] }

/-- The run itself, as calls of the engine: two `CreateRideRequest`, one
`CreateRideOffer`, `findMatchesForOffer` for the new offer, then `ConfirmMatch`
of the first match by the driver and of the second by its passenger. -/
def oversellRun (dist : DistanceFn ℚ) : Store ℚ :=
  let s1 := (CreateRideRequest oversellStore0 0 11 noCreateRequestFaults 7
    (.fin 0) (.fin 0) "A" (.fin 1) (.fin 1) "B" 1000 2 (.fin 25)).1
  let s2 := (CreateRideRequest s1 0 12 noCreateRequestFaults 8
    (.fin 0) (.fin 0) "A" (.fin 1) (.fin 1) "B" 1000 2 (.fin 25)).1
  let s3 := (CreateRideOffer s2 0 21 noCreateOfferFaults 1
    (.fin 0) (.fin 0) "A" (.fin 1) (.fin 1) "B" 1000 3 (.fin 10) (.fin 5)).1
  let s4 := (findMatchesForOffer dist s3 (fun i => 31 + i) noDiscoveryFaults 21).1
  let s5 := (ConfirmMatch s4 noConfirmFaults 31 1 true).1
  (ConfirmMatch s5 noConfirmFaults 32 8 false).1

/-- A store in which a match outlives its offer: match 31 pairs offer 21, which
is not stored, with request 11 of passenger 7. -/
def orphanStore : Store ℚ :=
  { oversellStore0 with rideRequests := [matchedRequest1], rideMatches := [oversellMatch1] }

/-- A store in which a match outlives its request: match 31 pairs offer 21 of
driver 1 with request 11, which is not stored. -/
def requestlessStore : Store ℚ :=
  { oversellStore0 with rideOffers := [matchedOffer], rideMatches := [oversellMatch1] }

/-- The database fails on the second write of `ConfirmMatch` only. -/
def offerWriteFails : ConfirmFaults :=
  { noConfirmFaults with updateOffer := some (.other 1) }

end Oversell

/-! ## Sample data for the scorer -/

section Samples

/-- An offer like `oversellOffer` with a single free seat. -/
def oneSeatOffer : RideOffer ℚ :=
  { oversellOffer with AvailableSeats := 1 }

/-- A request leaving ten minutes after `oversellOffer`, from 0.01 degree
north-east of its start to 0.01 degree north-east of its end. -/
def nearbyRequest : RideRequest ℚ :=
  { oversellRequest1 with
    StartLocation := { Latitude := .fin (1 / 100), Longitude := .fin (1 / 100), Address := "E" }
    EndLocation := { Latitude := .fin (101 / 100), Longitude := .fin (101 / 100), Address := "F" }
    DepartureTime := 1000 + 10 * Minute }

end Samples

/-! ## Sample data for the candidate search -/

section CandidateSamples

/-- A store with the two-passenger request 11 and the pending one-seat offer
21 on the same trip at the same time, at 10 per seat. -/
def tightStore : Store ℚ :=
  { oversellStore0 with rideOffers := [oneSeatOffer], rideRequests := [oversellRequest1] }

end CandidateSamples

/-! ## Discovery, seen as one loop over candidate pairs

The two discovery workers run the same loop body on pairs (offer, request):
`findMatchesForOffer` pairs its offer with each candidate request,
`findMatchesForRequest` pairs each candidate offer with its request. The
definitions below name that body; `offerLoop_eq_pairLoop` and
`requestLoop_eq_pairLoop` relate them to the workers. -/

section PairLoop

variable {K : Type} [LinearOrderedField K]

/-- The row a discovery worker hands to `CreateRideMatch` for a pair, with the
generated ID `id` in place. -/
def newRideMatch (dist : DistanceFn K) (offer : RideOffer K) (request : RideRequest K)
    (id : UUID) : RideMatch K :=
  { ID := id
    RideOfferID := offer.ID
    RideRequestID := request.ID
    Status := StatusMatched
    MatchScore := calculateMatchScore dist offer request
    Price := GoFloat.mul offer.PricePerSeat (GoFloat.ofInt request.NumPassengers) }

/-- The store after a discovery worker has persisted the match of a pair: the
match row is appended, then the offer and the request are saved with status
`matched`, the errors of the two updates being dropped. -/
def afterCandidate (dist : DistanceFn K) (cf : CandidateFaults) (id : UUID) (s : Store K)
    (offer : RideOffer K) (request : RideRequest K) : Store K :=
  let s1 : Store K :=
    { s with rideMatches := s.rideMatches ++ [newRideMatch dist offer request id] }
  let s2 := ignoreError s1
    (UpdateRideOffer s1 cf.updateRideOffer { offer with Status := StatusMatched })
  ignoreError s2
    (UpdateRideRequest s2 cf.updateRideRequest { request with Status := StatusMatched })

/-- The loop of both discovery workers over a list of pairs, from candidate
number `i` on: a pair is taken when its score is above the threshold and its
match is persisted (no database error, no primary-key conflict). -/
def pairLoop (dist : DistanceFn K) (newIDs : Nat → UUID) (faults : Nat → CandidateFaults) :
    Nat → Store K → List (RideOffer K × RideRequest K) → Store K
  | _, s, [] => s
  | i, s, (offer, request) :: rest =>
    if GoFloat.gt (calculateMatchScore dist offer request) matchThreshold = true
        ∧ (faults i).createRideMatch = none
        ∧ newIDs i ∉ s.rideMatches.map RideMatch.ID then
      pairLoop dist newIDs faults (i + 1)
        (afterCandidate dist (faults i) (newIDs i) s offer request) rest
    else pairLoop dist newIDs faults (i + 1) s rest

/-- An offer with its status blanked: what discovery never changes. -/
def RideOffer.clearStatus (o : RideOffer K) : RideOffer K := { o with Status := StatusPending }

/-- A request with its status blanked: what discovery never changes. -/
def RideRequest.clearStatus (r : RideRequest K) : RideRequest K :=
  { r with Status := StatusPending }

/-- The primary-key constraint of the three ride tables: no two rows of a table
share their ID. -/
def Store.KeysUnique (s : Store K) : Prop :=
  (s.rideOffers.map RideOffer.ID).Nodup ∧ (s.rideRequests.map RideRequest.ID).Nodup
    ∧ (s.rideMatches.map RideMatch.ID).Nodup

/-- What `db.Save(x)` leaves in the table when it succeeds. -/
def upsert {α : Type} (key : α → UUID) (rows : List α) (x : α) : List α :=
  if rows.any (fun r => decide (key r = key x)) then
    rows.map (fun r => if key r = key x then x else r)
  else rows ++ [x]

end PairLoop

/-! ## Sample data for the discovery workers -/

section DiscoverySamples

/-- One offer and one request for the same trip. -/
def pairStore : Store ℚ :=
  { oversellStore0 with rideOffers := [oversellOffer], rideRequests := [oversellRequest1] }

/-- A request like `oversellRequest1` whose start and end are both exactly
5 km (on `gridDistance`) from those of `oversellOffer`: with the offer's 5 km
detour its location compatibility is 0 and its score is 0.3 + 0.3 + 0. -/
def boundaryRequest : RideRequest ℚ :=
  { oversellRequest1 with
    StartLocation := { Latitude := .fin (5 / 111), Longitude := .fin 0, Address := "G" }
    EndLocation := { Latitude := .fin (116 / 111), Longitude := .fin 1, Address := "H" } }

/-- The offer `oversellOffer` and the request on the acceptance threshold. -/
def boundaryStore : Store ℚ :=
  { oversellStore0 with rideOffers := [oversellOffer], rideRequests := [boundaryRequest] }

/-- A second offer for the same trip, by the same driver. -/
def secondOffer : RideOffer ℚ := { oversellOffer with ID := 22 }

/-- Two offers and one request for the same trip. -/
def twoOfferStore : Store ℚ :=
  { oversellStore0 with
    rideOffers := [oversellOffer, secondOffer], rideRequests := [oversellRequest1] }

/-- The database fails on every `UpdateRideOffer` of the run. -/
def offerUpdateFails : DiscoveryFaults :=
  { noDiscoveryFaults with
    candidate := fun _ => { noCandidateFaults with updateRideOffer := some (.other 1) } }

/-- The database fails on every `UpdateRideRequest` of the run. -/
def requestUpdateFails : DiscoveryFaults :=
  { noDiscoveryFaults with
    candidate := fun _ => { noCandidateFaults with updateRideRequest := some (.other 1) } }

/-- The database fails on the `CreateRideMatch` of the first candidate only. -/
def firstCreateFails : DiscoveryFaults :=
  { noDiscoveryFaults with
    candidate := fun i =>
      if i = 0 then { noCandidateFaults with createRideMatch := some (.other 1) }
      else noCandidateFaults }

/-- The offer `oversellOffer` once cancelled. -/
def cancelledOffer : RideOffer ℚ := { oversellOffer with Status := StatusCancelled }

/-- The request `oversellRequest1` once cancelled. -/
def cancelledRequest : RideRequest ℚ := { oversellRequest1 with Status := StatusCancelled }

/-- The store `oversellStore4` restricted to the first request, after the
offer has been cancelled: match 31 is still `matched`. -/
def cancelledOfferStore : Store ℚ :=
  { oversellStore0 with
    rideOffers := [cancelledOffer], rideRequests := [matchedRequest1]
    rideMatches := [oversellMatch1] }

/-- A cancelled offer next to a pending request for the same trip. -/
def cancelledAnchorStore : Store ℚ :=
  { oversellStore0 with rideOffers := [cancelledOffer], rideRequests := [oversellRequest1] }

end DiscoverySamples

/-! ## Sample data for cancelled rows -/

section CancelledSamples

/-- The store `oversellStore4` restricted to the first request, after the
request has been cancelled: match 31 is still `matched`. -/
def cancelledRequestStore : Store ℚ :=
  { oversellStore0 with
    rideOffers := [matchedOffer], rideRequests := [cancelledRequest]
    rideMatches := [oversellMatch1] }

/-- A cancelled request next to a pending offer for the same trip. -/
def cancelledRequestAnchorStore : Store ℚ :=
  { oversellStore0 with rideOffers := [oversellOffer], rideRequests := [cancelledRequest] }

/-- A cancelled offer of driver 1, with ID 22. -/
def cancelledOffer22 : RideOffer ℚ := { oversellOffer with ID := 22, Status := StatusCancelled }

/-- The request of passenger 8, cancelled. -/
def cancelledRequest12 : RideRequest ℚ := { oversellRequest2 with Status := StatusCancelled }

/-- A cancelled match of offer 22 with request 12. -/
def cancelledMatch : RideMatch ℚ :=
  { ID := 33, RideOfferID := 22, RideRequestID := 12, Status := StatusCancelled
    MatchScore := .fin 1, Price := .fin 20 }

/-- A pending offer and a pending request for the same trip, next to a
cancelled offer, a cancelled request and their cancelled match. -/
def cancelledRowsStore : Store ℚ :=
  { oversellStore0 with
    rideOffers := [oversellOffer, cancelledOffer22]
    rideRequests := [oversellRequest1, cancelledRequest12]
    rideMatches := [cancelledMatch] }

/-- The store `cancelledRowsStore` once discovery has paired offer 21 with
request 11 as match 31. -/
def cancelledRowsStore4 : Store ℚ :=
  { oversellStore0 with
    rideOffers := [matchedOffer, cancelledOffer22]
    rideRequests := [matchedRequest1, cancelledRequest12]
    rideMatches := [cancelledMatch, oversellMatch1] }

end CancelledSamples

/-! ## Sample data for repeated discovery -/

section RerunSamples

/-- The store `pairStore` after a run of `findMatchesForOffer` whose
`UpdateRideRequest` failed: match 31 is stored and the offer is `matched`, but
the request is still `pending`. -/
def requestLeftPendingStore : Store ℚ :=
  { pairStore with rideOffers := [matchedOffer], rideMatches := [oversellMatch1] }

/-- The store `pairStore` after a run of `findMatchesForRequest` whose
`UpdateRideOffer` failed: match 31 is stored and the request is `matched`, but
the offer is still `pending`. -/
def offerLeftPendingStore : Store ℚ :=
  { pairStore with rideRequests := [matchedRequest1], rideMatches := [oversellMatch1] }

/-- A second match of offer 21 with request 11, with ID 41. -/
def duplicateMatch : RideMatch ℚ := { oversellMatch1 with ID := 41 }

end RerunSamples

/-! ## Sample data for the price term -/

section PriceSamples

/-- An offer like `oversellOffer` at 20 per seat: two seats cost 40, above the
budget of 25 of `oversellRequest1`. -/
def priceyOffer : RideOffer ℚ := { oversellOffer with PricePerSeat := .fin 20 }

/-- The pricey offer and the pending request 11, for the same trip at the same
time. -/
def priceyStore : Store ℚ :=
  { oversellStore0 with rideOffers := [priceyOffer], rideRequests := [oversellRequest1] }

end PriceSamples

/-! ## The Go `math` package and the haversine formula

`CalculateDistanceBetweenPoints` calls `math.Sin`, `math.Cos`, `math.Sqrt` and
`math.Atan2` and reads `math.Pi`. The package is not part of the repository:
its functions on finite values are parameters of the embedding, and their
special cases (infinities and `NaN`) are those of the package documentation. -/

/-- The functions of Go's `math` package used by the distance computation, on
finite values, and the constant `math.Pi`. -/
structure GoMath (K : Type) where
  Pi : K
  sin : K → K
  cos : K → K
  sqrt : K → K
  atan2 : K → K → K

namespace GoMath

variable {K : Type} [LinearOrderedField K]

/-- Go `math.Sin`: `Sin(±Inf) = NaN`, `Sin(NaN) = NaN`. -/
def Sin (m : GoMath K) : GoFloat K → GoFloat K
  | .fin x => .fin (m.sin x)
  | _ => .nan

/-- Go `math.Cos`: `Cos(±Inf) = NaN`, `Cos(NaN) = NaN`. -/
def Cos (m : GoMath K) : GoFloat K → GoFloat K
  | .fin x => .fin (m.cos x)
  | _ => .nan

/-- Go `math.Sqrt`: `Sqrt(+Inf) = +Inf`, `Sqrt(x < 0) = NaN`,
`Sqrt(NaN) = NaN`. -/
def Sqrt (m : GoMath K) : GoFloat K → GoFloat K
  | .fin x => if x < 0 then .nan else .fin (m.sqrt x)
  | .pinf => .pinf
  | _ => .nan

/-- Go `math.Atan2(y, x)`, with the special cases of the package
documentation (the two zeros being identified). -/
def Atan2 (m : GoMath K) : GoFloat K → GoFloat K → GoFloat K
  | .nan, _ => .nan
  | _, .nan => .nan
  | .fin y, .fin x => .fin (m.atan2 y x)
  | .pinf, .pinf => .fin (m.Pi / 4)
  | .ninf, .pinf => .fin (-(m.Pi / 4))
  | .pinf, .ninf => .fin (3 * m.Pi / 4)
  | .ninf, .ninf => .fin (-(3 * m.Pi / 4))
  | .fin _, .pinf => .fin 0
  | .fin y, .ninf => if 0 ≤ y then .fin m.Pi else .fin (-m.Pi)
  | .pinf, .fin _ => .fin (m.Pi / 2)
  | .ninf, .fin _ => .fin (-(m.Pi / 2))

/-- What the proofs on exact values use of the functions of `math`: facts of
the real sine, cosine, square root and two-argument arctangent and of the
number π. The `float64` functions satisfy them up to rounding only; what
holds of the `float64` values themselves is `Float64.IEEE`, further down. -/
structure Sound (m : GoMath K) : Prop where
  pi_gt : 31415 / 10000 < m.Pi
  pi_lt : m.Pi < 31416 / 10000
  sin_neg : ∀ x, m.sin (-x) = -m.sin x
  cos_neg : ∀ x, m.cos (-x) = m.cos x
  sin_sq_add_cos_sq : ∀ x, m.sin x * m.sin x + m.cos x * m.cos x = 1
  cos_add : ∀ x y, m.cos (x + y) = m.cos x * m.cos y - m.sin x * m.sin y
  sin_le : ∀ x, 0 ≤ x → m.sin x ≤ x
  sin_ge : ∀ x, 0 ≤ x → x ≤ 1 → x - x ^ 3 / 4 ≤ m.sin x
  cos_ge : ∀ x, 1 - x ^ 2 / 2 ≤ m.cos x
  sqrt_nonneg : ∀ x, 0 ≤ x → 0 ≤ m.sqrt x
  sqrt_mul_self : ∀ x, 0 ≤ x → m.sqrt x * m.sqrt x = x
  atan2_nonneg : ∀ y x, 0 ≤ y → 0 ≤ m.atan2 y x
  atan2_zero : ∀ x, 0 < x → m.atan2 0 x = 0
  atan2_le : ∀ y x, 0 ≤ y → 0 < x → m.atan2 y x ≤ y / x
  atan2_ge : ∀ y x, 0 ≤ y → 0 ≤ x → x * x + y * y = 1 → y ≤ m.atan2 y x

end GoMath

section Haversine

variable {K : Type} [LinearOrderedField K]

/-- Method `RideService.CalculateDistanceBetweenPoints`. -/
def CalculateDistanceBetweenPoints (m : GoMath K) : DistanceFn K :=
  fun lat1 lng1 lat2 lng2 =>
    let earthRadius : GoFloat K := GoFloat.fin 6371
    let lat1Rad := GoFloat.div (GoFloat.mul lat1 (GoFloat.fin m.Pi)) (GoFloat.fin 180)
    let lng1Rad := GoFloat.div (GoFloat.mul lng1 (GoFloat.fin m.Pi)) (GoFloat.fin 180)
    let lat2Rad := GoFloat.div (GoFloat.mul lat2 (GoFloat.fin m.Pi)) (GoFloat.fin 180)
    let lng2Rad := GoFloat.div (GoFloat.mul lng2 (GoFloat.fin m.Pi)) (GoFloat.fin 180)
    let dlat := GoFloat.sub lat2Rad lat1Rad
    let dlng := GoFloat.sub lng2Rad lng1Rad
    let a :=
      GoFloat.add
        (GoFloat.mul (m.Sin (GoFloat.div dlat (GoFloat.fin 2)))
          (m.Sin (GoFloat.div dlat (GoFloat.fin 2))))
        (GoFloat.mul
          (GoFloat.mul (GoFloat.mul (m.Cos lat1Rad) (m.Cos lat2Rad))
            (m.Sin (GoFloat.div dlng (GoFloat.fin 2))))
          (m.Sin (GoFloat.div dlng (GoFloat.fin 2))))
    let c :=
      GoFloat.mul (GoFloat.fin 2)
        (m.Atan2 (m.Sqrt a) (m.Sqrt (GoFloat.sub (GoFloat.fin 1) a)))
    GoFloat.mul earthRadius c

/-- The value of the local `a` of `CalculateDistanceBetweenPoints` on finite
coordinates, in degrees. -/
def haversineA (m : GoMath K) (lat1 lng1 lat2 lng2 : K) : K :=
  m.sin ((lat2 * m.Pi / 180 - lat1 * m.Pi / 180) / 2)
      * m.sin ((lat2 * m.Pi / 180 - lat1 * m.Pi / 180) / 2)
    + m.cos (lat1 * m.Pi / 180) * m.cos (lat2 * m.Pi / 180)
      * m.sin ((lng2 * m.Pi / 180 - lng1 * m.Pi / 180) / 2)
      * m.sin ((lng2 * m.Pi / 180 - lng1 * m.Pi / 180) / 2)

end Haversine

/-! ## The end-to-end scenario of the specification -/

section Scenario

variable (K : Type) [LinearOrderedField K]

/-- The offer of the scenario: departure at `T`, three seats at 10 each, a
detour bound of 5 km, from (0, 0) to (1, 1). -/
def scenarioOffer (T : Time) : RideOffer K :=
  { ID := 21, DriverID := 1
    StartLocation := { Latitude := .fin 0, Longitude := .fin 0, Address := "A" }
    EndLocation := { Latitude := .fin 1, Longitude := .fin 1, Address := "B" }
    DepartureTime := T, AvailableSeats := 3, Status := StatusPending
    PricePerSeat := .fin 10, AllowedDetourKm := .fin 5 }

/-- The pending request of the scenario: departure `delay` after `T`, two
passengers with a budget of 25, from (0.01, 0.01) to (1.01, 1.01). -/
def scenarioRequest (T : Time) (delay : Duration) : RideRequest K :=
  { ID := 11, PassengerID := 7
    StartLocation := { Latitude := .fin (1 / 100), Longitude := .fin (1 / 100), Address := "E" }
    EndLocation :=
      { Latitude := .fin (101 / 100), Longitude := .fin (101 / 100), Address := "F" }
    DepartureTime := T + delay, NumPassengers := 2, Status := StatusPending
    MaxPrice := .fin 25 }

/-- A store holding the offer and the request of the scenario, and no match. -/
def scenarioStore (T : Time) (delay : Duration) : Store K :=
  { rideOffers := [scenarioOffer K T], rideRequests := [scenarioRequest K T delay]
    rideMatches := [], users := [{ ID := 7 }]
    driverProfiles := [{ UserID := 1, NumSeats := 4 }] }

end Scenario

/-! ## The haversine formula in float64 arithmetic

The sections above compute with exact values. To see where
`CalculateDistanceBetweenPoints` leaves the numbers, its body is read here a
second time with every operation rounding its exact result to a `float64`:
results too large become an infinity, and the rounding of the others is a
parameter, as are the functions of `math` on finite values. Each operation
rounds once (no fused multiply-add); the two zeros are identified. -/

/-- What float64 arithmetic adds to the exact operations: `round` sends an
exact result within the range of `float64` to the `float64` nearest to it, and
`sin`, `cos`, `sqrt`, `atan2` are `math.Sin`, `math.Cos`, `math.Sqrt` and
`math.Atan2` on finite values. -/
structure Float64 (K : Type) where
  round : K → K
  sin : K → K
  cos : K → K
  sqrt : K → K
  atan2 : K → K → K

/-- The constant `math.Pi` converted to `float64`: the value with bit pattern
`0x400921FB54442D18`, which is `884279719003555 / 2^48`. -/
def float64Pi (K : Type) [LinearOrderedField K] : K := 884279719003555 / 281474976710656

/-- The least magnitude that rounds to an infinity: `2^1024 - 2^970`, half a
unit in the last place above the largest finite `float64`, `2^1024 - 2^971`. -/
def float64Overflow (K : Type) [LinearOrderedField K] : K := 2 ^ 1024 - 2 ^ 970

namespace Float64

variable {K : Type} [LinearOrderedField K]

/-- The functions of `math` in float64 arithmetic, with their special cases. -/
def math (fl : Float64 K) : GoMath K :=
  { Pi := float64Pi K, sin := fl.sin, cos := fl.cos, sqrt := fl.sqrt, atan2 := fl.atan2 }

/-- The `float64` result of an operation whose exact result is given: a
finite exact result overflows to an infinity of its sign or is rounded;
infinities and `NaN` are as IEEE-754 gives them. -/
def ofExact (fl : Float64 K) : GoFloat K → GoFloat K
  | .fin z =>
      if float64Overflow K ≤ |z| then (if 0 < z then .pinf else .ninf)
      else .fin (fl.round z)
  | x => x

/-- Go `x + y` in float64 arithmetic. -/
def add (fl : Float64 K) (x y : GoFloat K) : GoFloat K := fl.ofExact (GoFloat.add x y)

/-- Go `x - y` in float64 arithmetic. -/
def sub (fl : Float64 K) (x y : GoFloat K) : GoFloat K := fl.ofExact (GoFloat.sub x y)

/-- Go `x * y` in float64 arithmetic. -/
def mul (fl : Float64 K) (x y : GoFloat K) : GoFloat K := fl.ofExact (GoFloat.mul x y)

/-- Go `x / y` in float64 arithmetic. -/
def div (fl : Float64 K) (x y : GoFloat K) : GoFloat K := fl.ofExact (GoFloat.div x y)

/-- Facts of IEEE-754 rounding to nearest and of the functions of Go's `math`
that hold of the `float64` values themselves: rounding keeps 0, 1, the sign
and the finite range and commutes with negation; `Sin(0) = 0` and `Sin` is
odd; `Cos` stays within 2 in magnitude (it stays within 1; 2 is all that is
used); `Sqrt(0) = 0`, `Sqrt(1) = 1` and `Sqrt` of a value that is not negative
is not negative; `Atan2(y, x)` is not negative when `y` is not, and
`Atan2(0, 1) = 0`. -/
structure IEEE (fl : Float64 K) : Prop where
  round_zero : fl.round 0 = 0
  round_one : fl.round 1 = 1
  round_nonneg : ∀ z, 0 ≤ z → 0 ≤ fl.round z
  round_neg : ∀ z, fl.round (-z) = -fl.round z
  round_lt : ∀ z, |z| < float64Overflow K → |fl.round z| < float64Overflow K
  sin_zero : fl.sin 0 = 0
  sin_neg : ∀ x, fl.sin (-x) = -fl.sin x
  cos_abs_le : ∀ x, |fl.cos x| ≤ 2
  sqrt_zero : fl.sqrt 0 = 0
  sqrt_one : fl.sqrt 1 = 1
  sqrt_nonneg : ∀ x, 0 ≤ x → 0 ≤ fl.sqrt x
  atan2_nonneg : ∀ y x, 0 ≤ y → 0 ≤ fl.atan2 y x
  atan2_zero_one : fl.atan2 0 1 = 0

end Float64

section HaversineFloat64

variable {K : Type} [LinearOrderedField K]

/-- Method `RideService.CalculateDistanceBetweenPoints`, in float64
arithmetic. -/
def CalculateDistanceBetweenPointsFloat64 (fl : Float64 K) : DistanceFn K :=
  fun lat1 lng1 lat2 lng2 =>
    let earthRadius : GoFloat K := GoFloat.fin 6371
    let lat1Rad := fl.div (fl.mul lat1 (GoFloat.fin (float64Pi K))) (GoFloat.fin 180)
    let lng1Rad := fl.div (fl.mul lng1 (GoFloat.fin (float64Pi K))) (GoFloat.fin 180)
    let lat2Rad := fl.div (fl.mul lat2 (GoFloat.fin (float64Pi K))) (GoFloat.fin 180)
    let lng2Rad := fl.div (fl.mul lng2 (GoFloat.fin (float64Pi K))) (GoFloat.fin 180)
    let dlat := fl.sub lat2Rad lat1Rad
    let dlng := fl.sub lng2Rad lng1Rad
    let a :=
      fl.add
        (fl.mul (fl.math.Sin (fl.div dlat (GoFloat.fin 2)))
          (fl.math.Sin (fl.div dlat (GoFloat.fin 2))))
        (fl.mul
          (fl.mul (fl.mul (fl.math.Cos lat1Rad) (fl.math.Cos lat2Rad))
            (fl.math.Sin (fl.div dlng (GoFloat.fin 2))))
          (fl.math.Sin (fl.div dlng (GoFloat.fin 2))))
    let c :=
      fl.mul (GoFloat.fin 2)
        (fl.math.Atan2 (fl.math.Sqrt a) (fl.math.Sqrt (fl.sub (GoFloat.fin 1) a)))
    fl.mul earthRadius c

end HaversineFloat64

/-! ## Sample data at the edges of the scorer -/

section EdgeSamples

/-- An offer whose four coordinates are `2^1023`, a finite `float64` (about
`8.99e307`): three seats at 10 each, a detour bound of 5 km. -/
def overflowOffer : RideOffer ℚ :=
  { ID := 21, DriverID := 1
    StartLocation := { Latitude := .fin (2 ^ 1023), Longitude := .fin (2 ^ 1023), Address := "A" }
    EndLocation := { Latitude := .fin (2 ^ 1023), Longitude := .fin (2 ^ 1023), Address := "B" }
    DepartureTime := 1000, AvailableSeats := 3, Status := StatusPending
    PricePerSeat := .fin 10, AllowedDetourKm := .fin 5 }

/-- A request for the trip of `overflowOffer`: two passengers, budget 25. -/
def overflowRequest : RideRequest ℚ :=
  { ID := 11, PassengerID := 7
    StartLocation := { Latitude := .fin (2 ^ 1023), Longitude := .fin (2 ^ 1023), Address := "A" }
    EndLocation := { Latitude := .fin (2 ^ 1023), Longitude := .fin (2 ^ 1023), Address := "B" }
    DepartureTime := 1000, NumPassengers := 2, Status := StatusPending, MaxPrice := .fin 25 }

end EdgeSamples

/-! ## Theorems -/

/-! ### Lemmas on the ORM calls -/

section GormLemmas

variable {α : Type}

theorem orNil_gormFirst_none (rows : List α) (cond : α → Bool) :
    orNil (gormFirst rows cond none) = .ok (rows.find? cond) := by
  unfold orNil gormFirst
  cases rows.find? cond <;> simp

theorem orNil_gormFirst_some (rows : List α) (cond : α → Bool) (e : StoreError) :
    orNil (gormFirst rows cond (some e))
      = if e = .ErrRecordNotFound then .ok none else .error e := by
  simp [orNil, gormFirst]

theorem orNil_gormFirst_ok_some {α : Type} {rows : List α} {cond : α → Bool}
    {fault : Option StoreError} {x : α}
    (h : orNil (gormFirst rows cond fault) = .ok (some x)) :
    fault = none ∧ rows.find? cond = some x := by
  cases fault with
  | some e =>
    rw [orNil_gormFirst_some] at h
    split at h <;> simp at h
  | none =>
    rw [orNil_gormFirst_none] at h
    simpa using h

theorem gormSave_fault {α : Type} (key : α → UUID) (rows : List α) (x : α) (e : StoreError) :
    gormSave key rows x (some e) = .error e := rfl

theorem find?_key_eq (key : α → UUID) {rows : List α} {id : UUID} {x : α}
    (h : rows.find? (fun r => decide (key r = id)) = some x) : key x = id := by
  have := List.find?_some h
  simpa using this

theorem any_of_find? (key : α → UUID) {rows : List α} {id : UUID} {x : α}
    (h : rows.find? (fun r => decide (key r = id)) = some x) :
    rows.any (fun r => decide (key r = id)) = true := by
  rw [List.any_eq_true]
  exact ⟨x, List.mem_of_find?_eq_some h, by simpa using List.find?_some h⟩

theorem gormSave_of_find? (key : α → UUID) (x : α) {rows : List α} {y : α}
    (h : rows.find? (fun r => decide (key r = key x)) = some y) :
    gormSave key rows x none = .ok (rows.map (fun r => if key r = key x then x else r)) := by
  simp only [gormSave, any_of_find? key h, if_true]

theorem find?_map_replace_self (key : α → UUID) (x : α) {rows : List α} {y : α}
    (h : rows.find? (fun r => decide (key r = key x)) = some y) :
    (rows.map (fun r => if key r = key x then x else r)).find? (fun r => decide (key r = key x))
      = some x := by
  induction rows with
  | nil => simp at h
  | cons a rest ih =>
    by_cases ha : key a = key x
    · simp [List.find?, ha]
    · simp only [List.find?, ha, decide_False] at h
      simp [List.find?, ha, ih h]

theorem find?_map_replace_other (key : α → UUID) (rows : List α) (x : α) {id : UUID}
    (hid : id ≠ key x) :
    (rows.map (fun r => if key r = key x then x else r)).find? (fun r => decide (key r = id))
      = rows.find? (fun r => decide (key r = id)) := by
  induction rows with
  | nil => rfl
  | cons a rest ih =>
    by_cases ha : key a = key x
    · have hne : ¬ key a = id := fun h => hid (h.symm.trans ha)
      simp [List.find?, ha, ih, hne, Ne.symm hid]
    · simp [List.find?, ha, ih]

theorem filter_map_replace {α : Type} (key : α → UUID) (rows : List α) (x : α) :
    (rows.map (fun r => if key r = key x then x else r)).filter (fun r => decide (key r ≠ key x))
      = rows.filter (fun r => decide (key r ≠ key x)) := by
  induction rows with
  | nil => rfl
  | cons a rest ih =>
    simp only [ne_eq, decide_not] at ih ⊢
    by_cases ha : key a = key x
    · simp [ha, ih]
    · simp [ha, ih]

end GormLemmas

/-! ### Lemmas on the repository lookups -/

section LookupLemmas

variable {K : Type}

theorem FindRideMatchByID_none (s : Store K) (id : UUID) :
    FindRideMatchByID s none id = .ok (s.rideMatches.find? (fun m => decide (m.ID = id))) :=
  orNil_gormFirst_none _ _

theorem FindRideOfferByID_none (s : Store K) (id : UUID) :
    FindRideOfferByID s none id = .ok (s.rideOffers.find? (fun o => decide (o.ID = id))) :=
  orNil_gormFirst_none _ _

theorem FindRideRequestByID_none (s : Store K) (id : UUID) :
    FindRideRequestByID s none id = .ok (s.rideRequests.find? (fun r => decide (r.ID = id))) :=
  orNil_gormFirst_none _ _

end LookupLemmas

/-! ### Lemmas on the scorer -/

section ScorerLemmas

variable {K : Type} [LinearOrderedField K]

theorem Duration.Minutes_eq (d : Duration) :
    (Duration.Minutes d : GoFloat K) = GoFloat.fin ((d : K) / 60000000000) := by
  have h : Int.tdiv d Minute * Minute + Int.tmod d Minute = d := Int.tdiv_add_tmod' d Minute
  have h2 : ((Int.tdiv d Minute : Int) : K) * 60000000000 + ((Int.tmod d Minute : Int) : K) = (d : K) := by
    have := congrArg (fun z : Int => (z : K)) h
    simpa [Minute] using this
  simp only [Duration.Minutes, GoFloat.ofInt, GoFloat.div, GoFloat.add]
  norm_num
  rw [← h2]
  field_simp

theorem timeDiff_eq (offer : RideOffer K) (request : RideRequest K) :
    timeDiff offer request
      = GoFloat.fin (|((offer.DepartureTime - request.DepartureTime : Int) : K)| / 60000000000) := by
  simp only [timeDiff, Duration.Minutes_eq, GoFloat.abs]
  congr 1
  rw [abs_div]
  norm_num

theorem timeCompat_eq (offer : RideOffer K) (request : RideRequest K) :
    timeCompat offer request
      = GoFloat.fin (Max.max 0
          (1 - |((offer.DepartureTime - request.DepartureTime : Int) : K)| / 60000000000 / 30)) := by
  simp only [timeCompat, timeDiff_eq, GoFloat.div, GoFloat.sub, GoFloat.neg, GoFloat.add,
    GoFloat.max]
  norm_num
  ring_nf

theorem priceCompat_eq (offer : RideOffer K) (request : RideRequest K) (p mp : K)
    (hp : offer.PricePerSeat = GoFloat.fin p) (hmp : request.MaxPrice = GoFloat.fin mp)
    (hn : 0 < request.NumPassengers) :
    priceCompat offer request
      = GoFloat.fin (if p ≤ mp / (request.NumPassengers : K) then 1 else 0) := by
  have hn' : ((request.NumPassengers : Int) : K) ≠ 0 := by
    have : (0 : K) < ((request.NumPassengers : Int) : K) := by exact_mod_cast hn
    exact ne_of_gt this
  simp only [priceCompat, maxPricePerSeat, hp, hmp, GoFloat.ofInt, GoFloat.div, hn', if_false,
    GoFloat.gt, GoFloat.lt]
  by_cases h : p ≤ mp / (request.NumPassengers : K)
  · simp [h, not_lt.mpr h]
  · simp [h, not_le.mp h]

theorem locationCompat_eq (dist : DistanceFn K) (offer : RideOffer K) (request : RideRequest K)
    (a pd dd : K) (ha : offer.AllowedDetourKm = GoFloat.fin a) (hpos : 0 < a)
    (hpd : pickupDistance dist offer request = GoFloat.fin pd)
    (hdd : dropoffDistance dist offer request = GoFloat.fin dd) :
    locationCompat dist offer request
      = GoFloat.fin (Max.max 0 (1 - (pd + dd) / (2 * a))) := by
  have h2a : (2 * a) ≠ 0 := by positivity
  simp only [locationCompat, ha, hpd, hdd, GoFloat.add, GoFloat.mul, GoFloat.div, h2a, if_false,
    GoFloat.sub, GoFloat.neg, GoFloat.max]
  rw [sub_eq_add_neg]

/-- The score when neither hard reject fires and all inputs are finite. -/
theorem calculateMatchScore_of_finite (dist : DistanceFn K) (offer : RideOffer K)
    (request : RideRequest K) (a pd dd p mp : K)
    (hseats : offer.AvailableSeats ≥ request.NumPassengers)
    (hn : 0 < request.NumPassengers)
    (ha : offer.AllowedDetourKm = GoFloat.fin a) (hpos : 0 < a)
    (hpd : pickupDistance dist offer request = GoFloat.fin pd) (hpd_le : pd ≤ a)
    (hdd : dropoffDistance dist offer request = GoFloat.fin dd) (hdd_le : dd ≤ a)
    (hp : offer.PricePerSeat = GoFloat.fin p) (hmp : request.MaxPrice = GoFloat.fin mp) :
    calculateMatchScore dist offer request
      = GoFloat.fin
          (3 / 10 * (if p ≤ mp / (request.NumPassengers : K) then 1 else 0)
            + 3 / 10 * Max.max 0
                (1 - |((offer.DepartureTime - request.DepartureTime : Int) : K)| / 60000000000 / 30)
            + 4 / 10 * Max.max 0 (1 - (pd + dd) / (2 * a))) := by
  have h1 : ¬ offer.AvailableSeats < request.NumPassengers := not_lt.mpr hseats
  have h2 : GoFloat.gt (pickupDistance dist offer request) offer.AllowedDetourKm = false := by
    simp [hpd, ha, GoFloat.gt, GoFloat.lt, hpd_le]
  have h3 : GoFloat.gt (dropoffDistance dist offer request) offer.AllowedDetourKm = false := by
    simp [hdd, ha, GoFloat.gt, GoFloat.lt, hdd_le]
  rw [calculateMatchScore, if_neg h1, h2, h3]
  rw [priceCompat_eq offer request p mp hp hmp hn, timeCompat_eq,
    locationCompat_eq dist offer request a pd dd ha hpos hpd hdd]
  simp only [priceWeight, timeWeight, locationWeight, GoFloat.mul, GoFloat.add, Bool.or_self,
    Bool.false_eq_true, if_false]
  congr 1
  ring

end ScorerLemmas

/-! ### Lemmas on confirmation -/

section ConfirmLemmas

variable {K : Type}

/-- The authorization check passes for the offer's driver and for the
request's passenger. -/
theorem verifyUser_authorized (s : Store K) (m : RideMatch K) (userID : UUID) (isDriver : Bool)
    (hauth : if isDriver = true then
        ∃ o, FindRideOfferByID s none m.RideOfferID = .ok (some o) ∧ o.DriverID = userID
      else ∃ r, FindRideRequestByID s none m.RideRequestID = .ok (some r)
        ∧ r.PassengerID = userID) :
    verifyUser s none m userID isDriver = none := by
  cases isDriver with
  | true =>
    simp only [if_true] at hauth
    obtain ⟨o, ho, hd⟩ := hauth
    simp [verifyUser, ho, hd]
  | false =>
    simp only [Bool.false_eq_true, if_false] at hauth
    obtain ⟨r, hr, hd⟩ := hauth
    simp [verifyUser, hr, hd]

/-- The authorization check, for a user known to be the driver of the stored
offer or the passenger of the stored request. -/
theorem verifyUser_party (s : Store K) (m : RideMatch K) (o : RideOffer K) (r : RideRequest K)
    (userID : UUID) (isDriver : Bool)
    (ho : FindRideOfferByID s none m.RideOfferID = .ok (some o))
    (hr : FindRideRequestByID s none m.RideRequestID = .ok (some r))
    (hauth : if isDriver = true then o.DriverID = userID else r.PassengerID = userID) :
    verifyUser s none m userID isDriver = none := by
  apply verifyUser_authorized
  cases isDriver with
  | true => exact ⟨o, ho, by simpa using hauth⟩
  | false => exact ⟨r, hr, by simpa using hauth⟩

theorem verifyUser_none_inv (s : Store K) (fault : Option StoreError) (m : RideMatch K)
    (userID : UUID) (isDriver : Bool) (h : verifyUser s fault m userID isDriver = none) :
    fault = none ∧
      if isDriver = true then
        ∃ o, FindRideOfferByID s none m.RideOfferID = .ok (some o) ∧ o.DriverID = userID
      else ∃ r, FindRideRequestByID s none m.RideRequestID = .ok (some r)
          ∧ r.PassengerID = userID := by
  cases isDriver with
  | true =>
    simp only [verifyUser, if_true] at h
    split at h
    · simp at h
    · simp at h
    · rename_i o ho
      obtain ⟨hf, hfind⟩ := orNil_gormFirst_ok_some ho
      subst hf
      refine ⟨rfl, ?_⟩
      simp only [if_true]
      refine ⟨o, ho, ?_⟩
      by_contra hne
      simp [hne] at h
  | false =>
    simp only [verifyUser, Bool.false_eq_true, if_false] at h
    split at h
    · simp at h
    · simp at h
    · rename_i r hr
      obtain ⟨hf, hfind⟩ := orNil_gormFirst_ok_some hr
      subst hf
      refine ⟨rfl, ?_⟩
      simp only [Bool.false_eq_true, if_false]
      refine ⟨r, hr, ?_⟩
      by_contra hne
      simp [hne] at h

/-- `ConfirmMatch` once its reads have succeeded and its checks have passed:
the three writes run in order, and the first failing one ends the call with
the earlier writes in place. -/
theorem ConfirmMatch_writes (s : Store K) (f : ConfirmFaults) (matchID userID : UUID)
    (isDriver : Bool) (m : RideMatch K) (o : RideOffer K) (r : RideRequest K)
    (hf1 : f.findMatch = none) (hf2 : f.findParty = none) (hf3 : f.findOffer = none)
    (hf4 : f.findRequest = none)
    (hm : FindRideMatchByID s none matchID = .ok (some m))
    (hst : m.Status = StatusMatched)
    (ho : FindRideOfferByID s none m.RideOfferID = .ok (some o))
    (hr : FindRideRequestByID s none m.RideRequestID = .ok (some r))
    (hauth : if isDriver = true then o.DriverID = userID else r.PassengerID = userID) :
    ConfirmMatch s f matchID userID isDriver =
      match f.updateMatch, f.updateOffer, f.updateRequest with
      | some e, _, _ => (s, .error (.store e))
      | none, some e, _ =>
        ({ s with rideMatches := (confirmedStore s m o r).rideMatches }, .error (.store e))
      | none, none, some e =>
        ({ s with rideMatches := (confirmedStore s m o r).rideMatches,
                  rideOffers := (confirmedStore s m o r).rideOffers }, .error (.store e))
      | none, none, none => (confirmedStore s m o r, .ok) := by
  have hv := verifyUser_party s m o r userID isDriver ho hr hauth
  have hm' := hm
  have ho' := ho
  have hr' := hr
  rw [FindRideMatchByID_none] at hm'
  rw [FindRideOfferByID_none] at ho'
  rw [FindRideRequestByID_none] at hr'
  simp only [Except.ok.injEq] at hm' ho' hr'
  have hmid : m.ID = matchID := find?_key_eq RideMatch.ID hm'
  have hoid : o.ID = m.RideOfferID := find?_key_eq RideOffer.ID ho'
  have hrid : r.ID = m.RideRequestID := find?_key_eq RideRequest.ID hr'
  have sm : gormSave RideMatch.ID s.rideMatches { m with Status := StatusConfirmed } none
      = .ok (s.rideMatches.map
          (fun x => if x.ID = m.ID then { m with Status := StatusConfirmed } else x)) :=
    gormSave_of_find? RideMatch.ID ({ m with Status := StatusConfirmed })
      (by simpa [hmid] using hm')
  have so : gormSave RideOffer.ID s.rideOffers
        { o with Status := StatusConfirmed,
                 AvailableSeats := o.AvailableSeats - r.NumPassengers } none
      = .ok (s.rideOffers.map (fun x => if x.ID = o.ID then
          { o with Status := StatusConfirmed,
                   AvailableSeats := o.AvailableSeats - r.NumPassengers } else x)) :=
    gormSave_of_find? RideOffer.ID
      ({ o with Status := StatusConfirmed,
                     AvailableSeats := o.AvailableSeats - r.NumPassengers })
      (by simpa [hoid] using ho')
  have sr : gormSave RideRequest.ID s.rideRequests { r with Status := StatusConfirmed } none
      = .ok (s.rideRequests.map
          (fun x => if x.ID = r.ID then { r with Status := StatusConfirmed } else x)) :=
    gormSave_of_find? RideRequest.ID ({ r with Status := StatusConfirmed })
      (by simpa [hrid] using hr')
  obtain ⟨f1, f2, f3, f4, f5, f6, f7⟩ := f
  simp only at hf1 hf2 hf3 hf4
  subst hf1 hf2 hf3 hf4
  cases f5 with
  | some e =>
    simp only [ConfirmMatch, hm, hv, hst, ho, hr, ne_eq, not_true_eq_false, if_false,
      UpdateRideMatch, gormSave_fault]
  | none =>
    cases f6 with
    | some e =>
      simp only [ConfirmMatch, hm, hv, hst, ho, hr, ne_eq, not_true_eq_false, if_false,
        UpdateRideMatch, UpdateRideOffer, sm, confirmedStore, gormSave_fault]
    | none =>
      cases f7 with
      | some e =>
        simp only [ConfirmMatch, hm, hv, hst, ho, hr, ne_eq, not_true_eq_false, if_false,
          UpdateRideMatch, UpdateRideOffer, UpdateRideRequest, sm, so, confirmedStore, gormSave_fault]
      | none =>
        simp only [ConfirmMatch, hm, hv, hst, ho, hr, ne_eq, not_true_eq_false, if_false,
          UpdateRideMatch, UpdateRideOffer, UpdateRideRequest, sm, so, sr, confirmedStore]

/-- A fault-free `ConfirmMatch` on a matched match whose offer and request are
stored, by an authorized user: it returns `nil` and the store is
`confirmedStore`. -/
theorem ConfirmMatch_eq_confirmedStore (s : Store K) (matchID userID : UUID) (isDriver : Bool)
    (m : RideMatch K) (o : RideOffer K) (r : RideRequest K)
    (hm : FindRideMatchByID s none matchID = .ok (some m))
    (hst : m.Status = StatusMatched)
    (ho : FindRideOfferByID s none m.RideOfferID = .ok (some o))
    (hr : FindRideRequestByID s none m.RideRequestID = .ok (some r))
    (hauth : if isDriver = true then o.DriverID = userID else r.PassengerID = userID) :
    ConfirmMatch s noConfirmFaults matchID userID isDriver = (confirmedStore s m o r, .ok) := by
  rw [ConfirmMatch_writes s noConfirmFaults matchID userID isDriver m o r rfl rfl rfl rfl hm hst
    ho hr hauth]
  rfl

/-- Every call of `ConfirmMatch` either leaves the store as it is and does not
succeed, or has passed all reads and checks (and then `ConfirmMatch_writes`
describes it). -/
theorem ConfirmMatch_cases (s : Store K) (f : ConfirmFaults) (matchID userID : UUID)
    (isDriver : Bool) :
    ((ConfirmMatch s f matchID userID isDriver).1 = s
        ∧ (ConfirmMatch s f matchID userID isDriver).2 ≠ .ok) ∨
    ∃ m o r, f.findMatch = none ∧ f.findParty = none ∧ f.findOffer = none ∧
      f.findRequest = none ∧
      FindRideMatchByID s none matchID = .ok (some m) ∧ m.Status = StatusMatched ∧
      FindRideOfferByID s none m.RideOfferID = .ok (some o) ∧
      FindRideRequestByID s none m.RideRequestID = .ok (some r) ∧
      (if isDriver = true then o.DriverID = userID else r.PassengerID = userID) := by
  unfold ConfirmMatch
  split
  · left; simp
  · left; simp
  · rename_i m hm
    split
    · left; simp
    · rename_i hv
      split
      · left; simp
      · rename_i hst
        simp only [ne_eq, not_not] at hst
        dsimp only
        split
        · left; simp
        · rename_i offer? ho
          split
          · left; simp
          · rename_i request? hr
            split
            · rename_i o r
              right
              obtain ⟨hf1, -⟩ := orNil_gormFirst_ok_some hm
              obtain ⟨hf3, -⟩ := orNil_gormFirst_ok_some ho
              obtain ⟨hf4, -⟩ := orNil_gormFirst_ok_some hr
              obtain ⟨hf2, hauth⟩ := verifyUser_none_inv s _ m userID isDriver hv
              rw [hf1] at hm
              rw [hf3] at ho
              rw [hf4] at hr
              refine ⟨m, o, r, hf1, hf2, hf3, hf4, hm, hst, ho, hr, ?_⟩
              cases isDriver with
              | true =>
                simp only [if_true] at hauth ⊢
                obtain ⟨o', ho', hd⟩ := hauth
                rw [ho] at ho'
                simp only [Except.ok.injEq, Option.some.injEq] at ho'
                rw [ho']; exact hd
              | false =>
                simp only [Bool.false_eq_true, if_false] at hauth ⊢
                obtain ⟨r', hr', hd⟩ := hauth
                rw [hr] at hr'
                simp only [Except.ok.injEq, Option.some.injEq] at hr'
                rw [hr']; exact hd
            · left; simp

/-- What a successful `ConfirmMatch` implies: no database error occurred, the
match was stored with status `matched`, its offer and its request were stored,
the user was the authorized party, and the store is `confirmedStore`. -/
theorem ConfirmMatch_ok_inv (s : Store K) (f : ConfirmFaults) (matchID userID : UUID)
    (isDriver : Bool) (h : (ConfirmMatch s f matchID userID isDriver).2 = .ok) :
    ∃ m o r, FindRideMatchByID s none matchID = .ok (some m) ∧ m.Status = StatusMatched ∧
      FindRideOfferByID s none m.RideOfferID = .ok (some o) ∧
      FindRideRequestByID s none m.RideRequestID = .ok (some r) ∧
      (if isDriver = true then o.DriverID = userID else r.PassengerID = userID) ∧
      f = noConfirmFaults ∧
      (ConfirmMatch s f matchID userID isDriver).1 = confirmedStore s m o r := by
  rcases ConfirmMatch_cases s f matchID userID isDriver with ⟨-, hne⟩ |
    ⟨m, o, r, hf1, hf2, hf3, hf4, hm, hst, ho, hr, hauth⟩
  · exact absurd h hne
  · have hw := ConfirmMatch_writes s f matchID userID isDriver m o r hf1 hf2 hf3 hf4 hm hst ho
      hr hauth
    obtain ⟨f1, f2, f3, f4, f5, f6, f7⟩ := f
    simp only at hf1 hf2 hf3 hf4
    subst hf1 hf2 hf3 hf4
    rw [hw] at h ⊢
    cases f5 <;> cases f6 <;> cases f7 <;> simp at h
    exact ⟨m, o, r, hm, hst, ho, hr, hauth, rfl, rfl⟩

theorem confirmedStore_findMatch (s : Store K) (matchID : UUID) (m : RideMatch K)
    (o : RideOffer K) (r : RideRequest K)
    (hm : FindRideMatchByID s none matchID = .ok (some m)) :
    FindRideMatchByID (confirmedStore s m o r) none matchID
      = .ok (some { m with Status := StatusConfirmed }) := by
  rw [FindRideMatchByID_none] at hm ⊢
  simp only [Except.ok.injEq] at hm ⊢
  have hmid : m.ID = matchID := find?_key_eq RideMatch.ID hm
  subst hmid
  exact find?_map_replace_self RideMatch.ID ({ m with Status := StatusConfirmed }) hm

theorem confirmedStore_findMatch_other (s : Store K) (m : RideMatch K)
    (o : RideOffer K) (r : RideRequest K) (id : UUID) (hid : id ≠ m.ID) :
    FindRideMatchByID (confirmedStore s m o r) none id = FindRideMatchByID s none id := by
  rw [FindRideMatchByID_none, FindRideMatchByID_none]
  exact congrArg _ (find?_map_replace_other RideMatch.ID s.rideMatches
    { m with Status := StatusConfirmed } hid)

theorem confirmedStore_findOffer (s : Store K) (id : UUID) (m : RideMatch K)
    (o : RideOffer K) (r : RideRequest K)
    (ho : FindRideOfferByID s none id = .ok (some o)) :
    FindRideOfferByID (confirmedStore s m o r) none id
      = .ok (some { o with Status := StatusConfirmed,
                           AvailableSeats := o.AvailableSeats - r.NumPassengers }) := by
  rw [FindRideOfferByID_none] at ho ⊢
  simp only [Except.ok.injEq] at ho ⊢
  have hoid : o.ID = id := find?_key_eq RideOffer.ID ho
  subst hoid
  exact find?_map_replace_self RideOffer.ID
    ({ o with Status := StatusConfirmed,
                   AvailableSeats := o.AvailableSeats - r.NumPassengers }) ho

theorem confirmedStore_findOffer_other (s : Store K) (m : RideMatch K)
    (o : RideOffer K) (r : RideRequest K) (id : UUID) (hid : id ≠ o.ID) :
    FindRideOfferByID (confirmedStore s m o r) none id = FindRideOfferByID s none id := by
  rw [FindRideOfferByID_none, FindRideOfferByID_none]
  exact congrArg _ (find?_map_replace_other RideOffer.ID s.rideOffers
    { o with Status := StatusConfirmed,
             AvailableSeats := o.AvailableSeats - r.NumPassengers } hid)

theorem confirmedStore_findRequest (s : Store K) (id : UUID) (m : RideMatch K)
    (o : RideOffer K) (r : RideRequest K)
    (hr : FindRideRequestByID s none id = .ok (some r)) :
    FindRideRequestByID (confirmedStore s m o r) none id
      = .ok (some { r with Status := StatusConfirmed }) := by
  rw [FindRideRequestByID_none] at hr ⊢
  simp only [Except.ok.injEq] at hr ⊢
  have hrid : r.ID = id := find?_key_eq RideRequest.ID hr
  subst hrid
  exact find?_map_replace_self RideRequest.ID
    ({ r with Status := StatusConfirmed }) hr

theorem confirmedStore_findRequest_other (s : Store K) (m : RideMatch K)
    (o : RideOffer K) (r : RideRequest K) (id : UUID) (hid : id ≠ r.ID) :
    FindRideRequestByID (confirmedStore s m o r) none id = FindRideRequestByID s none id := by
  rw [FindRideRequestByID_none, FindRideRequestByID_none]
  exact congrArg _ (find?_map_replace_other RideRequest.ID s.rideRequests
    { r with Status := StatusConfirmed } hid)

end ConfirmLemmas

/-! ### Lemmas on the oversell run -/

section OversellLemmas

theorem gridDistance_self (x y : ℚ) :
    gridDistance (.fin x) (.fin y) (.fin x) (.fin y) = .fin 0 := by
  simp [gridDistance, GoFloat.sub, GoFloat.neg, GoFloat.add, GoFloat.abs, GoFloat.mul]

theorem oversell_score (dist : DistanceFn ℚ)
    (hdist : ∀ x y : ℚ, dist (.fin x) (.fin y) (.fin x) (.fin y) = .fin 0)
    (o : RideOffer ℚ) (r : RideRequest ℚ)
    (ho : o = oversellOffer ∨ o = { oversellOffer with Status := StatusMatched })
    (hr : r = oversellRequest1 ∨ r = oversellRequest2) :
    calculateMatchScore dist o r = .fin 1 := by
  have h := calculateMatchScore_of_finite dist o r 5 0 0 10 25
  rcases ho with rfl | rfl <;> rcases hr with rfl | rfl <;>
  · rw [h (by decide) (by decide) rfl (by norm_num) (hdist 0 0) (by norm_num) (hdist 1 1)
      (by norm_num) rfl rfl]
    norm_num [oversellOffer, oversellRequest1, oversellRequest2]

theorem oversell_price (o : RideOffer ℚ) (r : RideRequest ℚ)
    (ho : o = oversellOffer ∨ o = { oversellOffer with Status := StatusMatched })
    (hr : r = oversellRequest1 ∨ r = oversellRequest2) :
    GoFloat.mul o.PricePerSeat (GoFloat.ofInt r.NumPassengers) = .fin 20 := by
  rcases ho with rfl | rfl <;> rcases hr with rfl | rfl <;>
  · simp only [oversellOffer, oversellRequest1, oversellRequest2, GoFloat.mul, GoFloat.ofInt]
    norm_num

theorem oversell_steps_create :
    (CreateRideOffer
      (CreateRideRequest
        (CreateRideRequest oversellStore0 0 11 noCreateRequestFaults 7
          (.fin 0) (.fin 0) "A" (.fin 1) (.fin 1) "B" 1000 2 (.fin 25)).1
        0 12 noCreateRequestFaults 8
        (.fin 0) (.fin 0) "A" (.fin 1) (.fin 1) "B" 1000 2 (.fin 25)).1
      0 21 noCreateOfferFaults 1
      (.fin 0) (.fin 0) "A" (.fin 1) (.fin 1) "B" 1000 3 (.fin 10) (.fin 5)).1
      = oversellStore3 := by
  rfl

theorem oversell_step_discovery (dist : DistanceFn ℚ)
    (hdist : ∀ x y : ℚ, dist (.fin x) (.fin y) (.fin x) (.fin y) = .fin 0) :
    (findMatchesForOffer dist oversellStore3 (fun i => 31 + i) noDiscoveryFaults 21).1
      = oversellStore4 := by
  have hfind : FindRideOfferByID oversellStore3 none 21 = .ok (some oversellOffer) := rfl
  have hpot : FindPotentialMatches oversellStore3 none none 21
      = .ok [oversellRequest1, oversellRequest2] := rfl
  have hgt : GoFloat.gt (GoFloat.fin (1 : ℚ)) matchThreshold = true := by
    simp [GoFloat.gt, GoFloat.lt, matchThreshold]
    norm_num
  simp only [findMatchesForOffer, noDiscoveryFaults, hfind, hpot, offerLoop]
  rw [oversell_score dist hdist oversellOffer oversellRequest1 (Or.inl rfl) (Or.inl rfl),
    oversell_score dist hdist { oversellOffer with Status := StatusMatched } oversellRequest2
      (Or.inr rfl) (Or.inr rfl),
    oversell_price oversellOffer oversellRequest1 (Or.inl rfl) (Or.inl rfl),
    oversell_price { oversellOffer with Status := StatusMatched } oversellRequest2
      (Or.inr rfl) (Or.inr rfl)]
  simp only [hgt, if_true]
  rfl

theorem oversellRun_eq (dist : DistanceFn ℚ)
    (hdist : ∀ x y : ℚ, dist (.fin x) (.fin y) (.fin x) (.fin y) = .fin 0) :
    oversellRun dist = oversellStore6 := by
  unfold oversellRun
  simp only []
  rw [oversell_steps_create, oversell_step_discovery dist hdist]
  rfl

theorem oversellRun_reachable (dist : DistanceFn ℚ) : Reachable dist (oversellRun dist) :=
  Reachable.confirmMatch
    (Reachable.confirmMatch
      (Reachable.findMatchesForOffer
        (Reachable.createRideOffer
          (Reachable.createRideRequest
            (Reachable.createRideRequest
              (Reachable.init [{ ID := 7 }, { ID := 8 }] [{ UserID := 1, NumSeats := 4 }])
              0 11 noCreateRequestFaults 7 (.fin 0) (.fin 0) "A" (.fin 1) (.fin 1) "B" 1000 2
              (.fin 25))
            0 12 noCreateRequestFaults 8 (.fin 0) (.fin 0) "A" (.fin 1) (.fin 1) "B" 1000 2
            (.fin 25))
          0 21 noCreateOfferFaults 1 (.fin 0) (.fin 0) "A" (.fin 1) (.fin 1) "B" 1000 3
          (.fin 10) (.fin 5))
        (fun i => 31 + i) noDiscoveryFaults 21)
      noConfirmFaults 31 1 true)
    noConfirmFaults 32 8 false

/-- The store `oversellStore5` (one seat left, a second match for two seats
still in status `matched`) is reached by the engine. -/
theorem oversellStore5_reachable (dist : DistanceFn ℚ)
    (hdist : ∀ x y : ℚ, dist (.fin x) (.fin y) (.fin x) (.fin y) = .fin 0) :
    Reachable dist oversellStore5 := by
  have h : Reachable dist _ := Reachable.confirmMatch
    (Reachable.findMatchesForOffer
      (Reachable.createRideOffer
        (Reachable.createRideRequest
          (Reachable.createRideRequest
            (Reachable.init [{ ID := 7 }, { ID := 8 }]
              [{ UserID := 1, NumSeats := 4 }])
            0 11 noCreateRequestFaults 7 (.fin 0) (.fin 0) "A" (.fin 1) (.fin 1) "B" 1000 2
            (.fin 25))
          0 12 noCreateRequestFaults 8 (.fin 0) (.fin 0) "A" (.fin 1) (.fin 1) "B" 1000 2
          (.fin 25))
        0 21 noCreateOfferFaults 1 (.fin 0) (.fin 0) "A" (.fin 1) (.fin 1) "B" 1000 3
        (.fin 10) (.fin 5))
      (fun i => 31 + i) noDiscoveryFaults 21)
    noConfirmFaults 31 1 true
  have e : (ConfirmMatch oversellStore4 noConfirmFaults 31 1 true).1 = oversellStore5 := rfl
  rw [← e, ← oversell_step_discovery dist hdist, ← oversell_steps_create]
  exact h

end OversellLemmas

/-! ### The seat invariant and the confirmation contract -/

section ConfirmClaims

variable {K : Type}

/-- C1 fails on the code: `oversellRun` is a run of the engine from a store
with no rides, and it ends in `oversellStore6`, where offer 21 has -1 free
seats. It holds for every distance function that is 0 between identical
points, as the haversine formula is. -/
theorem seat_invariant_violated (dist : DistanceFn ℚ)
    (hdist : ∀ x y : ℚ, dist (.fin x) (.fin y) (.fin x) (.fin y) = .fin 0) :
    Reachable dist (oversellRun dist) ∧ oversellRun dist = oversellStore6 ∧
      ∃ o ∈ (oversellRun dist).rideOffers, o.AvailableSeats < 0 := by
  refine ⟨oversellRun_reachable dist, oversellRun_eq dist hdist, ?_⟩
  rw [oversellRun_eq dist hdist]
  exact ⟨_, List.mem_singleton.mpr rfl, by decide⟩

/-- C1 fails, with `gridDistance` as the distance function. -/
theorem seat_invariant_violated_witness :
    (∀ x y : ℚ, gridDistance (.fin x) (.fin y) (.fin x) (.fin y) = .fin 0) ∧
    Reachable gridDistance (oversellRun gridDistance) ∧
    oversellRun gridDistance = oversellStore6 ∧
    ∃ o ∈ (oversellRun gridDistance).rideOffers, o.AvailableSeats < 0 :=
  ⟨gridDistance_self, seat_invariant_violated gridDistance gridDistance_self⟩

/-- C2 fails on the code: `ConfirmMatch` has no capacity check. For an
authorized user and a match in status `matched` whose offer has fewer free
seats than its request has passengers, a fault-free call returns `nil` (it
does not fail), and the stored offer ends with a negative seat count. No error
of the service is a capacity error. -/
theorem ConfirmMatch_oversells (s : Store K) (matchID userID : UUID) (isDriver : Bool)
    (m : RideMatch K) (o : RideOffer K) (r : RideRequest K)
    (hm : FindRideMatchByID s none matchID = .ok (some m))
    (hst : m.Status = StatusMatched)
    (ho : FindRideOfferByID s none m.RideOfferID = .ok (some o))
    (hr : FindRideRequestByID s none m.RideRequestID = .ok (some r))
    (hauth : if isDriver = true then o.DriverID = userID else r.PassengerID = userID)
    (hcap : o.AvailableSeats < r.NumPassengers) :
    (ConfirmMatch s noConfirmFaults matchID userID isDriver).2 = .ok ∧
    (∃ o', FindRideOfferByID (ConfirmMatch s noConfirmFaults matchID userID isDriver).1 none
        m.RideOfferID = .ok (some o') ∧
      o'.AvailableSeats = o.AvailableSeats - r.NumPassengers ∧ o'.AvailableSeats < 0) ∧
    (∀ e : Err, e.errorClass ≠ ErrorClass.CapacityExceeded) := by
  rw [ConfirmMatch_eq_confirmedStore s matchID userID isDriver m o r hm hst ho hr hauth]
  refine ⟨rfl, ⟨_, confirmedStore_findOffer s m.RideOfferID m o r ho, rfl, ?_⟩, ?_⟩
  · show o.AvailableSeats - r.NumPassengers < 0
    omega
  · intro e
    cases e <;> simp [Err.errorClass]

/-- C2 fails at `oversellStore5`: one seat is left, passenger 8 confirms the
match for two seats, the call succeeds and the offer is left with -1 seats. -/
theorem ConfirmMatch_oversells_witness :
    (ConfirmMatch oversellStore5 noConfirmFaults 32 8 false).2 = .ok ∧
    (∃ o', FindRideOfferByID (ConfirmMatch oversellStore5 noConfirmFaults 32 8 false).1 none
        oversellMatch2.RideOfferID = .ok (some o') ∧
      o'.AvailableSeats = lastSeatOffer.AvailableSeats - matchedRequest2.NumPassengers ∧
      o'.AvailableSeats < 0) ∧
    (∀ e : Err, e.errorClass ≠ ErrorClass.CapacityExceeded) :=
  ConfirmMatch_oversells oversellStore5 32 8 false oversellMatch2 lastSeatOffer matchedRequest2
    rfl rfl rfl rfl (by decide) (by decide)

/-- C3. When the match is stored with status `matched`, its offer and its
request are stored, the offer has at least as many free seats as the request
has passengers, no database call fails, and the acting user is the offer's
driver (`isDriver`) or the request's passenger (otherwise), a single
`ConfirmMatch` returns `nil`; afterwards the match, the offer and the request
are stored with status `confirmed`, the offer's seat count is its old value
minus the request's passenger count (and not negative), every other field of
the three rows is as before, and so is every other row: the store is
`confirmedStore`, rows with another ID are untouched, users and driver
profiles are untouched. -/
theorem ConfirmMatch_success (s : Store K) (matchID userID : UUID) (isDriver : Bool)
    (m : RideMatch K) (o : RideOffer K) (r : RideRequest K)
    (hm : FindRideMatchByID s none matchID = .ok (some m))
    (hst : m.Status = StatusMatched)
    (ho : FindRideOfferByID s none m.RideOfferID = .ok (some o))
    (hr : FindRideRequestByID s none m.RideRequestID = .ok (some r))
    (hseats : o.AvailableSeats ≥ r.NumPassengers)
    (hauth : if isDriver = true then o.DriverID = userID else r.PassengerID = userID) :
    ConfirmMatch s noConfirmFaults matchID userID isDriver = (confirmedStore s m o r, .ok) ∧
    FindRideMatchByID (confirmedStore s m o r) none matchID
      = .ok (some { m with Status := StatusConfirmed }) ∧
    FindRideOfferByID (confirmedStore s m o r) none m.RideOfferID
      = .ok (some { o with Status := StatusConfirmed,
                           AvailableSeats := o.AvailableSeats - r.NumPassengers }) ∧
    FindRideRequestByID (confirmedStore s m o r) none m.RideRequestID
      = .ok (some { r with Status := StatusConfirmed }) ∧
    0 ≤ o.AvailableSeats - r.NumPassengers ∧
    (∀ id, id ≠ matchID →
      FindRideMatchByID (confirmedStore s m o r) none id = FindRideMatchByID s none id) ∧
    (∀ id, id ≠ m.RideOfferID →
      FindRideOfferByID (confirmedStore s m o r) none id = FindRideOfferByID s none id) ∧
    (∀ id, id ≠ m.RideRequestID →
      FindRideRequestByID (confirmedStore s m o r) none id = FindRideRequestByID s none id) ∧
    (confirmedStore s m o r).rideMatches.filter (fun x => decide (x.ID ≠ matchID))
      = s.rideMatches.filter (fun x => decide (x.ID ≠ matchID)) ∧
    (confirmedStore s m o r).rideOffers.filter (fun x => decide (x.ID ≠ m.RideOfferID))
      = s.rideOffers.filter (fun x => decide (x.ID ≠ m.RideOfferID)) ∧
    (confirmedStore s m o r).rideRequests.filter (fun x => decide (x.ID ≠ m.RideRequestID))
      = s.rideRequests.filter (fun x => decide (x.ID ≠ m.RideRequestID)) ∧
    (confirmedStore s m o r).users = s.users ∧
    (confirmedStore s m o r).driverProfiles = s.driverProfiles := by
  have hm' := hm
  have ho' := ho
  have hr' := hr
  rw [FindRideMatchByID_none] at hm'
  rw [FindRideOfferByID_none] at ho'
  rw [FindRideRequestByID_none] at hr'
  simp only [Except.ok.injEq] at hm' ho' hr'
  have hmid : m.ID = matchID := find?_key_eq RideMatch.ID hm'
  have hoid : o.ID = m.RideOfferID := find?_key_eq RideOffer.ID ho'
  have hrid : r.ID = m.RideRequestID := find?_key_eq RideRequest.ID hr'
  refine ⟨ConfirmMatch_eq_confirmedStore s matchID userID isDriver m o r hm hst ho hr hauth,
    confirmedStore_findMatch s matchID m o r hm,
    confirmedStore_findOffer s m.RideOfferID m o r ho,
    confirmedStore_findRequest s m.RideRequestID m o r hr, by omega, ?_, ?_, ?_, ?_, ?_, ?_,
    rfl, rfl⟩
  · intro id hid
    exact confirmedStore_findMatch_other s m o r id (hmid ▸ hid)
  · intro id hid
    exact confirmedStore_findOffer_other s m o r id (hoid ▸ hid)
  · intro id hid
    exact confirmedStore_findRequest_other s m o r id (hrid ▸ hid)
  · rw [← hmid]
    exact filter_map_replace RideMatch.ID s.rideMatches
      { m with Status := StatusConfirmed }
  · rw [← hoid]
    exact filter_map_replace RideOffer.ID s.rideOffers
      { o with Status := StatusConfirmed,
               AvailableSeats := o.AvailableSeats - r.NumPassengers }
  · rw [← hrid]
    exact filter_map_replace RideRequest.ID s.rideRequests
      { r with Status := StatusConfirmed }

/-- C3, at `oversellStore4`: driver 1 confirms match 31 (offer 21 with three
seats, request 11 for two). -/
theorem ConfirmMatch_success_witness :
    ConfirmMatch oversellStore4 noConfirmFaults 31 1 true
      = (confirmedStore oversellStore4 oversellMatch1 matchedOffer matchedRequest1, .ok) ∧
    FindRideMatchByID (confirmedStore oversellStore4 oversellMatch1 matchedOffer matchedRequest1)
        none 31
      = .ok (some { oversellMatch1 with Status := StatusConfirmed }) ∧
    FindRideOfferByID (confirmedStore oversellStore4 oversellMatch1 matchedOffer matchedRequest1)
        none oversellMatch1.RideOfferID
      = .ok (some { matchedOffer with
          Status := StatusConfirmed,
          AvailableSeats := matchedOffer.AvailableSeats - matchedRequest1.NumPassengers }) ∧
    FindRideRequestByID
        (confirmedStore oversellStore4 oversellMatch1 matchedOffer matchedRequest1)
        none oversellMatch1.RideRequestID
      = .ok (some { matchedRequest1 with Status := StatusConfirmed }) ∧
    0 ≤ matchedOffer.AvailableSeats - matchedRequest1.NumPassengers ∧
    (∀ id, id ≠ 31 →
      FindRideMatchByID
          (confirmedStore oversellStore4 oversellMatch1 matchedOffer matchedRequest1) none id
        = FindRideMatchByID oversellStore4 none id) ∧
    (∀ id, id ≠ oversellMatch1.RideOfferID →
      FindRideOfferByID
          (confirmedStore oversellStore4 oversellMatch1 matchedOffer matchedRequest1) none id
        = FindRideOfferByID oversellStore4 none id) ∧
    (∀ id, id ≠ oversellMatch1.RideRequestID →
      FindRideRequestByID
          (confirmedStore oversellStore4 oversellMatch1 matchedOffer matchedRequest1) none id
        = FindRideRequestByID oversellStore4 none id) ∧
    (confirmedStore oversellStore4 oversellMatch1 matchedOffer matchedRequest1).rideMatches.filter
        (fun x => decide (x.ID ≠ 31))
      = oversellStore4.rideMatches.filter (fun x => decide (x.ID ≠ 31)) ∧
    (confirmedStore oversellStore4 oversellMatch1 matchedOffer matchedRequest1).rideOffers.filter
        (fun x => decide (x.ID ≠ oversellMatch1.RideOfferID))
      = oversellStore4.rideOffers.filter
          (fun x => decide (x.ID ≠ oversellMatch1.RideOfferID)) ∧
    (confirmedStore oversellStore4 oversellMatch1 matchedOffer
          matchedRequest1).rideRequests.filter
        (fun x => decide (x.ID ≠ oversellMatch1.RideRequestID))
      = oversellStore4.rideRequests.filter
          (fun x => decide (x.ID ≠ oversellMatch1.RideRequestID)) ∧
    (confirmedStore oversellStore4 oversellMatch1 matchedOffer matchedRequest1).users
      = oversellStore4.users ∧
    (confirmedStore oversellStore4 oversellMatch1 matchedOffer matchedRequest1).driverProfiles
      = oversellStore4.driverProfiles :=
  ConfirmMatch_success oversellStore4 31 1 true oversellMatch1 matchedOffer matchedRequest1
    rfl rfl rfl rfl (by decide) (by decide)

/-- C4 fails on the code: at `oversellStore4`, when the database fails on the
second write, `ConfirmMatch` returns that error, yet match 31 is now stored
with status `confirmed` while the offer and the request are as before. -/
theorem ConfirmMatch_not_atomic :
    (ConfirmMatch oversellStore4 offerWriteFails 31 1 true).2
      = .error (.store (.other 1)) ∧
    FindRideMatchByID oversellStore4 none 31 = .ok (some oversellMatch1) ∧
    FindRideMatchByID (ConfirmMatch oversellStore4 offerWriteFails 31 1 true).1 none 31
      = .ok (some confirmedMatch1) ∧
    oversellMatch1 ≠ confirmedMatch1 ∧
    (ConfirmMatch oversellStore4 offerWriteFails 31 1 true).1.rideOffers
      = oversellStore4.rideOffers ∧
    (ConfirmMatch oversellStore4 offerWriteFails 31 1 true).1.rideRequests
      = oversellStore4.rideRequests :=
  ⟨rfl, rfl, rfl, by decide, rfl, rfl⟩

/-- C4 as amended. A database error on any of the three writes is returned to
the caller. If `ConfirmMatch` returns an error, the store is exactly as
before, unless the error is the database error of the second write
(`UpdateRideOffer`), after which only the match update is in place, or of the
third write (`UpdateRideRequest`), after which the match and offer updates are
in place; the stored request is as before in every case. -/
theorem ConfirmMatch_error_effects (s : Store K) (f : ConfirmFaults) (matchID userID : UUID)
    (isDriver : Bool) :
    (∀ e, (ConfirmMatch s f matchID userID isDriver).2 = .error e →
      (ConfirmMatch s f matchID userID isDriver).1.rideRequests = s.rideRequests ∧
      ((ConfirmMatch s f matchID userID isDriver).1 = s ∨
        ∃ m o r e', FindRideMatchByID s none matchID = .ok (some m) ∧
          FindRideOfferByID s none m.RideOfferID = .ok (some o) ∧
          FindRideRequestByID s none m.RideRequestID = .ok (some r) ∧
          e = .store e' ∧
          ((f.updateOffer = some e' ∧
              (ConfirmMatch s f matchID userID isDriver).1
                = { s with rideMatches := (confirmedStore s m o r).rideMatches }) ∨
            (f.updateRequest = some e' ∧
              (ConfirmMatch s f matchID userID isDriver).1
                = { s with rideMatches := (confirmedStore s m o r).rideMatches,
                           rideOffers := (confirmedStore s m o r).rideOffers })))) ∧
    (∀ m o r, f.findMatch = none → f.findParty = none → f.findOffer = none →
      f.findRequest = none →
      FindRideMatchByID s none matchID = .ok (some m) → m.Status = StatusMatched →
      FindRideOfferByID s none m.RideOfferID = .ok (some o) →
      FindRideRequestByID s none m.RideRequestID = .ok (some r) →
      (if isDriver = true then o.DriverID = userID else r.PassengerID = userID) →
      (∀ e', f.updateMatch = some e' →
        ConfirmMatch s f matchID userID isDriver = (s, .error (.store e'))) ∧
      (∀ e', f.updateMatch = none → f.updateOffer = some e' →
        ConfirmMatch s f matchID userID isDriver
          = ({ s with rideMatches := (confirmedStore s m o r).rideMatches },
              .error (.store e'))) ∧
      (∀ e', f.updateMatch = none → f.updateOffer = none → f.updateRequest = some e' →
        ConfirmMatch s f matchID userID isDriver
          = ({ s with rideMatches := (confirmedStore s m o r).rideMatches,
                      rideOffers := (confirmedStore s m o r).rideOffers },
              .error (.store e')))) := by
  constructor
  · intro e herr
    rcases ConfirmMatch_cases s f matchID userID isDriver with ⟨hs, -⟩ |
      ⟨m, o, r, hf1, hf2, hf3, hf4, hm, hst, ho, hr, hauth⟩
    · exact ⟨by rw [hs], Or.inl hs⟩
    · have hw := ConfirmMatch_writes s f matchID userID isDriver m o r hf1 hf2 hf3 hf4 hm hst
        ho hr hauth
      obtain ⟨f1, f2, f3, f4, f5, f6, f7⟩ := f
      rw [hw] at herr ⊢
      cases f5 with
      | some e5 => exact ⟨rfl, Or.inl rfl⟩
      | none =>
        cases f6 with
        | some e6 =>
          simp only [CallResult.error.injEq] at herr
          exact ⟨rfl, Or.inr ⟨m, o, r, e6, hm, ho, hr, herr.symm, Or.inl ⟨rfl, rfl⟩⟩⟩
        | none =>
          cases f7 with
          | some e7 =>
            simp only [CallResult.error.injEq] at herr
            exact ⟨rfl, Or.inr ⟨m, o, r, e7, hm, ho, hr, herr.symm, Or.inr ⟨rfl, rfl⟩⟩⟩
          | none => simp at herr
  · intro m o r hf1 hf2 hf3 hf4 hm hst ho hr hauth
    have hw := ConfirmMatch_writes s f matchID userID isDriver m o r hf1 hf2 hf3 hf4 hm hst
      ho hr hauth
    refine ⟨?_, ?_, ?_⟩
    · intro e' h5
      rw [hw, h5]
    · intro e' h5 h6
      rw [hw, h5, h6]
    · intro e' h5 h6 h7
      rw [hw, h5, h6, h7]

/-- C4 as amended, at `oversellStore4` with a failure of the second write: the
error is returned, the match update is in place, the offer and the request
are as before. -/
theorem ConfirmMatch_error_effects_witness :
    (ConfirmMatch oversellStore4 offerWriteFails 31 1 true).2 = .error (.store (.other 1)) ∧
    (ConfirmMatch oversellStore4 offerWriteFails 31 1 true).1.rideRequests
      = oversellStore4.rideRequests ∧
    ConfirmMatch oversellStore4 offerWriteFails 31 1 true
      = ({ oversellStore4 with
            rideMatches :=
              (confirmedStore oversellStore4 oversellMatch1 matchedOffer
                matchedRequest1).rideMatches },
          .error (.store (.other 1))) :=
  ⟨rfl,
    ((ConfirmMatch_error_effects oversellStore4 offerWriteFails 31 1 true).1
      (.store (.other 1)) rfl).1,
    ((ConfirmMatch_error_effects oversellStore4 offerWriteFails 31 1 true).2
      oversellMatch1 matchedOffer matchedRequest1 rfl rfl rfl rfl rfl rfl rfl rfl
      (by decide)).2.1 (.other 1) rfl rfl⟩

/-- C5. When the match, its offer and its request are stored (and the two
lookups the check needs succeed), `ConfirmMatch` with `isDriver = true` by a
user other than the offer's driver, and with `isDriver = false` by a user
other than the request's passenger, fail with the unauthorized error and leave
the store unchanged; a user who is neither is rejected for both values of
`isDriver`. -/
theorem ConfirmMatch_unauthorized (s : Store K) (f : ConfirmFaults) (matchID userID : UUID)
    (m : RideMatch K) (o : RideOffer K) (r : RideRequest K)
    (hf1 : f.findMatch = none) (hf2 : f.findParty = none)
    (hm : FindRideMatchByID s none matchID = .ok (some m))
    (ho : FindRideOfferByID s none m.RideOfferID = .ok (some o))
    (hr : FindRideRequestByID s none m.RideRequestID = .ok (some r)) :
    (userID ≠ o.DriverID → ConfirmMatch s f matchID userID true = (s, .error .notDriver)) ∧
    (userID ≠ r.PassengerID →
      ConfirmMatch s f matchID userID false = (s, .error .notPassenger)) ∧
    (userID ≠ o.DriverID → userID ≠ r.PassengerID →
      ∀ isDriver, ∃ e, ConfirmMatch s f matchID userID isDriver = (s, .error e)
        ∧ e.errorClass = ErrorClass.Unauthorized) ∧
    Err.notDriver.errorClass = ErrorClass.Unauthorized ∧
    Err.notPassenger.errorClass = ErrorClass.Unauthorized := by
  have hd : userID ≠ o.DriverID → ConfirmMatch s f matchID userID true
      = (s, .error .notDriver) := by
    intro h
    simp [ConfirmMatch, hf1, hf2, hm, verifyUser, ho, Ne.symm h]
  have hp : userID ≠ r.PassengerID → ConfirmMatch s f matchID userID false
      = (s, .error .notPassenger) := by
    intro h
    simp [ConfirmMatch, hf1, hf2, hm, verifyUser, hr, Ne.symm h]
  refine ⟨hd, hp, ?_, rfl, rfl⟩
  intro h1 h2 isDriver
  cases isDriver with
  | true => exact ⟨_, hd h1, rfl⟩
  | false => exact ⟨_, hp h2, rfl⟩

/-- C5, at `oversellStore4`: user 99 is neither driver 1 nor passenger 7 of
match 31. -/
theorem ConfirmMatch_unauthorized_witness :
    ((99 : UUID) ≠ matchedOffer.DriverID ∧ (99 : UUID) ≠ matchedRequest1.PassengerID) ∧
    ConfirmMatch oversellStore4 noConfirmFaults 31 99 true
      = (oversellStore4, .error .notDriver) ∧
    ConfirmMatch oversellStore4 noConfirmFaults 31 99 false
      = (oversellStore4, .error .notPassenger) ∧
    (∀ isDriver, ∃ e, ConfirmMatch oversellStore4 noConfirmFaults 31 99 isDriver
        = (oversellStore4, .error e)
      ∧ e.errorClass = ErrorClass.Unauthorized) :=
  ⟨⟨by decide, by decide⟩,
    (ConfirmMatch_unauthorized oversellStore4 noConfirmFaults 31 99 oversellMatch1 matchedOffer
      matchedRequest1 rfl rfl rfl rfl rfl).1 (by decide),
    (ConfirmMatch_unauthorized oversellStore4 noConfirmFaults 31 99 oversellMatch1 matchedOffer
      matchedRequest1 rfl rfl rfl rfl rfl).2.1 (by decide),
    (ConfirmMatch_unauthorized oversellStore4 noConfirmFaults 31 99 oversellMatch1 matchedOffer
      matchedRequest1 rfl rfl rfl rfl rfl).2.2.1 (by decide) (by decide)⟩

/-- C6. For an authorized user, if the stored match has any status other than
`matched`, `ConfirmMatch` fails with the invalid-state error and leaves the
store unchanged. Hence, after a successful `ConfirmMatch`, the same call
repeated at once fails with the invalid-state error and leaves the store, so
the seat counts too, as the first call left them. -/
theorem ConfirmMatch_invalid_state (s : Store K) (f : ConfirmFaults) (matchID userID : UUID)
    (isDriver : Bool) :
    (∀ m, f.findMatch = none → f.findParty = none →
      FindRideMatchByID s none matchID = .ok (some m) →
      (if isDriver = true then
          ∃ o, FindRideOfferByID s none m.RideOfferID = .ok (some o) ∧ o.DriverID = userID
        else ∃ r, FindRideRequestByID s none m.RideRequestID = .ok (some r)
          ∧ r.PassengerID = userID) →
      m.Status ≠ StatusMatched →
      ConfirmMatch s f matchID userID isDriver = (s, .error .invalidState)) ∧
    ((ConfirmMatch s f matchID userID isDriver).2 = .ok →
      ∀ f' : ConfirmFaults, f'.findMatch = none → f'.findParty = none →
        ConfirmMatch (ConfirmMatch s f matchID userID isDriver).1 f' matchID userID isDriver
          = ((ConfirmMatch s f matchID userID isDriver).1, .error .invalidState)) ∧
    Err.invalidState.errorClass = ErrorClass.InvalidState := by
  have part1 : ∀ (s : Store K) (f : ConfirmFaults) (m : RideMatch K), f.findMatch = none →
      f.findParty = none → FindRideMatchByID s none matchID = .ok (some m) →
      (if isDriver = true then
          ∃ o, FindRideOfferByID s none m.RideOfferID = .ok (some o) ∧ o.DriverID = userID
        else ∃ r, FindRideRequestByID s none m.RideRequestID = .ok (some r)
          ∧ r.PassengerID = userID) →
      m.Status ≠ StatusMatched →
      ConfirmMatch s f matchID userID isDriver = (s, .error .invalidState) := by
    intro s f m hf1 hf2 hm hauth hst
    have hv := verifyUser_authorized s m userID isDriver hauth
    simp [ConfirmMatch, hf1, hf2, hm, hv, hst]
  refine ⟨part1 s f, ?_, rfl⟩
  intro hok f' hf1 hf2
  obtain ⟨m, o, r, hm, hst, ho, hr, hauth, -, hs'⟩ :=
    ConfirmMatch_ok_inv s f matchID userID isDriver hok
  rw [hs']
  apply part1 (confirmedStore s m o r) f' { m with Status := StatusConfirmed } hf1 hf2
    (confirmedStore_findMatch s matchID m o r hm)
  · cases isDriver with
    | true =>
      simp only [if_true] at hauth ⊢
      exact ⟨_, confirmedStore_findOffer s m.RideOfferID m o r ho, hauth⟩
    | false =>
      simp only [Bool.false_eq_true, if_false] at hauth ⊢
      exact ⟨_, confirmedStore_findRequest s m.RideRequestID m o r hr, hauth⟩
  · simp

/-- C6, at `oversellStore4`: driver 1 confirms match 31, then confirms it
again; and at `oversellStore5`, where match 31 is stored as `confirmed`. -/
theorem ConfirmMatch_invalid_state_witness :
    (ConfirmMatch oversellStore4 noConfirmFaults 31 1 true).2 = .ok ∧
    ConfirmMatch (ConfirmMatch oversellStore4 noConfirmFaults 31 1 true).1 noConfirmFaults
        31 1 true
      = ((ConfirmMatch oversellStore4 noConfirmFaults 31 1 true).1, .error .invalidState) ∧
    confirmedMatch1.Status ≠ StatusMatched ∧
    ConfirmMatch oversellStore5 noConfirmFaults 31 1 true
      = (oversellStore5, .error .invalidState) :=
  ⟨rfl,
    (ConfirmMatch_invalid_state oversellStore4 noConfirmFaults 31 1 true).2.1 rfl
      noConfirmFaults rfl rfl,
    by decide,
    (ConfirmMatch_invalid_state oversellStore5 noConfirmFaults 31 1 true).1 confirmedMatch1
      rfl rfl rfl ⟨lastSeatOffer, rfl, rfl⟩ (by decide)⟩

/-- C7 fails on the code: in `orphanStore`, where match 31 is stored and its
offer 21 is not, `ConfirmMatch` by driver 1 returns the unauthorized error,
which is not a not-found error, and `ConfirmMatch` by passenger 7 of the
stored request panics on the nil offer. -/
theorem ConfirmMatch_missing_offer_not_reported :
    FindRideMatchByID orphanStore none 31 = .ok (some oversellMatch1) ∧
    FindRideOfferByID orphanStore none oversellMatch1.RideOfferID = .ok none ∧
    ConfirmMatch orphanStore noConfirmFaults 31 1 true = (orphanStore, .error .notDriver) ∧
    Err.notDriver.errorClass ≠ ErrorClass.NotFound ∧
    ConfirmMatch orphanStore noConfirmFaults 31 7 false = (orphanStore, .panic) :=
  ⟨rfl, rfl, rfl, by decide, rfl⟩

/-- C7 as amended. If no match with `matchID` is stored, `ConfirmMatch` returns
the not-found error "match not found". If the match is stored but the row the
authorization check looks up is not (the offer when `isDriver`, the request
otherwise), it returns the unauthorized error. In each of these cases the
store is unchanged. -/
theorem ConfirmMatch_missing_rows (s : Store K) (f : ConfirmFaults) (matchID userID : UUID)
    (hf1 : f.findMatch = none) :
    (FindRideMatchByID s none matchID = .ok none →
      ∀ isDriver, ConfirmMatch s f matchID userID isDriver = (s, .error .matchNotFound)) ∧
    (∀ m, f.findParty = none → FindRideMatchByID s none matchID = .ok (some m) →
      FindRideOfferByID s none m.RideOfferID = .ok none →
      ConfirmMatch s f matchID userID true = (s, .error .notDriver)) ∧
    (∀ m, f.findParty = none → FindRideMatchByID s none matchID = .ok (some m) →
      FindRideRequestByID s none m.RideRequestID = .ok none →
      ConfirmMatch s f matchID userID false = (s, .error .notPassenger)) ∧
    Err.matchNotFound.errorClass = ErrorClass.NotFound ∧
    Err.notDriver.errorClass = ErrorClass.Unauthorized ∧
    Err.notPassenger.errorClass = ErrorClass.Unauthorized := by
  refine ⟨?_, ?_, ?_, rfl, rfl, rfl⟩
  · intro hm isDriver
    simp [ConfirmMatch, hf1, hm]
  · intro m hf2 hm ho
    simp [ConfirmMatch, hf1, hf2, hm, verifyUser, ho]
  · intro m hf2 hm hr
    simp [ConfirmMatch, hf1, hf2, hm, verifyUser, hr]

/-- C7 as amended, at `orphanStore` and `requestlessStore`: match 77 is not
stored; match 31 is stored without its offer, or without its request. -/
theorem ConfirmMatch_missing_rows_witness :
    (∀ isDriver, ConfirmMatch orphanStore noConfirmFaults 77 1 isDriver
      = (orphanStore, .error .matchNotFound)) ∧
    ConfirmMatch orphanStore noConfirmFaults 31 1 true = (orphanStore, .error .notDriver) ∧
    ConfirmMatch requestlessStore noConfirmFaults 31 7 false
      = (requestlessStore, .error .notPassenger) :=
  ⟨(ConfirmMatch_missing_rows orphanStore noConfirmFaults 77 1 rfl).1 rfl,
    (ConfirmMatch_missing_rows orphanStore noConfirmFaults 31 1 rfl).2.1 oversellMatch1 rfl rfl
      rfl,
    (ConfirmMatch_missing_rows requestlessStore noConfirmFaults 31 7 rfl).2.2.1 oversellMatch1
      rfl rfl rfl⟩

end ConfirmClaims

/-! ### The scorer -/

section ScorerClaims

variable {K : Type} [LinearOrderedField K]

/-- C8. Whenever the offer has fewer free seats than the request has
passengers, `calculateMatchScore` returns exactly 0, whatever the distance
function, the locations, the departure times, the prices and the detour
bound are. -/
theorem calculateMatchScore_insufficient_seats (dist : DistanceFn K) (offer : RideOffer K)
    (request : RideRequest K) (h : offer.AvailableSeats < request.NumPassengers) :
    calculateMatchScore dist offer request = GoFloat.fin 0 := by
  simp [calculateMatchScore, h]

/-- C8, on a one-seat offer and a two-passenger request on the same trip. -/
theorem calculateMatchScore_insufficient_seats_witness :
    oneSeatOffer.AvailableSeats < oversellRequest2.NumPassengers ∧
      calculateMatchScore gridDistance oneSeatOffer oversellRequest2 = GoFloat.fin 0 :=
  ⟨by decide,
    calculateMatchScore_insufficient_seats gridDistance oneSeatOffer oversellRequest2
      (by decide)⟩

/-- C10. When neither hard reject fires (enough seats, both distances finite
and within the positive finite detour bound), with a positive passenger count
and finite prices, `calculateMatchScore` is
`0.3 * priceCompat + 0.3 * timeCompat + 0.4 * locationCompat`, where
`priceCompat` is 1 if `pricePerSeat ≤ maxPrice / numPassengers` and 0
otherwise, `timeCompat = max 0 (1 - d / 30)` with `d` the absolute difference
of the departure times in minutes, and
`locationCompat = max 0 (1 - (pickup + dropoff) / (2 * allowedDetourKm))`. -/
theorem calculateMatchScore_weighted_sum (dist : DistanceFn K) (offer : RideOffer K)
    (request : RideRequest K) (a pd dd p mp : K)
    (hseats : offer.AvailableSeats ≥ request.NumPassengers)
    (hn : 0 < request.NumPassengers)
    (ha : offer.AllowedDetourKm = GoFloat.fin a) (hpos : 0 < a)
    (hpd : pickupDistance dist offer request = GoFloat.fin pd) (hpd_le : pd ≤ a)
    (hdd : dropoffDistance dist offer request = GoFloat.fin dd) (hdd_le : dd ≤ a)
    (hp : offer.PricePerSeat = GoFloat.fin p) (hmp : request.MaxPrice = GoFloat.fin mp) :
    calculateMatchScore dist offer request
      = GoFloat.fin
          (3 / 10 * (if p ≤ mp / (request.NumPassengers : K) then 1 else 0)
            + 3 / 10 * Max.max 0
                (1 - |((offer.DepartureTime - request.DepartureTime : Int) : K)| / 60000000000 / 30)
            + 4 / 10 * Max.max 0 (1 - (pd + dd) / (2 * a))) :=
  calculateMatchScore_of_finite dist offer request a pd dd p mp hseats hn ha hpos hpd hpd_le
    hdd hdd_le hp hmp

/-- C10, on `gridDistance`, for `oversellOffer` and `nearbyRequest`: both
distances are 2.22 km, the departure times are ten minutes apart. -/
theorem calculateMatchScore_weighted_sum_witness :
    calculateMatchScore gridDistance oversellOffer nearbyRequest
      = GoFloat.fin
          (3 / 10 * (if (10 : ℚ) ≤ 25 / ((nearbyRequest.NumPassengers : Int) : ℚ) then 1 else 0)
            + 3 / 10 * Max.max 0
                (1 - |((oversellOffer.DepartureTime - nearbyRequest.DepartureTime : Int) : ℚ)|
                      / 60000000000 / 30)
            + 4 / 10 * Max.max 0 (1 - (111 / 50 + 111 / 50) / (2 * 5))) :=
  calculateMatchScore_weighted_sum gridDistance oversellOffer nearbyRequest 5 (111 / 50)
    (111 / 50) 10 25 (by decide) (by decide) rfl (by norm_num)
    (by
      simp [pickupDistance, gridDistance, oversellOffer, nearbyRequest, oversellRequest1,
        GoFloat.sub, GoFloat.neg, GoFloat.add, GoFloat.abs, GoFloat.mul]
      norm_num [abs_of_nonneg])
    (by norm_num)
    (by
      simp [dropoffDistance, gridDistance, oversellOffer, nearbyRequest, oversellRequest1,
        GoFloat.sub, GoFloat.neg, GoFloat.add, GoFloat.abs, GoFloat.mul]
      norm_num [abs_of_nonneg])
    (by norm_num) rfl rfl

end ScorerClaims

/-! ### Lemmas on the discovery loop -/

section UpsertLemmas

variable {α : Type}

theorem gormSave_none (key : α → UUID) (rows : List α) (x : α) :
    gormSave key rows x none = .ok (upsert key rows x) := by
  simp only [gormSave, upsert]
  split <;> rfl

theorem gormCreate_ok (key : α → UUID) (rows rows1 : List α) (x : α)
    (fault : Option StoreError) (h : gormCreate key rows x fault = .ok rows1) :
    fault = none ∧ key x ∉ rows.map key ∧ rows1 = rows ++ [x] := by
  cases fault with
  | some e => simp [gormCreate] at h
  | none =>
    simp only [gormCreate] at h
    split at h
    · simp at h
    · rename_i hany
      simp only [Except.ok.injEq] at h
      refine ⟨rfl, ?_, h.symm⟩
      intro hmem
      apply hany
      rw [List.mem_map] at hmem
      obtain ⟨y, hy, hk⟩ := hmem
      rw [List.any_eq_true]
      exact ⟨y, hy, by simpa using hk⟩

theorem gormCreate_fresh (key : α → UUID) (rows : List α) (x : α)
    (h : key x ∉ rows.map key) : gormCreate key rows x none = .ok (rows ++ [x]) := by
  simp only [gormCreate]
  split
  · rename_i hany
    exfalso
    apply h
    rw [List.any_eq_true] at hany
    obtain ⟨y, hy, hk⟩ := hany
    rw [List.mem_map]
    exact ⟨y, hy, by simpa using hk⟩
  · rfl

theorem any_key_iff (key : α → UUID) (rows : List α) (id : UUID) :
    rows.any (fun r => decide (key r = id)) = true ↔ id ∈ rows.map key := by
  rw [List.any_eq_true, List.mem_map]
  constructor
  · rintro ⟨y, hy, hk⟩
    exact ⟨y, hy, by simpa using hk⟩
  · rintro ⟨y, hy, hk⟩
    exact ⟨y, hy, by simpa using hk⟩

theorem find?_append_other (key : α → UUID) (rows : List α) (x : α) (id : UUID)
    (h : id ≠ key x) :
    (rows ++ [x]).find? (fun r => decide (key r = id))
      = rows.find? (fun r => decide (key r = id)) := by
  rw [List.find?_append]
  cases hf : rows.find? (fun r => decide (key r = id)) with
  | some y => rfl
  | none => simp [List.find?, Ne.symm h]

theorem find?_none_of_not_mem (key : α → UUID) (rows : List α) (id : UUID)
    (h : id ∉ rows.map key) : rows.find? (fun r => decide (key r = id)) = none := by
  rw [List.find?_eq_none]
  intro y hy hk
  apply h
  rw [List.mem_map]
  exact ⟨y, hy, by simpa using hk⟩

/-- The row with the key of `x` after `db.Save(x)` is `x`. -/
theorem find?_upsert_self (key : α → UUID) (rows : List α) (x : α) :
    (upsert key rows x).find? (fun r => decide (key r = key x)) = some x := by
  unfold upsert
  split
  · rename_i hany
    rw [List.any_eq_true] at hany
    obtain ⟨y, hy, hk⟩ := hany
    cases hf : rows.find? (fun r => decide (key r = key x)) with
    | none =>
      rw [List.find?_eq_none] at hf
      exact absurd hk (hf y hy)
    | some z => exact find?_map_replace_self key x hf
  · rename_i hany
    have hnot : key x ∉ rows.map key := fun h => hany ((any_key_iff key rows (key x)).mpr h)
    rw [List.find?_append, find?_none_of_not_mem key rows (key x) hnot]
    simp [List.find?]

/-- The rows with another key are untouched by `db.Save(x)`. -/
theorem find?_upsert_other (key : α → UUID) (rows : List α) (x : α) (id : UUID)
    (h : id ≠ key x) :
    (upsert key rows x).find? (fun r => decide (key r = id))
      = rows.find? (fun r => decide (key r = id)) := by
  unfold upsert
  split
  · exact find?_map_replace_other key rows x h
  · exact find?_append_other key rows x id h

/-- A save that changes nothing but fields blanked by `clear` leaves the
blanked table as it is, provided the row is there and every row with its key
agrees with it after blanking. -/
theorem map_upsert_of_agree (key : α → UUID) (clear : α → α) (rows : List α) (x : α)
    (hmem : key x ∈ rows.map key)
    (hagree : ∀ y ∈ rows, key y = key x → clear y = clear x) :
    (upsert key rows x).map clear = rows.map clear := by
  unfold upsert
  rw [if_pos ((any_key_iff key rows (key x)).mpr hmem), List.map_map]
  apply List.map_congr_left
  intro y hy
  simp only [Function.comp]
  by_cases hk : key y = key x
  · simp [hk, hagree y hy hk]
  · simp [hk]

theorem eq_of_nodup_key (key : α → UUID) (rows : List α) (hnd : (rows.map key).Nodup)
    (x y : α) (hx : x ∈ rows) (hy : y ∈ rows) (hk : key x = key y) : x = y :=
  List.inj_on_of_nodup_map hnd hx hy hk

theorem find?_eq_some_of_mem_nodup (key : α → UUID) (rows : List α)
    (hnd : (rows.map key).Nodup) (x : α) (hx : x ∈ rows) :
    rows.find? (fun r => decide (key r = key x)) = some x := by
  cases hf : rows.find? (fun r => decide (key r = key x)) with
  | none =>
    rw [List.find?_eq_none] at hf
    exact absurd (by simp) (hf x hx)
  | some y =>
    have hy := List.mem_of_find?_eq_some hf
    have hk := find?_key_eq key hf
    rw [eq_of_nodup_key key rows hnd y x hy hx hk]

theorem gormFirst_of_lookup {α : Type} {rows : List α} {cond : α → Bool} {x : α}
    (h : orNil (gormFirst rows cond none) = .ok (some x)) : gormFirst rows cond none = .ok x := by
  have h2 := (orNil_gormFirst_ok_some h).2
  simp [gormFirst, h2]

end UpsertLemmas

section PairLoopLemmas

variable {K : Type} [LinearOrderedField K]

/-- The score does not read the offer's status. -/
theorem calculateMatchScore_status (dist : DistanceFn K) (offer : RideOffer K)
    (request : RideRequest K) (st : RideStatus) :
    calculateMatchScore dist { offer with Status := st } request
      = calculateMatchScore dist offer request := rfl

theorem calculateMatchScore_clearStatus (dist : DistanceFn K) (offer : RideOffer K)
    (request : RideRequest K) :
    calculateMatchScore dist offer.clearStatus request.clearStatus
      = calculateMatchScore dist offer request := rfl

theorem afterCandidate_offer_status (dist : DistanceFn K) (cf : CandidateFaults) (id : UUID)
    (s : Store K) (offer : RideOffer K) (request : RideRequest K) (st : RideStatus) :
    afterCandidate dist cf id s { offer with Status := st } request
      = afterCandidate dist cf id s offer request := rfl

theorem afterCandidate_request_status (dist : DistanceFn K) (cf : CandidateFaults) (id : UUID)
    (s : Store K) (offer : RideOffer K) (request : RideRequest K) (st : RideStatus) :
    afterCandidate dist cf id s offer { request with Status := st }
      = afterCandidate dist cf id s offer request := rfl

theorem afterCandidate_rideMatches (dist : DistanceFn K) (cf : CandidateFaults) (id : UUID)
    (s : Store K) (offer : RideOffer K) (request : RideRequest K) :
    (afterCandidate dist cf id s offer request).rideMatches
      = s.rideMatches ++ [newRideMatch dist offer request id] := by
  obtain ⟨c1, c2, c3⟩ := cf
  cases c2 <;> cases c3 <;>
    simp [afterCandidate, ignoreError, UpdateRideOffer, UpdateRideRequest, gormSave_none,
      gormSave_fault]

theorem afterCandidate_rideOffers (dist : DistanceFn K) (cf : CandidateFaults) (id : UUID)
    (s : Store K) (offer : RideOffer K) (request : RideRequest K) :
    (afterCandidate dist cf id s offer request).rideOffers
      = match cf.updateRideOffer with
        | none => upsert RideOffer.ID s.rideOffers { offer with Status := StatusMatched }
        | some _ => s.rideOffers := by
  obtain ⟨c1, c2, c3⟩ := cf
  cases c2 <;> cases c3 <;>
    simp [afterCandidate, ignoreError, UpdateRideOffer, UpdateRideRequest, gormSave_none,
      gormSave_fault]

theorem afterCandidate_rideRequests (dist : DistanceFn K) (cf : CandidateFaults) (id : UUID)
    (s : Store K) (offer : RideOffer K) (request : RideRequest K) :
    (afterCandidate dist cf id s offer request).rideRequests
      = match cf.updateRideRequest with
        | none => upsert RideRequest.ID s.rideRequests { request with Status := StatusMatched }
        | some _ => s.rideRequests := by
  obtain ⟨c1, c2, c3⟩ := cf
  cases c2 <;> cases c3 <;>
    simp [afterCandidate, ignoreError, UpdateRideOffer, UpdateRideRequest, gormSave_none,
      gormSave_fault]

theorem afterCandidate_users (dist : DistanceFn K) (cf : CandidateFaults) (id : UUID)
    (s : Store K) (offer : RideOffer K) (request : RideRequest K) :
    (afterCandidate dist cf id s offer request).users = s.users
      ∧ (afterCandidate dist cf id s offer request).driverProfiles = s.driverProfiles := by
  obtain ⟨c1, c2, c3⟩ := cf
  cases c2 <;> cases c3 <;>
    simp [afterCandidate, ignoreError, UpdateRideOffer, UpdateRideRequest, gormSave_none,
      gormSave_fault]

theorem BeforeCreate_candidate (dist : DistanceFn K) (id : UUID) (offer : RideOffer K)
    (request : RideRequest K) :
    RideMatch.BeforeCreate
        { ID := 0, RideOfferID := offer.ID, RideRequestID := request.ID,
          Status := StatusMatched, MatchScore := calculateMatchScore dist offer request,
          Price := GoFloat.mul offer.PricePerSeat (GoFloat.ofInt request.NumPassengers) } id
      = newRideMatch dist offer request id := by
  simp [RideMatch.BeforeCreate, newRideMatch]

/-- One iteration of either worker on a pair: the match is created, and the
two rows saved, exactly when `pairLoop` takes the pair. -/
theorem CreateRideMatch_candidate (dist : DistanceFn K) (s : Store K)
    (fault : Option StoreError) (id : UUID) (offer : RideOffer K) (request : RideRequest K) :
    CreateRideMatch s fault id
        { ID := 0, RideOfferID := offer.ID, RideRequestID := request.ID,
          Status := StatusMatched, MatchScore := calculateMatchScore dist offer request,
          Price := GoFloat.mul offer.PricePerSeat (GoFloat.ofInt request.NumPassengers) }
      = if fault = none ∧ id ∉ s.rideMatches.map RideMatch.ID then
          .ok { s with rideMatches := s.rideMatches ++ [newRideMatch dist offer request id] }
        else .error (match fault with
          | some e => e
          | none => .ErrDuplicateKey) := by
  cases fault with
  | some e => simp [CreateRideMatch, gormCreate]
  | none =>
    have hb := BeforeCreate_candidate dist id offer request
    simp only [CreateRideMatch, hb, true_and]
    by_cases hfresh : id ∈ s.rideMatches.map RideMatch.ID
    · have hany := (any_key_iff RideMatch.ID s.rideMatches id).mpr hfresh
      have hid : (newRideMatch dist offer request id).ID = id := rfl
      simp only [gormCreate, hid, hany, if_true, hfresh, not_true_eq_false, if_false]
    · have hid : (newRideMatch dist offer request id).ID = id := rfl
      rw [gormCreate_fresh RideMatch.ID s.rideMatches (newRideMatch dist offer request id)
        (by rw [hid]; exact hfresh)]
      simp [hfresh]

theorem pairLoop_offer_status (dist : DistanceFn K) (newIDs : Nat → UUID)
    (faults : Nat → CandidateFaults) (offer : RideOffer K) (st : RideStatus)
    (cands : List (RideRequest K)) :
    ∀ (i : Nat) (s : Store K),
      pairLoop dist newIDs faults i s (cands.map (fun r => ({ offer with Status := st }, r)))
        = pairLoop dist newIDs faults i s (cands.map (fun r => (offer, r))) := by
  induction cands with
  | nil => intro i s; rfl
  | cons r rest ih =>
    intro i s
    simp only [List.map, pairLoop, calculateMatchScore_status, afterCandidate_offer_status, ih]

theorem pairLoop_request_status (dist : DistanceFn K) (newIDs : Nat → UUID)
    (faults : Nat → CandidateFaults) (request : RideRequest K) (st : RideStatus)
    (cands : List (RideOffer K)) :
    ∀ (i : Nat) (s : Store K),
      pairLoop dist newIDs faults i s (cands.map (fun o => (o, { request with Status := st })))
        = pairLoop dist newIDs faults i s (cands.map (fun o => (o, request))) := by
  induction cands with
  | nil => intro i s; rfl
  | cons o rest ih =>
    intro i s
    have hs : calculateMatchScore dist o { request with Status := st }
        = calculateMatchScore dist o request := rfl
    simp only [List.map, pairLoop, hs, afterCandidate_request_status, ih]

/-- The loop of `findMatchesForOffer` is `pairLoop` on the offer paired with
each candidate request. -/
theorem offerLoop_eq_pairLoop (dist : DistanceFn K) (newIDs : Nat → UUID)
    (faults : Nat → CandidateFaults) (cands : List (RideRequest K)) :
    ∀ (i : Nat) (s : Store K) (offer : RideOffer K),
      offerLoop dist newIDs faults i s offer cands
        = pairLoop dist newIDs faults i s (cands.map (fun r => (offer, r))) := by
  induction cands with
  | nil => intro i s offer; rfl
  | cons r rest ih =>
    intro i s offer
    simp only [List.map, pairLoop, offerLoop, CreateRideMatch_candidate]
    by_cases hgt : GoFloat.gt (calculateMatchScore dist offer r) matchThreshold = true
    · by_cases hc : (faults i).createRideMatch = none ∧ newIDs i ∉ s.rideMatches.map RideMatch.ID
      · have hc3 : GoFloat.gt (calculateMatchScore dist offer r) matchThreshold = true
            ∧ (faults i).createRideMatch = none
            ∧ newIDs i ∉ s.rideMatches.map RideMatch.ID := ⟨hgt, hc.1, hc.2⟩
        rw [if_pos hgt, if_pos hc, if_pos hc3]
        simp only [ih, pairLoop_offer_status]
        rfl
      · have hc3 : ¬ (GoFloat.gt (calculateMatchScore dist offer r) matchThreshold = true
            ∧ (faults i).createRideMatch = none
            ∧ newIDs i ∉ s.rideMatches.map RideMatch.ID) := fun h => hc ⟨h.2.1, h.2.2⟩
        rw [if_pos hgt, if_neg hc, if_neg hc3]
        simp only [ih]
    · have hc3 : ¬ (GoFloat.gt (calculateMatchScore dist offer r) matchThreshold = true
          ∧ (faults i).createRideMatch = none
          ∧ newIDs i ∉ s.rideMatches.map RideMatch.ID) := fun h => hgt h.1
      rw [if_neg hgt, if_neg hc3]
      simp only [ih]

/-- The loop of `findMatchesForRequest` is `pairLoop` on each candidate offer
paired with the request. -/
theorem requestLoop_eq_pairLoop (dist : DistanceFn K) (newIDs : Nat → UUID)
    (faults : Nat → CandidateFaults) (cands : List (RideOffer K)) :
    ∀ (i : Nat) (s : Store K) (request : RideRequest K),
      requestLoop dist newIDs faults i s request cands
        = pairLoop dist newIDs faults i s (cands.map (fun o => (o, request))) := by
  induction cands with
  | nil => intro i s request; rfl
  | cons o rest ih =>
    intro i s request
    simp only [List.map, pairLoop, requestLoop, CreateRideMatch_candidate]
    by_cases hgt : GoFloat.gt (calculateMatchScore dist o request) matchThreshold = true
    · by_cases hc : (faults i).createRideMatch = none ∧ newIDs i ∉ s.rideMatches.map RideMatch.ID
      · have hc3 : GoFloat.gt (calculateMatchScore dist o request) matchThreshold = true
            ∧ (faults i).createRideMatch = none
            ∧ newIDs i ∉ s.rideMatches.map RideMatch.ID := ⟨hgt, hc.1, hc.2⟩
        rw [if_pos hgt, if_pos hc, if_pos hc3]
        simp only [ih, pairLoop_request_status]
        rfl
      · have hc3 : ¬ (GoFloat.gt (calculateMatchScore dist o request) matchThreshold = true
            ∧ (faults i).createRideMatch = none
            ∧ newIDs i ∉ s.rideMatches.map RideMatch.ID) := fun h => hc ⟨h.2.1, h.2.2⟩
        rw [if_pos hgt, if_neg hc, if_neg hc3]
        simp only [ih]
    · have hc3 : ¬ (GoFloat.gt (calculateMatchScore dist o request) matchThreshold = true
          ∧ (faults i).createRideMatch = none
          ∧ newIDs i ∉ s.rideMatches.map RideMatch.ID) := fun h => hgt h.1
      rw [if_neg hgt, if_neg hc3]
      simp only [ih]

end PairLoopLemmas

section PairLoopProperties

variable {K : Type} [LinearOrderedField K]

/-- A loop none of whose pairs scores above the threshold leaves the store as
it is. -/
theorem pairLoop_none_taken (dist : DistanceFn K) (newIDs : Nat → UUID)
    (faults : Nat → CandidateFaults) (ps : List (RideOffer K × RideRequest K)) :
    ∀ (i : Nat) (s : Store K),
      (∀ p ∈ ps, GoFloat.gt (calculateMatchScore dist p.1 p.2) matchThreshold = false) →
      pairLoop dist newIDs faults i s ps = s := by
  induction ps with
  | nil => intro i s _; rfl
  | cons p rest ih =>
    intro i s h
    obtain ⟨o, r⟩ := p
    have h0 := h (o, r) (List.mem_cons_self _ _)
    simp only at h0
    simp only [pairLoop, h0, Bool.false_eq_true, false_and, if_false]
    exact ih (i + 1) s (fun p hp => h p (List.mem_cons_of_mem _ hp))

theorem pairLoop_users (dist : DistanceFn K) (newIDs : Nat → UUID)
    (faults : Nat → CandidateFaults) (ps : List (RideOffer K × RideRequest K)) :
    ∀ (i : Nat) (s : Store K),
      (pairLoop dist newIDs faults i s ps).users = s.users
        ∧ (pairLoop dist newIDs faults i s ps).driverProfiles = s.driverProfiles := by
  induction ps with
  | nil => intro i s; exact ⟨rfl, rfl⟩
  | cons p rest ih =>
    intro i s
    obtain ⟨o, r⟩ := p
    simp only [pairLoop]
    split
    · have h1 := ih (i + 1) (afterCandidate dist (faults i) (newIDs i) s o r)
      have h2 := afterCandidate_users dist (faults i) (newIDs i) s o r
      exact ⟨h1.1.trans h2.1, h1.2.trans h2.2⟩
    · exact ih (i + 1) s

/-- Discovery only appends to the match table. -/
theorem pairLoop_rideMatches_append (dist : DistanceFn K) (newIDs : Nat → UUID)
    (faults : Nat → CandidateFaults) (ps : List (RideOffer K × RideRequest K)) :
    ∀ (i : Nat) (s : Store K),
      ∃ news, (pairLoop dist newIDs faults i s ps).rideMatches = s.rideMatches ++ news := by
  induction ps with
  | nil => intro i s; exact ⟨[], by simp [pairLoop]⟩
  | cons p rest ih =>
    intro i s
    obtain ⟨o, r⟩ := p
    simp only [pairLoop]
    split
    · obtain ⟨news, h⟩ := ih (i + 1) (afterCandidate dist (faults i) (newIDs i) s o r)
      rw [afterCandidate_rideMatches] at h
      exact ⟨newRideMatch dist o r (newIDs i) :: news, by rw [h]; simp⟩
    · exact ih (i + 1) s

/-- Every match discovery adds belongs to a pair whose score is above the
threshold, and is the row built for that pair. -/
theorem pairLoop_rideMatches_only (dist : DistanceFn K) (newIDs : Nat → UUID)
    (faults : Nat → CandidateFaults) (ps : List (RideOffer K × RideRequest K)) :
    ∀ (i : Nat) (s : Store K) (m : RideMatch K),
      m ∈ (pairLoop dist newIDs faults i s ps).rideMatches →
      m ∈ s.rideMatches ∨ ∃ k o r, ps[k]? = some (o, r)
        ∧ GoFloat.gt (calculateMatchScore dist o r) matchThreshold = true
        ∧ (faults (i + k)).createRideMatch = none
        ∧ m = newRideMatch dist o r (newIDs (i + k)) := by
  induction ps with
  | nil => intro i s m hm; exact Or.inl hm
  | cons p rest ih =>
    intro i s m hm
    obtain ⟨o, r⟩ := p
    simp only [pairLoop] at hm
    split at hm
    · rename_i htaken
      rcases ih (i + 1) _ m hm with h | ⟨k, o', r', hk, hgt, hf, hmk⟩
      · rw [afterCandidate_rideMatches, List.mem_append, List.mem_singleton] at h
        rcases h with h | h
        · exact Or.inl h
        · exact Or.inr ⟨0, o, r, by simp, htaken.1, htaken.2.1, h⟩
      · refine Or.inr ⟨k + 1, o', r', by simpa using hk, hgt, ?_, ?_⟩
        · rw [← Nat.add_assoc, Nat.add_right_comm]; exact hf
        · rw [← Nat.add_assoc, Nat.add_right_comm]; exact hmk
    · rcases ih (i + 1) s m hm with h | ⟨k, o', r', hk, hgt, hf, hmk⟩
      · exact Or.inl h
      · refine Or.inr ⟨k + 1, o', r', by simpa using hk, hgt, ?_, ?_⟩
        · rw [← Nat.add_assoc, Nat.add_right_comm]; exact hf
        · rw [← Nat.add_assoc, Nat.add_right_comm]; exact hmk

/-- With fresh generated IDs, every pair whose score is above the threshold and
whose create call meets no database error has its match in the table after
the loop, whatever happened to the other pairs. -/
theorem pairLoop_rideMatches_all (dist : DistanceFn K) (newIDs : Nat → UUID)
    (faults : Nat → CandidateFaults) (hinj : Function.Injective newIDs)
    (ps : List (RideOffer K × RideRequest K)) :
    ∀ (i : Nat) (s : Store K),
      (∀ n, i ≤ n → newIDs n ∉ s.rideMatches.map RideMatch.ID) →
      ∀ k o r, ps[k]? = some (o, r) →
        GoFloat.gt (calculateMatchScore dist o r) matchThreshold = true →
        (faults (i + k)).createRideMatch = none →
        newRideMatch dist o r (newIDs (i + k))
          ∈ (pairLoop dist newIDs faults i s ps).rideMatches := by
  induction ps with
  | nil => intro i s _ k o r hk; simp at hk
  | cons p rest ih =>
    intro i s hfresh k o r hk hgt hf
    obtain ⟨o0, r0⟩ := p
    have hfresh1 : ∀ n, i + 1 ≤ n →
        newIDs n ∉ (afterCandidate dist (faults i) (newIDs i) s o0 r0).rideMatches.map
          RideMatch.ID := by
      intro n hn
      rw [afterCandidate_rideMatches]
      simp only [List.map_append, List.map_cons, List.map_nil, List.mem_append,
        List.mem_singleton, not_or]
      refine ⟨hfresh n (by omega), ?_⟩
      intro heq
      have : n = i := hinj heq
      omega
    cases k with
    | zero =>
      simp only [List.getElem?_cons_zero, Option.some.injEq, Prod.mk.injEq] at hk
      obtain ⟨rfl, rfl⟩ := hk
      simp only [Nat.add_zero] at hf ⊢
      simp only [pairLoop]
      rw [if_pos ⟨hgt, hf, hfresh i (le_refl _)⟩]
      obtain ⟨news, hn⟩ := pairLoop_rideMatches_append dist newIDs faults rest (i + 1)
        (afterCandidate dist (faults i) (newIDs i) s o0 r0)
      rw [hn, afterCandidate_rideMatches]
      simp
    | succ k =>
      simp only [List.getElem?_cons_succ] at hk
      have hidx : i + (k + 1) = i + 1 + k := by omega
      rw [hidx] at hf ⊢
      simp only [pairLoop]
      split
      · exact ih (i + 1) _ hfresh1 k o r hk hgt hf
      · exact ih (i + 1) s (fun n hn => hfresh n (by omega)) k o r hk hgt hf

end PairLoopProperties

section ClearStatus

variable {K : Type}

theorem RideOffer_clearStatus_ID (o : RideOffer K) : o.clearStatus.ID = o.ID := rfl

theorem RideRequest_clearStatus_ID (r : RideRequest K) : r.clearStatus.ID = r.ID := rfl

theorem map_ID_of_map_clear_offers (rows rows1 : List (RideOffer K))
    (h : rows1.map RideOffer.clearStatus = rows.map RideOffer.clearStatus) :
    rows1.map RideOffer.ID = rows.map RideOffer.ID := by
  have := congrArg (List.map RideOffer.ID) h
  simpa [List.map_map, Function.comp, RideOffer_clearStatus_ID] using this

theorem map_ID_of_map_clear_requests (rows rows1 : List (RideRequest K))
    (h : rows1.map RideRequest.clearStatus = rows.map RideRequest.clearStatus) :
    rows1.map RideRequest.ID = rows.map RideRequest.ID := by
  have := congrArg (List.map RideRequest.ID) h
  simpa [List.map_map, Function.comp, RideRequest_clearStatus_ID] using this

/-- The offer `o` is a row of the table up to its status, and the only one
with its ID: the condition transfers along tables equal up to statuses. -/
theorem offer_agrees_transfer (rows rows1 : List (RideOffer K)) (o : RideOffer K)
    (h : rows1.map RideOffer.clearStatus = rows.map RideOffer.clearStatus)
    (ho : o.ID ∈ rows.map RideOffer.ID
      ∧ ∀ y ∈ rows, y.ID = o.ID → y.clearStatus = o.clearStatus) :
    o.ID ∈ rows1.map RideOffer.ID
      ∧ ∀ y ∈ rows1, y.ID = o.ID → y.clearStatus = o.clearStatus := by
  refine ⟨by rw [map_ID_of_map_clear_offers rows rows1 h]; exact ho.1, ?_⟩
  intro y hy hk
  have hmem : y.clearStatus ∈ rows.map RideOffer.clearStatus := by
    rw [← h]; exact List.mem_map_of_mem _ hy
  rw [List.mem_map] at hmem
  obtain ⟨z, hz, hzy⟩ := hmem
  have hzk : z.ID = o.ID := by
    have : z.clearStatus.ID = y.clearStatus.ID := by rw [hzy]
    simpa [RideOffer_clearStatus_ID, hk] using this
  rw [← hzy]
  exact ho.2 z hz hzk

theorem request_agrees_transfer (rows rows1 : List (RideRequest K)) (r : RideRequest K)
    (h : rows1.map RideRequest.clearStatus = rows.map RideRequest.clearStatus)
    (hr : r.ID ∈ rows.map RideRequest.ID
      ∧ ∀ y ∈ rows, y.ID = r.ID → y.clearStatus = r.clearStatus) :
    r.ID ∈ rows1.map RideRequest.ID
      ∧ ∀ y ∈ rows1, y.ID = r.ID → y.clearStatus = r.clearStatus := by
  refine ⟨by rw [map_ID_of_map_clear_requests rows rows1 h]; exact hr.1, ?_⟩
  intro y hy hk
  have hmem : y.clearStatus ∈ rows.map RideRequest.clearStatus := by
    rw [← h]; exact List.mem_map_of_mem _ hy
  rw [List.mem_map] at hmem
  obtain ⟨z, hz, hzy⟩ := hmem
  have hzk : z.ID = r.ID := by
    have : z.clearStatus.ID = y.clearStatus.ID := by rw [hzy]
    simpa [RideRequest_clearStatus_ID, hk] using this
  rw [← hzy]
  exact hr.2 z hz hzk

end ClearStatus

section PairLoopFrame

variable {K : Type} [LinearOrderedField K]

theorem afterCandidate_clear (dist : DistanceFn K) (cf : CandidateFaults) (id : UUID)
    (s : Store K) (o : RideOffer K) (r : RideRequest K)
    (ho : o.ID ∈ s.rideOffers.map RideOffer.ID
      ∧ ∀ y ∈ s.rideOffers, y.ID = o.ID → y.clearStatus = o.clearStatus)
    (hr : r.ID ∈ s.rideRequests.map RideRequest.ID
      ∧ ∀ y ∈ s.rideRequests, y.ID = r.ID → y.clearStatus = r.clearStatus) :
    (afterCandidate dist cf id s o r).rideOffers.map RideOffer.clearStatus
        = s.rideOffers.map RideOffer.clearStatus
      ∧ (afterCandidate dist cf id s o r).rideRequests.map RideRequest.clearStatus
        = s.rideRequests.map RideRequest.clearStatus := by
  constructor
  · rw [afterCandidate_rideOffers]
    split
    · exact map_upsert_of_agree RideOffer.ID RideOffer.clearStatus s.rideOffers
        { o with Status := StatusMatched } ho.1 (fun y hy hk => ho.2 y hy hk)
    · rfl
  · rw [afterCandidate_rideRequests]
    split
    · exact map_upsert_of_agree RideRequest.ID RideRequest.clearStatus s.rideRequests
        { r with Status := StatusMatched } hr.1 (fun y hy hk => hr.2 y hy hk)
    · rfl

/-- Discovery changes nothing but statuses in the offer and request tables,
when every pair it processes is made of stored rows (up to their statuses)
that are the only ones with their IDs. -/
theorem pairLoop_clear (dist : DistanceFn K) (newIDs : Nat → UUID)
    (faults : Nat → CandidateFaults) (ps : List (RideOffer K × RideRequest K)) :
    ∀ (i : Nat) (s : Store K),
      (∀ p ∈ ps,
        (p.1.ID ∈ s.rideOffers.map RideOffer.ID
          ∧ ∀ y ∈ s.rideOffers, y.ID = p.1.ID → y.clearStatus = p.1.clearStatus)
        ∧ (p.2.ID ∈ s.rideRequests.map RideRequest.ID
          ∧ ∀ y ∈ s.rideRequests, y.ID = p.2.ID → y.clearStatus = p.2.clearStatus)) →
      (pairLoop dist newIDs faults i s ps).rideOffers.map RideOffer.clearStatus
          = s.rideOffers.map RideOffer.clearStatus
        ∧ (pairLoop dist newIDs faults i s ps).rideRequests.map RideRequest.clearStatus
          = s.rideRequests.map RideRequest.clearStatus := by
  induction ps with
  | nil => intro i s _; exact ⟨rfl, rfl⟩
  | cons p rest ih =>
    intro i s h
    obtain ⟨o, r⟩ := p
    have h0 := h (o, r) (List.mem_cons_self _ _)
    simp only [pairLoop]
    split
    · have hc := afterCandidate_clear dist (faults i) (newIDs i) s o r h0.1 h0.2
      have h1 := ih (i + 1) (afterCandidate dist (faults i) (newIDs i) s o r) (by
        intro p hp
        have hp0 := h p (List.mem_cons_of_mem _ hp)
        exact ⟨offer_agrees_transfer _ _ p.1 hc.1 hp0.1,
          request_agrees_transfer _ _ p.2 hc.2 hp0.2⟩)
      exact ⟨h1.1.trans hc.1, h1.2.trans hc.2⟩
    · exact ih (i + 1) s (fun p hp => h p (List.mem_cons_of_mem _ hp))

end PairLoopFrame

section PairLoopLookups

variable {K : Type} [LinearOrderedField K]

/-- The lookup of a request after one accepted pair: the saved row if the
update went through and the ID is the request's, the old row otherwise. -/
theorem afterCandidate_findRequest (dist : DistanceFn K) (cf : CandidateFaults) (id : UUID)
    (s : Store K) (o : RideOffer K) (r : RideRequest K) (rid : UUID) :
    FindRideRequestByID (afterCandidate dist cf id s o r) none rid
      = if cf.updateRideRequest = none ∧ rid = r.ID then
          .ok (some { r with Status := StatusMatched })
        else FindRideRequestByID s none rid := by
  rw [FindRideRequestByID_none, FindRideRequestByID_none, afterCandidate_rideRequests]
  cases hcf : cf.updateRideRequest with
  | some e => simp
  | none =>
    by_cases hid : rid = r.ID
    · subst hid
      simp only [true_and, if_true]
      exact congrArg _ (find?_upsert_self RideRequest.ID s.rideRequests
        { r with Status := StatusMatched })
    · simp only [hid, and_false, if_false]
      exact congrArg _ (find?_upsert_other RideRequest.ID s.rideRequests
        { r with Status := StatusMatched } rid hid)

/-- The lookup of an offer after one accepted pair. -/
theorem afterCandidate_findOffer (dist : DistanceFn K) (cf : CandidateFaults) (id : UUID)
    (s : Store K) (o : RideOffer K) (r : RideRequest K) (oid : UUID) :
    FindRideOfferByID (afterCandidate dist cf id s o r) none oid
      = if cf.updateRideOffer = none ∧ oid = o.ID then
          .ok (some { o with Status := StatusMatched })
        else FindRideOfferByID s none oid := by
  rw [FindRideOfferByID_none, FindRideOfferByID_none, afterCandidate_rideOffers]
  cases hcf : cf.updateRideOffer with
  | some e => simp
  | none =>
    by_cases hid : oid = o.ID
    · subst hid
      simp only [true_and, if_true]
      exact congrArg _ (find?_upsert_self RideOffer.ID s.rideOffers
        { o with Status := StatusMatched })
    · simp only [hid, and_false, if_false]
      exact congrArg _ (find?_upsert_other RideOffer.ID s.rideOffers
        { o with Status := StatusMatched } oid hid)

/-- A request stored with status `matched` stays so through the loop. -/
theorem pairLoop_request_stays_matched (dist : DistanceFn K) (newIDs : Nat → UUID)
    (faults : Nat → CandidateFaults) (rid : UUID) (ps : List (RideOffer K × RideRequest K)) :
    ∀ (i : Nat) (s : Store K),
      (∃ x, FindRideRequestByID s none rid = .ok (some x) ∧ x.Status = StatusMatched) →
      ∃ x, FindRideRequestByID (pairLoop dist newIDs faults i s ps) none rid = .ok (some x)
        ∧ x.Status = StatusMatched := by
  induction ps with
  | nil => intro i s h; exact h
  | cons p rest ih =>
    intro i s h
    obtain ⟨o, r⟩ := p
    simp only [pairLoop]
    split
    · apply ih
      rw [afterCandidate_findRequest]
      split
      · exact ⟨_, rfl, rfl⟩
      · exact h
    · exact ih (i + 1) s h

/-- An offer stored with status `matched` stays so through the loop. -/
theorem pairLoop_offer_stays_matched (dist : DistanceFn K) (newIDs : Nat → UUID)
    (faults : Nat → CandidateFaults) (oid : UUID) (ps : List (RideOffer K × RideRequest K)) :
    ∀ (i : Nat) (s : Store K),
      (∃ x, FindRideOfferByID s none oid = .ok (some x) ∧ x.Status = StatusMatched) →
      ∃ x, FindRideOfferByID (pairLoop dist newIDs faults i s ps) none oid = .ok (some x)
        ∧ x.Status = StatusMatched := by
  induction ps with
  | nil => intro i s h; exact h
  | cons p rest ih =>
    intro i s h
    obtain ⟨o, r⟩ := p
    simp only [pairLoop]
    split
    · apply ih
      rw [afterCandidate_findOffer]
      split
      · exact ⟨_, rfl, rfl⟩
      · exact h
    · exact ih (i + 1) s h

/-- After the loop, each lookup of a request gives either what it gave before
or a row with status `matched`. -/
theorem pairLoop_request_same_or_matched (dist : DistanceFn K) (newIDs : Nat → UUID)
    (faults : Nat → CandidateFaults) (rid : UUID) (ps : List (RideOffer K × RideRequest K)) :
    ∀ (i : Nat) (s : Store K),
      FindRideRequestByID (pairLoop dist newIDs faults i s ps) none rid
          = FindRideRequestByID s none rid
        ∨ ∃ x, FindRideRequestByID (pairLoop dist newIDs faults i s ps) none rid
            = .ok (some x) ∧ x.Status = StatusMatched := by
  induction ps with
  | nil => intro i s; exact Or.inl rfl
  | cons p rest ih =>
    intro i s
    obtain ⟨o, r⟩ := p
    simp only [pairLoop]
    split
    · by_cases hc : (faults i).updateRideRequest = none ∧ rid = r.ID
      · right
        apply pairLoop_request_stays_matched
        rw [afterCandidate_findRequest, if_pos hc]
        exact ⟨_, rfl, rfl⟩
      · rcases ih (i + 1) (afterCandidate dist (faults i) (newIDs i) s o r) with h | h
        · left
          rw [h, afterCandidate_findRequest, if_neg hc]
        · exact Or.inr h
    · exact ih (i + 1) s

/-- After the loop, each lookup of an offer gives either what it gave before
or a row with status `matched`. -/
theorem pairLoop_offer_same_or_matched (dist : DistanceFn K) (newIDs : Nat → UUID)
    (faults : Nat → CandidateFaults) (oid : UUID) (ps : List (RideOffer K × RideRequest K)) :
    ∀ (i : Nat) (s : Store K),
      FindRideOfferByID (pairLoop dist newIDs faults i s ps) none oid
          = FindRideOfferByID s none oid
        ∨ ∃ x, FindRideOfferByID (pairLoop dist newIDs faults i s ps) none oid
            = .ok (some x) ∧ x.Status = StatusMatched := by
  induction ps with
  | nil => intro i s; exact Or.inl rfl
  | cons p rest ih =>
    intro i s
    obtain ⟨o, r⟩ := p
    simp only [pairLoop]
    split
    · by_cases hc : (faults i).updateRideOffer = none ∧ oid = o.ID
      · right
        apply pairLoop_offer_stays_matched
        rw [afterCandidate_findOffer, if_pos hc]
        exact ⟨_, rfl, rfl⟩
      · rcases ih (i + 1) (afterCandidate dist (faults i) (newIDs i) s o r) with h | h
        · left
          rw [h, afterCandidate_findOffer, if_neg hc]
        · exact Or.inr h
    · exact ih (i + 1) s

/-- The lookup of a request is unchanged by the loop when no pair holding a
request with that ID is taken and has its request update go through. -/
theorem pairLoop_findRequest_unchanged (dist : DistanceFn K) (newIDs : Nat → UUID)
    (faults : Nat → CandidateFaults) (rid : UUID) (ps : List (RideOffer K × RideRequest K)) :
    ∀ (i : Nat) (s : Store K),
      (∀ k o r, ps[k]? = some (o, r) → r.ID = rid →
        ¬ (GoFloat.gt (calculateMatchScore dist o r) matchThreshold = true
          ∧ (faults (i + k)).createRideMatch = none
          ∧ (faults (i + k)).updateRideRequest = none)) →
      FindRideRequestByID (pairLoop dist newIDs faults i s ps) none rid
        = FindRideRequestByID s none rid := by
  induction ps with
  | nil => intro i s _; rfl
  | cons p rest ih =>
    intro i s h
    obtain ⟨o, r⟩ := p
    have hrest : ∀ k o' r', rest[k]? = some (o', r') → r'.ID = rid →
        ¬ (GoFloat.gt (calculateMatchScore dist o' r') matchThreshold = true
          ∧ (faults (i + 1 + k)).createRideMatch = none
          ∧ (faults (i + 1 + k)).updateRideRequest = none) := by
      intro k o' r' hk hid
      have := h (k + 1) o' r' (by simpa using hk) hid
      rwa [show i + (k + 1) = i + 1 + k by omega] at this
    simp only [pairLoop]
    split
    · rename_i htaken
      rw [ih (i + 1) _ hrest, afterCandidate_findRequest]
      split
      · rename_i hc
        exact absurd ⟨htaken.1, htaken.2.1, hc.1⟩
          (h 0 o r (by simp) hc.2.symm)
      · rfl
    · exact ih (i + 1) s hrest

/-- The lookup of an offer is unchanged by the loop when no pair holding an
offer with that ID is taken and has its offer update go through. -/
theorem pairLoop_findOffer_unchanged (dist : DistanceFn K) (newIDs : Nat → UUID)
    (faults : Nat → CandidateFaults) (oid : UUID) (ps : List (RideOffer K × RideRequest K)) :
    ∀ (i : Nat) (s : Store K),
      (∀ k o r, ps[k]? = some (o, r) → o.ID = oid →
        ¬ (GoFloat.gt (calculateMatchScore dist o r) matchThreshold = true
          ∧ (faults (i + k)).createRideMatch = none
          ∧ (faults (i + k)).updateRideOffer = none)) →
      FindRideOfferByID (pairLoop dist newIDs faults i s ps) none oid
        = FindRideOfferByID s none oid := by
  induction ps with
  | nil => intro i s _; rfl
  | cons p rest ih =>
    intro i s h
    obtain ⟨o, r⟩ := p
    have hrest : ∀ k o' r', rest[k]? = some (o', r') → o'.ID = oid →
        ¬ (GoFloat.gt (calculateMatchScore dist o' r') matchThreshold = true
          ∧ (faults (i + 1 + k)).createRideMatch = none
          ∧ (faults (i + 1 + k)).updateRideOffer = none) := by
      intro k o' r' hk hid
      have := h (k + 1) o' r' (by simpa using hk) hid
      rwa [show i + (k + 1) = i + 1 + k by omega] at this
    simp only [pairLoop]
    split
    · rename_i htaken
      rw [ih (i + 1) _ hrest, afterCandidate_findOffer]
      split
      · rename_i hc
        exact absurd ⟨htaken.1, htaken.2.1, hc.1⟩
          (h 0 o r (by simp) hc.2.symm)
      · rfl
    · exact ih (i + 1) s hrest

/-- With fresh generated IDs, the request of every pair that is taken and
whose request update goes through is stored with status `matched` after the
loop. -/
theorem pairLoop_request_matched (dist : DistanceFn K) (newIDs : Nat → UUID)
    (faults : Nat → CandidateFaults) (hinj : Function.Injective newIDs)
    (ps : List (RideOffer K × RideRequest K)) :
    ∀ (i : Nat) (s : Store K),
      (∀ n, i ≤ n → newIDs n ∉ s.rideMatches.map RideMatch.ID) →
      ∀ k o r, ps[k]? = some (o, r) →
        GoFloat.gt (calculateMatchScore dist o r) matchThreshold = true →
        (faults (i + k)).createRideMatch = none →
        (faults (i + k)).updateRideRequest = none →
        ∃ x, FindRideRequestByID (pairLoop dist newIDs faults i s ps) none r.ID
          = .ok (some x) ∧ x.Status = StatusMatched := by
  induction ps with
  | nil => intro i s _ k o r hk; simp at hk
  | cons p rest ih =>
    intro i s hfresh k o r hk hgt hf hu
    obtain ⟨o0, r0⟩ := p
    have hfresh1 : ∀ n, i + 1 ≤ n →
        newIDs n ∉ (afterCandidate dist (faults i) (newIDs i) s o0 r0).rideMatches.map
          RideMatch.ID := by
      intro n hn
      rw [afterCandidate_rideMatches]
      simp only [List.map_append, List.map_cons, List.map_nil, List.mem_append,
        List.mem_singleton, not_or]
      refine ⟨hfresh n (by omega), ?_⟩
      intro heq
      have : n = i := hinj heq
      omega
    cases k with
    | zero =>
      simp only [List.getElem?_cons_zero, Option.some.injEq, Prod.mk.injEq] at hk
      obtain ⟨rfl, rfl⟩ := hk
      simp only [Nat.add_zero] at hf hu
      simp only [pairLoop]
      rw [if_pos ⟨hgt, hf, hfresh i (le_refl _)⟩]
      apply pairLoop_request_stays_matched
      rw [afterCandidate_findRequest, if_pos ⟨hu, rfl⟩]
      exact ⟨_, rfl, rfl⟩
    | succ k =>
      simp only [List.getElem?_cons_succ] at hk
      have hidx : i + (k + 1) = i + 1 + k := by omega
      rw [hidx] at hf hu
      simp only [pairLoop]
      split
      · exact ih (i + 1) _ hfresh1 k o r hk hgt hf hu
      · exact ih (i + 1) s (fun n hn => hfresh n (by omega)) k o r hk hgt hf hu

/-- With fresh generated IDs, the offer of every pair that is taken and whose
offer update goes through is stored with status `matched` after the loop. -/
theorem pairLoop_offer_matched (dist : DistanceFn K) (newIDs : Nat → UUID)
    (faults : Nat → CandidateFaults) (hinj : Function.Injective newIDs)
    (ps : List (RideOffer K × RideRequest K)) :
    ∀ (i : Nat) (s : Store K),
      (∀ n, i ≤ n → newIDs n ∉ s.rideMatches.map RideMatch.ID) →
      ∀ k o r, ps[k]? = some (o, r) →
        GoFloat.gt (calculateMatchScore dist o r) matchThreshold = true →
        (faults (i + k)).createRideMatch = none →
        (faults (i + k)).updateRideOffer = none →
        ∃ x, FindRideOfferByID (pairLoop dist newIDs faults i s ps) none o.ID
          = .ok (some x) ∧ x.Status = StatusMatched := by
  induction ps with
  | nil => intro i s _ k o r hk; simp at hk
  | cons p rest ih =>
    intro i s hfresh k o r hk hgt hf hu
    obtain ⟨o0, r0⟩ := p
    have hfresh1 : ∀ n, i + 1 ≤ n →
        newIDs n ∉ (afterCandidate dist (faults i) (newIDs i) s o0 r0).rideMatches.map
          RideMatch.ID := by
      intro n hn
      rw [afterCandidate_rideMatches]
      simp only [List.map_append, List.map_cons, List.map_nil, List.mem_append,
        List.mem_singleton, not_or]
      refine ⟨hfresh n (by omega), ?_⟩
      intro heq
      have : n = i := hinj heq
      omega
    cases k with
    | zero =>
      simp only [List.getElem?_cons_zero, Option.some.injEq, Prod.mk.injEq] at hk
      obtain ⟨rfl, rfl⟩ := hk
      simp only [Nat.add_zero] at hf hu
      simp only [pairLoop]
      rw [if_pos ⟨hgt, hf, hfresh i (le_refl _)⟩]
      apply pairLoop_offer_stays_matched
      rw [afterCandidate_findOffer, if_pos ⟨hu, rfl⟩]
      exact ⟨_, rfl, rfl⟩
    | succ k =>
      simp only [List.getElem?_cons_succ] at hk
      have hidx : i + (k + 1) = i + 1 + k := by omega
      rw [hidx] at hf hu
      simp only [pairLoop]
      split
      · exact ih (i + 1) _ hfresh1 k o r hk hgt hf hu
      · exact ih (i + 1) s (fun n hn => hfresh n (by omega)) k o r hk hgt hf hu

end PairLoopLookups

section DiscoveryTopLevel

variable {α : Type}

theorem index_eq_of_nodup_key (key : α → UUID) (l : List α) (hnd : (l.map key).Nodup)
    (k j : Nat) (a b : α) (hk : l[k]? = some a) (hj : l[j]? = some b) (hab : key a = key b) :
    k = j := by
  have hk1 : (l.map key)[k]? = some (key a) := by simp [List.getElem?_map, hk]
  have hj1 : (l.map key)[j]? = some (key b) := by simp [List.getElem?_map, hj]
  have hjl : j < (l.map key).length := by
    rcases List.getElem?_eq_some.mp hj1 with ⟨h, -⟩
    exact h
  have hkl : k < (l.map key).length := by
    rcases List.getElem?_eq_some.mp hk1 with ⟨h, -⟩
    exact h
  rcases Nat.lt_trichotomy k j with h | h | h
  · exact absurd (by rw [hk1, hj1, hab]) (List.nodup_iff_getElem?_ne_getElem?.mp hnd k j h hjl)
  · exact h
  · exact absurd (by rw [hk1, hj1, hab]) (List.nodup_iff_getElem?_ne_getElem?.mp hnd j k h hkl)

theorem nodup_key_filter (key : α → UUID) (l : List α) (p : α → Bool)
    (hnd : (l.map key).Nodup) : ((l.filter p).map key).Nodup :=
  List.Nodup.sublist (List.Sublist.map key (List.filter_sublist l)) hnd

theorem gormFind_none (rows : List α) (cond : α → Bool) :
    gormFind rows cond none = .ok (rows.filter cond) := rfl

theorem gormFind_ok (rows cands : List α) (cond : α → Bool) (fault : Option StoreError)
    (h : gormFind rows cond fault = .ok cands) : fault = none ∧ cands = rows.filter cond := by
  cases fault with
  | some e => simp [gormFind] at h
  | none =>
    simp only [gormFind, Except.ok.injEq] at h
    exact ⟨rfl, h.symm⟩

theorem gormFirst_ok (rows : List α) (cond : α → Bool) (fault : Option StoreError) (x : α)
    (h : gormFirst rows cond fault = .ok x) : fault = none ∧ rows.find? cond = some x := by
  cases fault with
  | some e => simp [gormFirst] at h
  | none =>
    simp only [gormFirst] at h
    split at h
    · rename_i y hy
      simp only [Except.ok.injEq] at h
      exact ⟨rfl, by rw [hy, h]⟩
    · simp at h

end DiscoveryTopLevel

section CandidateLists

variable {K : Type}

/-- The candidates of an offer, as a filter of the request table. -/
theorem FindPotentialMatches_filter (s : Store K) (offerID : UUID) (offer : RideOffer K)
    (hoffer : FindRideOfferByID s none offerID = .ok (some offer)) :
    FindPotentialMatches s none none offerID
      = .ok (s.rideRequests.filter (fun r =>
          decide (r.Status = StatusPending
            ∧ offer.DepartureTime - 30 * Minute ≤ r.DepartureTime
            ∧ r.DepartureTime ≤ offer.DepartureTime + 30 * Minute
            ∧ r.NumPassengers ≤ offer.AvailableSeats))) := by
  have h := gormFirst_of_lookup hoffer
  simp only [FindPotentialMatches, h, gormFind]
  congr 1
  apply List.filter_congr
  intro r _
  simp only [Bool.decide_and, sub_eq_add_neg, Bool.and_assoc]

/-- A successful candidate search of an offer met no database error and found
the offer. -/
theorem FindPotentialMatches_ok (s : Store K) (f1 f2 : Option StoreError) (offerID : UUID)
    (cands : List (RideRequest K))
    (h : FindPotentialMatches s f1 f2 offerID = .ok cands) :
    f1 = none ∧ f2 = none := by
  simp only [FindPotentialMatches] at h
  split at h
  · simp at h
  · rename_i offer ho
    exact ⟨(gormFirst_ok _ _ _ _ ho).1, (gormFind_ok _ _ _ _ h).1⟩

end CandidateLists

section OfferLists

variable {K : Type} [LinearOrderedField K]

/-- The candidates of a request, as a filter of the offer table. -/
theorem FindPotentialOffers_filter (s : Store K) (requestID : UUID) (request : RideRequest K)
    (hrequest : FindRideRequestByID s none requestID = .ok (some request)) :
    FindPotentialOffers s none none requestID
      = .ok (s.rideOffers.filter (fun o =>
          decide (o.Status = StatusPending
            ∧ request.DepartureTime - 30 * Minute ≤ o.DepartureTime
            ∧ o.DepartureTime ≤ request.DepartureTime + 30 * Minute
            ∧ o.AvailableSeats ≥ request.NumPassengers)
          && GoFloat.le o.PricePerSeat
              (GoFloat.div request.MaxPrice (GoFloat.ofInt request.NumPassengers)))) := by
  have h := gormFirst_of_lookup hrequest
  simp only [FindPotentialOffers, h, gormFind]
  congr 1
  apply List.filter_congr
  intro o _
  simp only [Bool.decide_and, sub_eq_add_neg, Bool.and_assoc]

/-- A successful candidate search of a request met no database error. -/
theorem FindPotentialOffers_ok (s : Store K) (f1 f2 : Option StoreError) (requestID : UUID)
    (cands : List (RideOffer K))
    (h : FindPotentialOffers s f1 f2 requestID = .ok cands) :
    f1 = none ∧ f2 = none := by
  simp only [FindPotentialOffers] at h
  split at h
  · simp at h
  · rename_i request hr
    exact ⟨(gormFirst_ok _ _ _ _ hr).1, (gormFind_ok _ _ _ _ h).1⟩

/-- Every run of `findMatchesForOffer` either leaves the store as it is and
returns an error, or has found its offer and its candidates, runs the loop on
them and returns `nil`. -/
theorem findMatchesForOffer_cases (dist : DistanceFn K) (s : Store K) (newIDs : Nat → UUID)
    (f : DiscoveryFaults) (offerID : UUID) :
    ((findMatchesForOffer dist s newIDs f offerID).1 = s
        ∧ (findMatchesForOffer dist s newIDs f offerID).2 ≠ .ok) ∨
    ∃ offer cands, FindRideOfferByID s none offerID = .ok (some offer)
      ∧ FindPotentialMatches s none none offerID = .ok cands
      ∧ findMatchesForOffer dist s newIDs f offerID
        = (pairLoop dist newIDs f.candidate 0 s (cands.map (fun r => (offer, r))), .ok) := by
  unfold findMatchesForOffer
  split
  · left; simp
  · left; simp
  · rename_i offer ho
    split
    · left; simp
    · rename_i cands hc
      right
      obtain ⟨hf1, -⟩ := orNil_gormFirst_ok_some ho
      obtain ⟨hf2, hf3⟩ := FindPotentialMatches_ok s _ _ offerID cands hc
      rw [hf1] at ho
      rw [hf2, hf3] at hc
      exact ⟨offer, cands, ho, hc, by rw [offerLoop_eq_pairLoop]⟩

/-- Every run of `findMatchesForRequest` either leaves the store as it is and
returns an error, or has found its request and its candidates, runs the loop
on them and returns `nil`. -/
theorem findMatchesForRequest_cases (dist : DistanceFn K) (s : Store K) (newIDs : Nat → UUID)
    (f : DiscoveryFaults) (requestID : UUID) :
    ((findMatchesForRequest dist s newIDs f requestID).1 = s
        ∧ (findMatchesForRequest dist s newIDs f requestID).2 ≠ .ok) ∨
    ∃ request cands, FindRideRequestByID s none requestID = .ok (some request)
      ∧ FindPotentialOffers s none none requestID = .ok cands
      ∧ findMatchesForRequest dist s newIDs f requestID
        = (pairLoop dist newIDs f.candidate 0 s (cands.map (fun o => (o, request))), .ok) := by
  unfold findMatchesForRequest
  split
  · left; simp
  · left; simp
  · rename_i request hr
    split
    · left; simp
    · rename_i cands hc
      right
      obtain ⟨hf1, -⟩ := orNil_gormFirst_ok_some hr
      obtain ⟨hf2, hf3⟩ := FindPotentialOffers_ok s _ _ requestID cands hc
      rw [hf1] at hr
      rw [hf2, hf3] at hc
      exact ⟨request, cands, hr, hc, by rw [requestLoop_eq_pairLoop]⟩

/-- A run of `findMatchesForOffer` whose lookups meet no database error. -/
theorem findMatchesForOffer_run (dist : DistanceFn K) (s : Store K) (newIDs : Nat → UUID)
    (f : DiscoveryFaults) (offerID : UUID) (offer : RideOffer K) (cands : List (RideRequest K))
    (hf1 : f.findByID = none) (hf2 : f.potentialFirst = none) (hf3 : f.potentialFind = none)
    (ho : FindRideOfferByID s none offerID = .ok (some offer))
    (hc : FindPotentialMatches s none none offerID = .ok cands) :
    findMatchesForOffer dist s newIDs f offerID
      = (pairLoop dist newIDs f.candidate 0 s (cands.map (fun r => (offer, r))), .ok) := by
  simp only [findMatchesForOffer, hf1, hf2, hf3, ho, hc, offerLoop_eq_pairLoop]

/-- A run of `findMatchesForRequest` whose lookups meet no database error. -/
theorem findMatchesForRequest_run (dist : DistanceFn K) (s : Store K) (newIDs : Nat → UUID)
    (f : DiscoveryFaults) (requestID : UUID) (request : RideRequest K)
    (cands : List (RideOffer K))
    (hf1 : f.findByID = none) (hf2 : f.potentialFirst = none) (hf3 : f.potentialFind = none)
    (hr : FindRideRequestByID s none requestID = .ok (some request))
    (hc : FindPotentialOffers s none none requestID = .ok cands) :
    findMatchesForRequest dist s newIDs f requestID
      = (pairLoop dist newIDs f.candidate 0 s (cands.map (fun o => (o, request))), .ok) := by
  simp only [findMatchesForRequest, hf1, hf2, hf3, hr, hc, requestLoop_eq_pairLoop]

end OfferLists

section RowLookups

variable {K : Type}

theorem FindRideOfferByID_mem (s : Store K) (id : UUID) (o : RideOffer K)
    (h : FindRideOfferByID s none id = .ok (some o)) : o ∈ s.rideOffers ∧ o.ID = id := by
  have hf := (orNil_gormFirst_ok_some h).2
  exact ⟨List.mem_of_find?_eq_some hf, find?_key_eq RideOffer.ID hf⟩

theorem FindRideRequestByID_mem (s : Store K) (id : UUID) (r : RideRequest K)
    (h : FindRideRequestByID s none id = .ok (some r)) : r ∈ s.rideRequests ∧ r.ID = id := by
  have hf := (orNil_gormFirst_ok_some h).2
  exact ⟨List.mem_of_find?_eq_some hf, find?_key_eq RideRequest.ID hf⟩

theorem FindRideOfferByID_of_mem (s : Store K) (hnd : (s.rideOffers.map RideOffer.ID).Nodup)
    (o : RideOffer K) (ho : o ∈ s.rideOffers) :
    FindRideOfferByID s none o.ID = .ok (some o) := by
  rw [FindRideOfferByID_none, find?_eq_some_of_mem_nodup RideOffer.ID s.rideOffers hnd o ho]

theorem FindRideRequestByID_of_mem (s : Store K)
    (hnd : (s.rideRequests.map RideRequest.ID).Nodup)
    (r : RideRequest K) (hr : r ∈ s.rideRequests) :
    FindRideRequestByID s none r.ID = .ok (some r) := by
  rw [FindRideRequestByID_none,
    find?_eq_some_of_mem_nodup RideRequest.ID s.rideRequests hnd r hr]

/-- The candidates of an offer are rows of the request table. -/
theorem FindPotentialMatches_subset (s : Store K) (offerID : UUID)
    (cands : List (RideRequest K))
    (hc : FindPotentialMatches s none none offerID = .ok cands) :
    ∀ r ∈ cands, r ∈ s.rideRequests := by
  simp only [FindPotentialMatches] at hc
  split at hc
  · simp at hc
  · intro r hr
    rw [(gormFind_ok _ _ _ _ hc).2] at hr
    exact List.mem_of_mem_filter hr

/-- The candidates of an offer have pairwise different IDs when the request
table has. -/
theorem FindPotentialMatches_nodup (s : Store K) (offerID : UUID) (cands : List (RideRequest K))
    (hnd : (s.rideRequests.map RideRequest.ID).Nodup)
    (hc : FindPotentialMatches s none none offerID = .ok cands) :
    (cands.map RideRequest.ID).Nodup := by
  simp only [FindPotentialMatches] at hc
  split at hc
  · simp at hc
  · rw [(gormFind_ok _ _ _ _ hc).2]
    exact nodup_key_filter RideRequest.ID s.rideRequests _ hnd

end RowLookups

section WorkerFrame

variable {K : Type} [LinearOrderedField K]

/-- The candidates of a request are rows of the offer table. -/
theorem FindPotentialOffers_subset (s : Store K) (requestID : UUID)
    (cands : List (RideOffer K))
    (hc : FindPotentialOffers s none none requestID = .ok cands) :
    ∀ o ∈ cands, o ∈ s.rideOffers := by
  simp only [FindPotentialOffers] at hc
  split at hc
  · simp at hc
  · intro o ho
    rw [(gormFind_ok _ _ _ _ hc).2] at ho
    exact List.mem_of_mem_filter ho

/-- With unique keys, a loop over pairs of stored rows changes nothing but
statuses in the offer and request tables. -/
theorem pairLoop_clear_of_rows (dist : DistanceFn K) (newIDs : Nat → UUID)
    (faults : Nat → CandidateFaults) (ps : List (RideOffer K × RideRequest K))
    (i : Nat) (s : Store K) (hkeys : s.KeysUnique)
    (hrows : ∀ p ∈ ps, p.1 ∈ s.rideOffers ∧ p.2 ∈ s.rideRequests) :
    (pairLoop dist newIDs faults i s ps).rideOffers.map RideOffer.clearStatus
        = s.rideOffers.map RideOffer.clearStatus
      ∧ (pairLoop dist newIDs faults i s ps).rideRequests.map RideRequest.clearStatus
        = s.rideRequests.map RideRequest.clearStatus := by
  apply pairLoop_clear
  intro p hp
  obtain ⟨h1, h2⟩ := hrows p hp
  refine ⟨⟨List.mem_map_of_mem RideOffer.ID h1, ?_⟩, ⟨List.mem_map_of_mem RideRequest.ID h2, ?_⟩⟩
  · intro y hy hk
    rw [eq_of_nodup_key RideOffer.ID s.rideOffers hkeys.1 y p.1 hy h1 hk]
  · intro y hy hk
    rw [eq_of_nodup_key RideRequest.ID s.rideRequests hkeys.2.1 y p.2 hy h2 hk]

/-- The match table keeps unique keys through the loop: a pair is taken only
with a fresh ID. -/
theorem pairLoop_matches_nodup (dist : DistanceFn K) (newIDs : Nat → UUID)
    (faults : Nat → CandidateFaults) (ps : List (RideOffer K × RideRequest K)) :
    ∀ (i : Nat) (s : Store K), (s.rideMatches.map RideMatch.ID).Nodup →
      ((pairLoop dist newIDs faults i s ps).rideMatches.map RideMatch.ID).Nodup := by
  induction ps with
  | nil => intro i s h; exact h
  | cons p rest ih =>
    intro i s h
    obtain ⟨o, r⟩ := p
    simp only [pairLoop]
    split
    · rename_i hc
      apply ih
      rw [afterCandidate_rideMatches, List.map_append, List.nodup_append]
      refine ⟨h, by simp, ?_⟩
      intro a ha hb
      simp only [List.map_cons, List.map_nil, List.mem_singleton] at hb
      rw [hb] at ha
      exact hc.2.2 ha
    · exact ih _ _ h

/-- The loop over pairs of stored rows keeps the keys unique. -/
theorem pairLoop_keysUnique (dist : DistanceFn K) (newIDs : Nat → UUID)
    (faults : Nat → CandidateFaults) (ps : List (RideOffer K × RideRequest K))
    (i : Nat) (s : Store K) (hkeys : s.KeysUnique)
    (hrows : ∀ p ∈ ps, p.1 ∈ s.rideOffers ∧ p.2 ∈ s.rideRequests) :
    (pairLoop dist newIDs faults i s ps).KeysUnique := by
  obtain ⟨h1, h2⟩ := pairLoop_clear_of_rows dist newIDs faults ps i s hkeys hrows
  refine ⟨?_, ?_, pairLoop_matches_nodup dist newIDs faults ps i s hkeys.2.2⟩
  · rw [map_ID_of_map_clear_offers _ _ h1]
    exact hkeys.1
  · rw [map_ID_of_map_clear_requests _ _ h2]
    exact hkeys.2.1

/-- Whatever its outcome, a run of `findMatchesForOffer` is the loop over some
pairs of stored rows. -/
theorem findMatchesForOffer_pairs (dist : DistanceFn K) (s : Store K) (newIDs : Nat → UUID)
    (f : DiscoveryFaults) (offerID : UUID) :
    ∃ ps, (findMatchesForOffer dist s newIDs f offerID).1
        = pairLoop dist newIDs f.candidate 0 s ps
      ∧ ∀ p ∈ ps, p.1 ∈ s.rideOffers ∧ p.2 ∈ s.rideRequests := by
  rcases findMatchesForOffer_cases dist s newIDs f offerID with h | ⟨offer, cands, ho, hc, hrun⟩
  · exact ⟨[], h.1, by simp⟩
  · refine ⟨cands.map (fun r => (offer, r)), by rw [hrun], ?_⟩
    intro p hp
    rw [List.mem_map] at hp
    obtain ⟨r, hr, rfl⟩ := hp
    exact ⟨(FindRideOfferByID_mem s offerID offer ho).1,
      FindPotentialMatches_subset s offerID cands hc r hr⟩

/-- Whatever its outcome, a run of `findMatchesForRequest` is the loop over
some pairs of stored rows. -/
theorem findMatchesForRequest_pairs (dist : DistanceFn K) (s : Store K) (newIDs : Nat → UUID)
    (f : DiscoveryFaults) (requestID : UUID) :
    ∃ ps, (findMatchesForRequest dist s newIDs f requestID).1
        = pairLoop dist newIDs f.candidate 0 s ps
      ∧ ∀ p ∈ ps, p.1 ∈ s.rideOffers ∧ p.2 ∈ s.rideRequests := by
  rcases findMatchesForRequest_cases dist s newIDs f requestID with
    h | ⟨request, cands, hr, hc, hrun⟩
  · exact ⟨[], h.1, by simp⟩
  · refine ⟨cands.map (fun o => (o, request)), by rw [hrun], ?_⟩
    intro p hp
    rw [List.mem_map] at hp
    obtain ⟨o, ho, rfl⟩ := hp
    exact ⟨FindPotentialOffers_subset s requestID cands hc o ho,
      (FindRideRequestByID_mem s requestID request hr).1⟩

end WorkerFrame

section CreateFrame

variable {K : Type}

theorem map_seats_of_map_clear (rows rows1 : List (RideOffer K))
    (h : rows1.map RideOffer.clearStatus = rows.map RideOffer.clearStatus) :
    rows1.map RideOffer.AvailableSeats = rows.map RideOffer.AvailableSeats := by
  have := congrArg (List.map RideOffer.AvailableSeats) h
  simpa [List.map_map, Function.comp, RideOffer.clearStatus] using this

end CreateFrame

section CreateOfferFrame

variable {K : Type} [LinearOrderedField K]

/-- A call of `CreateRideOffer` leaves the store as it is or appends one offer
with a new ID. -/
theorem CreateRideOffer_cases (s : Store K) (now : Time) (newID : UUID) (f : CreateOfferFaults)
    (driverID : UUID) (startLat startLng : GoFloat K) (startAddress : String)
    (endLat endLng : GoFloat K) (endAddress : String) (departureTime : Time)
    (availableSeats : Int) (pricePerSeat allowedDetourKm : GoFloat K) :
    (CreateRideOffer s now newID f driverID startLat startLng startAddress endLat endLng
        endAddress departureTime availableSeats pricePerSeat allowedDetourKm).1 = s
    ∨ ∃ o, o.ID ∉ s.rideOffers.map RideOffer.ID
      ∧ (CreateRideOffer s now newID f driverID startLat startLng startAddress endLat endLng
          endAddress departureTime availableSeats pricePerSeat allowedDetourKm).1
        = { s with rideOffers := s.rideOffers ++ [o] } := by
  unfold CreateRideOffer
  split
  · left; rfl
  · left; rfl
  · split
    · left; rfl
    · split
      · left; rfl
      · dsimp only
        split
        · left; rfl
        · rename_i s1 o h
          right
          simp only [Repo.CreateRideOffer] at h
          split at h
          · simp at h
          · rename_i rows hrows
            simp only [Except.ok.injEq, Prod.mk.injEq] at h
            obtain ⟨-, hfresh, hr⟩ := gormCreate_ok _ _ _ _ _ hrows
            refine ⟨o, ?_, ?_⟩
            · rw [← h.2]
              exact hfresh
            · rw [← h.1, hr, h.2]

end CreateOfferFrame

section CreateRequestFrame

variable {K : Type}

/-- A call of `CreateRideRequest` leaves the store as it is or appends one
request with a new ID. -/
theorem CreateRideRequest_cases (s : Store K) (now : Time) (newID : UUID)
    (f : CreateRequestFaults) (passengerID : UUID) (startLat startLng : GoFloat K)
    (startAddress : String) (endLat endLng : GoFloat K) (endAddress : String)
    (departureTime : Time) (numPassengers : Int) (maxPrice : GoFloat K) :
    (CreateRideRequest s now newID f passengerID startLat startLng startAddress endLat endLng
        endAddress departureTime numPassengers maxPrice).1 = s
    ∨ ∃ r, r.ID ∉ s.rideRequests.map RideRequest.ID
      ∧ (CreateRideRequest s now newID f passengerID startLat startLng startAddress endLat
          endLng endAddress departureTime numPassengers maxPrice).1
        = { s with rideRequests := s.rideRequests ++ [r] } := by
  unfold CreateRideRequest
  split
  · left; rfl
  · left; rfl
  · split
    · left; rfl
    · split
      · left; rfl
      · dsimp only
        split
        · left; rfl
        · rename_i s1 r h
          right
          simp only [Repo.CreateRideRequest] at h
          split at h
          · simp at h
          · rename_i rows hrows
            simp only [Except.ok.injEq, Prod.mk.injEq] at h
            obtain ⟨-, hfresh, hr⟩ := gormCreate_ok _ _ _ _ _ hrows
            refine ⟨r, ?_, ?_⟩
            · rw [← h.2]
              exact hfresh
            · rw [← h.1, hr, h.2]

end CreateRequestFrame

section ConfirmFrame

variable {K : Type}

theorem FindRideMatchByID_congr (s s1 : Store K) (h : s1.rideMatches = s.rideMatches)
    (id : UUID) : FindRideMatchByID s1 none id = FindRideMatchByID s none id := by
  unfold FindRideMatchByID
  rw [h]

theorem FindRideOfferByID_congr (s s1 : Store K) (h : s1.rideOffers = s.rideOffers)
    (id : UUID) : FindRideOfferByID s1 none id = FindRideOfferByID s none id := by
  unfold FindRideOfferByID
  rw [h]

theorem FindRideRequestByID_congr (s s1 : Store K) (h : s1.rideRequests = s.rideRequests)
    (id : UUID) : FindRideRequestByID s1 none id = FindRideRequestByID s none id := by
  unfold FindRideRequestByID
  rw [h]

/-- Whatever its outcome, a call of `ConfirmMatch` leaves the store as it is,
or has found a matched match, its offer and its request, and each table is
either as before or that of `confirmedStore`. -/
theorem ConfirmMatch_tables (s : Store K) (f : ConfirmFaults) (matchID userID : UUID)
    (isDriver : Bool) :
    (ConfirmMatch s f matchID userID isDriver).1 = s ∨
    ∃ m o r, FindRideMatchByID s none matchID = .ok (some m) ∧ m.Status = StatusMatched ∧
      FindRideOfferByID s none m.RideOfferID = .ok (some o) ∧
      FindRideRequestByID s none m.RideRequestID = .ok (some r) ∧
      ((ConfirmMatch s f matchID userID isDriver).1.rideMatches = s.rideMatches
        ∨ (ConfirmMatch s f matchID userID isDriver).1.rideMatches
          = (confirmedStore s m o r).rideMatches) ∧
      ((ConfirmMatch s f matchID userID isDriver).1.rideOffers = s.rideOffers
        ∨ (ConfirmMatch s f matchID userID isDriver).1.rideOffers
          = (confirmedStore s m o r).rideOffers) ∧
      ((ConfirmMatch s f matchID userID isDriver).1.rideRequests = s.rideRequests
        ∨ (ConfirmMatch s f matchID userID isDriver).1.rideRequests
          = (confirmedStore s m o r).rideRequests) ∧
      (ConfirmMatch s f matchID userID isDriver).1.users = s.users ∧
      (ConfirmMatch s f matchID userID isDriver).1.driverProfiles = s.driverProfiles := by
  rcases ConfirmMatch_cases s f matchID userID isDriver with ⟨h, -⟩ |
    ⟨m, o, r, hf1, hf2, hf3, hf4, hm, hst, ho, hr, hauth⟩
  · exact Or.inl h
  · right
    refine ⟨m, o, r, hm, hst, ho, hr, ?_⟩
    rw [ConfirmMatch_writes s f matchID userID isDriver m o r hf1 hf2 hf3 hf4 hm hst ho hr hauth]
    cases f.updateMatch with
    | some e => exact ⟨Or.inl rfl, Or.inl rfl, Or.inl rfl, rfl, rfl⟩
    | none =>
      cases f.updateOffer with
      | some e => exact ⟨Or.inr rfl, Or.inl rfl, Or.inl rfl, rfl, rfl⟩
      | none =>
        cases f.updateRequest with
        | some e => exact ⟨Or.inr rfl, Or.inr rfl, Or.inl rfl, rfl, rfl⟩
        | none => exact ⟨Or.inr rfl, Or.inr rfl, Or.inr rfl, rfl, rfl⟩

/-- A stored match that is not `matched` is stored unchanged after any call of
`ConfirmMatch`. -/
theorem ConfirmMatch_keeps_match (s : Store K) (f : ConfirmFaults) (matchID userID : UUID)
    (isDriver : Bool) (id : UUID) (x : RideMatch K)
    (hx : FindRideMatchByID s none id = .ok (some x)) (hst : x.Status ≠ StatusMatched) :
    FindRideMatchByID (ConfirmMatch s f matchID userID isDriver).1 none id = .ok (some x) := by
  rcases ConfirmMatch_tables s f matchID userID isDriver with h |
    ⟨m, o, r, hm, hmst, -, -, h1, -, -, -, -⟩
  · rw [h]
    exact hx
  · rcases h1 with h1 | h1
    · rw [FindRideMatchByID_congr s _ h1]
      exact hx
    · rw [FindRideMatchByID_congr (confirmedStore s m o r) _ h1]
      have hne : id ≠ m.ID := by
        intro hid
        have hmid : m.ID = matchID :=
          find?_key_eq RideMatch.ID (orNil_gormFirst_ok_some hm).2
        rw [hid, hmid, hm] at hx
        simp only [Except.ok.injEq, Option.some.injEq] at hx
        rw [hx] at hmst
        exact hst hmst
      rw [confirmedStore_findMatch_other s m o r id hne]
      exact hx

/-- A stored offer other than that of the match under confirmation is stored
unchanged after any call of `ConfirmMatch`. -/
theorem ConfirmMatch_keeps_offer (s : Store K) (f : ConfirmFaults) (matchID userID : UUID)
    (isDriver : Bool) (id : UUID)
    (hid : ∀ m, FindRideMatchByID s none matchID = .ok (some m) → m.RideOfferID ≠ id) :
    FindRideOfferByID (ConfirmMatch s f matchID userID isDriver).1 none id
      = FindRideOfferByID s none id := by
  rcases ConfirmMatch_tables s f matchID userID isDriver with h |
    ⟨m, o, r, hm, -, ho, -, -, h2, -, -, -⟩
  · rw [h]
  · rcases h2 with h2 | h2
    · exact FindRideOfferByID_congr s _ h2 id
    · rw [FindRideOfferByID_congr (confirmedStore s m o r) _ h2]
      have hoid : o.ID = m.RideOfferID :=
        find?_key_eq RideOffer.ID (orNil_gormFirst_ok_some ho).2
      exact confirmedStore_findOffer_other s m o r id
        (by rw [hoid]; exact fun h => hid m hm h.symm)

/-- A stored request other than that of the match under confirmation is stored
unchanged after any call of `ConfirmMatch`. -/
theorem ConfirmMatch_keeps_request (s : Store K) (f : ConfirmFaults) (matchID userID : UUID)
    (isDriver : Bool) (id : UUID)
    (hid : ∀ m, FindRideMatchByID s none matchID = .ok (some m) → m.RideRequestID ≠ id) :
    FindRideRequestByID (ConfirmMatch s f matchID userID isDriver).1 none id
      = FindRideRequestByID s none id := by
  rcases ConfirmMatch_tables s f matchID userID isDriver with h |
    ⟨m, o, r, hm, -, -, hr, -, -, h3, -, -⟩
  · rw [h]
  · rcases h3 with h3 | h3
    · exact FindRideRequestByID_congr s _ h3 id
    · rw [FindRideRequestByID_congr (confirmedStore s m o r) _ h3]
      have hrid : r.ID = m.RideRequestID :=
        find?_key_eq RideRequest.ID (orNil_gormFirst_ok_some hr).2
      exact confirmedStore_findRequest_other s m o r id
        (by rw [hrid]; exact fun h => hid m hm h.symm)

end ConfirmFrame

section DiscoveryMatchFrame

variable {K : Type} [LinearOrderedField K]

/-- A match stored before the loop is stored unchanged after it. -/
theorem pairLoop_keeps_match (dist : DistanceFn K) (newIDs : Nat → UUID)
    (faults : Nat → CandidateFaults) (ps : List (RideOffer K × RideRequest K)) (i : Nat)
    (s : Store K) (id : UUID) (x : RideMatch K)
    (hx : FindRideMatchByID s none id = .ok (some x)) :
    FindRideMatchByID (pairLoop dist newIDs faults i s ps) none id = .ok (some x) := by
  obtain ⟨news, h⟩ := pairLoop_rideMatches_append dist newIDs faults ps i s
  rw [FindRideMatchByID_none] at hx ⊢
  simp only [Except.ok.injEq] at hx
  rw [h, List.find?_append, hx]
  rfl

end DiscoveryMatchFrame

section ClearRows

variable {K : Type}

theorem row_of_map_clear_offers (rows rows1 : List (RideOffer K))
    (h : rows1.map RideOffer.clearStatus = rows.map RideOffer.clearStatus)
    (x : RideOffer K) (hx : x ∈ rows1) : ∃ y ∈ rows, y.clearStatus = x.clearStatus := by
  have hmem : x.clearStatus ∈ rows1.map RideOffer.clearStatus := List.mem_map_of_mem _ hx
  rw [h, List.mem_map] at hmem
  exact hmem

theorem row_of_map_clear_requests (rows rows1 : List (RideRequest K))
    (h : rows1.map RideRequest.clearStatus = rows.map RideRequest.clearStatus)
    (x : RideRequest K) (hx : x ∈ rows1) : ∃ y ∈ rows, y.clearStatus = x.clearStatus := by
  have hmem : x.clearStatus ∈ rows1.map RideRequest.clearStatus := List.mem_map_of_mem _ hx
  rw [h, List.mem_map] at hmem
  exact hmem

end ClearRows

section RerunLemmas

variable {K : Type} [LinearOrderedField K]

/-- A request that is stored after the loop and is not `matched` was stored,
as the same row, before the loop. -/
theorem pairLoop_unmatched_request_old (dist : DistanceFn K) (newIDs : Nat → UUID)
    (faults : Nat → CandidateFaults) (ps : List (RideOffer K × RideRequest K)) (i : Nat)
    (s : Store K) (hkeys : s.KeysUnique)
    (hrows : ∀ p ∈ ps, p.1 ∈ s.rideOffers ∧ p.2 ∈ s.rideRequests)
    (r : RideRequest K) (hr : r ∈ (pairLoop dist newIDs faults i s ps).rideRequests)
    (hst : r.Status ≠ StatusMatched) : r ∈ s.rideRequests := by
  have hkeys1 := pairLoop_keysUnique dist newIDs faults ps i s hkeys hrows
  obtain ⟨-, hclear⟩ := pairLoop_clear_of_rows dist newIDs faults ps i s hkeys hrows
  obtain ⟨y, hy, hyr⟩ := row_of_map_clear_requests _ _ hclear r hr
  have hid : y.ID = r.ID := by
    have h := congrArg RideRequest.ID hyr
    exact h
  have h1 := FindRideRequestByID_of_mem _ hkeys1.2.1 r hr
  have h0 := FindRideRequestByID_of_mem s hkeys.2.1 y hy
  rw [hid] at h0
  rcases pairLoop_request_same_or_matched dist newIDs faults r.ID ps i s with h | ⟨x, hx, hxst⟩
  · rw [h1, h0] at h
    simp only [Except.ok.injEq, Option.some.injEq] at h
    rw [h]
    exact hy
  · rw [h1] at hx
    simp only [Except.ok.injEq, Option.some.injEq] at hx
    rw [← hx] at hxst
    exact absurd hxst hst

/-- An offer that is stored after the loop and is not `matched` was stored, as
the same row, before the loop. -/
theorem pairLoop_unmatched_offer_old (dist : DistanceFn K) (newIDs : Nat → UUID)
    (faults : Nat → CandidateFaults) (ps : List (RideOffer K × RideRequest K)) (i : Nat)
    (s : Store K) (hkeys : s.KeysUnique)
    (hrows : ∀ p ∈ ps, p.1 ∈ s.rideOffers ∧ p.2 ∈ s.rideRequests)
    (o : RideOffer K) (ho : o ∈ (pairLoop dist newIDs faults i s ps).rideOffers)
    (hst : o.Status ≠ StatusMatched) : o ∈ s.rideOffers := by
  have hkeys1 := pairLoop_keysUnique dist newIDs faults ps i s hkeys hrows
  obtain ⟨hclear, -⟩ := pairLoop_clear_of_rows dist newIDs faults ps i s hkeys hrows
  obtain ⟨y, hy, hyo⟩ := row_of_map_clear_offers _ _ hclear o ho
  have hid : y.ID = o.ID := by
    have h := congrArg RideOffer.ID hyo
    exact h
  have h1 := FindRideOfferByID_of_mem _ hkeys1.1 o ho
  have h0 := FindRideOfferByID_of_mem s hkeys.1 y hy
  rw [hid] at h0
  rcases pairLoop_offer_same_or_matched dist newIDs faults o.ID ps i s with h | ⟨x, hx, hxst⟩
  · rw [h1, h0] at h
    simp only [Except.ok.injEq, Option.some.injEq] at h
    rw [h]
    exact hy
  · rw [h1] at hx
    simp only [Except.ok.injEq, Option.some.injEq] at hx
    rw [← hx] at hxst
    exact absurd hxst hst

/-- The offer found under an ID after the loop is, up to its status, the
offer stored under that ID before. -/
theorem pairLoop_offer_clear_old (dist : DistanceFn K) (newIDs : Nat → UUID)
    (faults : Nat → CandidateFaults) (ps : List (RideOffer K × RideRequest K)) (i : Nat)
    (s : Store K) (hkeys : s.KeysUnique)
    (hrows : ∀ p ∈ ps, p.1 ∈ s.rideOffers ∧ p.2 ∈ s.rideRequests)
    (id : UUID) (o o1 : RideOffer K) (ho : FindRideOfferByID s none id = .ok (some o))
    (ho1 : FindRideOfferByID (pairLoop dist newIDs faults i s ps) none id = .ok (some o1)) :
    o1.clearStatus = o.clearStatus := by
  obtain ⟨hclear, -⟩ := pairLoop_clear_of_rows dist newIDs faults ps i s hkeys hrows
  obtain ⟨hm1, hid1⟩ := FindRideOfferByID_mem _ id o1 ho1
  obtain ⟨hm, hid⟩ := FindRideOfferByID_mem s id o ho
  obtain ⟨y, hy, hyo⟩ := row_of_map_clear_offers _ _ hclear o1 hm1
  have hyid : y.ID = o.ID := (congrArg RideOffer.ID hyo).trans (hid1.trans hid.symm)
  rw [← hyo, eq_of_nodup_key RideOffer.ID s.rideOffers hkeys.1 y o hy hm hyid]

/-- The request found under an ID after the loop is, up to its status, the
request stored under that ID before. -/
theorem pairLoop_request_clear_old (dist : DistanceFn K) (newIDs : Nat → UUID)
    (faults : Nat → CandidateFaults) (ps : List (RideOffer K × RideRequest K)) (i : Nat)
    (s : Store K) (hkeys : s.KeysUnique)
    (hrows : ∀ p ∈ ps, p.1 ∈ s.rideOffers ∧ p.2 ∈ s.rideRequests)
    (id : UUID) (r r1 : RideRequest K) (hr : FindRideRequestByID s none id = .ok (some r))
    (hr1 : FindRideRequestByID (pairLoop dist newIDs faults i s ps) none id = .ok (some r1)) :
    r1.clearStatus = r.clearStatus := by
  obtain ⟨-, hclear⟩ := pairLoop_clear_of_rows dist newIDs faults ps i s hkeys hrows
  obtain ⟨hm1, hid1⟩ := FindRideRequestByID_mem _ id r1 hr1
  obtain ⟨hm, hid⟩ := FindRideRequestByID_mem s id r hr
  obtain ⟨y, hy, hyr⟩ := row_of_map_clear_requests _ _ hclear r1 hm1
  have hyid : y.ID = r.ID := (congrArg RideRequest.ID hyr).trans (hid1.trans hid.symm)
  rw [← hyr, eq_of_nodup_key RideRequest.ID s.rideRequests hkeys.2.1 y r hy hm hyid]

theorem calculateMatchScore_of_clear (dist : DistanceFn K) (o o1 : RideOffer K)
    (r r1 : RideRequest K) (ho : o1.clearStatus = o.clearStatus)
    (hr : r1.clearStatus = r.clearStatus) :
    calculateMatchScore dist o1 r1 = calculateMatchScore dist o r := by
  rw [← calculateMatchScore_clearStatus dist o1 r1, ho, hr, calculateMatchScore_clearStatus]

end RerunLemmas

section KeyLists

end KeyLists

section ConfirmedKeys

variable {K : Type}

end ConfirmedKeys

section ReachableKeys

variable {K : Type} [LinearOrderedField K]

end ReachableKeys

/-! ### The range of the score -/

section ScoreRange

variable {K : Type} [LinearOrderedField K]

theorem priceCompat_cases (offer : RideOffer K) (request : RideRequest K) :
    priceCompat offer request = GoFloat.fin 0 ∨ priceCompat offer request = GoFloat.fin 1 := by
  unfold priceCompat
  split
  · exact Or.inl rfl
  · exact Or.inr rfl

/-- With a finite nonzero detour bound and finite non-negative distances, the
score is a finite number between 0 and 1, whatever the seat counts, prices and
departure times are. -/
theorem calculateMatchScore_unit_interval (dist : DistanceFn K) (offer : RideOffer K)
    (request : RideRequest K) (a pd dd : K)
    (ha : offer.AllowedDetourKm = GoFloat.fin a) (hne : a ≠ 0)
    (hpd : pickupDistance dist offer request = GoFloat.fin pd) (hpd0 : 0 ≤ pd)
    (hdd : dropoffDistance dist offer request = GoFloat.fin dd) (hdd0 : 0 ≤ dd) :
    ∃ sc : K, calculateMatchScore dist offer request = GoFloat.fin sc ∧ 0 ≤ sc ∧ sc ≤ 1 := by
  unfold calculateMatchScore
  split
  · exact ⟨0, rfl, le_refl _, zero_le_one⟩
  · split
    · exact ⟨0, rfl, le_refl _, zero_le_one⟩
    · rename_i hrej
      simp only [hpd, hdd, ha, GoFloat.gt, GoFloat.lt, Bool.or_eq_true, decide_eq_true_eq,
        not_or, not_lt] at hrej
      obtain ⟨h1, h2⟩ := hrej
      have hpos : 0 < a := lt_of_le_of_ne (le_trans hpd0 h1) (Ne.symm hne)
      rw [timeCompat_eq, locationCompat_eq dist offer request a pd dd ha hpos hpd hdd]
      have ht0 : (0 : K) ≤ Max.max 0
          (1 - |((offer.DepartureTime - request.DepartureTime : Int) : K)| / 60000000000 / 30) :=
        le_max_left _ _
      have ht1 : Max.max 0
          (1 - |((offer.DepartureTime - request.DepartureTime : Int) : K)| / 60000000000 / 30)
            ≤ (1 : K) := by
        apply max_le zero_le_one
        have : (0 : K) ≤ |((offer.DepartureTime - request.DepartureTime : Int) : K)|
            / 60000000000 / 30 := by positivity
        linarith
      have hl0 : (0 : K) ≤ Max.max 0 (1 - (pd + dd) / (2 * a)) := le_max_left _ _
      have hl1 : Max.max 0 (1 - (pd + dd) / (2 * a)) ≤ (1 : K) := by
        apply max_le zero_le_one
        have : (0 : K) ≤ (pd + dd) / (2 * a) := by positivity
        linarith
      rcases priceCompat_cases offer request with hp | hp
      · rw [hp]
        simp only [priceWeight, timeWeight, locationWeight, GoFloat.mul, GoFloat.add]
        refine ⟨_, rfl, ?_, ?_⟩
        · nlinarith
        · nlinarith
      · rw [hp]
        simp only [priceWeight, timeWeight, locationWeight, GoFloat.mul, GoFloat.add]
        refine ⟨_, rfl, ?_, ?_⟩
        · nlinarith
        · nlinarith

end ScoreRange

section PairIndex

variable {K : Type}

theorem getElem?_map_offer_pair (offer : RideOffer K) (cands : List (RideRequest K)) (k : Nat)
    (o : RideOffer K) (r : RideRequest K)
    (h : (cands.map (fun r => (offer, r)))[k]? = some (o, r)) :
    o = offer ∧ cands[k]? = some r := by
  rw [List.getElem?_map] at h
  cases hk : cands[k]? with
  | none => simp [hk] at h
  | some x =>
    simp only [hk, Option.map_some', Option.some.injEq, Prod.mk.injEq] at h
    exact ⟨h.1.symm, by rw [h.2]⟩

theorem getElem?_map_request_pair (request : RideRequest K) (cands : List (RideOffer K))
    (k : Nat) (o : RideOffer K) (r : RideRequest K)
    (h : (cands.map (fun o => (o, request)))[k]? = some (o, r)) :
    r = request ∧ cands[k]? = some o := by
  rw [List.getElem?_map] at h
  cases hk : cands[k]? with
  | none => simp [hk] at h
  | some x =>
    simp only [hk, Option.map_some', Option.some.injEq, Prod.mk.injEq] at h
    exact ⟨h.2.symm, by rw [h.1]⟩

theorem mem_of_getElem?_eq_some {α : Type} (l : List α) (k : Nat) (a : α)
    (h : l[k]? = some a) : a ∈ l := by
  rcases List.getElem?_eq_some.mp h with ⟨hk, rfl⟩
  exact List.getElem_mem hk

end PairIndex

section Threshold

variable {K : Type} [LinearOrderedField K]

theorem not_gt_threshold_self :
    GoFloat.gt (GoFloat.fin (6 / 10 : K)) (matchThreshold : GoFloat K) = false := by
  simp [GoFloat.gt, GoFloat.lt, matchThreshold]

/-- C13. A discovery worker creates a match only for a candidate whose score
is strictly greater than 0.6: every match stored after a run of
`findMatchesForOffer` (resp. `findMatchesForRequest`) was stored before, or
pairs the run's offer (request) with one of its candidates whose score is
`> 0.6`. A candidate whose score is exactly 0.6 gets no match, and its row,
status included, is stored after the run as it was before. The store has
unique primary keys. -/
theorem discovery_threshold_strict (dist : DistanceFn K) (s : Store K) (hkeys : s.KeysUnique)
    (newIDs : Nat → UUID) (f : DiscoveryFaults) :
    (∀ offerID, ∀ m ∈ (findMatchesForOffer dist s newIDs f offerID).1.rideMatches,
      m ∈ s.rideMatches ∨
      ∃ offer cands request, FindRideOfferByID s none offerID = .ok (some offer)
        ∧ FindPotentialMatches s none none offerID = .ok cands ∧ request ∈ cands
        ∧ m.RideOfferID = offer.ID ∧ m.RideRequestID = request.ID
        ∧ GoFloat.gt (calculateMatchScore dist offer request) (GoFloat.fin (6 / 10)) = true)
    ∧ (∀ offerID offer cands request, FindRideOfferByID s none offerID = .ok (some offer) →
      FindPotentialMatches s none none offerID = .ok cands → request ∈ cands →
      calculateMatchScore dist offer request = GoFloat.fin (6 / 10) →
      (∀ m ∈ (findMatchesForOffer dist s newIDs f offerID).1.rideMatches,
        m.RideOfferID = offer.ID → m.RideRequestID = request.ID → m ∈ s.rideMatches)
      ∧ FindRideRequestByID (findMatchesForOffer dist s newIDs f offerID).1 none request.ID
          = .ok (some request))
    ∧ (∀ requestID, ∀ m ∈ (findMatchesForRequest dist s newIDs f requestID).1.rideMatches,
      m ∈ s.rideMatches ∨
      ∃ request cands offer, FindRideRequestByID s none requestID = .ok (some request)
        ∧ FindPotentialOffers s none none requestID = .ok cands ∧ offer ∈ cands
        ∧ m.RideOfferID = offer.ID ∧ m.RideRequestID = request.ID
        ∧ GoFloat.gt (calculateMatchScore dist offer request) (GoFloat.fin (6 / 10)) = true)
    ∧ (∀ requestID request cands offer,
      FindRideRequestByID s none requestID = .ok (some request) →
      FindPotentialOffers s none none requestID = .ok cands → offer ∈ cands →
      calculateMatchScore dist offer request = GoFloat.fin (6 / 10) →
      (∀ m ∈ (findMatchesForRequest dist s newIDs f requestID).1.rideMatches,
        m.RideOfferID = offer.ID → m.RideRequestID = request.ID → m ∈ s.rideMatches)
      ∧ FindRideOfferByID (findMatchesForRequest dist s newIDs f requestID).1 none offer.ID
          = .ok (some offer)) := by
  refine ⟨?_, ?_, ?_, ?_⟩
  · intro offerID m hm
    rcases findMatchesForOffer_cases dist s newIDs f offerID with
      h | ⟨offer, cands, ho, hc, hrun⟩
    · rw [h.1] at hm
      exact Or.inl hm
    · rw [hrun] at hm
      rcases pairLoop_rideMatches_only dist newIDs f.candidate _ 0 s m hm with
        hold | ⟨k, o, r, hk, hgt, -, hmeq⟩
      · exact Or.inl hold
      · obtain ⟨rfl, hk2⟩ := getElem?_map_offer_pair offer cands k o r hk
        exact Or.inr ⟨o, cands, r, ho, hc, mem_of_getElem?_eq_some cands k r hk2,
          by rw [hmeq]; rfl, by rw [hmeq]; rfl, hgt⟩
  · intro offerID offer cands request ho hc hreq hscore
    have hsub := FindPotentialMatches_subset s offerID cands hc
    have hrow := hsub request hreq
    rcases findMatchesForOffer_cases dist s newIDs f offerID with
      h | ⟨offer2, cands2, ho2, hc2, hrun⟩
    · rw [h.1]
      exact ⟨fun m hm _ _ => hm, FindRideRequestByID_of_mem s hkeys.2.1 request hrow⟩
    · rw [ho] at ho2
      rw [hc] at hc2
      simp only [Except.ok.injEq, Option.some.injEq] at ho2 hc2
      subst ho2 hc2
      rw [hrun]
      have hno : ∀ (k : Nat) (o : RideOffer K) (r : RideRequest K),
          (cands.map (fun r => (offer, r)))[k]? = some (o, r) →
          r.ID = request.ID →
          GoFloat.gt (calculateMatchScore dist o r) matchThreshold = false := by
        intro k o r hk hid
        obtain ⟨rfl, hk2⟩ := getElem?_map_offer_pair offer cands k o r hk
        have hr := hsub r (mem_of_getElem?_eq_some cands k r hk2)
        rw [eq_of_nodup_key RideRequest.ID s.rideRequests hkeys.2.1 r request hr hrow hid,
          hscore]
        exact not_gt_threshold_self
      constructor
      · intro m hm _ hm2
        rcases pairLoop_rideMatches_only dist newIDs f.candidate _ 0 s m hm with
          hold | ⟨k, o, r, hk, hgt, -, hmeq⟩
        · exact hold
        · have hid : r.ID = request.ID := by rw [← hm2, hmeq]; rfl
          rw [hno k o r hk hid] at hgt
          exact absurd hgt (by simp)
      · rw [pairLoop_findRequest_unchanged dist newIDs f.candidate request.ID _ 0 s]
        · exact FindRideRequestByID_of_mem s hkeys.2.1 request hrow
        · intro k o r hk hid hcon
          rw [hno k o r hk hid] at hcon
          exact absurd hcon.1 (by simp)
  · intro requestID m hm
    rcases findMatchesForRequest_cases dist s newIDs f requestID with
      h | ⟨request, cands, hr, hc, hrun⟩
    · rw [h.1] at hm
      exact Or.inl hm
    · rw [hrun] at hm
      rcases pairLoop_rideMatches_only dist newIDs f.candidate _ 0 s m hm with
        hold | ⟨k, o, r, hk, hgt, -, hmeq⟩
      · exact Or.inl hold
      · obtain ⟨rfl, hk2⟩ := getElem?_map_request_pair request cands k o r hk
        exact Or.inr ⟨r, cands, o, hr, hc, mem_of_getElem?_eq_some cands k o hk2,
          by rw [hmeq]; rfl, by rw [hmeq]; rfl, hgt⟩
  · intro requestID request cands offer hr hc hoff hscore
    have hsub := FindPotentialOffers_subset s requestID cands hc
    have hrow := hsub offer hoff
    rcases findMatchesForRequest_cases dist s newIDs f requestID with
      h | ⟨request2, cands2, hr2, hc2, hrun⟩
    · rw [h.1]
      exact ⟨fun m hm _ _ => hm, FindRideOfferByID_of_mem s hkeys.1 offer hrow⟩
    · rw [hr] at hr2
      rw [hc] at hc2
      simp only [Except.ok.injEq, Option.some.injEq] at hr2 hc2
      subst hr2 hc2
      rw [hrun]
      have hno : ∀ (k : Nat) (o : RideOffer K) (r : RideRequest K),
          (cands.map (fun o => (o, request)))[k]? = some (o, r) →
          o.ID = offer.ID →
          GoFloat.gt (calculateMatchScore dist o r) matchThreshold = false := by
        intro k o r hk hid
        obtain ⟨rfl, hk2⟩ := getElem?_map_request_pair request cands k o r hk
        have ho := hsub o (mem_of_getElem?_eq_some cands k o hk2)
        rw [eq_of_nodup_key RideOffer.ID s.rideOffers hkeys.1 o offer ho hrow hid, hscore]
        exact not_gt_threshold_self
      constructor
      · intro m hm hm1 _
        rcases pairLoop_rideMatches_only dist newIDs f.candidate _ 0 s m hm with
          hold | ⟨k, o, r, hk, hgt, -, hmeq⟩
        · exact hold
        · have hid : o.ID = offer.ID := by rw [← hm1, hmeq]; rfl
          rw [hno k o r hk hid] at hgt
          exact absurd hgt (by simp)
      · rw [pairLoop_findOffer_unchanged dist newIDs f.candidate offer.ID _ 0 s]
        · exact FindRideOfferByID_of_mem s hkeys.1 offer hrow
        · intro k o r hk hid hcon
          rw [hno k o r hk hid] at hcon
          exact absurd hcon.1 (by simp)

end Threshold

section ThresholdWitness

theorem boundary_score :
    calculateMatchScore gridDistance oversellOffer boundaryRequest = GoFloat.fin (6 / 10) := by
  rw [calculateMatchScore_of_finite gridDistance oversellOffer boundaryRequest 5 5 5 10 25
    (by decide) (by decide) rfl (by norm_num)
    (by
      simp [pickupDistance, gridDistance, oversellOffer, boundaryRequest, oversellRequest1,
        GoFloat.sub, GoFloat.neg, GoFloat.add, GoFloat.abs, GoFloat.mul]
      norm_num [abs_of_nonneg])
    (by norm_num)
    (by
      simp [dropoffDistance, gridDistance, oversellOffer, boundaryRequest, oversellRequest1,
        GoFloat.sub, GoFloat.neg, GoFloat.add, GoFloat.abs, GoFloat.mul]
      norm_num [abs_of_nonneg])
    (by norm_num) rfl rfl]
  norm_num [oversellOffer, boundaryRequest, oversellRequest1]

theorem boundaryStore_keysUnique : boundaryStore.KeysUnique := by
  unfold Store.KeysUnique
  decide

/-- C13, at `boundaryStore`: request 11 scores exactly 0.6 against offer 21.
Neither worker stores a match for the pair, and the candidate's row is stored
as before, still `pending`. -/
theorem discovery_threshold_strict_witness :
    boundaryStore.KeysUnique
    ∧ calculateMatchScore gridDistance oversellOffer boundaryRequest = GoFloat.fin (6 / 10)
    ∧ ((∀ m ∈ (findMatchesForOffer gridDistance boundaryStore (fun i => 31 + i)
            noDiscoveryFaults 21).1.rideMatches,
          m.RideOfferID = oversellOffer.ID → m.RideRequestID = boundaryRequest.ID →
          m ∈ boundaryStore.rideMatches)
        ∧ FindRideRequestByID (findMatchesForOffer gridDistance boundaryStore (fun i => 31 + i)
            noDiscoveryFaults 21).1 none boundaryRequest.ID = .ok (some boundaryRequest))
    ∧ ((∀ m ∈ (findMatchesForRequest gridDistance boundaryStore (fun i => 31 + i)
            noDiscoveryFaults 11).1.rideMatches,
          m.RideOfferID = oversellOffer.ID → m.RideRequestID = boundaryRequest.ID →
          m ∈ boundaryStore.rideMatches)
        ∧ FindRideOfferByID (findMatchesForRequest gridDistance boundaryStore (fun i => 31 + i)
            noDiscoveryFaults 11).1 none oversellOffer.ID = .ok (some oversellOffer)) :=
  ⟨boundaryStore_keysUnique, boundary_score,
    (discovery_threshold_strict gridDistance boundaryStore boundaryStore_keysUnique
      (fun i => 31 + i) noDiscoveryFaults).2.1 21 oversellOffer [boundaryRequest]
      boundaryRequest rfl rfl (by simp) boundary_score,
    (discovery_threshold_strict gridDistance boundaryStore boundaryStore_keysUnique
      (fun i => 31 + i) noDiscoveryFaults).2.2.2 11 boundaryRequest [oversellOffer]
      oversellOffer rfl
      (by
        have h := FindPotentialOffers_filter boundaryStore 11 boundaryRequest rfl
        rw [h]
        simp [boundaryStore, oversellOffer, boundaryRequest, oversellRequest1, GoFloat.le,
          GoFloat.div, GoFloat.ofInt, StatusPending, Minute]
        norm_num)
      (by simp) boundary_score⟩

end ThresholdWitness

section MatchFields

theorem gt_one_threshold : GoFloat.gt (GoFloat.fin (1 : ℚ)) matchThreshold = true := by
  simp [GoFloat.gt, GoFloat.lt, matchThreshold]
  norm_num

theorem pairStore_offers : FindPotentialOffers pairStore none none 11 = .ok [oversellOffer] := by
  rw [FindPotentialOffers_filter pairStore 11 oversellRequest1 rfl]
  simp [pairStore, oversellOffer, oversellRequest1, GoFloat.le, GoFloat.div, GoFloat.ofInt,
    StatusPending, Minute]
  norm_num

theorem newRideMatch_oversell (id : UUID) :
    newRideMatch gridDistance oversellOffer oversellRequest1 id
      = { oversellMatch1 with ID := id } := by
  simp only [newRideMatch,
    oversell_score gridDistance gridDistance_self oversellOffer oversellRequest1 (Or.inl rfl)
      (Or.inl rfl),
    oversell_price oversellOffer oversellRequest1 (Or.inl rfl) (Or.inl rfl)]
  rfl

/-- A run of `findMatchesForOffer` for offer 21 of `pairStore` whose lookups
and whose insert succeed: the one candidate is accepted. -/
theorem pairStore_offer_run (f : DiscoveryFaults) (hf1 : f.findByID = none)
    (hf2 : f.potentialFirst = none) (hf3 : f.potentialFind = none) (newIDs : Nat → UUID)
    (hcreate : (f.candidate 0).createRideMatch = none) :
    findMatchesForOffer gridDistance pairStore newIDs f 21
      = (afterCandidate gridDistance (f.candidate 0) (newIDs 0) pairStore oversellOffer
          oversellRequest1, .ok) := by
  rw [findMatchesForOffer_run gridDistance pairStore newIDs f 21 oversellOffer [oversellRequest1]
    hf1 hf2 hf3 rfl rfl]
  simp only [List.map_cons, List.map_nil, pairLoop]
  rw [oversell_score gridDistance gridDistance_self oversellOffer oversellRequest1 (Or.inl rfl)
    (Or.inl rfl)]
  simp [gt_one_threshold, hcreate, pairStore, oversellStore0]

/-- A run of `findMatchesForRequest` for request 11 of `pairStore` whose
lookups and whose insert succeed: the one candidate is accepted. -/
theorem pairStore_request_run (f : DiscoveryFaults) (hf1 : f.findByID = none)
    (hf2 : f.potentialFirst = none) (hf3 : f.potentialFind = none) (newIDs : Nat → UUID)
    (hcreate : (f.candidate 0).createRideMatch = none) :
    findMatchesForRequest gridDistance pairStore newIDs f 11
      = (afterCandidate gridDistance (f.candidate 0) (newIDs 0) pairStore oversellOffer
          oversellRequest1, .ok) := by
  rw [findMatchesForRequest_run gridDistance pairStore newIDs f 11 oversellRequest1
    [oversellOffer] hf1 hf2 hf3 rfl pairStore_offers]
  simp only [List.map_cons, List.map_nil, pairLoop]
  rw [oversell_score gridDistance gridDistance_self oversellOffer oversellRequest1 (Or.inl rfl)
    (Or.inl rfl)]
  simp [gt_one_threshold, hcreate, pairStore, oversellStore0]

/-- C14 fails when a status update is refused by the database. On `pairStore`
the pair of offer 21 and request 11 scores above 0.6 and its match is stored by
either worker, which returns `nil`; but when `UpdateRideOffer` fails, the offer
is stored after the run of `findMatchesForOffer` as before, `pending`, and when
`UpdateRideRequest` fails, so is the request after the run of
`findMatchesForRequest`. -/
theorem discovery_update_failure_keeps_status :
    GoFloat.gt (calculateMatchScore gridDistance oversellOffer oversellRequest1)
        (GoFloat.fin (6 / 10)) = true
    ∧ (findMatchesForOffer gridDistance pairStore (fun i => 31 + i) offerUpdateFails 21).2 = .ok
    ∧ (findMatchesForOffer gridDistance pairStore (fun i => 31 + i)
        offerUpdateFails 21).1.rideMatches = [oversellMatch1]
    ∧ FindRideOfferByID (findMatchesForOffer gridDistance pairStore (fun i => 31 + i)
        offerUpdateFails 21).1 none 21 = .ok (some oversellOffer)
    ∧ oversellOffer.Status ≠ StatusMatched
    ∧ (findMatchesForRequest gridDistance pairStore (fun i => 31 + i)
        requestUpdateFails 11).2 = .ok
    ∧ (findMatchesForRequest gridDistance pairStore (fun i => 31 + i)
        requestUpdateFails 11).1.rideMatches = [oversellMatch1]
    ∧ FindRideRequestByID (findMatchesForRequest gridDistance pairStore (fun i => 31 + i)
        requestUpdateFails 11).1 none 11 = .ok (some oversellRequest1)
    ∧ oversellRequest1.Status ≠ StatusMatched := by
  have h1 := pairStore_offer_run offerUpdateFails rfl rfl rfl (fun i => 31 + i) rfl
  have h2 := pairStore_request_run requestUpdateFails rfl rfl rfl (fun i => 31 + i) rfl
  refine ⟨?_, ?_, ?_, ?_, by decide, ?_, ?_, ?_, by decide⟩
  · rw [oversell_score gridDistance gridDistance_self oversellOffer oversellRequest1 (Or.inl rfl)
      (Or.inl rfl)]
    exact gt_one_threshold
  · rw [h1]
  · rw [h1, afterCandidate_rideMatches, newRideMatch_oversell]
    rfl
  · rw [h1, afterCandidate_findOffer]
    rfl
  · rw [h2]
  · rw [h2, afterCandidate_rideMatches, newRideMatch_oversell]
    rfl
  · rw [h2, afterCandidate_findRequest]
    rfl

end MatchFields

section MatchFieldsGeneral

variable {K : Type} [LinearOrderedField K]

/-- C14 as amended. With fresh generated IDs and no database error on the
lookups of the run: for every candidate pair with score `> 0.6` whose
`CreateRideMatch` call meets no database error, the match stored under the
generated ID references that offer and that request, has status `matched`,
`MatchScore` equal to the computed score and `Price` equal to
`offer.PricePerSeat * request.NumPassengers`; and after the run the offer is
stored with status `matched` provided the candidate's `UpdateRideOffer` call
met no database error, and the request is stored with status `matched`
provided its `UpdateRideRequest` call met none. -/
theorem discovery_match_fields (dist : DistanceFn K) (s : Store K) (newIDs : Nat → UUID)
    (f : DiscoveryFaults) (hinj : Function.Injective newIDs)
    (hfresh : ∀ n, newIDs n ∉ s.rideMatches.map RideMatch.ID)
    (hf1 : f.findByID = none) (hf2 : f.potentialFirst = none) (hf3 : f.potentialFind = none) :
    (∀ offerID offer cands k request, FindRideOfferByID s none offerID = .ok (some offer) →
      FindPotentialMatches s none none offerID = .ok cands → cands[k]? = some request →
      GoFloat.gt (calculateMatchScore dist offer request) (GoFloat.fin (6 / 10)) = true →
      (f.candidate k).createRideMatch = none →
      (∃ m ∈ (findMatchesForOffer dist s newIDs f offerID).1.rideMatches,
        m.ID = newIDs k ∧ m.RideOfferID = offer.ID ∧ m.RideRequestID = request.ID
        ∧ m.Status = StatusMatched ∧ m.MatchScore = calculateMatchScore dist offer request
        ∧ m.Price = GoFloat.mul offer.PricePerSeat (GoFloat.ofInt request.NumPassengers))
      ∧ ((f.candidate k).updateRideOffer = none →
        ∃ x, FindRideOfferByID (findMatchesForOffer dist s newIDs f offerID).1 none offer.ID
          = .ok (some x) ∧ x.Status = StatusMatched)
      ∧ ((f.candidate k).updateRideRequest = none →
        ∃ x, FindRideRequestByID (findMatchesForOffer dist s newIDs f offerID).1 none request.ID
          = .ok (some x) ∧ x.Status = StatusMatched))
    ∧ (∀ requestID request cands k offer,
      FindRideRequestByID s none requestID = .ok (some request) →
      FindPotentialOffers s none none requestID = .ok cands → cands[k]? = some offer →
      GoFloat.gt (calculateMatchScore dist offer request) (GoFloat.fin (6 / 10)) = true →
      (f.candidate k).createRideMatch = none →
      (∃ m ∈ (findMatchesForRequest dist s newIDs f requestID).1.rideMatches,
        m.ID = newIDs k ∧ m.RideOfferID = offer.ID ∧ m.RideRequestID = request.ID
        ∧ m.Status = StatusMatched ∧ m.MatchScore = calculateMatchScore dist offer request
        ∧ m.Price = GoFloat.mul offer.PricePerSeat (GoFloat.ofInt request.NumPassengers))
      ∧ ((f.candidate k).updateRideOffer = none →
        ∃ x, FindRideOfferByID (findMatchesForRequest dist s newIDs f requestID).1 none offer.ID
          = .ok (some x) ∧ x.Status = StatusMatched)
      ∧ ((f.candidate k).updateRideRequest = none →
        ∃ x, FindRideRequestByID (findMatchesForRequest dist s newIDs f requestID).1 none
          request.ID = .ok (some x) ∧ x.Status = StatusMatched)) := by
  have hfresh0 : ∀ n, 0 ≤ n → newIDs n ∉ s.rideMatches.map RideMatch.ID := fun n _ => hfresh n
  constructor
  · intro offerID offer cands k request ho hc hk hgt hcreate
    have hk2 : (cands.map (fun r => (offer, r)))[k]? = some (offer, request) := by
      rw [List.getElem?_map, hk]
      rfl
    rw [findMatchesForOffer_run dist s newIDs f offerID offer cands hf1 hf2 hf3 ho hc]
    refine ⟨⟨newRideMatch dist offer request (newIDs k), ?_, rfl, rfl, rfl, rfl, rfl, rfl⟩, ?_, ?_⟩
    · have h := pairLoop_rideMatches_all dist newIDs f.candidate hinj _ 0 s hfresh0 k offer
        request hk2 hgt (by rw [Nat.zero_add]; exact hcreate)
      rw [Nat.zero_add] at h
      exact h
    · intro hu
      exact pairLoop_offer_matched dist newIDs f.candidate hinj _ 0 s hfresh0 k offer request hk2
        hgt (by rw [Nat.zero_add]; exact hcreate) (by rw [Nat.zero_add]; exact hu)
    · intro hu
      exact pairLoop_request_matched dist newIDs f.candidate hinj _ 0 s hfresh0 k offer request
        hk2 hgt (by rw [Nat.zero_add]; exact hcreate) (by rw [Nat.zero_add]; exact hu)
  · intro requestID request cands k offer hr hc hk hgt hcreate
    have hk2 : (cands.map (fun o => (o, request)))[k]? = some (offer, request) := by
      rw [List.getElem?_map, hk]
      rfl
    rw [findMatchesForRequest_run dist s newIDs f requestID request cands hf1 hf2 hf3 hr hc]
    refine ⟨⟨newRideMatch dist offer request (newIDs k), ?_, rfl, rfl, rfl, rfl, rfl, rfl⟩, ?_, ?_⟩
    · have h := pairLoop_rideMatches_all dist newIDs f.candidate hinj _ 0 s hfresh0 k offer
        request hk2 hgt (by rw [Nat.zero_add]; exact hcreate)
      rw [Nat.zero_add] at h
      exact h
    · intro hu
      exact pairLoop_offer_matched dist newIDs f.candidate hinj _ 0 s hfresh0 k offer request hk2
        hgt (by rw [Nat.zero_add]; exact hcreate) (by rw [Nat.zero_add]; exact hu)
    · intro hu
      exact pairLoop_request_matched dist newIDs f.candidate hinj _ 0 s hfresh0 k offer request
        hk2 hgt (by rw [Nat.zero_add]; exact hcreate) (by rw [Nat.zero_add]; exact hu)

end MatchFieldsGeneral

section MatchFieldsWitness

theorem ids_injective : Function.Injective (fun i : Nat => 31 + i) :=
  fun _ _ h => Nat.add_left_cancel h

theorem gt_oversell_threshold (o : RideOffer ℚ) (r : RideRequest ℚ)
    (ho : o = oversellOffer ∨ o = { oversellOffer with Status := StatusMatched })
    (hr : r = oversellRequest1 ∨ r = oversellRequest2) :
    GoFloat.gt (calculateMatchScore gridDistance o r) (GoFloat.fin (6 / 10)) = true := by
  rw [oversell_score gridDistance gridDistance_self o r ho hr]
  exact gt_one_threshold

/-- C14 as amended, on fault-free runs: `findMatchesForOffer` for offer 21 of
`oversellStore3` and its second candidate, request 12, and
`findMatchesForRequest` for request 11 of `pairStore` and its candidate,
offer 21. -/
theorem discovery_match_fields_witness :
    ((∃ m ∈ (findMatchesForOffer gridDistance oversellStore3 (fun i => 31 + i)
          noDiscoveryFaults 21).1.rideMatches,
        m.ID = 32 ∧ m.RideOfferID = 21 ∧ m.RideRequestID = 12
        ∧ m.Status = StatusMatched
        ∧ m.MatchScore = calculateMatchScore gridDistance oversellOffer oversellRequest2
        ∧ m.Price = GoFloat.mul oversellOffer.PricePerSeat
            (GoFloat.ofInt oversellRequest2.NumPassengers))
      ∧ (∃ x, FindRideOfferByID (findMatchesForOffer gridDistance oversellStore3
            (fun i => 31 + i) noDiscoveryFaults 21).1 none 21 = .ok (some x)
          ∧ x.Status = StatusMatched)
      ∧ (∃ x, FindRideRequestByID (findMatchesForOffer gridDistance oversellStore3
            (fun i => 31 + i) noDiscoveryFaults 21).1 none 12 = .ok (some x)
          ∧ x.Status = StatusMatched))
    ∧ ((∃ m ∈ (findMatchesForRequest gridDistance pairStore (fun i => 31 + i)
          noDiscoveryFaults 11).1.rideMatches,
        m.ID = 31 ∧ m.RideOfferID = 21 ∧ m.RideRequestID = 11
        ∧ m.Status = StatusMatched
        ∧ m.MatchScore = calculateMatchScore gridDistance oversellOffer oversellRequest1
        ∧ m.Price = GoFloat.mul oversellOffer.PricePerSeat
            (GoFloat.ofInt oversellRequest1.NumPassengers))
      ∧ (∃ x, FindRideOfferByID (findMatchesForRequest gridDistance pairStore
            (fun i => 31 + i) noDiscoveryFaults 11).1 none 21 = .ok (some x)
          ∧ x.Status = StatusMatched)
      ∧ (∃ x, FindRideRequestByID (findMatchesForRequest gridDistance pairStore
            (fun i => 31 + i) noDiscoveryFaults 11).1 none 11 = .ok (some x)
          ∧ x.Status = StatusMatched)) :=
  have h1 := (discovery_match_fields gridDistance oversellStore3 (fun i => 31 + i)
    noDiscoveryFaults ids_injective (fun _ => List.not_mem_nil _) rfl rfl rfl).1 21 oversellOffer
    [oversellRequest1, oversellRequest2] 1 oversellRequest2 rfl rfl rfl
    (gt_oversell_threshold oversellOffer oversellRequest2 (Or.inl rfl) (Or.inr rfl)) rfl
  have h2 := (discovery_match_fields gridDistance pairStore (fun i => 31 + i)
    noDiscoveryFaults ids_injective (fun _ => List.not_mem_nil _) rfl rfl rfl).2 11
    oversellRequest1 [oversellOffer] 0 oversellOffer rfl pairStore_offers rfl
    (gt_oversell_threshold oversellOffer oversellRequest1 (Or.inl rfl) (Or.inl rfl)) rfl
  ⟨⟨h1.1, h1.2.1 rfl, h1.2.2 rfl⟩, ⟨h2.1, h2.2.1 rfl, h2.2.2 rfl⟩⟩

end MatchFieldsWitness

section CreateFailures

variable {K : Type} [LinearOrderedField K]

/-- The candidates of a request have pairwise different IDs when the offer
table has. -/
theorem FindPotentialOffers_nodup (s : Store K) (requestID : UUID) (cands : List (RideOffer K))
    (hnd : (s.rideOffers.map RideOffer.ID).Nodup)
    (hc : FindPotentialOffers s none none requestID = .ok cands) :
    (cands.map RideOffer.ID).Nodup := by
  simp only [FindPotentialOffers] at hc
  split at hc
  · simp at hc
  · rw [(gormFind_ok _ _ _ _ hc).2]
    exact nodup_key_filter RideOffer.ID s.rideOffers _ hnd

/-- C15. A failing `CreateRideMatch` stops nothing but its own candidate. With
unique primary keys, fresh generated IDs and no database error on the lookups
of the run, for every candidate list and every pattern of database errors on
the candidates: the worker returns `nil`; every candidate with score `> 0.6`
whose own `CreateRideMatch` meets no database error has its match stored under
its generated ID, whatever happened to the candidates before it; and a
candidate whose `CreateRideMatch` fails is stored after the run as it was
before, status included. -/
theorem discovery_tolerates_create_failures (dist : DistanceFn K) (s : Store K)
    (hkeys : s.KeysUnique) (newIDs : Nat → UUID) (f : DiscoveryFaults)
    (hinj : Function.Injective newIDs)
    (hfresh : ∀ n, newIDs n ∉ s.rideMatches.map RideMatch.ID)
    (hf1 : f.findByID = none) (hf2 : f.potentialFirst = none) (hf3 : f.potentialFind = none) :
    (∀ offerID offer cands, FindRideOfferByID s none offerID = .ok (some offer) →
      FindPotentialMatches s none none offerID = .ok cands →
      (findMatchesForOffer dist s newIDs f offerID).2 = .ok
      ∧ (∀ k request, cands[k]? = some request →
        GoFloat.gt (calculateMatchScore dist offer request) (GoFloat.fin (6 / 10)) = true →
        (f.candidate k).createRideMatch = none →
        ∃ m ∈ (findMatchesForOffer dist s newIDs f offerID).1.rideMatches,
          m.ID = newIDs k ∧ m.RideOfferID = offer.ID ∧ m.RideRequestID = request.ID)
      ∧ (∀ k request e, cands[k]? = some request →
        (f.candidate k).createRideMatch = some e →
        FindRideRequestByID (findMatchesForOffer dist s newIDs f offerID).1 none request.ID
          = .ok (some request)))
    ∧ (∀ requestID request cands, FindRideRequestByID s none requestID = .ok (some request) →
      FindPotentialOffers s none none requestID = .ok cands →
      (findMatchesForRequest dist s newIDs f requestID).2 = .ok
      ∧ (∀ k offer, cands[k]? = some offer →
        GoFloat.gt (calculateMatchScore dist offer request) (GoFloat.fin (6 / 10)) = true →
        (f.candidate k).createRideMatch = none →
        ∃ m ∈ (findMatchesForRequest dist s newIDs f requestID).1.rideMatches,
          m.ID = newIDs k ∧ m.RideOfferID = offer.ID ∧ m.RideRequestID = request.ID)
      ∧ (∀ k offer e, cands[k]? = some offer →
        (f.candidate k).createRideMatch = some e →
        FindRideOfferByID (findMatchesForRequest dist s newIDs f requestID).1 none offer.ID
          = .ok (some offer))) := by
  have hfresh0 : ∀ n, 0 ≤ n → newIDs n ∉ s.rideMatches.map RideMatch.ID := fun n _ => hfresh n
  constructor
  · intro offerID offer cands ho hc
    rw [findMatchesForOffer_run dist s newIDs f offerID offer cands hf1 hf2 hf3 ho hc]
    refine ⟨rfl, ?_, ?_⟩
    · intro k request hk hgt hcreate
      have hk2 : (cands.map (fun r => (offer, r)))[k]? = some (offer, request) := by
        rw [List.getElem?_map, hk]
        rfl
      have h := pairLoop_rideMatches_all dist newIDs f.candidate hinj _ 0 s hfresh0 k offer
        request hk2 hgt (by rw [Nat.zero_add]; exact hcreate)
      rw [Nat.zero_add] at h
      exact ⟨_, h, rfl, rfl, rfl⟩
    · intro k request e hk hcreate
      have hrow := FindPotentialMatches_subset s offerID cands hc request
        (mem_of_getElem?_eq_some cands k request hk)
      have hnd := FindPotentialMatches_nodup s offerID cands hkeys.2.1 hc
      rw [pairLoop_findRequest_unchanged dist newIDs f.candidate request.ID _ 0 s]
      · exact FindRideRequestByID_of_mem s hkeys.2.1 request hrow
      · intro j o r hj hid hcon
        obtain ⟨-, hj2⟩ := getElem?_map_offer_pair offer cands j o r hj
        have hjk := index_eq_of_nodup_key RideRequest.ID cands hnd j k r request hj2 hk hid
        rw [Nat.zero_add, hjk, hcreate] at hcon
        exact absurd hcon.2.1 (by simp)
  · intro requestID request cands hr hc
    rw [findMatchesForRequest_run dist s newIDs f requestID request cands hf1 hf2 hf3 hr hc]
    refine ⟨rfl, ?_, ?_⟩
    · intro k offer hk hgt hcreate
      have hk2 : (cands.map (fun o => (o, request)))[k]? = some (offer, request) := by
        rw [List.getElem?_map, hk]
        rfl
      have h := pairLoop_rideMatches_all dist newIDs f.candidate hinj _ 0 s hfresh0 k offer
        request hk2 hgt (by rw [Nat.zero_add]; exact hcreate)
      rw [Nat.zero_add] at h
      exact ⟨_, h, rfl, rfl, rfl⟩
    · intro k offer e hk hcreate
      have hrow := FindPotentialOffers_subset s requestID cands hc offer
        (mem_of_getElem?_eq_some cands k offer hk)
      have hnd := FindPotentialOffers_nodup s requestID cands hkeys.1 hc
      rw [pairLoop_findOffer_unchanged dist newIDs f.candidate offer.ID _ 0 s]
      · exact FindRideOfferByID_of_mem s hkeys.1 offer hrow
      · intro j o r hj hid hcon
        obtain ⟨-, hj2⟩ := getElem?_map_request_pair request cands j o r hj
        have hjk := index_eq_of_nodup_key RideOffer.ID cands hnd j k o offer hj2 hk hid
        rw [Nat.zero_add, hjk, hcreate] at hcon
        exact absurd hcon.2.1 (by simp)

end CreateFailures

section CreateFailuresWitness

theorem twoOfferStore_offers :
    FindPotentialOffers twoOfferStore none none 11 = .ok [oversellOffer, secondOffer] := by
  rw [FindPotentialOffers_filter twoOfferStore 11 oversellRequest1 rfl]
  simp [twoOfferStore, secondOffer, oversellOffer, oversellRequest1, GoFloat.le, GoFloat.div,
    GoFloat.ofInt, StatusPending, Minute]
  norm_num

theorem gt_second_threshold :
    GoFloat.gt (calculateMatchScore gridDistance secondOffer oversellRequest1)
      (GoFloat.fin (6 / 10)) = true :=
  gt_oversell_threshold oversellOffer oversellRequest1 (Or.inl rfl) (Or.inl rfl)

theorem oversellStore3_keysUnique : oversellStore3.KeysUnique := by
  unfold Store.KeysUnique
  decide

theorem twoOfferStore_keysUnique : twoOfferStore.KeysUnique := by
  unfold Store.KeysUnique
  decide

/-- C15, with a database error on the `CreateRideMatch` of the first candidate
only. `findMatchesForOffer` for offer 21 of `oversellStore3` returns `nil`,
stores match 32 for its second candidate, request 12, and leaves the first,
request 11, as it was; `findMatchesForRequest` for request 11 of
`twoOfferStore` returns `nil`, stores match 32 for its second candidate,
offer 22, and leaves the first, offer 21, as it was. -/
theorem discovery_tolerates_create_failures_witness :
    ((findMatchesForOffer gridDistance oversellStore3 (fun i => 31 + i) firstCreateFails 21).2
        = .ok
      ∧ (∃ m ∈ (findMatchesForOffer gridDistance oversellStore3 (fun i => 31 + i)
            firstCreateFails 21).1.rideMatches,
          m.ID = 32 ∧ m.RideOfferID = 21 ∧ m.RideRequestID = 12)
      ∧ FindRideRequestByID (findMatchesForOffer gridDistance oversellStore3 (fun i => 31 + i)
            firstCreateFails 21).1 none 11 = .ok (some oversellRequest1))
    ∧ ((findMatchesForRequest gridDistance twoOfferStore (fun i => 31 + i)
          firstCreateFails 11).2 = .ok
      ∧ (∃ m ∈ (findMatchesForRequest gridDistance twoOfferStore (fun i => 31 + i)
            firstCreateFails 11).1.rideMatches,
          m.ID = 32 ∧ m.RideOfferID = 22 ∧ m.RideRequestID = 11)
      ∧ FindRideOfferByID (findMatchesForRequest gridDistance twoOfferStore (fun i => 31 + i)
            firstCreateFails 11).1 none 21 = .ok (some oversellOffer)) :=
  have h1 := (discovery_tolerates_create_failures gridDistance oversellStore3
    oversellStore3_keysUnique (fun i => 31 + i) firstCreateFails ids_injective
    (fun _ => List.not_mem_nil _) rfl rfl rfl).1 21 oversellOffer
    [oversellRequest1, oversellRequest2] rfl rfl
  have h2 := (discovery_tolerates_create_failures gridDistance twoOfferStore
    twoOfferStore_keysUnique (fun i => 31 + i) firstCreateFails ids_injective
    (fun _ => List.not_mem_nil _) rfl rfl rfl).2 11 oversellRequest1
    [oversellOffer, secondOffer] rfl twoOfferStore_offers
  ⟨⟨h1.1,
      h1.2.1 1 oversellRequest2 rfl
        (gt_oversell_threshold oversellOffer oversellRequest2 (Or.inl rfl) (Or.inr rfl)) rfl,
      h1.2.2 0 oversellRequest1 (.other 1) rfl rfl⟩,
    ⟨h2.1, h2.2.1 1 secondOffer rfl gt_second_threshold rfl,
      h2.2.2 0 oversellOffer (.other 1) rfl rfl⟩⟩

end CreateFailuresWitness

section RerunCounterexample

theorem requestLeftPending_run :
    findMatchesForOffer gridDistance pairStore (fun i => 31 + i) requestUpdateFails 21
      = (requestLeftPendingStore, .ok) := by
  rw [pairStore_offer_run requestUpdateFails rfl rfl rfl (fun i => 31 + i) rfl]
  simp only [afterCandidate, newRideMatch_oversell]
  rfl

theorem offerLeftPending_run :
    findMatchesForRequest gridDistance pairStore (fun i => 31 + i) offerUpdateFails 11
      = (offerLeftPendingStore, .ok) := by
  rw [pairStore_request_run offerUpdateFails rfl rfl rfl (fun i => 31 + i) rfl]
  simp only [afterCandidate, newRideMatch_oversell]
  rfl

theorem offerLeftPending_offers :
    FindPotentialOffers offerLeftPendingStore none none 11 = .ok [oversellOffer] := by
  rw [FindPotentialOffers_filter offerLeftPendingStore 11 matchedRequest1 rfl]
  simp [offerLeftPendingStore, pairStore, matchedRequest1, oversellOffer, oversellRequest1,
    GoFloat.le, GoFloat.div, GoFloat.ofInt, StatusPending, Minute]
  norm_num

theorem requestLeftPending_rerun :
    (findMatchesForOffer gridDistance requestLeftPendingStore (fun i => 41 + i)
        noDiscoveryFaults 21).1.rideMatches = [oversellMatch1, duplicateMatch] := by
  rw [findMatchesForOffer_run gridDistance requestLeftPendingStore (fun i => 41 + i)
    noDiscoveryFaults 21 matchedOffer [oversellRequest1] rfl rfl rfl rfl rfl]
  simp only [List.map_cons, List.map_nil, pairLoop]
  rw [oversell_score gridDistance gridDistance_self matchedOffer oversellRequest1 (Or.inr rfl)
    (Or.inl rfl)]
  have hfresh : (41 : UUID) ∉ requestLeftPendingStore.rideMatches.map RideMatch.ID := by decide
  simp only [gt_one_threshold, noDiscoveryFaults, noCandidateFaults, Nat.add_zero, hfresh,
    not_false_eq_true, and_self, if_true]
  rw [afterCandidate_rideMatches]
  simp only [newRideMatch,
    oversell_score gridDistance gridDistance_self matchedOffer oversellRequest1 (Or.inr rfl)
      (Or.inl rfl),
    oversell_price matchedOffer oversellRequest1 (Or.inr rfl) (Or.inl rfl)]
  rfl

theorem offerLeftPending_rerun :
    (findMatchesForRequest gridDistance offerLeftPendingStore (fun i => 41 + i)
        noDiscoveryFaults 11).1.rideMatches = [oversellMatch1, duplicateMatch] := by
  rw [findMatchesForRequest_run gridDistance offerLeftPendingStore (fun i => 41 + i)
    noDiscoveryFaults 11 matchedRequest1 [oversellOffer] rfl rfl rfl rfl offerLeftPending_offers]
  simp only [List.map_cons, List.map_nil, pairLoop]
  have hscore : calculateMatchScore gridDistance oversellOffer matchedRequest1 = GoFloat.fin 1 :=
    oversell_score gridDistance gridDistance_self oversellOffer oversellRequest1 (Or.inl rfl)
      (Or.inl rfl)
  have hprice : GoFloat.mul oversellOffer.PricePerSeat
      (GoFloat.ofInt matchedRequest1.NumPassengers) = GoFloat.fin 20 :=
    oversell_price oversellOffer oversellRequest1 (Or.inl rfl) (Or.inl rfl)
  rw [hscore]
  have hfresh : (41 : UUID) ∉ offerLeftPendingStore.rideMatches.map RideMatch.ID := by decide
  simp only [gt_one_threshold, noDiscoveryFaults, noCandidateFaults, Nat.add_zero, hfresh,
    not_false_eq_true, and_self, if_true]
  rw [afterCandidate_rideMatches]
  simp only [newRideMatch, hscore, hprice]
  rfl

/-- C16 fails after a run in which a status update was refused by the
database. On `pairStore`, a run of `findMatchesForOffer` for offer 21 whose
`UpdateRideRequest` fails returns `nil` and stores match 31 of offer 21 with
request 11, leaving the request `pending`; a second, fault-free run for the
same offer then stores a second match of the same pair, match 41. The same
holds for `findMatchesForRequest` for request 11 when `UpdateRideOffer`
fails. -/
theorem discovery_rerun_duplicates_match :
    ((findMatchesForOffer gridDistance pairStore (fun i => 31 + i) requestUpdateFails 21).2
        = .ok
      ∧ (findMatchesForOffer gridDistance pairStore (fun i => 31 + i)
          requestUpdateFails 21).1.rideMatches = [oversellMatch1]
      ∧ (findMatchesForOffer gridDistance
          (findMatchesForOffer gridDistance pairStore (fun i => 31 + i)
            requestUpdateFails 21).1
          (fun i => 41 + i) noDiscoveryFaults 21).1.rideMatches
        = [oversellMatch1, duplicateMatch])
    ∧ ((findMatchesForRequest gridDistance pairStore (fun i => 31 + i) offerUpdateFails 11).2
        = .ok
      ∧ (findMatchesForRequest gridDistance pairStore (fun i => 31 + i)
          offerUpdateFails 11).1.rideMatches = [oversellMatch1]
      ∧ (findMatchesForRequest gridDistance
          (findMatchesForRequest gridDistance pairStore (fun i => 31 + i)
            offerUpdateFails 11).1
          (fun i => 41 + i) noDiscoveryFaults 11).1.rideMatches
        = [oversellMatch1, duplicateMatch])
    ∧ duplicateMatch.RideOfferID = oversellMatch1.RideOfferID
    ∧ duplicateMatch.RideRequestID = oversellMatch1.RideRequestID
    ∧ duplicateMatch.ID ≠ oversellMatch1.ID := by
  refine ⟨⟨?_, ?_, ?_⟩, ⟨?_, ?_, ?_⟩, rfl, rfl, by decide⟩
  · rw [requestLeftPending_run]
  · rw [requestLeftPending_run]
    rfl
  · rw [requestLeftPending_run]
    exact requestLeftPending_rerun
  · rw [offerLeftPending_run]
  · rw [offerLeftPending_run]
    rfl
  · rw [offerLeftPending_run]
    exact offerLeftPending_rerun

end RerunCounterexample

section RerunIdempotent

variable {K : Type} [LinearOrderedField K]

/-- After a run of `findMatchesForOffer` without database errors, a second
run for the same offer finds no candidate above the threshold. -/
theorem findMatchesForOffer_rerun_rejects (dist : DistanceFn K) (s : Store K)
    (hkeys : s.KeysUnique) (newIDs : Nat → UUID) (faults : Nat → CandidateFaults)
    (hinj : Function.Injective newIDs)
    (hfresh : ∀ n, newIDs n ∉ s.rideMatches.map RideMatch.ID)
    (hcand : ∀ k, (faults k).createRideMatch = none ∧ (faults k).updateRideOffer = none
      ∧ (faults k).updateRideRequest = none)
    (offerID : UUID) (offer : RideOffer K) (cands : List (RideRequest K))
    (ho : FindRideOfferByID s none offerID = .ok (some offer))
    (hc : FindPotentialMatches s none none offerID = .ok cands)
    (offer2 : RideOffer K) (cands2 : List (RideRequest K))
    (ho2 : FindRideOfferByID (pairLoop dist newIDs faults 0 s (cands.map (fun r => (offer, r))))
      none offerID = .ok (some offer2))
    (hc2 : FindPotentialMatches (pairLoop dist newIDs faults 0 s (cands.map (fun r => (offer, r))))
      none none offerID = .ok cands2) :
    ∀ p ∈ cands2.map (fun r => (offer2, r)),
      GoFloat.gt (calculateMatchScore dist p.1 p.2) matchThreshold = false := by
  intro p hp
  rw [List.mem_map] at hp
  obtain ⟨r2, hr2, rfl⟩ := hp
  have hrows : ∀ p ∈ cands.map (fun r => (offer, r)),
      p.1 ∈ s.rideOffers ∧ p.2 ∈ s.rideRequests := by
    intro p hp
    rw [List.mem_map] at hp
    obtain ⟨r, hr, rfl⟩ := hp
    exact ⟨(FindRideOfferByID_mem s offerID offer ho).1,
      FindPotentialMatches_subset s offerID cands hc r hr⟩
  have hkeys1 := pairLoop_keysUnique dist newIDs faults _ 0 s hkeys hrows
  have hoc := pairLoop_offer_clear_old dist newIDs faults _ 0 s hkeys hrows offerID offer offer2
    ho ho2
  have hdt : offer2.DepartureTime = offer.DepartureTime := by
    have h := congrArg RideOffer.DepartureTime hoc
    exact h
  have hseats : offer2.AvailableSeats = offer.AvailableSeats := by
    have h := congrArg RideOffer.AvailableSeats hoc
    exact h
  have hr2s1 := FindPotentialMatches_subset _ offerID cands2 hc2 r2 hr2
  rw [FindPotentialMatches_filter _ offerID offer2 ho2] at hc2
  simp only [Except.ok.injEq] at hc2
  rw [← hc2, List.mem_filter] at hr2
  simp only [decide_eq_true_eq] at hr2
  obtain ⟨-, hpend, hw1, hw2, hw3⟩ := hr2
  have hr2s : r2 ∈ s.rideRequests :=
    pairLoop_unmatched_request_old dist newIDs faults _ 0 s hkeys hrows r2 hr2s1
      (by rw [hpend]; decide)
  have hr2c : r2 ∈ cands := by
    rw [FindPotentialMatches_filter s offerID offer ho] at hc
    simp only [Except.ok.injEq] at hc
    rw [← hc, List.mem_filter]
    simp only [decide_eq_true_eq]
    rw [hdt] at hw1 hw2
    rw [hseats] at hw3
    exact ⟨hr2s, hpend, hw1, hw2, hw3⟩
  rw [calculateMatchScore_of_clear dist offer offer2 r2 r2 hoc rfl]
  cases hgt : GoFloat.gt (calculateMatchScore dist offer r2) matchThreshold with
  | false => rfl
  | true =>
    exfalso
    obtain ⟨k, hklt, hk⟩ := List.getElem_of_mem hr2c
    have hk2 : (cands.map (fun r => (offer, r)))[k]? = some (offer, r2) := by
      rw [List.getElem?_map, List.getElem?_eq_getElem hklt, hk]
      rfl
    obtain ⟨x, hx, hxst⟩ := pairLoop_request_matched dist newIDs faults hinj _ 0 s
      (fun n _ => hfresh n) k offer r2 hk2 hgt (hcand _).1 (hcand _).2.2
    rw [FindRideRequestByID_of_mem _ hkeys1.2.1 r2 hr2s1] at hx
    simp only [Except.ok.injEq, Option.some.injEq] at hx
    rw [← hx, hpend] at hxst
    exact absurd hxst (by decide)

/-- After a run of `findMatchesForRequest` without database errors, a second
run for the same request finds no candidate above the threshold. -/
theorem findMatchesForRequest_rerun_rejects (dist : DistanceFn K) (s : Store K)
    (hkeys : s.KeysUnique) (newIDs : Nat → UUID) (faults : Nat → CandidateFaults)
    (hinj : Function.Injective newIDs)
    (hfresh : ∀ n, newIDs n ∉ s.rideMatches.map RideMatch.ID)
    (hcand : ∀ k, (faults k).createRideMatch = none ∧ (faults k).updateRideOffer = none
      ∧ (faults k).updateRideRequest = none)
    (requestID : UUID) (request : RideRequest K) (cands : List (RideOffer K))
    (hr : FindRideRequestByID s none requestID = .ok (some request))
    (hc : FindPotentialOffers s none none requestID = .ok cands)
    (request2 : RideRequest K) (cands2 : List (RideOffer K))
    (hr2 : FindRideRequestByID
      (pairLoop dist newIDs faults 0 s (cands.map (fun o => (o, request))))
      none requestID = .ok (some request2))
    (hc2 : FindPotentialOffers
      (pairLoop dist newIDs faults 0 s (cands.map (fun o => (o, request))))
      none none requestID = .ok cands2) :
    ∀ p ∈ cands2.map (fun o => (o, request2)),
      GoFloat.gt (calculateMatchScore dist p.1 p.2) matchThreshold = false := by
  intro p hp
  rw [List.mem_map] at hp
  obtain ⟨o2, ho2, rfl⟩ := hp
  have hrows : ∀ p ∈ cands.map (fun o => (o, request)),
      p.1 ∈ s.rideOffers ∧ p.2 ∈ s.rideRequests := by
    intro p hp
    rw [List.mem_map] at hp
    obtain ⟨o, ho, rfl⟩ := hp
    exact ⟨FindPotentialOffers_subset s requestID cands hc o ho,
      (FindRideRequestByID_mem s requestID request hr).1⟩
  have hkeys1 := pairLoop_keysUnique dist newIDs faults _ 0 s hkeys hrows
  have hrc := pairLoop_request_clear_old dist newIDs faults _ 0 s hkeys hrows requestID request
    request2 hr hr2
  have hdt : request2.DepartureTime = request.DepartureTime := by
    have h := congrArg RideRequest.DepartureTime hrc
    exact h
  have hnum : request2.NumPassengers = request.NumPassengers := by
    have h := congrArg RideRequest.NumPassengers hrc
    exact h
  have hmax : request2.MaxPrice = request.MaxPrice := by
    have h := congrArg RideRequest.MaxPrice hrc
    exact h
  have ho2s1 := FindPotentialOffers_subset _ requestID cands2 hc2 o2 ho2
  rw [FindPotentialOffers_filter _ requestID request2 hr2] at hc2
  simp only [Except.ok.injEq] at hc2
  rw [← hc2, List.mem_filter] at ho2
  simp only [Bool.and_eq_true, decide_eq_true_eq] at ho2
  obtain ⟨-, ⟨hpend, hw1, hw2, hw3⟩, hprice⟩ := ho2
  have ho2s : o2 ∈ s.rideOffers :=
    pairLoop_unmatched_offer_old dist newIDs faults _ 0 s hkeys hrows o2 ho2s1
      (by rw [hpend]; decide)
  have ho2c : o2 ∈ cands := by
    rw [FindPotentialOffers_filter s requestID request hr] at hc
    simp only [Except.ok.injEq] at hc
    rw [← hc, List.mem_filter]
    simp only [Bool.and_eq_true, decide_eq_true_eq]
    rw [hdt] at hw1 hw2
    rw [hnum] at hw3
    rw [hnum, hmax] at hprice
    exact ⟨ho2s, ⟨hpend, hw1, hw2, hw3⟩, hprice⟩
  rw [calculateMatchScore_of_clear dist o2 o2 request request2 rfl hrc]
  cases hgt : GoFloat.gt (calculateMatchScore dist o2 request) matchThreshold with
  | false => rfl
  | true =>
    exfalso
    obtain ⟨k, hklt, hk⟩ := List.getElem_of_mem ho2c
    have hk2 : (cands.map (fun o => (o, request)))[k]? = some (o2, request) := by
      rw [List.getElem?_map, List.getElem?_eq_getElem hklt, hk]
      rfl
    obtain ⟨x, hx, hxst⟩ := pairLoop_offer_matched dist newIDs faults hinj _ 0 s
      (fun n _ => hfresh n) k o2 request hk2 hgt (hcand _).1 (hcand _).2.1
    rw [FindRideOfferByID_of_mem _ hkeys1.1 o2 ho2s1] at hx
    simp only [Except.ok.injEq, Option.some.injEq] at hx
    rw [← hx, hpend] at hxst
    exact absurd hxst (by decide)

/-- C16 as amended. On a store with unique primary keys, let a run of
`findMatchesForOffer` (resp. `findMatchesForRequest`) return `nil` with fresh
generated IDs and without a database error on any of its `CreateRideMatch`,
`UpdateRideOffer` and `UpdateRideRequest` calls. Then a second run for the same
offer (request) on the resulting store, whatever its generated IDs and its
database errors, creates no match and leaves the store as it is: the matches
after two runs are those after one. -/
theorem discovery_rerun_idempotent (dist : DistanceFn K) (s : Store K) (hkeys : s.KeysUnique)
    (newIDs newIDs2 : Nat → UUID) (f f2 : DiscoveryFaults)
    (hinj : Function.Injective newIDs)
    (hfresh : ∀ n, newIDs n ∉ s.rideMatches.map RideMatch.ID)
    (hcand : ∀ k, (f.candidate k).createRideMatch = none ∧ (f.candidate k).updateRideOffer = none
      ∧ (f.candidate k).updateRideRequest = none) :
    (∀ offerID, (findMatchesForOffer dist s newIDs f offerID).2 = .ok →
      (findMatchesForOffer dist (findMatchesForOffer dist s newIDs f offerID).1 newIDs2 f2
          offerID).1 = (findMatchesForOffer dist s newIDs f offerID).1
      ∧ (findMatchesForOffer dist (findMatchesForOffer dist s newIDs f offerID).1 newIDs2 f2
          offerID).1.rideMatches = (findMatchesForOffer dist s newIDs f offerID).1.rideMatches)
    ∧ (∀ requestID, (findMatchesForRequest dist s newIDs f requestID).2 = .ok →
      (findMatchesForRequest dist (findMatchesForRequest dist s newIDs f requestID).1 newIDs2 f2
          requestID).1 = (findMatchesForRequest dist s newIDs f requestID).1
      ∧ (findMatchesForRequest dist (findMatchesForRequest dist s newIDs f requestID).1 newIDs2
          f2 requestID).1.rideMatches
        = (findMatchesForRequest dist s newIDs f requestID).1.rideMatches) := by
  constructor
  · intro offerID hok
    have hstore : (findMatchesForOffer dist (findMatchesForOffer dist s newIDs f offerID).1
        newIDs2 f2 offerID).1 = (findMatchesForOffer dist s newIDs f offerID).1 := by
      rcases findMatchesForOffer_cases dist s newIDs f offerID with
        h | ⟨offer, cands, ho, hc, hrun⟩
      · exact absurd hok h.2
      · rw [hrun]
        rcases findMatchesForOffer_cases dist
            (pairLoop dist newIDs f.candidate 0 s (cands.map (fun r => (offer, r))))
            newIDs2 f2 offerID with h | ⟨offer2, cands2, ho2, hc2, hrun2⟩
        · exact h.1
        · rw [hrun2]
          exact pairLoop_none_taken dist newIDs2 f2.candidate _ 0 _
            (findMatchesForOffer_rerun_rejects dist s hkeys newIDs f.candidate hinj hfresh hcand
              offerID offer cands ho hc offer2 cands2 ho2 hc2)
    exact ⟨hstore, by rw [hstore]⟩
  · intro requestID hok
    have hstore : (findMatchesForRequest dist (findMatchesForRequest dist s newIDs f requestID).1
        newIDs2 f2 requestID).1 = (findMatchesForRequest dist s newIDs f requestID).1 := by
      rcases findMatchesForRequest_cases dist s newIDs f requestID with
        h | ⟨request, cands, hr, hc, hrun⟩
      · exact absurd hok h.2
      · rw [hrun]
        rcases findMatchesForRequest_cases dist
            (pairLoop dist newIDs f.candidate 0 s (cands.map (fun o => (o, request))))
            newIDs2 f2 requestID with h | ⟨request2, cands2, hr2, hc2, hrun2⟩
        · exact h.1
        · rw [hrun2]
          exact pairLoop_none_taken dist newIDs2 f2.candidate _ 0 _
            (findMatchesForRequest_rerun_rejects dist s hkeys newIDs f.candidate hinj hfresh
              hcand requestID request cands hr hc request2 cands2 hr2 hc2)
    exact ⟨hstore, by rw [hstore]⟩

end RerunIdempotent

section RerunWitness

theorem pairStore_keysUnique : pairStore.KeysUnique := by
  unfold Store.KeysUnique
  decide

theorem pairStore_offer_run_ok :
    (findMatchesForOffer gridDistance pairStore (fun i => 31 + i) noDiscoveryFaults 21).2
      = .ok := by
  rw [pairStore_offer_run noDiscoveryFaults rfl rfl rfl (fun i => 31 + i) rfl]

theorem pairStore_request_run_ok :
    (findMatchesForRequest gridDistance pairStore (fun i => 31 + i) noDiscoveryFaults 11).2
      = .ok := by
  rw [pairStore_request_run noDiscoveryFaults rfl rfl rfl (fun i => 31 + i) rfl]

theorem pairStore_offer_run_matches :
    (findMatchesForOffer gridDistance pairStore (fun i => 31 + i)
      noDiscoveryFaults 21).1.rideMatches = [oversellMatch1] := by
  rw [pairStore_offer_run noDiscoveryFaults rfl rfl rfl (fun i => 31 + i) rfl,
    afterCandidate_rideMatches, newRideMatch_oversell]
  rfl

theorem pairStore_request_run_matches :
    (findMatchesForRequest gridDistance pairStore (fun i => 31 + i)
      noDiscoveryFaults 11).1.rideMatches = [oversellMatch1] := by
  rw [pairStore_request_run noDiscoveryFaults rfl rfl rfl (fun i => 31 + i) rfl,
    afterCandidate_rideMatches, newRideMatch_oversell]
  rfl

/-- C16 as amended, on `pairStore`: the fault-free first run of either worker
stores match 31, and a second fault-free run, with other generated IDs,
leaves the store as the first run left it. -/
theorem discovery_rerun_idempotent_witness :
    pairStore.KeysUnique
    ∧ ((findMatchesForOffer gridDistance pairStore (fun i => 31 + i)
          noDiscoveryFaults 21).1.rideMatches = [oversellMatch1]
      ∧ (findMatchesForOffer gridDistance
          (findMatchesForOffer gridDistance pairStore (fun i => 31 + i) noDiscoveryFaults 21).1
          (fun i => 41 + i) noDiscoveryFaults 21).1
        = (findMatchesForOffer gridDistance pairStore (fun i => 31 + i) noDiscoveryFaults 21).1)
    ∧ ((findMatchesForRequest gridDistance pairStore (fun i => 31 + i)
          noDiscoveryFaults 11).1.rideMatches = [oversellMatch1]
      ∧ (findMatchesForRequest gridDistance
          (findMatchesForRequest gridDistance pairStore (fun i => 31 + i)
            noDiscoveryFaults 11).1
          (fun i => 41 + i) noDiscoveryFaults 11).1
        = (findMatchesForRequest gridDistance pairStore (fun i => 31 + i)
            noDiscoveryFaults 11).1) :=
  have h := discovery_rerun_idempotent gridDistance pairStore pairStore_keysUnique
    (fun i => 31 + i) (fun i => 41 + i) noDiscoveryFaults noDiscoveryFaults ids_injective
    (fun _ => List.not_mem_nil _) (fun _ => ⟨rfl, rfl, rfl⟩)
  ⟨pairStore_keysUnique,
    ⟨pairStore_offer_run_matches, (h.1 21 pairStore_offer_run_ok).1⟩,
    ⟨pairStore_request_run_matches, (h.2 11 pairStore_request_run_ok).1⟩⟩

end RerunWitness

section ReservesNothing

variable {K : Type} [LinearOrderedField K]

/-- C17. Discovery checks capacity and reserves none. On a store with unique
primary keys, after any run of `findMatchesForOffer` or of
`findMatchesForRequest`, whatever the database errors: the `AvailableSeats`
column of the offer table is as before; the offer table and the request table
are as before row by row once statuses are blanked, so no row is deleted or
added and no field but `Status` is changed; the match table is the old one
with new rows appended; users and driver profiles are as before. The creating
operations reserve nothing either: `CreateRideOffer` only appends to the offer
table and `CreateRideRequest` leaves it as it is. -/
theorem discovery_reserves_nothing (dist : DistanceFn K) (s : Store K) (hkeys : s.KeysUnique)
    (newIDs : Nat → UUID) (f : DiscoveryFaults) (offerID requestID : UUID) :
    ((findMatchesForOffer dist s newIDs f offerID).1.rideOffers.map RideOffer.AvailableSeats
        = s.rideOffers.map RideOffer.AvailableSeats
      ∧ (findMatchesForOffer dist s newIDs f offerID).1.rideOffers.map RideOffer.clearStatus
        = s.rideOffers.map RideOffer.clearStatus
      ∧ (findMatchesForOffer dist s newIDs f offerID).1.rideRequests.map RideRequest.clearStatus
        = s.rideRequests.map RideRequest.clearStatus
      ∧ (∃ news,
        (findMatchesForOffer dist s newIDs f offerID).1.rideMatches = s.rideMatches ++ news)
      ∧ (findMatchesForOffer dist s newIDs f offerID).1.users = s.users
      ∧ (findMatchesForOffer dist s newIDs f offerID).1.driverProfiles = s.driverProfiles)
    ∧ ((findMatchesForRequest dist s newIDs f requestID).1.rideOffers.map RideOffer.AvailableSeats
        = s.rideOffers.map RideOffer.AvailableSeats
      ∧ (findMatchesForRequest dist s newIDs f requestID).1.rideOffers.map RideOffer.clearStatus
        = s.rideOffers.map RideOffer.clearStatus
      ∧ (findMatchesForRequest dist s newIDs f requestID).1.rideRequests.map RideRequest.clearStatus
        = s.rideRequests.map RideRequest.clearStatus
      ∧ (∃ news,
        (findMatchesForRequest dist s newIDs f requestID).1.rideMatches = s.rideMatches ++ news)
      ∧ (findMatchesForRequest dist s newIDs f requestID).1.users = s.users
      ∧ (findMatchesForRequest dist s newIDs f requestID).1.driverProfiles = s.driverProfiles)
    ∧ (∀ (now : Time) (newID : UUID) (cf : CreateOfferFaults) (driverID : UUID)
        (startLat startLng : GoFloat K) (startAddress : String) (endLat endLng : GoFloat K)
        (endAddress : String) (departureTime : Time) (availableSeats : Int)
        (pricePerSeat allowedDetourKm : GoFloat K),
      ∃ added, (CreateRideOffer s now newID cf driverID startLat startLng startAddress endLat
          endLng endAddress departureTime availableSeats pricePerSeat
          allowedDetourKm).1.rideOffers = s.rideOffers ++ added)
    ∧ (∀ (now : Time) (newID : UUID) (cf : CreateRequestFaults) (passengerID : UUID)
        (startLat startLng : GoFloat K) (startAddress : String) (endLat endLng : GoFloat K)
        (endAddress : String) (departureTime : Time) (numPassengers : Int)
        (maxPrice : GoFloat K),
      (CreateRideRequest s now newID cf passengerID startLat startLng startAddress endLat endLng
          endAddress departureTime numPassengers maxPrice).1.rideOffers = s.rideOffers) := by
  refine ⟨?_, ?_, ?_, ?_⟩
  · obtain ⟨ps, heq, hrows⟩ := findMatchesForOffer_pairs dist s newIDs f offerID
    rw [heq]
    obtain ⟨h1, h2⟩ := pairLoop_clear_of_rows dist newIDs f.candidate ps 0 s hkeys hrows
    obtain ⟨h3, h4⟩ := pairLoop_users dist newIDs f.candidate ps 0 s
    exact ⟨map_seats_of_map_clear _ _ h1, h1, h2,
      pairLoop_rideMatches_append dist newIDs f.candidate ps 0 s, h3, h4⟩
  · obtain ⟨ps, heq, hrows⟩ := findMatchesForRequest_pairs dist s newIDs f requestID
    rw [heq]
    obtain ⟨h1, h2⟩ := pairLoop_clear_of_rows dist newIDs f.candidate ps 0 s hkeys hrows
    obtain ⟨h3, h4⟩ := pairLoop_users dist newIDs f.candidate ps 0 s
    exact ⟨map_seats_of_map_clear _ _ h1, h1, h2,
      pairLoop_rideMatches_append dist newIDs f.candidate ps 0 s, h3, h4⟩
  · intro now newID cf driverID startLat startLng startAddress endLat endLng endAddress
      departureTime availableSeats pricePerSeat allowedDetourKm
    rcases CreateRideOffer_cases s now newID cf driverID startLat startLng startAddress endLat
      endLng endAddress departureTime availableSeats pricePerSeat allowedDetourKm with
      h | ⟨o, -, h⟩
    · exact ⟨[], by rw [h, List.append_nil]⟩
    · exact ⟨[o], by rw [h]⟩
  · intro now newID cf passengerID startLat startLng startAddress endLat endLng endAddress
      departureTime numPassengers maxPrice
    rcases CreateRideRequest_cases s now newID cf passengerID startLat startLng startAddress
      endLat endLng endAddress departureTime numPassengers maxPrice with h | ⟨r, -, h⟩
    · rw [h]
    · rw [h]

end ReservesNothing

section ReservesNothingWitness

/-- C17, at `oversellStore3`, for the fault-free runs of `findMatchesForOffer`
on offer 21 and of `findMatchesForRequest` on request 11, each of which
accepts a pair: the three seats of offer 21 are still three. -/
theorem discovery_reserves_nothing_witness :
    oversellStore3.KeysUnique
    ∧ (findMatchesForOffer gridDistance oversellStore3 (fun i => 31 + i) noDiscoveryFaults
        21).1.rideOffers.map RideOffer.AvailableSeats = [3]
    ∧ (findMatchesForOffer gridDistance oversellStore3 (fun i => 31 + i) noDiscoveryFaults
        21).1.rideOffers.map RideOffer.clearStatus
      = oversellStore3.rideOffers.map RideOffer.clearStatus
    ∧ (findMatchesForOffer gridDistance oversellStore3 (fun i => 31 + i) noDiscoveryFaults
        21).1.rideRequests.map RideRequest.clearStatus
      = oversellStore3.rideRequests.map RideRequest.clearStatus
    ∧ (findMatchesForRequest gridDistance oversellStore3 (fun i => 31 + i) noDiscoveryFaults
        11).1.rideOffers.map RideOffer.AvailableSeats = [3] :=
  have h := discovery_reserves_nothing gridDistance oversellStore3 oversellStore3_keysUnique
    (fun i => 31 + i) noDiscoveryFaults 21 11
  ⟨oversellStore3_keysUnique, h.1.1, h.1.2.1, h.1.2.2.1, h.2.1.1⟩

end ReservesNothingWitness

section CancelledCounterexample

theorem cancelledAnchor_score :
    calculateMatchScore gridDistance cancelledOffer oversellRequest1 = GoFloat.fin 1 :=
  oversell_score gridDistance gridDistance_self oversellOffer oversellRequest1 (Or.inl rfl)
    (Or.inl rfl)

theorem cancelledRequestAnchor_score :
    calculateMatchScore gridDistance oversellOffer cancelledRequest = GoFloat.fin 1 :=
  oversell_score gridDistance gridDistance_self oversellOffer oversellRequest1 (Or.inl rfl)
    (Or.inl rfl)

theorem cancelledRequestAnchor_offers :
    FindPotentialOffers cancelledRequestAnchorStore none none 11 = .ok [oversellOffer] := by
  rw [FindPotentialOffers_filter cancelledRequestAnchorStore 11 cancelledRequest rfl]
  simp [cancelledRequestAnchorStore, cancelledRequest, oversellOffer, oversellRequest1,
    GoFloat.le, GoFloat.div, GoFloat.ofInt, StatusPending, Minute]
  norm_num

/-- C18 fails for offers and requests. A cancelled offer whose match is still
`matched` is set to `confirmed` when the passenger confirms the match, and so
is a cancelled request when the driver confirms; a cancelled offer for which
`findMatchesForOffer` runs is set to `matched` when a candidate is accepted, and
so is a cancelled request for which `findMatchesForRequest` runs. Every call
returns `nil`. -/
theorem cancelled_row_resurrected :
    (FindRideOfferByID cancelledOfferStore none 21 = .ok (some cancelledOffer)
      ∧ cancelledOffer.Status = StatusCancelled
      ∧ (ConfirmMatch cancelledOfferStore noConfirmFaults 31 7 false).2 = .ok
      ∧ FindRideOfferByID (ConfirmMatch cancelledOfferStore noConfirmFaults 31 7 false).1 none 21
        = .ok (some lastSeatOffer)
      ∧ lastSeatOffer.Status = StatusConfirmed)
    ∧ (FindRideRequestByID cancelledRequestStore none 11 = .ok (some cancelledRequest)
      ∧ cancelledRequest.Status = StatusCancelled
      ∧ (ConfirmMatch cancelledRequestStore noConfirmFaults 31 1 true).2 = .ok
      ∧ FindRideRequestByID (ConfirmMatch cancelledRequestStore noConfirmFaults 31 1 true).1
          none 11 = .ok (some confirmedRequest1)
      ∧ confirmedRequest1.Status = StatusConfirmed)
    ∧ (FindRideOfferByID cancelledAnchorStore none 21 = .ok (some cancelledOffer)
      ∧ (findMatchesForOffer gridDistance cancelledAnchorStore (fun i => 31 + i)
          noDiscoveryFaults 21).2 = .ok
      ∧ FindRideOfferByID (findMatchesForOffer gridDistance cancelledAnchorStore
          (fun i => 31 + i) noDiscoveryFaults 21).1 none 21 = .ok (some matchedOffer)
      ∧ matchedOffer.Status = StatusMatched)
    ∧ (FindRideRequestByID cancelledRequestAnchorStore none 11 = .ok (some cancelledRequest)
      ∧ (findMatchesForRequest gridDistance cancelledRequestAnchorStore (fun i => 31 + i)
          noDiscoveryFaults 11).2 = .ok
      ∧ FindRideRequestByID (findMatchesForRequest gridDistance cancelledRequestAnchorStore
          (fun i => 31 + i) noDiscoveryFaults 11).1 none 11 = .ok (some matchedRequest1)
      ∧ matchedRequest1.Status = StatusMatched) := by
  have h3 : findMatchesForOffer gridDistance cancelledAnchorStore (fun i => 31 + i)
      noDiscoveryFaults 21
      = (afterCandidate gridDistance noCandidateFaults 31 cancelledAnchorStore cancelledOffer
          oversellRequest1, .ok) := by
    rw [findMatchesForOffer_run gridDistance cancelledAnchorStore (fun i => 31 + i)
      noDiscoveryFaults 21 cancelledOffer [oversellRequest1] rfl rfl rfl rfl rfl]
    simp only [List.map_cons, List.map_nil, pairLoop]
    rw [cancelledAnchor_score]
    simp [gt_one_threshold, noDiscoveryFaults, noCandidateFaults, cancelledAnchorStore,
      oversellStore0]
  have h4 : findMatchesForRequest gridDistance cancelledRequestAnchorStore (fun i => 31 + i)
      noDiscoveryFaults 11
      = (afterCandidate gridDistance noCandidateFaults 31 cancelledRequestAnchorStore
          oversellOffer cancelledRequest, .ok) := by
    rw [findMatchesForRequest_run gridDistance cancelledRequestAnchorStore (fun i => 31 + i)
      noDiscoveryFaults 11 cancelledRequest [oversellOffer] rfl rfl rfl rfl
      cancelledRequestAnchor_offers]
    simp only [List.map_cons, List.map_nil, pairLoop]
    rw [cancelledRequestAnchor_score]
    simp [gt_one_threshold, noDiscoveryFaults, noCandidateFaults, cancelledRequestAnchorStore,
      oversellStore0]
  refine ⟨⟨rfl, rfl, rfl, rfl, rfl⟩, ⟨rfl, rfl, rfl, rfl, rfl⟩, ⟨rfl, ?_, ?_, rfl⟩,
    ⟨rfl, ?_, ?_, rfl⟩⟩
  · rw [h3]
  · rw [h3, afterCandidate_findOffer]
    rfl
  · rw [h4]
  · rw [h4, afterCandidate_findRequest]
    rfl

end CancelledCounterexample

section CancelledTerminal

variable {K : Type} [LinearOrderedField K]

/-- C18 as amended. On a store with unique primary keys and whatever the
database errors: a cancelled match is stored unchanged after any run of
`findMatchesForOffer` or `findMatchesForRequest` and after any call of
`ConfirmMatch`; a cancelled offer is stored unchanged after any run of
`findMatchesForRequest`, after any run of `findMatchesForOffer` for another
offer, and after any call of `ConfirmMatch` on a match of another offer; a
cancelled request is stored unchanged after any run of `findMatchesForOffer`,
after any run of `findMatchesForRequest` for another request, and after any
call of `ConfirmMatch` on a match of another request. -/
theorem cancelled_stays_cancelled (dist : DistanceFn K) (s : Store K) (hkeys : s.KeysUnique)
    (newIDs : Nat → UUID) (f : DiscoveryFaults) (cf : ConfirmFaults) :
    (∀ id x, FindRideMatchByID s none id = .ok (some x) → x.Status = StatusCancelled →
      (∀ offerID,
        FindRideMatchByID (findMatchesForOffer dist s newIDs f offerID).1 none id
          = .ok (some x))
      ∧ (∀ requestID,
        FindRideMatchByID (findMatchesForRequest dist s newIDs f requestID).1 none id
          = .ok (some x))
      ∧ (∀ matchID userID isDriver,
        FindRideMatchByID (ConfirmMatch s cf matchID userID isDriver).1 none id
          = .ok (some x)))
    ∧ (∀ id x, FindRideOfferByID s none id = .ok (some x) → x.Status = StatusCancelled →
      (∀ offerID, offerID ≠ id →
        FindRideOfferByID (findMatchesForOffer dist s newIDs f offerID).1 none id
          = .ok (some x))
      ∧ (∀ requestID,
        FindRideOfferByID (findMatchesForRequest dist s newIDs f requestID).1 none id
          = .ok (some x))
      ∧ (∀ matchID userID isDriver,
        (∀ m, FindRideMatchByID s none matchID = .ok (some m) → m.RideOfferID ≠ id) →
        FindRideOfferByID (ConfirmMatch s cf matchID userID isDriver).1 none id
          = .ok (some x)))
    ∧ (∀ id x, FindRideRequestByID s none id = .ok (some x) → x.Status = StatusCancelled →
      (∀ offerID,
        FindRideRequestByID (findMatchesForOffer dist s newIDs f offerID).1 none id
          = .ok (some x))
      ∧ (∀ requestID, requestID ≠ id →
        FindRideRequestByID (findMatchesForRequest dist s newIDs f requestID).1 none id
          = .ok (some x))
      ∧ (∀ matchID userID isDriver,
        (∀ m, FindRideMatchByID s none matchID = .ok (some m) → m.RideRequestID ≠ id) →
        FindRideRequestByID (ConfirmMatch s cf matchID userID isDriver).1 none id
          = .ok (some x))) := by
  refine ⟨?_, ?_, ?_⟩
  · intro id x hx hst
    refine ⟨?_, ?_, ?_⟩
    · intro offerID
      obtain ⟨ps, heq, -⟩ := findMatchesForOffer_pairs dist s newIDs f offerID
      rw [heq]
      exact pairLoop_keeps_match dist newIDs f.candidate ps 0 s id x hx
    · intro requestID
      obtain ⟨ps, heq, -⟩ := findMatchesForRequest_pairs dist s newIDs f requestID
      rw [heq]
      exact pairLoop_keeps_match dist newIDs f.candidate ps 0 s id x hx
    · intro matchID userID isDriver
      exact ConfirmMatch_keeps_match s cf matchID userID isDriver id x hx
        (by rw [hst]; decide)
  · intro id x hx hst
    obtain ⟨hxrow, hxid⟩ := FindRideOfferByID_mem s id x hx
    refine ⟨?_, ?_, ?_⟩
    · intro offerID hne
      rcases findMatchesForOffer_cases dist s newIDs f offerID with
        h | ⟨offer, cands, ho, hc, hrun⟩
      · rw [h.1]
        exact hx
      · rw [hrun, pairLoop_findOffer_unchanged dist newIDs f.candidate id _ 0 s]
        · exact hx
        · intro k o r hk hid
          obtain ⟨rfl, -⟩ := getElem?_map_offer_pair offer cands k o r hk
          exact absurd ((FindRideOfferByID_mem s offerID o ho).2.symm.trans hid) hne
    · intro requestID
      rcases findMatchesForRequest_cases dist s newIDs f requestID with
        h | ⟨request, cands, hr, hc, hrun⟩
      · rw [h.1]
        exact hx
      · rw [hrun, pairLoop_findOffer_unchanged dist newIDs f.candidate id _ 0 s]
        · exact hx
        · intro k o r hk hid
          obtain ⟨-, hk2⟩ := getElem?_map_request_pair request cands k o r hk
          have hmem := mem_of_getElem?_eq_some cands k o hk2
          have hrow := FindPotentialOffers_subset s requestID cands hc o hmem
          have hox : o = x :=
            eq_of_nodup_key RideOffer.ID s.rideOffers hkeys.1 o x hrow hxrow (hid.trans hxid.symm)
          have hpend : o.Status = StatusPending := by
            rw [FindPotentialOffers_filter s requestID request hr] at hc
            simp only [Except.ok.injEq] at hc
            rw [← hc, List.mem_filter] at hmem
            simp only [Bool.and_eq_true, decide_eq_true_eq] at hmem
            exact hmem.2.1.1
          rw [hox, hst] at hpend
          exact absurd hpend (by decide)
    · intro matchID userID isDriver hid
      rw [ConfirmMatch_keeps_offer s cf matchID userID isDriver id hid]
      exact hx
  · intro id x hx hst
    obtain ⟨hxrow, hxid⟩ := FindRideRequestByID_mem s id x hx
    refine ⟨?_, ?_, ?_⟩
    · intro offerID
      rcases findMatchesForOffer_cases dist s newIDs f offerID with
        h | ⟨offer, cands, ho, hc, hrun⟩
      · rw [h.1]
        exact hx
      · rw [hrun, pairLoop_findRequest_unchanged dist newIDs f.candidate id _ 0 s]
        · exact hx
        · intro k o r hk hid
          obtain ⟨-, hk2⟩ := getElem?_map_offer_pair offer cands k o r hk
          have hmem := mem_of_getElem?_eq_some cands k r hk2
          have hrow := FindPotentialMatches_subset s offerID cands hc r hmem
          have hrx : r = x :=
            eq_of_nodup_key RideRequest.ID s.rideRequests hkeys.2.1 r x hrow hxrow
              (hid.trans hxid.symm)
          have hpend : r.Status = StatusPending := by
            rw [FindPotentialMatches_filter s offerID offer ho] at hc
            simp only [Except.ok.injEq] at hc
            rw [← hc, List.mem_filter] at hmem
            simp only [decide_eq_true_eq] at hmem
            exact hmem.2.1
          rw [hrx, hst] at hpend
          exact absurd hpend (by decide)
    · intro requestID hne
      rcases findMatchesForRequest_cases dist s newIDs f requestID with
        h | ⟨request, cands, hr, hc, hrun⟩
      · rw [h.1]
        exact hx
      · rw [hrun, pairLoop_findRequest_unchanged dist newIDs f.candidate id _ 0 s]
        · exact hx
        · intro k o r hk hid
          obtain ⟨rfl, -⟩ := getElem?_map_request_pair request cands k o r hk
          exact absurd ((FindRideRequestByID_mem s requestID r hr).2.symm.trans hid) hne
    · intro matchID userID isDriver hid
      rw [ConfirmMatch_keeps_request s cf matchID userID isDriver id hid]
      exact hx

end CancelledTerminal

section CancelledWitness

theorem cancelledRowsStore_keysUnique : cancelledRowsStore.KeysUnique := by
  unfold Store.KeysUnique
  decide

theorem cancelledRowsStore4_keysUnique : cancelledRowsStore4.KeysUnique := by
  unfold Store.KeysUnique
  decide

/-- C18 as amended, on `cancelledRowsStore`, where offer 22, request 12 and
their match 33 are cancelled next to the pending offer 21 and request 11: the
three cancelled rows are stored unchanged after the discovery runs for
offer 21 and for request 11, and, on `cancelledRowsStore4`, after driver 1 has
confirmed match 31. -/
theorem cancelled_stays_cancelled_witness :
    (FindRideMatchByID (findMatchesForOffer gridDistance cancelledRowsStore (fun i => 31 + i)
        noDiscoveryFaults 21).1 none 33 = .ok (some cancelledMatch)
      ∧ FindRideOfferByID (findMatchesForOffer gridDistance cancelledRowsStore
        (fun i => 31 + i) noDiscoveryFaults 21).1 none 22 = .ok (some cancelledOffer22)
      ∧ FindRideRequestByID (findMatchesForOffer gridDistance cancelledRowsStore
        (fun i => 31 + i) noDiscoveryFaults 21).1 none 12 = .ok (some cancelledRequest12))
    ∧ (FindRideMatchByID (findMatchesForRequest gridDistance cancelledRowsStore
        (fun i => 31 + i) noDiscoveryFaults 11).1 none 33 = .ok (some cancelledMatch)
      ∧ FindRideOfferByID (findMatchesForRequest gridDistance cancelledRowsStore
        (fun i => 31 + i) noDiscoveryFaults 11).1 none 22 = .ok (some cancelledOffer22)
      ∧ FindRideRequestByID (findMatchesForRequest gridDistance cancelledRowsStore
        (fun i => 31 + i) noDiscoveryFaults 11).1 none 12 = .ok (some cancelledRequest12))
    ∧ (FindRideMatchByID (ConfirmMatch cancelledRowsStore4 noConfirmFaults 31 1 true).1 none 33
        = .ok (some cancelledMatch)
      ∧ FindRideOfferByID (ConfirmMatch cancelledRowsStore4 noConfirmFaults 31 1 true).1 none 22
        = .ok (some cancelledOffer22)
      ∧ FindRideRequestByID (ConfirmMatch cancelledRowsStore4 noConfirmFaults 31 1 true).1
          none 12 = .ok (some cancelledRequest12)) :=
  have h := cancelled_stays_cancelled gridDistance cancelledRowsStore
    cancelledRowsStore_keysUnique (fun i => 31 + i) noDiscoveryFaults noConfirmFaults
  have h4 := cancelled_stays_cancelled gridDistance cancelledRowsStore4
    cancelledRowsStore4_keysUnique (fun i => 31 + i) noDiscoveryFaults noConfirmFaults
  have hm : ∀ m, FindRideMatchByID cancelledRowsStore4 none 31 = .ok (some m) →
      m = oversellMatch1 := by
    intro m hm
    have h31 : FindRideMatchByID cancelledRowsStore4 none 31 = .ok (some oversellMatch1) := rfl
    rw [h31] at hm
    simp only [Except.ok.injEq, Option.some.injEq] at hm
    exact hm.symm
  ⟨⟨(h.1 33 cancelledMatch rfl rfl).1 21,
      (h.2.1 22 cancelledOffer22 rfl rfl).1 21 (by decide),
      (h.2.2 12 cancelledRequest12 rfl rfl).1 21⟩,
    ⟨(h.1 33 cancelledMatch rfl rfl).2.1 11,
      (h.2.1 22 cancelledOffer22 rfl rfl).2.1 11,
      (h.2.2 12 cancelledRequest12 rfl rfl).2.1 11 (by decide)⟩,
    ⟨(h4.1 33 cancelledMatch rfl rfl).2.2 31 1 true,
      (h4.2.1 22 cancelledOffer22 rfl rfl).2.2 31 1 true
        (fun m h => by rw [hm m h]; decide),
      (h4.2.2 12 cancelledRequest12 rfl rfl).2.2 31 1 true
        (fun m h => by rw [hm m h]; decide)⟩⟩

end CancelledWitness

/-! ### The candidate search -/

section CandidateSearch

variable {K : Type}

/-- C19. For every store and every stored offer, `FindPotentialMatches`
returns (when the database answers) exactly the stored requests, in table
order, that have status `pending`, leave between 30 minutes before and 30
minutes after the offer, both bounds included, and have no more passengers
than the offer has free seats. -/
theorem FindPotentialMatches_exact (s : Store K) (offerID : UUID) (offer : RideOffer K)
    (hoffer : FindRideOfferByID s none offerID = .ok (some offer)) :
    FindPotentialMatches s none none offerID
      = .ok (s.rideRequests.filter (fun r =>
          decide (r.Status = StatusPending
            ∧ offer.DepartureTime - 30 * Minute ≤ r.DepartureTime
            ∧ r.DepartureTime ≤ offer.DepartureTime + 30 * Minute
            ∧ r.NumPassengers ≤ offer.AvailableSeats))) ∧
    ∀ r, r ∈ s.rideRequests.filter (fun r =>
          decide (r.Status = StatusPending
            ∧ offer.DepartureTime - 30 * Minute ≤ r.DepartureTime
            ∧ r.DepartureTime ≤ offer.DepartureTime + 30 * Minute
            ∧ r.NumPassengers ≤ offer.AvailableSeats)) ↔
      (r ∈ s.rideRequests ∧ r.Status = StatusPending
        ∧ offer.DepartureTime - 30 * Minute ≤ r.DepartureTime
        ∧ r.DepartureTime ≤ offer.DepartureTime + 30 * Minute
        ∧ r.NumPassengers ≤ offer.AvailableSeats) := by
  constructor
  · exact FindPotentialMatches_filter s offerID offer hoffer
  · intro r
    simp only [List.mem_filter, decide_eq_true_eq]

/-- C19, at `oversellStore3`: both pending two-passenger requests are the
candidates of the three-seat offer 21. -/
theorem FindPotentialMatches_exact_witness :
    FindPotentialMatches oversellStore3 none none 21
      = .ok (oversellStore3.rideRequests.filter (fun r =>
          decide (r.Status = StatusPending
            ∧ oversellOffer.DepartureTime - 30 * Minute ≤ r.DepartureTime
            ∧ r.DepartureTime ≤ oversellOffer.DepartureTime + 30 * Minute
            ∧ r.NumPassengers ≤ oversellOffer.AvailableSeats))) ∧
    FindPotentialMatches oversellStore3 none none 21
      = .ok [oversellRequest1, oversellRequest2] :=
  ⟨(FindPotentialMatches_exact oversellStore3 21 oversellOffer rfl).1, rfl⟩

end CandidateSearch

section OfferSearch

variable {K : Type} [LinearOrderedField K]

/-- The budget test of `FindPotentialOffers` on finite prices:
`price_per_seat <= maxPrice / numPassengers` over the field. -/
theorem le_budget_of_finite (p mp : K) (n : Int) (hn : 0 < n) :
    GoFloat.le (GoFloat.fin p) (GoFloat.div (GoFloat.fin mp) (GoFloat.ofInt n))
      = decide (p ≤ mp / (n : K)) := by
  have hn0 : ((n : Int) : K) ≠ 0 := by
    have : (0 : K) < ((n : Int) : K) := by exact_mod_cast hn
    exact ne_of_gt this
  simp [GoFloat.ofInt, GoFloat.div, GoFloat.le, hn0]

/-- C20 fails on the code: in `tightStore` the pending one-seat offer 21
leaves at the same time as request 11 and costs 10 per seat, within the budget
of 25 for two passengers, yet `FindPotentialOffers` does not return it: the
query also requires `available_seats >= num_passengers`. -/
theorem FindPotentialOffers_drops_small_offer :
    FindRideRequestByID tightStore none 11 = .ok (some oversellRequest1) ∧
    oneSeatOffer ∈ tightStore.rideOffers ∧
    oneSeatOffer.Status = StatusPending ∧
    oversellRequest1.DepartureTime - 30 * Minute ≤ oneSeatOffer.DepartureTime ∧
    oneSeatOffer.DepartureTime ≤ oversellRequest1.DepartureTime + 30 * Minute ∧
    oneSeatOffer.PricePerSeat = GoFloat.fin 10 ∧
    oversellRequest1.MaxPrice = GoFloat.fin 25 ∧
    (10 : ℚ) ≤ 25 / ((oversellRequest1.NumPassengers : Int) : ℚ) ∧
    0 < oversellRequest1.NumPassengers ∧
    FindPotentialOffers tightStore none none 11 = .ok [] := by
  refine ⟨rfl, List.mem_singleton.mpr rfl, rfl, by decide, by decide, rfl, rfl, ?_, by decide,
    rfl⟩
  norm_num [oversellRequest1]

/-- C20 as amended. For every store and every stored request with a positive
passenger count, `FindPotentialOffers` returns (when the database answers)
exactly the stored offers, in table order, that have status `pending`, leave
between 30 minutes before and 30 minutes after the request, both bounds
included, have at least as many free seats as the request has passengers, and
whose price per seat is at most the request's `maxPrice / numPassengers`. -/
theorem FindPotentialOffers_exact (s : Store K) (requestID : UUID) (request : RideRequest K)
    (hrequest : FindRideRequestByID s none requestID = .ok (some request))
    (hn : 0 < request.NumPassengers) :
    FindPotentialOffers s none none requestID
      = .ok (s.rideOffers.filter (fun o =>
          decide (o.Status = StatusPending
            ∧ request.DepartureTime - 30 * Minute ≤ o.DepartureTime
            ∧ o.DepartureTime ≤ request.DepartureTime + 30 * Minute
            ∧ o.AvailableSeats ≥ request.NumPassengers)
          && GoFloat.le o.PricePerSeat
              (GoFloat.div request.MaxPrice (GoFloat.ofInt request.NumPassengers)))) ∧
    (∀ o, o ∈ s.rideOffers.filter (fun o =>
          decide (o.Status = StatusPending
            ∧ request.DepartureTime - 30 * Minute ≤ o.DepartureTime
            ∧ o.DepartureTime ≤ request.DepartureTime + 30 * Minute
            ∧ o.AvailableSeats ≥ request.NumPassengers)
          && GoFloat.le o.PricePerSeat
              (GoFloat.div request.MaxPrice (GoFloat.ofInt request.NumPassengers))) ↔
      (o ∈ s.rideOffers ∧ o.Status = StatusPending
        ∧ request.DepartureTime - 30 * Minute ≤ o.DepartureTime
        ∧ o.DepartureTime ≤ request.DepartureTime + 30 * Minute
        ∧ o.AvailableSeats ≥ request.NumPassengers
        ∧ GoFloat.le o.PricePerSeat
            (GoFloat.div request.MaxPrice (GoFloat.ofInt request.NumPassengers)) = true)) ∧
    (∀ (o : RideOffer K) (p mp : K), o.PricePerSeat = GoFloat.fin p →
      request.MaxPrice = GoFloat.fin mp →
      (GoFloat.le o.PricePerSeat
          (GoFloat.div request.MaxPrice (GoFloat.ofInt request.NumPassengers)) = true
        ↔ p ≤ mp / (request.NumPassengers : K))) := by
  refine ⟨?_, ?_, ?_⟩
  · exact FindPotentialOffers_filter s requestID request hrequest
  · intro o
    simp only [List.mem_filter, Bool.and_eq_true, decide_eq_true_eq, and_assoc]
  · intro o p mp hp hmp
    rw [hp, hmp, le_budget_of_finite p mp request.NumPassengers hn]
    simp

/-- C20 as amended, at `oversellStore3`: the three-seat offer 21 is the one
candidate of the two-passenger request 11. -/
theorem FindPotentialOffers_exact_witness :
    0 < oversellRequest1.NumPassengers ∧
    FindPotentialOffers oversellStore3 none none 11
      = .ok (oversellStore3.rideOffers.filter (fun o =>
          decide (o.Status = StatusPending
            ∧ oversellRequest1.DepartureTime - 30 * Minute ≤ o.DepartureTime
            ∧ o.DepartureTime ≤ oversellRequest1.DepartureTime + 30 * Minute
            ∧ o.AvailableSeats ≥ oversellRequest1.NumPassengers)
          && GoFloat.le o.PricePerSeat
              (GoFloat.div oversellRequest1.MaxPrice
                (GoFloat.ofInt oversellRequest1.NumPassengers)))) ∧
    (GoFloat.le oversellOffer.PricePerSeat
        (GoFloat.div oversellRequest1.MaxPrice (GoFloat.ofInt oversellRequest1.NumPassengers))
        = true
      ↔ (10 : ℚ) ≤ 25 / ((oversellRequest1.NumPassengers : Int) : ℚ)) :=
  ⟨by decide,
    (FindPotentialOffers_exact oversellStore3 11 oversellRequest1 rfl (by decide)).1,
    (FindPotentialOffers_exact oversellStore3 11 oversellRequest1 rfl (by decide)).2.2
      oversellOffer 10 25 rfl rfl⟩

end OfferSearch

/-! ### Two confirmations on one offer -/

section TwoConfirmations

variable {K : Type}

/-- C26 fails on the code, already for the interleaving in which the two calls
run one after the other. Let two `matched` matches of the same offer, with
different requests whose passenger counts add up to more than the offer's free
seats, be confirmed by authorized users, the database raising no error. Then
both calls return `nil`, and the offer is stored with its seat count lowered
by both passenger counts: a negative number. No error the service can return
is a capacity error. -/
theorem ConfirmMatch_twice_oversells (s : Store K) (id1 id2 user1 user2 : UUID)
    (isDriver1 isDriver2 : Bool) (m1 m2 : RideMatch K) (o : RideOffer K)
    (r1 r2 : RideRequest K)
    (hm1 : FindRideMatchByID s none id1 = .ok (some m1))
    (hm2 : FindRideMatchByID s none id2 = .ok (some m2)) (hne : id1 ≠ id2)
    (hst1 : m1.Status = StatusMatched) (hst2 : m2.Status = StatusMatched)
    (hsame : m2.RideOfferID = m1.RideOfferID)
    (ho : FindRideOfferByID s none m1.RideOfferID = .ok (some o))
    (hr1 : FindRideRequestByID s none m1.RideRequestID = .ok (some r1))
    (hr2 : FindRideRequestByID s none m2.RideRequestID = .ok (some r2))
    (hrne : m1.RideRequestID ≠ m2.RideRequestID)
    (hauth1 : if isDriver1 = true then o.DriverID = user1 else r1.PassengerID = user1)
    (hauth2 : if isDriver2 = true then o.DriverID = user2 else r2.PassengerID = user2)
    (hsum : r1.NumPassengers + r2.NumPassengers > o.AvailableSeats) :
    (ConfirmMatch s noConfirmFaults id1 user1 isDriver1).2 = .ok
    ∧ (ConfirmMatch (ConfirmMatch s noConfirmFaults id1 user1 isDriver1).1 noConfirmFaults id2
        user2 isDriver2).2 = .ok
    ∧ ∃ o2, FindRideOfferByID
          (ConfirmMatch (ConfirmMatch s noConfirmFaults id1 user1 isDriver1).1 noConfirmFaults
            id2 user2 isDriver2).1 none m1.RideOfferID = .ok (some o2)
        ∧ o2.AvailableSeats = o.AvailableSeats - r1.NumPassengers - r2.NumPassengers
        ∧ o2.AvailableSeats < 0
        ∧ ∀ e : Err, e.errorClass ≠ ErrorClass.CapacityExceeded := by
  have hmid1 : m1.ID = id1 := find?_key_eq RideMatch.ID (orNil_gormFirst_ok_some hm1).2
  have hrid1 : r1.ID = m1.RideRequestID :=
    find?_key_eq RideRequest.ID (orNil_gormFirst_ok_some hr1).2
  have h1 := ConfirmMatch_eq_confirmedStore s id1 user1 isDriver1 m1 o r1 hm1 hst1 ho hr1 hauth1
  rw [h1]
  have hm2' : FindRideMatchByID (confirmedStore s m1 o r1) none id2 = .ok (some m2) := by
    rw [confirmedStore_findMatch_other s m1 o r1 id2 (by rw [hmid1]; exact Ne.symm hne)]
    exact hm2
  have ho' := confirmedStore_findOffer s m1.RideOfferID m1 o r1 ho
  rw [← hsame] at ho'
  have hr2' : FindRideRequestByID (confirmedStore s m1 o r1) none m2.RideRequestID
      = .ok (some r2) := by
    rw [confirmedStore_findRequest_other s m1 o r1 m2.RideRequestID
      (by rw [hrid1]; exact Ne.symm hrne)]
    exact hr2
  have h2 := ConfirmMatch_eq_confirmedStore (confirmedStore s m1 o r1) id2 user2 isDriver2 m2
    { o with Status := StatusConfirmed,
             AvailableSeats := o.AvailableSeats - r1.NumPassengers } r2 hm2' hst2 ho' hr2' hauth2
  rw [h2]
  refine ⟨rfl, rfl,
    { o with Status := StatusConfirmed,
             AvailableSeats := o.AvailableSeats - r1.NumPassengers - r2.NumPassengers },
    ?_, rfl, ?_, ?_⟩
  · rw [← hsame]
    exact confirmedStore_findOffer (confirmedStore s m1 o r1) m2.RideOfferID m2 _ r2 ho'
  · show o.AvailableSeats - r1.NumPassengers - r2.NumPassengers < 0
    omega
  · intro e
    cases e <;> simp [Err.errorClass]

end TwoConfirmations

section TwoConfirmationsWitness

/-- C26 fails at `oversellStore4`, where matches 31 and 32 pair the three-seat
offer 21 with two requests for two seats each: driver 1 confirms match 31, then
passenger 8 confirms match 32; both calls return `nil` and the offer is left
with -1 seats. -/
theorem ConfirmMatch_twice_oversells_witness :
    (ConfirmMatch oversellStore4 noConfirmFaults 31 1 true).2 = .ok
    ∧ (ConfirmMatch (ConfirmMatch oversellStore4 noConfirmFaults 31 1 true).1 noConfirmFaults 32
        8 false).2 = .ok
    ∧ ∃ o2, FindRideOfferByID
          (ConfirmMatch (ConfirmMatch oversellStore4 noConfirmFaults 31 1 true).1
            noConfirmFaults 32 8 false).1 none 21 = .ok (some o2)
        ∧ o2.AvailableSeats = 3 - 2 - 2
        ∧ o2.AvailableSeats < 0
        ∧ ∀ e : Err, e.errorClass ≠ ErrorClass.CapacityExceeded :=
  ConfirmMatch_twice_oversells oversellStore4 31 32 1 8 true false oversellMatch1 oversellMatch2
    matchedOffer matchedRequest1 matchedRequest2 rfl rfl (by decide) rfl rfl rfl rfl rfl rfl
    (by decide) rfl rfl (by decide)

end TwoConfirmationsWitness

/-! ### The score as a function of time difference and distances -/

section ScoreShape

variable {K : Type} [LinearOrderedField K]

/-- The score of a pair with enough seats that passes the detour test, in
terms of the value of `priceCompat`. -/
theorem calculateMatchScore_formula (dist : DistanceFn K) (offer : RideOffer K)
    (request : RideRequest K) (a pd dd pc : K)
    (hseats : offer.AvailableSeats ≥ request.NumPassengers)
    (ha : offer.AllowedDetourKm = GoFloat.fin a) (hpos : 0 < a)
    (hpd : pickupDistance dist offer request = GoFloat.fin pd) (hpd_le : pd ≤ a)
    (hdd : dropoffDistance dist offer request = GoFloat.fin dd) (hdd_le : dd ≤ a)
    (hpc : priceCompat offer request = GoFloat.fin pc) :
    calculateMatchScore dist offer request
      = GoFloat.fin
          (3 / 10 * pc
            + 3 / 10 * Max.max 0
                (1 - |((offer.DepartureTime - request.DepartureTime : Int) : K)| / 60000000000 / 30)
            + 4 / 10 * Max.max 0 (1 - (pd + dd) / (2 * a))) := by
  have h1 : ¬ offer.AvailableSeats < request.NumPassengers := not_lt.mpr hseats
  have h2 : GoFloat.gt (pickupDistance dist offer request) offer.AllowedDetourKm = false := by
    simp [hpd, ha, GoFloat.gt, GoFloat.lt, hpd_le]
  have h3 : GoFloat.gt (dropoffDistance dist offer request) offer.AllowedDetourKm = false := by
    simp [hdd, ha, GoFloat.gt, GoFloat.lt, hdd_le]
  rw [calculateMatchScore, if_neg h1, h2, h3, hpc, timeCompat_eq,
    locationCompat_eq dist offer request a pd dd ha hpos hpd hdd]
  simp only [priceWeight, timeWeight, locationWeight, GoFloat.mul, GoFloat.add, Bool.or_self,
    Bool.false_eq_true, if_false]
  congr 1
  ring

/-- The score of a pair one of whose distances exceeds the detour bound. -/
theorem calculateMatchScore_rejected (dist : DistanceFn K) (offer : RideOffer K)
    (request : RideRequest K) (a pd dd : K)
    (ha : offer.AllowedDetourKm = GoFloat.fin a)
    (hpd : pickupDistance dist offer request = GoFloat.fin pd)
    (hdd : dropoffDistance dist offer request = GoFloat.fin dd)
    (hrej : a < pd ∨ a < dd) :
    calculateMatchScore dist offer request = GoFloat.fin 0 := by
  unfold calculateMatchScore
  split
  · rfl
  · rw [hpd, hdd, ha]
    rcases hrej with h | h <;> simp [GoFloat.gt, GoFloat.lt, h]

/-- `priceCompat` reads the two prices and the passenger count only. -/
theorem priceCompat_congr (o1 o2 : RideOffer K) (r1 r2 : RideRequest K)
    (hprice : o1.PricePerSeat = o2.PricePerSeat) (hmax : r1.MaxPrice = r2.MaxPrice)
    (hnum : r1.NumPassengers = r2.NumPassengers) :
    priceCompat o1 r1 = priceCompat o2 r2 := by
  simp only [priceCompat, maxPricePerSeat, hprice, hmax, hnum]

theorem timeTerm_antitone (t1 t2 : Int) (h : |t1| ≤ |t2|) :
    Max.max (0 : K) (1 - |((t2 : Int) : K)| / 60000000000 / 30)
      ≤ Max.max 0 (1 - |((t1 : Int) : K)| / 60000000000 / 30) := by
  have hc : |((t1 : Int) : K)| ≤ |((t2 : Int) : K)| := by
    rw [← Int.cast_abs, ← Int.cast_abs]
    exact_mod_cast h
  apply max_le_max (le_refl _)
  have : |((t1 : Int) : K)| / 60000000000 / 30 ≤ |((t2 : Int) : K)| / 60000000000 / 30 := by
    apply div_le_div_of_nonneg_right _ (by norm_num)
    exact div_le_div_of_nonneg_right hc (by norm_num)
  linarith

theorem locationTerm_antitone (a pd1 dd1 pd2 dd2 : K) (hpos : 0 < a) (hpd : pd1 ≤ pd2)
    (hdd : dd1 ≤ dd2) :
    Max.max (0 : K) (1 - (pd2 + dd2) / (2 * a)) ≤ Max.max 0 (1 - (pd1 + dd1) / (2 * a)) := by
  apply max_le_max (le_refl _)
  have : (pd1 + dd1) / (2 * a) ≤ (pd2 + dd2) / (2 * a) :=
    div_le_div_of_nonneg_right (by linarith) (by positivity)
  linarith

end ScoreShape

section ScoreShapeClaims

variable {K : Type} [LinearOrderedField K]

/-- C28. The score is non-increasing in the absolute departure-time difference
and in each of the two distances. Take two pairs with the same seat counts,
the same prices and the same finite detour bound `a > 0`, and finite distances
`pd1 ≤ pd2` and `dd1 ≤ dd2`, the smaller ones not negative, and departure-time
differences with `|t1| ≤ |t2|`: both scores are finite and the second is at
most the first. Nothing is assumed on which side of the detour bound the
distances lie, so the hard reject is covered. -/
theorem calculateMatchScore_monotone (dist : DistanceFn K) (o1 o2 : RideOffer K)
    (r1 r2 : RideRequest K) (a pd1 dd1 pd2 dd2 : K)
    (hseats : o1.AvailableSeats = o2.AvailableSeats)
    (hnum : r1.NumPassengers = r2.NumPassengers)
    (hprice : o1.PricePerSeat = o2.PricePerSeat) (hmax : r1.MaxPrice = r2.MaxPrice)
    (ha1 : o1.AllowedDetourKm = GoFloat.fin a) (ha2 : o2.AllowedDetourKm = GoFloat.fin a)
    (hpos : 0 < a)
    (hpd1 : pickupDistance dist o1 r1 = GoFloat.fin pd1)
    (hdd1 : dropoffDistance dist o1 r1 = GoFloat.fin dd1)
    (hpd2 : pickupDistance dist o2 r2 = GoFloat.fin pd2)
    (hdd2 : dropoffDistance dist o2 r2 = GoFloat.fin dd2)
    (hpd0 : 0 ≤ pd1) (hdd0 : 0 ≤ dd1) (hpd : pd1 ≤ pd2) (hdd : dd1 ≤ dd2)
    (ht : |o1.DepartureTime - r1.DepartureTime| ≤ |o2.DepartureTime - r2.DepartureTime|) :
    ∃ s1 s2 : K, calculateMatchScore dist o1 r1 = GoFloat.fin s1
      ∧ calculateMatchScore dist o2 r2 = GoFloat.fin s2 ∧ s2 ≤ s1 := by
  obtain ⟨s1, hs1, hs10, -⟩ := calculateMatchScore_unit_interval dist o1 r1 a pd1 dd1 ha1
    (ne_of_gt hpos) hpd1 hpd0 hdd1 hdd0
  by_cases hs : o1.AvailableSeats < r1.NumPassengers
  · refine ⟨0, 0, ?_, ?_, le_refl _⟩
    · rw [calculateMatchScore, if_pos hs]
    · rw [calculateMatchScore, if_pos (by rw [← hseats, ← hnum]; exact hs)]
  · by_cases hrej : a < pd2 ∨ a < dd2
    · exact ⟨s1, 0, hs1, calculateMatchScore_rejected dist o2 r2 a pd2 dd2 ha2 hpd2 hdd2 hrej,
        hs10⟩
    · rw [not_or, not_lt, not_lt] at hrej
      have hseats1 : o1.AvailableSeats ≥ r1.NumPassengers := not_lt.mp hs
      have hseats2 : o2.AvailableSeats ≥ r2.NumPassengers := by
        rw [← hseats, ← hnum]
        exact hseats1
      have hpceq := priceCompat_congr o1 o2 r1 r2 hprice hmax hnum
      obtain ⟨pc, hpc⟩ : ∃ pc : K, priceCompat o1 r1 = GoFloat.fin pc := by
        rcases priceCompat_cases o1 r1 with h | h
        · exact ⟨0, h⟩
        · exact ⟨1, h⟩
      refine ⟨_, _,
        calculateMatchScore_formula dist o1 r1 a pd1 dd1 pc hseats1 ha1 hpos hpd1
          (le_trans hpd hrej.1) hdd1 (le_trans hdd hrej.2) hpc,
        calculateMatchScore_formula dist o2 r2 a pd2 dd2 pc hseats2 ha2 hpos hpd2 hrej.1 hdd2
          hrej.2 (by rw [← hpceq]; exact hpc), ?_⟩
      have h1 := timeTerm_antitone (K := K) (o1.DepartureTime - r1.DepartureTime)
        (o2.DepartureTime - r2.DepartureTime) ht
      have h2 := locationTerm_antitone a pd1 dd1 pd2 dd2 hpos hpd hdd
      linarith

end ScoreShapeClaims

section ScoreShapeWitness

theorem nearby_pickup :
    pickupDistance gridDistance oversellOffer nearbyRequest = GoFloat.fin (111 / 50) := by
  simp [pickupDistance, gridDistance, oversellOffer, nearbyRequest, oversellRequest1,
    GoFloat.sub, GoFloat.neg, GoFloat.add, GoFloat.abs, GoFloat.mul]
  norm_num [abs_of_nonneg]

theorem nearby_dropoff :
    dropoffDistance gridDistance oversellOffer nearbyRequest = GoFloat.fin (111 / 50) := by
  simp [dropoffDistance, gridDistance, oversellOffer, nearbyRequest, oversellRequest1,
    GoFloat.sub, GoFloat.neg, GoFloat.add, GoFloat.abs, GoFloat.mul]
  norm_num [abs_of_nonneg]

/-- C28, for `oversellOffer`: `oversellRequest1` shares its start, its end and
its departure time; `nearbyRequest` is 2.22 km away at both ends and leaves
ten minutes later. The score of the second is at most that of the first. -/
theorem calculateMatchScore_monotone_witness :
    ∃ s1 s2 : ℚ, calculateMatchScore gridDistance oversellOffer oversellRequest1 = GoFloat.fin s1
      ∧ calculateMatchScore gridDistance oversellOffer nearbyRequest = GoFloat.fin s2
      ∧ s2 ≤ s1 :=
  calculateMatchScore_monotone gridDistance oversellOffer oversellOffer oversellRequest1
    nearbyRequest 5 0 0 (111 / 50) (111 / 50) rfl rfl rfl rfl rfl rfl (by norm_num)
    (gridDistance_self 0 0) (gridDistance_self 1 1) nearby_pickup nearby_dropoff (le_refl _)
    (le_refl _) (by norm_num) (by norm_num) (by decide)

end ScoreShapeWitness

/-! ### The price term -/

section PriceTerm

theorem pricey_priceCompat : priceCompat priceyOffer oversellRequest1 = GoFloat.fin 0 := by
  simp [priceCompat, maxPricePerSeat, priceyOffer, oversellOffer, oversellRequest1, GoFloat.gt,
    GoFloat.lt, GoFloat.div, GoFloat.ofInt]
  norm_num

theorem pricey_gt : GoFloat.gt priceyOffer.PricePerSeat (maxPricePerSeat oversellRequest1)
    = true := by
  simp [maxPricePerSeat, priceyOffer, oversellOffer, oversellRequest1, GoFloat.gt,
    GoFloat.lt, GoFloat.div, GoFloat.ofInt]
  norm_num

theorem pricey_score (dist : DistanceFn ℚ)
    (hdist : ∀ x y : ℚ, dist (.fin x) (.fin y) (.fin x) (.fin y) = .fin 0) :
    calculateMatchScore dist priceyOffer oversellRequest1 = GoFloat.fin (7 / 10) := by
  rw [calculateMatchScore_formula dist priceyOffer oversellRequest1 5 0 0 0 (by decide) rfl
    (by norm_num) (hdist 0 0) (by norm_num) (hdist 1 1) (by norm_num) pricey_priceCompat]
  norm_num [priceyOffer, oversellOffer, oversellRequest1]

theorem pricey_price :
    GoFloat.mul priceyOffer.PricePerSeat (GoFloat.ofInt oversellRequest1.NumPassengers)
      = GoFloat.fin 40 := by
  simp only [priceyOffer, oversellOffer, oversellRequest1, GoFloat.mul, GoFloat.ofInt]
  norm_num

theorem gt_seven_tenths_threshold :
    GoFloat.gt (GoFloat.fin (7 / 10 : ℚ)) matchThreshold = true := by
  simp [GoFloat.gt, GoFloat.lt, matchThreshold]
  norm_num

/-- The fault-free run of `findMatchesForOffer` for the pricey offer: its one
candidate is accepted. -/
theorem pricey_run (dist : DistanceFn ℚ)
    (hdist : ∀ x y : ℚ, dist (.fin x) (.fin y) (.fin x) (.fin y) = .fin 0) :
    findMatchesForOffer dist priceyStore (fun i => 31 + i) noDiscoveryFaults 21
      = (afterCandidate dist noCandidateFaults 31 priceyStore priceyOffer oversellRequest1,
          .ok) := by
  rw [findMatchesForOffer_run dist priceyStore (fun i => 31 + i) noDiscoveryFaults 21 priceyOffer
    [oversellRequest1] rfl rfl rfl rfl rfl]
  simp only [List.map_cons, List.map_nil, pairLoop]
  rw [pricey_score dist hdist]
  simp [gt_seven_tenths_threshold, noDiscoveryFaults, noCandidateFaults, priceyStore,
    oversellStore0]

end PriceTerm

section PriceTermClaims

variable {K : Type} [LinearOrderedField K]

/-- C27. The price is not a hard constraint when discovery starts from an
offer. Whenever `pricePerSeat > maxPrice / numPassengers` (as Go compares) and
the pair has enough seats and finite distances between 0 and the finite detour
bound `a > 0`: `priceCompat` is 0 and the score is
`0.3 * timeCompat + 0.4 * locationCompat`, at most 0.7. And it can exceed 0.6:
for every distance function that is 0 between identical points, there are a
store with a stored offer and a stored pending request, the price of the
seats asked for exceeding the request's `MaxPrice`, for which
`findMatchesForOffer` returns `nil` and stores a match of the pair whose
`Price` is greater than the request's `MaxPrice`. -/
theorem price_not_hard_constraint :
    (∀ (dist : DistanceFn K) (offer : RideOffer K) (request : RideRequest K) (a pd dd : K),
      offer.AvailableSeats ≥ request.NumPassengers →
      offer.AllowedDetourKm = GoFloat.fin a → 0 < a →
      pickupDistance dist offer request = GoFloat.fin pd → 0 ≤ pd → pd ≤ a →
      dropoffDistance dist offer request = GoFloat.fin dd → 0 ≤ dd → dd ≤ a →
      GoFloat.gt offer.PricePerSeat (maxPricePerSeat request) = true →
      priceCompat offer request = GoFloat.fin 0
      ∧ ∃ tc lc : K, timeCompat offer request = GoFloat.fin tc
        ∧ locationCompat dist offer request = GoFloat.fin lc
        ∧ calculateMatchScore dist offer request = GoFloat.fin (3 / 10 * tc + 4 / 10 * lc)
        ∧ 3 / 10 * tc + 4 / 10 * lc ≤ 7 / 10)
    ∧ (∀ dist : DistanceFn ℚ,
      (∀ x y : ℚ, dist (.fin x) (.fin y) (.fin x) (.fin y) = .fin 0) →
      ∃ (s : Store ℚ) (offer : RideOffer ℚ) (request : RideRequest ℚ) (newIDs : Nat → UUID),
        FindRideOfferByID s none offer.ID = .ok (some offer)
        ∧ FindRideRequestByID s none request.ID = .ok (some request)
        ∧ request.Status = StatusPending
        ∧ GoFloat.gt (GoFloat.mul offer.PricePerSeat (GoFloat.ofInt request.NumPassengers))
            request.MaxPrice = true
        ∧ GoFloat.gt (calculateMatchScore dist offer request) (GoFloat.fin (6 / 10)) = true
        ∧ (findMatchesForOffer dist s newIDs noDiscoveryFaults offer.ID).2 = .ok
        ∧ ∃ m ∈ (findMatchesForOffer dist s newIDs noDiscoveryFaults offer.ID).1.rideMatches,
            m ∉ s.rideMatches ∧ m.RideOfferID = offer.ID ∧ m.RideRequestID = request.ID
            ∧ GoFloat.gt m.Price request.MaxPrice = true) := by
  constructor
  · intro dist offer request a pd dd hseats ha hpos hpd hpd0 hpd_le hdd hdd0 hdd_le hgt
    have hpc : priceCompat offer request = GoFloat.fin 0 := by
      rw [priceCompat, if_pos hgt]
    refine ⟨hpc, _, _, timeCompat_eq offer request,
      locationCompat_eq dist offer request a pd dd ha hpos hpd hdd, ?_, ?_⟩
    · rw [calculateMatchScore_formula dist offer request a pd dd 0 hseats ha hpos hpd hpd_le hdd
        hdd_le hpc]
      congr 1
      ring
    · have ht1 : Max.max 0
          (1 - |((offer.DepartureTime - request.DepartureTime : Int) : K)| / 60000000000 / 30)
            ≤ (1 : K) := by
        apply max_le zero_le_one
        have : (0 : K) ≤ |((offer.DepartureTime - request.DepartureTime : Int) : K)|
            / 60000000000 / 30 := by positivity
        linarith
      have hl1 : Max.max 0 (1 - (pd + dd) / (2 * a)) ≤ (1 : K) := by
        apply max_le zero_le_one
        have : (0 : K) ≤ (pd + dd) / (2 * a) := by positivity
        linarith
      linarith
  · intro dist hdist
    have hrun := pricey_run dist hdist
    refine ⟨priceyStore, priceyOffer, oversellRequest1, fun i => 31 + i, rfl, rfl, rfl, ?_, ?_,
      ?_, ?_⟩
    · rw [pricey_price]
      simp [oversellRequest1, GoFloat.gt, GoFloat.lt]
      norm_num
    · rw [pricey_score dist hdist]
      exact gt_seven_tenths_threshold
    · show (findMatchesForOffer dist priceyStore (fun i => 31 + i) noDiscoveryFaults 21).2 = .ok
      rw [hrun]
    · show ∃ m ∈ (findMatchesForOffer dist priceyStore (fun i => 31 + i) noDiscoveryFaults
          21).1.rideMatches, _
      rw [hrun, afterCandidate_rideMatches]
      refine ⟨newRideMatch dist priceyOffer oversellRequest1 31, by simp, ?_, rfl, rfl, ?_⟩
      · simp [priceyStore, oversellStore0]
      · show GoFloat.gt (GoFloat.mul priceyOffer.PricePerSeat
          (GoFloat.ofInt oversellRequest1.NumPassengers)) oversellRequest1.MaxPrice = true
        rw [pricey_price]
        simp [oversellRequest1, GoFloat.gt, GoFloat.lt]
        norm_num

end PriceTermClaims

section PriceTermWitness

/-- C27, for `priceyOffer` (20 per seat) and `oversellRequest1` (two
passengers, budget 25) on `gridDistance`: `priceCompat` is 0 and the score is
`0.3 * timeCompat + 0.4 * locationCompat`; discovery for the offer stores a
match of a pair whose seats cost more than the request's budget. -/
theorem price_not_hard_constraint_witness :
    (priceCompat priceyOffer oversellRequest1 = GoFloat.fin 0
      ∧ ∃ tc lc : ℚ, timeCompat priceyOffer oversellRequest1 = GoFloat.fin tc
        ∧ locationCompat gridDistance priceyOffer oversellRequest1 = GoFloat.fin lc
        ∧ calculateMatchScore gridDistance priceyOffer oversellRequest1
          = GoFloat.fin (3 / 10 * tc + 4 / 10 * lc)
        ∧ 3 / 10 * tc + 4 / 10 * lc ≤ 7 / 10)
    ∧ ∃ (s : Store ℚ) (offer : RideOffer ℚ) (request : RideRequest ℚ) (newIDs : Nat → UUID),
        FindRideOfferByID s none offer.ID = .ok (some offer)
        ∧ FindRideRequestByID s none request.ID = .ok (some request)
        ∧ request.Status = StatusPending
        ∧ GoFloat.gt (GoFloat.mul offer.PricePerSeat (GoFloat.ofInt request.NumPassengers))
            request.MaxPrice = true
        ∧ GoFloat.gt (calculateMatchScore gridDistance offer request) (GoFloat.fin (6 / 10))
            = true
        ∧ (findMatchesForOffer gridDistance s newIDs noDiscoveryFaults offer.ID).2 = .ok
        ∧ ∃ m ∈ (findMatchesForOffer gridDistance s newIDs noDiscoveryFaults
              offer.ID).1.rideMatches,
            m ∉ s.rideMatches ∧ m.RideOfferID = offer.ID ∧ m.RideRequestID = request.ID
            ∧ GoFloat.gt m.Price request.MaxPrice = true :=
  ⟨price_not_hard_constraint.1 gridDistance priceyOffer oversellRequest1 5 0 0 (by decide) rfl
      (by norm_num) (gridDistance_self 0 0) (le_refl _) (by norm_num) (gridDistance_self 1 1)
      (le_refl _) (by norm_num) pricey_gt,
    (price_not_hard_constraint (K := ℚ)).2 gridDistance gridDistance_self⟩

end PriceTermWitness

/-! ### Creating an offer -/

section CreateOffer

/-- C25 fails for a zero detour bound. Driver 1 (four seats) offers three
seats with `allowedDetourKm = 0`; every check passes and the insert succeeds,
but the offer that is returned has `AllowedDetourKm = 5`: the column default,
not the argument. -/
theorem CreateRideOffer_zero_detour_becomes_default :
    (CreateRideOffer oversellStore0 0 21 noCreateOfferFaults 1 (.fin 0) (.fin 0) "A" (.fin 1)
        (.fin 1) "B" 1000 3 (.fin 10) (.fin 0)).2 = .ok oversellOffer
    ∧ oversellOffer.AllowedDetourKm = GoFloat.fin 5
    ∧ oversellOffer.AllowedDetourKm ≠ GoFloat.fin 0 := by
  refine ⟨rfl, rfl, ?_⟩
  decide

end CreateOffer

section DriverLookup

variable {K : Type}

theorem GetDriverProfile_fault (s : Store K) (e : StoreError) (driverID : UUID) :
    GetDriverProfile s (some e) driverID = .ok none
      ∨ GetDriverProfile s (some e) driverID = .error e := by
  unfold GetDriverProfile
  rw [orNil_gormFirst_some]
  by_cases h : e = .ErrRecordNotFound
  · left; rw [if_pos h]
  · right; rw [if_neg h]

end DriverLookup

section CreateOfferClaims

variable {K : Type} [LinearOrderedField K]

/-- The offer `Repo.CreateRideOffer` returns is the one it was given, after
the `BeforeCreate` hook and the column default. -/
theorem Repo_CreateRideOffer_ok (s : Store K) (fault : Option StoreError) (newID : UUID)
    (offer : RideOffer K) (s1 : Store K) (o : RideOffer K)
    (h : Repo.CreateRideOffer s fault newID offer = .ok (s1, o)) :
    o = (offer.BeforeCreate newID).columnDefaults := by
  simp only [Repo.CreateRideOffer] at h
  split at h
  · simp at h
  · simp only [Except.ok.injEq, Prod.mk.injEq] at h
    exact h.2.symm

/-- C25 as amended. For every call of `CreateRideOffer`, `now` being the
current time: if the driver has no profile, or `availableSeats <= 0`, or
`availableSeats` exceeds the `NumSeats` of the driver's profile, or the
departure time is before `now`, the call returns an error and the store is as
before, whatever the database does. Otherwise, whenever the call returns an
offer (the store write has succeeded), the offer has status `pending`; its
driver, locations, departure time, seat count and price are the arguments;
its detour bound is the argument, except that a zero argument is replaced by
the column default 5; and the driver has a profile with
`1 <= AvailableSeats <= NumSeats`. The call does return an offer when the
driver has a profile, the seat count is within its bounds, the departure time
is not before `now`, the database raises no error and the generated ID is
new. -/
theorem CreateRideOffer_contract (s : Store K) (now : Time) (newID : UUID)
    (f : CreateOfferFaults) (driverID : UUID) (startLat startLng : GoFloat K)
    (startAddress : String) (endLat endLng : GoFloat K) (endAddress : String)
    (departureTime : Time) (availableSeats : Int) (pricePerSeat allowedDetourKm : GoFloat K) :
    ((GetDriverProfile s none driverID = .ok none ∨ availableSeats ≤ 0
        ∨ (∃ p, GetDriverProfile s none driverID = .ok (some p) ∧ availableSeats > p.NumSeats)
        ∨ departureTime < now) →
      (∃ e, (CreateRideOffer s now newID f driverID startLat startLng startAddress endLat endLng
          endAddress departureTime availableSeats pricePerSeat allowedDetourKm).2 = .error e)
      ∧ (CreateRideOffer s now newID f driverID startLat startLng startAddress endLat endLng
          endAddress departureTime availableSeats pricePerSeat allowedDetourKm).1 = s)
    ∧ (∀ offer, (CreateRideOffer s now newID f driverID startLat startLng startAddress endLat
          endLng endAddress departureTime availableSeats pricePerSeat allowedDetourKm).2
          = .ok offer →
        offer.Status = StatusPending ∧ offer.DriverID = driverID
        ∧ offer.StartLocation
          = { Latitude := startLat, Longitude := startLng, Address := startAddress }
        ∧ offer.EndLocation = { Latitude := endLat, Longitude := endLng, Address := endAddress }
        ∧ offer.DepartureTime = departureTime ∧ offer.AvailableSeats = availableSeats
        ∧ offer.PricePerSeat = pricePerSeat
        ∧ offer.AllowedDetourKm
          = (if GoFloat.isZero allowedDetourKm = true then GoFloat.fin 5 else allowedDetourKm)
        ∧ ¬ departureTime < now
        ∧ ∃ p, GetDriverProfile s none driverID = .ok (some p)
          ∧ 1 ≤ offer.AvailableSeats ∧ offer.AvailableSeats ≤ p.NumSeats)
    ∧ (∀ p, GetDriverProfile s none driverID = .ok (some p) →
      0 < availableSeats → availableSeats ≤ p.NumSeats → ¬ departureTime < now →
      f.getDriverProfile = none → f.createRideOffer = none →
      newID ∉ s.rideOffers.map RideOffer.ID →
      ∃ offer, (CreateRideOffer s now newID f driverID startLat startLng startAddress endLat
            endLng endAddress departureTime availableSeats pricePerSeat allowedDetourKm).2
          = .ok offer ∧ offer.ID = newID) := by
  refine ⟨?_, ?_, ?_⟩
  · intro h
    unfold CreateRideOffer
    cases hf : f.getDriverProfile with
    | some e =>
      rcases GetDriverProfile_fault s e driverID with hg | hg <;> rw [hg] <;>
        exact ⟨⟨_, rfl⟩, rfl⟩
    | none =>
      cases hg : GetDriverProfile s none driverID with
      | error e => exact ⟨⟨_, rfl⟩, rfl⟩
      | ok p? =>
        cases p? with
        | none => exact ⟨⟨_, rfl⟩, rfl⟩
        | some p =>
          dsimp only
          rw [hg] at h
          by_cases hs : availableSeats ≤ 0 ∨ availableSeats > p.NumSeats
          · rw [if_pos hs]
            exact ⟨⟨_, rfl⟩, rfl⟩
          · rw [if_neg hs]
            have ht : departureTime < now := by
              rcases h with h | h | ⟨q, hq, hgt⟩ | h
              · simp at h
              · exact absurd (Or.inl h) hs
              · simp only [Except.ok.injEq, Option.some.injEq] at hq
                rw [← hq] at hgt
                exact absurd (Or.inr hgt) hs
              · exact h
            rw [if_pos ht]
            exact ⟨⟨_, rfl⟩, rfl⟩
  · intro offer hok
    unfold CreateRideOffer at hok
    cases hf : f.getDriverProfile with
    | some e =>
      rw [hf] at hok
      rcases GetDriverProfile_fault s e driverID with hg | hg <;> rw [hg] at hok <;>
        simp at hok
    | none =>
      rw [hf] at hok
      cases hg : GetDriverProfile s none driverID with
      | error e => rw [hg] at hok; simp at hok
      | ok p? =>
        cases p? with
        | none => rw [hg] at hok; simp at hok
        | some p =>
          rw [hg] at hok
          dsimp only at hok
          by_cases hs : availableSeats ≤ 0 ∨ availableSeats > p.NumSeats
          · rw [if_pos hs] at hok
            simp at hok
          · rw [if_neg hs] at hok
            by_cases ht : departureTime < now
            · rw [if_pos ht] at hok
              simp at hok
            · rw [if_neg ht] at hok
              rw [not_or, not_le, not_lt] at hs
              cases hr : Repo.CreateRideOffer s f.createRideOffer newID
                  { ID := 0, DriverID := driverID
                    StartLocation :=
                      { Latitude := startLat, Longitude := startLng, Address := startAddress }
                    EndLocation :=
                      { Latitude := endLat, Longitude := endLng, Address := endAddress }
                    DepartureTime := departureTime, AvailableSeats := availableSeats
                    PricePerSeat := pricePerSeat, AllowedDetourKm := allowedDetourKm
                    Status := StatusPending } with
              | error e => rw [hr] at hok; simp at hok
              | ok pr =>
                obtain ⟨s1, o⟩ := pr
                rw [hr] at hok
                simp only [Except.ok.injEq] at hok
                have ho := Repo_CreateRideOffer_ok s f.createRideOffer newID _ s1 o hr
                rw [← hok, ho]
                by_cases hz : GoFloat.isZero allowedDetourKm = true
                · rw [RideOffer.BeforeCreate, if_pos rfl, RideOffer.columnDefaults, if_pos hz,
                    if_pos hz]
                  exact ⟨rfl, rfl, rfl, rfl, rfl, rfl, rfl, rfl, ht, p, rfl, hs.1, hs.2⟩
                · rw [RideOffer.BeforeCreate, if_pos rfl, RideOffer.columnDefaults, if_neg hz,
                    if_neg hz]
                  exact ⟨rfl, rfl, rfl, rfl, rfl, rfl, rfl, rfl, ht, p, rfl, hs.1, hs.2⟩
  · intro p hp hpos hle htime hf1 hf2 hfresh
    have hs : ¬ (availableSeats ≤ 0 ∨ availableSeats > p.NumSeats) := by
      rw [not_or]
      exact ⟨not_le.mpr hpos, not_lt.mpr hle⟩
    have hcreate : ∀ x : RideOffer K, x.ID = newID →
        gormCreate RideOffer.ID s.rideOffers x none = .ok (s.rideOffers ++ [x]) := by
      intro x hx
      exact gormCreate_fresh RideOffer.ID s.rideOffers x (by rw [hx]; exact hfresh)
    unfold CreateRideOffer
    rw [hf1, hp]
    dsimp only
    rw [if_neg hs, if_neg htime, hf2]
    simp only [Repo.CreateRideOffer, RideOffer.BeforeCreate, if_true, RideOffer.columnDefaults]
    by_cases hz : GoFloat.isZero allowedDetourKm = true
    · simp only [hz, if_true]
      rw [hcreate _ rfl]
      exact ⟨_, rfl, rfl⟩
    · simp only [hz, if_false]
      rw [hcreate _ rfl]
      exact ⟨_, rfl, rfl⟩

end CreateOfferClaims

section CreateOfferWitness

/-- C25 as amended, at `oversellStore0`, where driver 1 has a four-seat car:
an offer of five seats is refused and nothing is stored; an offer of three
seats with a detour bound of 5 km is returned as `oversellOffer`, with the
fields the arguments give it. -/
theorem CreateRideOffer_contract_witness :
    ((∃ e, (CreateRideOffer oversellStore0 0 21 noCreateOfferFaults 1 (.fin 0) (.fin 0) "A"
          (.fin 1) (.fin 1) "B" 1000 5 (.fin 10) (.fin 5)).2 = .error e)
      ∧ (CreateRideOffer oversellStore0 0 21 noCreateOfferFaults 1 (.fin 0) (.fin 0) "A"
          (.fin 1) (.fin 1) "B" 1000 5 (.fin 10) (.fin 5)).1 = oversellStore0)
    ∧ ((CreateRideOffer oversellStore0 0 21 noCreateOfferFaults 1 (.fin 0) (.fin 0) "A"
          (.fin 1) (.fin 1) "B" 1000 3 (.fin 10) (.fin 5)).2 = .ok oversellOffer
      ∧ oversellOffer.Status = StatusPending ∧ oversellOffer.DriverID = 1
      ∧ oversellOffer.StartLocation
        = { Latitude := .fin 0, Longitude := .fin 0, Address := "A" }
      ∧ oversellOffer.EndLocation = { Latitude := .fin 1, Longitude := .fin 1, Address := "B" }
      ∧ oversellOffer.DepartureTime = 1000 ∧ oversellOffer.AvailableSeats = 3
      ∧ oversellOffer.PricePerSeat = .fin 10
      ∧ oversellOffer.AllowedDetourKm
        = (if GoFloat.isZero (GoFloat.fin (5 : ℚ)) = true then GoFloat.fin 5 else GoFloat.fin 5)
      ∧ ¬ (1000 : Time) < 0
      ∧ ∃ p, GetDriverProfile oversellStore0 none 1 = .ok (some p)
        ∧ 1 ≤ oversellOffer.AvailableSeats ∧ oversellOffer.AvailableSeats ≤ p.NumSeats)
    ∧ ∃ offer, (CreateRideOffer oversellStore0 0 21 noCreateOfferFaults 1 (.fin 0) (.fin 0) "A"
          (.fin 1) (.fin 1) "B" 1000 3 (.fin 10) (.fin 5)).2 = .ok offer ∧ offer.ID = 21 :=
  ⟨(CreateRideOffer_contract oversellStore0 0 21 noCreateOfferFaults 1 (.fin 0) (.fin 0) "A"
      (.fin 1) (.fin 1) "B" 1000 5 (.fin 10) (.fin 5)).1
      (Or.inr (Or.inr (Or.inl ⟨{ UserID := 1, NumSeats := 4 }, rfl, by decide⟩))),
    ⟨rfl, (CreateRideOffer_contract oversellStore0 0 21 noCreateOfferFaults 1 (.fin 0) (.fin 0)
      "A" (.fin 1) (.fin 1) "B" 1000 3 (.fin 10) (.fin 5)).2.1 oversellOffer rfl⟩,
    (CreateRideOffer_contract oversellStore0 0 21 noCreateOfferFaults 1 (.fin 0) (.fin 0) "A"
      (.fin 1) (.fin 1) "B" 1000 3 (.fin 10) (.fin 5)).2.2 { UserID := 1, NumSeats := 4 } rfl
      (by decide) (by decide) (by decide) rfl rfl (List.not_mem_nil _)⟩

end CreateOfferWitness

/-! ### The haversine distance -/

section FloatAlgebra

variable {K : Type} [LinearOrderedField K]

theorem GoFloat.neg_neg (x : GoFloat K) : GoFloat.neg (GoFloat.neg x) = x := by
  cases x <;> simp [GoFloat.neg]

theorem GoFloat.sub_swap (x y : GoFloat K) : GoFloat.sub x y = GoFloat.neg (GoFloat.sub y x) := by
  cases x <;> cases y <;> simp [GoFloat.sub, GoFloat.add, GoFloat.neg]

theorem GoFloat.div_neg_two (x : GoFloat K) :
    GoFloat.div (GoFloat.neg x) (GoFloat.fin 2) = GoFloat.neg (GoFloat.div x (GoFloat.fin 2)) := by
  cases x <;> simp [GoFloat.div, GoFloat.neg]
  ring

theorem GoFloat.mul_neg_right (x y : GoFloat K) :
    GoFloat.mul x (GoFloat.neg y) = GoFloat.neg (GoFloat.mul x y) := by
  cases x with
  | nan => cases y <;> rfl
  | fin a =>
    cases y with
    | nan => rfl
    | fin b => simp [GoFloat.mul, GoFloat.neg]
    | pinf =>
      rcases lt_trichotomy a 0 with h | h | h
      · simp [GoFloat.mul, GoFloat.neg, h.ne, not_lt.mpr h.le]
      · simp [GoFloat.mul, GoFloat.neg, h]
      · simp [GoFloat.mul, GoFloat.neg, h.ne', h]
    | ninf =>
      rcases lt_trichotomy a 0 with h | h | h
      · simp [GoFloat.mul, GoFloat.neg, h.ne, not_lt.mpr h.le]
      · simp [GoFloat.mul, GoFloat.neg, h]
      · simp [GoFloat.mul, GoFloat.neg, h.ne', h]
  | pinf =>
    cases y with
    | nan => rfl
    | fin b =>
      rcases lt_trichotomy b 0 with h | h | h
      · simp [GoFloat.mul, GoFloat.neg, h.ne, not_lt.mpr h.le, h]
      · simp [GoFloat.mul, GoFloat.neg, h]
      · simp [GoFloat.mul, GoFloat.neg, h.ne', h, not_lt.mpr h.le]
    | pinf => rfl
    | ninf => rfl
  | ninf =>
    cases y with
    | nan => rfl
    | fin b =>
      rcases lt_trichotomy b 0 with h | h | h
      · simp [GoFloat.mul, GoFloat.neg, h.ne, not_lt.mpr h.le, h]
      · simp [GoFloat.mul, GoFloat.neg, h]
      · simp [GoFloat.mul, GoFloat.neg, h.ne', h, not_lt.mpr h.le]
    | pinf => rfl
    | ninf => rfl

theorem GoFloat.mul_swap (x y : GoFloat K) : GoFloat.mul x y = GoFloat.mul y x := by
  cases x <;> cases y <;> simp [GoFloat.mul]
  ring

theorem GoFloat.mul_neg_left (x y : GoFloat K) :
    GoFloat.mul (GoFloat.neg x) y = GoFloat.neg (GoFloat.mul x y) := by
  rw [GoFloat.mul_swap, GoFloat.mul_neg_right, GoFloat.mul_swap]

theorem GoMath.Sin_neg (m : GoMath K) (hodd : ∀ x, m.sin (-x) = -m.sin x) (x : GoFloat K) :
    m.Sin (GoFloat.neg x) = GoFloat.neg (m.Sin x) := by
  cases x <;> simp [GoMath.Sin, GoFloat.neg, hodd]

/-- `math.Sin` of half a difference changes sign with the order of the
difference. -/
theorem Sin_half_swap (m : GoMath K) (hodd : ∀ x, m.sin (-x) = -m.sin x) (x y : GoFloat K) :
    m.Sin (GoFloat.div (GoFloat.sub x y) (GoFloat.fin 2))
      = GoFloat.neg (m.Sin (GoFloat.div (GoFloat.sub y x) (GoFloat.fin 2))) := by
  rw [GoFloat.sub_swap x y, GoFloat.div_neg_two, GoMath.Sin_neg m hodd]

end FloatAlgebra

section HaversineFinite

variable {K : Type} [LinearOrderedField K]

theorem GoMath.Sound.cos_bounds {m : GoMath K} (hs : m.Sound) (x : K) :
    -1 ≤ m.cos x ∧ m.cos x ≤ 1 := by
  have h := hs.sin_sq_add_cos_sq x
  constructor <;> nlinarith [mul_self_nonneg (m.sin x), mul_self_nonneg (m.cos x - 1),
    mul_self_nonneg (m.cos x + 1)]

theorem GoMath.Sound.sin_sq_le_one {m : GoMath K} (hs : m.Sound) (x : K) :
    m.sin x * m.sin x ≤ 1 := by
  have h := hs.sin_sq_add_cos_sq x
  nlinarith [mul_self_nonneg (m.cos x)]

theorem GoMath.Sound.sin_zero {m : GoMath K} (hs : m.Sound) : m.sin 0 = 0 := by
  have h := hs.sin_neg 0
  rw [neg_zero] at h
  linarith

theorem GoMath.Sound.cos_sub {m : GoMath K} (hs : m.Sound) (x y : K) :
    m.cos (x - y) = m.cos x * m.cos y + m.sin x * m.sin y := by
  rw [sub_eq_add_neg, hs.cos_add, hs.cos_neg, hs.sin_neg]
  ring

/-- The half-angle formula: `cos x = 1 - 2 sin² (x / 2)`. -/
theorem GoMath.Sound.cos_eq_half {m : GoMath K} (hs : m.Sound) (x : K) :
    m.cos x = 1 - 2 * (m.sin (x / 2) * m.sin (x / 2)) := by
  have h1 := hs.cos_add (x / 2) (x / 2)
  rw [add_halves] at h1
  have h2 := hs.sin_sq_add_cos_sq (x / 2)
  linarith

/-- The local `a` of the haversine formula lies between 0 and 1: it is
`(1 - cos d (1 - p) + cos s p) / 2` for the latitude difference `d`, the
latitude sum `s` and `p = sin² (dlng / 2)`. -/
theorem haversineA_bounds (m : GoMath K) (hs : m.Sound) (lat1 lng1 lat2 lng2 : K) :
    0 ≤ haversineA m lat1 lng1 lat2 lng2 ∧ haversineA m lat1 lng1 lat2 lng2 ≤ 1 := by
  unfold haversineA
  have hD := hs.cos_eq_half (lat2 * m.Pi / 180 - lat1 * m.Pi / 180)
  have hsub := hs.cos_sub (lat2 * m.Pi / 180) (lat1 * m.Pi / 180)
  have hadd := hs.cos_add (lat2 * m.Pi / 180) (lat1 * m.Pi / 180)
  obtain ⟨hD1, hD2⟩ := hs.cos_bounds (lat2 * m.Pi / 180 - lat1 * m.Pi / 180)
  obtain ⟨hS1, hS2⟩ := hs.cos_bounds (lat2 * m.Pi / 180 + lat1 * m.Pi / 180)
  have hp0 := mul_self_nonneg (m.sin ((lng2 * m.Pi / 180 - lng1 * m.Pi / 180) / 2))
  have hp1 := hs.sin_sq_le_one ((lng2 * m.Pi / 180 - lng1 * m.Pi / 180) / 2)
  generalize m.sin ((lat2 * m.Pi / 180 - lat1 * m.Pi / 180) / 2) = s at *
  generalize m.sin ((lng2 * m.Pi / 180 - lng1 * m.Pi / 180) / 2) = t at *
  generalize m.cos (lat2 * m.Pi / 180 - lat1 * m.Pi / 180) = D at *
  generalize m.cos (lat2 * m.Pi / 180 + lat1 * m.Pi / 180) = S at *
  generalize m.cos (lat1 * m.Pi / 180) = c1 at *
  generalize m.cos (lat2 * m.Pi / 180) = c2 at *
  generalize m.sin (lat1 * m.Pi / 180) = s1 at *
  generalize m.sin (lat2 * m.Pi / 180) = s2 at *
  have hcc : c1 * c2 = (D + S) / 2 := by linarith
  have hss : s * s = (1 - D) / 2 := by linarith
  have e : s * s + c1 * c2 * t * t = (1 - D * (1 - t * t) + S * (t * t)) / 2 := by
    rw [mul_assoc, hcc, hss]
    ring
  rw [e]
  constructor
  · nlinarith [mul_nonneg hp0 (sub_nonneg.mpr hS2), mul_nonneg hp0 (by linarith : 0 ≤ 1 + S),
      mul_nonneg (sub_nonneg.mpr hp1) (sub_nonneg.mpr hD2),
      mul_nonneg (sub_nonneg.mpr hp1) (by linarith : 0 ≤ 1 + D)]
  · nlinarith [mul_nonneg hp0 (sub_nonneg.mpr hS2), mul_nonneg hp0 (by linarith : 0 ≤ 1 + S),
      mul_nonneg (sub_nonneg.mpr hp1) (sub_nonneg.mpr hD2),
      mul_nonneg (sub_nonneg.mpr hp1) (by linarith : 0 ≤ 1 + D)]

/-- On finite coordinates the distance is the finite value
`6371 * (2 * atan2 (sqrt a) (sqrt (1 - a)))`. -/
theorem CalculateDistanceBetweenPoints_finite (m : GoMath K) (hs : m.Sound)
    (lat1 lng1 lat2 lng2 : K) :
    CalculateDistanceBetweenPoints m (.fin lat1) (.fin lng1) (.fin lat2) (.fin lng2)
      = GoFloat.fin (6371 * (2 * m.atan2 (m.sqrt (haversineA m lat1 lng1 lat2 lng2))
          (m.sqrt (1 - haversineA m lat1 lng1 lat2 lng2)))) := by
  obtain ⟨h0, h1⟩ := haversineA_bounds m hs lat1 lng1 lat2 lng2
  have h180 : (180 : K) ≠ 0 := by norm_num
  have h2 : (2 : K) ≠ 0 := by norm_num
  have hn0 : ¬ haversineA m lat1 lng1 lat2 lng2 < 0 := not_lt.mpr h0
  have hn1 : ¬ 1 - haversineA m lat1 lng1 lat2 lng2 < 0 := not_lt.mpr (sub_nonneg.mpr h1)
  have ha : GoFloat.add
        (GoFloat.mul
          (m.Sin (GoFloat.div (GoFloat.sub
            (GoFloat.div (GoFloat.mul (.fin lat2) (GoFloat.fin m.Pi)) (GoFloat.fin 180))
            (GoFloat.div (GoFloat.mul (.fin lat1) (GoFloat.fin m.Pi)) (GoFloat.fin 180)))
            (GoFloat.fin 2)))
          (m.Sin (GoFloat.div (GoFloat.sub
            (GoFloat.div (GoFloat.mul (.fin lat2) (GoFloat.fin m.Pi)) (GoFloat.fin 180))
            (GoFloat.div (GoFloat.mul (.fin lat1) (GoFloat.fin m.Pi)) (GoFloat.fin 180)))
            (GoFloat.fin 2))))
        (GoFloat.mul
          (GoFloat.mul
            (GoFloat.mul
              (m.Cos (GoFloat.div (GoFloat.mul (.fin lat1) (GoFloat.fin m.Pi)) (GoFloat.fin 180)))
              (m.Cos (GoFloat.div (GoFloat.mul (.fin lat2) (GoFloat.fin m.Pi)) (GoFloat.fin 180))))
            (m.Sin (GoFloat.div (GoFloat.sub
              (GoFloat.div (GoFloat.mul (.fin lng2) (GoFloat.fin m.Pi)) (GoFloat.fin 180))
              (GoFloat.div (GoFloat.mul (.fin lng1) (GoFloat.fin m.Pi)) (GoFloat.fin 180)))
              (GoFloat.fin 2))))
          (m.Sin (GoFloat.div (GoFloat.sub
            (GoFloat.div (GoFloat.mul (.fin lng2) (GoFloat.fin m.Pi)) (GoFloat.fin 180))
            (GoFloat.div (GoFloat.mul (.fin lng1) (GoFloat.fin m.Pi)) (GoFloat.fin 180)))
            (GoFloat.fin 2))))
      = GoFloat.fin (haversineA m lat1 lng1 lat2 lng2) := by
    simp only [GoFloat.mul, GoFloat.div, h180, h2, if_false, GoFloat.sub, GoFloat.neg,
      GoFloat.add, GoMath.Sin, GoMath.Cos, haversineA, sub_eq_add_neg]
  simp only [CalculateDistanceBetweenPoints]
  rw [ha]
  simp only [GoFloat.sub, GoFloat.neg, GoFloat.add, GoMath.Sqrt, ← sub_eq_add_neg, hn0, hn1,
    if_false, GoMath.Atan2, GoFloat.mul]

end HaversineFinite

section HaversineClaims

variable {K : Type} [LinearOrderedField K]

theorem GoMath.Sound.sqrt_zero {m : GoMath K} (hs : m.Sound) : m.sqrt 0 = 0 := by
  have h := hs.sqrt_mul_self 0 (le_refl _)
  exact mul_self_eq_zero.mp h

/-- C22. `CalculateDistanceBetweenPoints` is symmetric in its two points: for
all coordinates, exceptional values included, the call with the points
swapped returns the same value (`NaN` both ways when it is `NaN`). All that is
used of `math.Sin` is that it is odd. -/
theorem CalculateDistanceBetweenPoints_symmetric (m : GoMath K)
    (hodd : ∀ x, m.sin (-x) = -m.sin x) (lat1 lng1 lat2 lng2 : GoFloat K) :
    CalculateDistanceBetweenPoints m lat1 lng1 lat2 lng2
      = CalculateDistanceBetweenPoints m lat2 lng2 lat1 lng1 := by
  simp only [CalculateDistanceBetweenPoints]
  rw [Sin_half_swap m hodd
      (GoFloat.div (GoFloat.mul lat2 (GoFloat.fin m.Pi)) (GoFloat.fin 180))
      (GoFloat.div (GoFloat.mul lat1 (GoFloat.fin m.Pi)) (GoFloat.fin 180)),
    Sin_half_swap m hodd
      (GoFloat.div (GoFloat.mul lng2 (GoFloat.fin m.Pi)) (GoFloat.fin 180))
      (GoFloat.div (GoFloat.mul lng1 (GoFloat.fin m.Pi)) (GoFloat.fin 180))]
  simp only [GoFloat.mul_neg_right, GoFloat.mul_neg_left, GoFloat.neg_neg]
  rw [GoFloat.mul_swap
    (m.Cos (GoFloat.div (GoFloat.mul lat1 (GoFloat.fin m.Pi)) (GoFloat.fin 180)))
    (m.Cos (GoFloat.div (GoFloat.mul lat2 (GoFloat.fin m.Pi)) (GoFloat.fin 180)))]

end HaversineClaims

section RealMath

/-- The real sine, cosine and square root, the argument of `x + y i` as
`atan2 y x`, and the number π satisfy what is asked of the `math` package. -/
theorem real_math_sound :
    GoMath.Sound
      (⟨Real.pi, Real.sin, Real.cos, Real.sqrt, fun y x => Complex.arg ⟨x, y⟩⟩ : GoMath ℝ) where
  pi_gt := by
    have h := Real.pi_gt_d4
    norm_num at h ⊢
    linarith
  pi_lt := by
    have h := Real.pi_lt_d4
    norm_num at h ⊢
    linarith
  sin_neg := Real.sin_neg
  cos_neg := Real.cos_neg
  sin_sq_add_cos_sq := by
    intro x
    have h := Real.sin_sq_add_cos_sq x
    nlinarith
  cos_add := Real.cos_add
  sin_le := fun x hx => Real.sin_le hx
  sin_ge := by
    intro x hx hx1
    rcases hx.eq_or_lt with h | h
    · rw [← h]
      simp
    · exact (Real.sin_gt_sub_cube h hx1).le
  cos_ge := fun x => Real.one_sub_sq_div_two_le_cos
  sqrt_nonneg := fun x _ => Real.sqrt_nonneg x
  sqrt_mul_self := fun x hx => Real.mul_self_sqrt hx
  atan2_nonneg := by
    intro y x hy
    exact Complex.arg_nonneg_iff.mpr hy
  atan2_zero := by
    intro x hx
    exact Complex.arg_ofReal_of_nonneg hx.le
  atan2_le := by
    intro y x hy hx
    have h0 : 0 ≤ Complex.arg ⟨x, y⟩ := Complex.arg_nonneg_iff.mpr hy
    have h1 : |Complex.arg ⟨x, y⟩| < Real.pi / 2 :=
      Complex.abs_arg_lt_pi_div_two_iff.mpr (Or.inl hx)
    have h2 : Complex.arg ⟨x, y⟩ < Real.pi / 2 := lt_of_le_of_lt (le_abs_self _) h1
    have h3 := Real.le_tan h0 h2
    rw [Complex.tan_arg] at h3
    exact h3
  atan2_ge := by
    intro y x hy _ hxy
    have h0 : 0 ≤ Complex.arg ⟨x, y⟩ := Complex.arg_nonneg_iff.mpr hy
    have h1 := Complex.sin_arg ⟨x, y⟩
    have habs : Complex.abs ⟨x, y⟩ = 1 := by
      rw [Complex.abs_apply, Complex.normSq_mk, hxy, Real.sqrt_one]
    rw [habs, div_one] at h1
    have h2 := Real.sin_le h0
    rw [h1] at h2
    exact h2

/-- C22, for the real sine and the points (0, 0) and (1, 1). -/
theorem CalculateDistanceBetweenPoints_symmetric_witness :
    CalculateDistanceBetweenPoints
        (⟨Real.pi, Real.sin, Real.cos, Real.sqrt, fun y x => Complex.arg ⟨x, y⟩⟩ : GoMath ℝ)
        (.fin 0) (.fin 0) (.fin 1) (.fin 1)
      = CalculateDistanceBetweenPoints
        (⟨Real.pi, Real.sin, Real.cos, Real.sqrt, fun y x => Complex.arg ⟨x, y⟩⟩ : GoMath ℝ)
        (.fin 1) (.fin 1) (.fin 0) (.fin 0) :=
  CalculateDistanceBetweenPoints_symmetric _ Real.sin_neg (.fin 0) (.fin 0) (.fin 1) (.fin 1)

end RealMath

section HaversineBounds

variable {K : Type} [LinearOrderedField K]

/-- A sandwich for the distance: if the local `a` of the haversine formula
lies between `lo` and `hi`, with `M² <= lo` and `hi (1 + B²) <= B²`, the
distance lies between `6371 * 2 * M` and `6371 * 2 * B`. -/
theorem CalculateDistanceBetweenPoints_sandwich (m : GoMath K) (hs : m.Sound)
    (lat1 lng1 lat2 lng2 lo hi M B : K) (hB : 0 ≤ B)
    (hlo : lo ≤ haversineA m lat1 lng1 lat2 lng2) (hhi : haversineA m lat1 lng1 lat2 lng2 ≤ hi)
    (hMlo : M * M ≤ lo) (hBhi : hi * (1 + B * B) ≤ B * B) :
    ∃ d : K, CalculateDistanceBetweenPoints m (.fin lat1) (.fin lng1) (.fin lat2) (.fin lng2)
        = GoFloat.fin d
      ∧ 6371 * (2 * M) ≤ d ∧ d ≤ 6371 * (2 * B) := by
  obtain ⟨h0, h1⟩ := haversineA_bounds m hs lat1 lng1 lat2 lng2
  refine ⟨_, CalculateDistanceBetweenPoints_finite m hs lat1 lng1 lat2 lng2, ?_, ?_⟩
  · generalize haversineA m lat1 lng1 lat2 lng2 = a at *
    have hy0 := hs.sqrt_nonneg a h0
    have hx0 := hs.sqrt_nonneg (1 - a) (sub_nonneg.mpr h1)
    have hy := hs.sqrt_mul_self a h0
    have hx := hs.sqrt_mul_self (1 - a) (sub_nonneg.mpr h1)
    have hMy : M ≤ m.sqrt a := by
      by_contra hcon
      rw [not_le] at hcon
      nlinarith
    have hat := hs.atan2_ge (m.sqrt a) (m.sqrt (1 - a)) hy0 hx0 (by rw [hx, hy]; ring)
    exact mul_le_mul_of_nonneg_left
      (mul_le_mul_of_nonneg_left (le_trans hMy hat) (by norm_num)) (by norm_num)
  · generalize haversineA m lat1 lng1 lat2 lng2 = a at *
    have hy0 := hs.sqrt_nonneg a h0
    have hx0 := hs.sqrt_nonneg (1 - a) (sub_nonneg.mpr h1)
    have hy := hs.sqrt_mul_self a h0
    have hx := hs.sqrt_mul_self (1 - a) (sub_nonneg.mpr h1)
    have ha1 : a < 1 := by nlinarith [mul_self_nonneg B]
    have hxpos : 0 < m.sqrt (1 - a) := by
      rcases hx0.eq_or_lt with h | h
      · rw [← h] at hx
        linarith
      · exact h
    have hyB : m.sqrt a ≤ B * m.sqrt (1 - a) := by
      by_contra hcon
      rw [not_le] at hcon
      have hBx : 0 ≤ B * m.sqrt (1 - a) := mul_nonneg hB hx0
      have : (B * m.sqrt (1 - a)) * (B * m.sqrt (1 - a)) < m.sqrt a * m.sqrt a := by
        nlinarith
      have e : (B * m.sqrt (1 - a)) * (B * m.sqrt (1 - a)) = B * B * (1 - a) := by
        have e1 : (B * m.sqrt (1 - a)) * (B * m.sqrt (1 - a))
            = B * B * (m.sqrt (1 - a) * m.sqrt (1 - a)) := by ring
        rw [e1, hx]
      rw [e, hy] at this
      nlinarith
    have hat := hs.atan2_le (m.sqrt a) (m.sqrt (1 - a)) hy0 hxpos
    have hdiv : m.sqrt a / m.sqrt (1 - a) ≤ B := by
      rw [div_le_iff₀ hxpos]
      exact hyB
    exact mul_le_mul_of_nonneg_left
      (mul_le_mul_of_nonneg_left (le_trans hat hdiv) (by norm_num)) (by norm_num)

/-- The sine of `π / 36000`, half of 0.01 degree in radians. -/
theorem GoMath.Sound.sin_small {m : GoMath K} (hs : m.Sound) :
    872 / 10000000 ≤ m.sin (m.Pi / 36000) ∧ m.sin (m.Pi / 36000) ≤ 873 / 10000000 := by
  have h1 := hs.pi_gt
  have h2 := hs.pi_lt
  have hu0 : (0 : K) ≤ m.Pi / 36000 := by
    apply div_nonneg <;> linarith
  have hu1 : m.Pi / 36000 ≤ 1 := by
    rw [div_le_iff₀ (by norm_num)]
    linarith
  have hlo : 31415 / 360000000 ≤ m.Pi / 36000 := by
    rw [le_div_iff₀ (by norm_num)]
    linarith
  have hhi : m.Pi / 36000 ≤ 31416 / 360000000 := by
    rw [div_le_iff₀ (by norm_num)]
    linarith
  have hge := hs.sin_ge (m.Pi / 36000) hu0 hu1
  have hle := hs.sin_le (m.Pi / 36000) hu0
  generalize m.Pi / 36000 = u at *
  constructor
  · have hu2 : u ^ 2 ≤ 1 / 100000000 := by nlinarith
    have hu3 : u ^ 3 ≤ u * (1 / 100000000) := by nlinarith
    linarith
  · linarith

/-- The distance between two points 0.01 degree apart in latitude and in
longitude, at latitudes where the product of the cosines is at least 0.99:
between 1.5 km and 1.7 km. -/
theorem CalculateDistanceBetweenPoints_hundredth (m : GoMath K) (hs : m.Sound)
    (lat1 lng1 lat2 lng2 : K) (hlat : lat1 - lat2 = 1 / 100) (hlng : lng1 - lng2 = 1 / 100)
    (hc : 99 / 100 ≤ m.cos (lat1 * m.Pi / 180) * m.cos (lat2 * m.Pi / 180)) :
    ∃ d : K, CalculateDistanceBetweenPoints m (.fin lat1) (.fin lng1) (.fin lat2) (.fin lng2)
        = GoFloat.fin d
      ∧ 3 / 2 ≤ d ∧ d ≤ 17 / 10 := by
  obtain ⟨hs1, hs2⟩ := hs.sin_small
  have elat : (lat2 * m.Pi / 180 - lat1 * m.Pi / 180) / 2 = -(m.Pi / 36000) := by
    have e : (lat2 * m.Pi / 180 - lat1 * m.Pi / 180) / 2 = -((lat1 - lat2) * m.Pi / 360) := by
      ring
    rw [e, hlat]
    ring
  have elng : (lng2 * m.Pi / 180 - lng1 * m.Pi / 180) / 2 = -(m.Pi / 36000) := by
    have e : (lng2 * m.Pi / 180 - lng1 * m.Pi / 180) / 2 = -((lng1 - lng2) * m.Pi / 360) := by
      ring
    rw [e, hlng]
    ring
  have ha : haversineA m lat1 lng1 lat2 lng2
      = m.sin (m.Pi / 36000) * m.sin (m.Pi / 36000)
        + m.cos (lat1 * m.Pi / 180) * m.cos (lat2 * m.Pi / 180)
          * (m.sin (m.Pi / 36000) * m.sin (m.Pi / 36000)) := by
    unfold haversineA
    rw [elat, elng, hs.sin_neg]
    ring
  obtain ⟨-, hc1⟩ := hs.cos_bounds (lat1 * m.Pi / 180)
  obtain ⟨-, hc2⟩ := hs.cos_bounds (lat2 * m.Pi / 180)
  have hcc : m.cos (lat1 * m.Pi / 180) * m.cos (lat2 * m.Pi / 180) ≤ 1 := by
    obtain ⟨hc3, -⟩ := hs.cos_bounds (lat1 * m.Pi / 180)
    obtain ⟨hc4, -⟩ := hs.cos_bounds (lat2 * m.Pi / 180)
    nlinarith
  have hsq_lo : (872 / 10000000 : K) * (872 / 10000000)
      ≤ m.sin (m.Pi / 36000) * m.sin (m.Pi / 36000) := by nlinarith
  have hsq_hi : m.sin (m.Pi / 36000) * m.sin (m.Pi / 36000)
      ≤ (873 / 10000000 : K) * (873 / 10000000) := by nlinarith
  obtain ⟨d, hd, hd1, hd2⟩ := CalculateDistanceBetweenPoints_sandwich m hs lat1 lng1 lat2 lng2
    (199 / 100 * ((872 / 10000000) * (872 / 10000000)))
    (2 * ((873 / 10000000) * (873 / 10000000))) (12 / 100000) (13 / 100000)
    (by norm_num)
    (by
      rw [ha]
      generalize m.sin (m.Pi / 36000) * m.sin (m.Pi / 36000) = q at *
      generalize m.cos (lat1 * m.Pi / 180) * m.cos (lat2 * m.Pi / 180) = c at *
      nlinarith)
    (by
      rw [ha]
      generalize m.sin (m.Pi / 36000) * m.sin (m.Pi / 36000) = q at *
      generalize m.cos (lat1 * m.Pi / 180) * m.cos (lat2 * m.Pi / 180) = c at *
      have hq0 : 0 ≤ q := by nlinarith
      nlinarith)
    (by norm_num) (by norm_num)
  exact ⟨d, hd, le_trans (by norm_num) hd1, le_trans hd2 (by norm_num)⟩

end HaversineBounds

/-! ### The end-to-end scenario -/

section ScenarioLemmas

variable {K : Type} [LinearOrderedField K]

theorem GoMath.Sound.cos_ge_of_small {m : GoMath K} (hs : m.Sound) (x : K)
    (hx : x * x ≤ 1 / 1000) : 999 / 1000 ≤ m.cos x := by
  have h := hs.cos_ge x
  rw [pow_two] at h
  linarith

/-- The pickup distance of the scenario: between 1.5 km and 1.7 km. -/
theorem scenario_pickup (m : GoMath K) (hs : m.Sound) (T : Time) (delay : Duration) :
    ∃ pd : K, pickupDistance (CalculateDistanceBetweenPoints m) (scenarioOffer K T)
        (scenarioRequest K T delay) = GoFloat.fin pd ∧ 3 / 2 ≤ pd ∧ pd ≤ 17 / 10 := by
  have h1 := hs.pi_gt
  have h2 := hs.pi_lt
  apply CalculateDistanceBetweenPoints_hundredth m hs (1 / 100) (1 / 100) 0 0 (by norm_num)
    (by norm_num)
  have hc1 := hs.cos_ge_of_small (1 / 100 * m.Pi / 180) (by nlinarith)
  have hc2 := hs.cos_ge_of_small (0 * m.Pi / 180) (by norm_num)
  nlinarith

/-- The dropoff distance of the scenario: between 1.5 km and 1.7 km. -/
theorem scenario_dropoff (m : GoMath K) (hs : m.Sound) (T : Time) (delay : Duration) :
    ∃ dd : K, dropoffDistance (CalculateDistanceBetweenPoints m) (scenarioOffer K T)
        (scenarioRequest K T delay) = GoFloat.fin dd ∧ 3 / 2 ≤ dd ∧ dd ≤ 17 / 10 := by
  have h1 := hs.pi_gt
  have h2 := hs.pi_lt
  apply CalculateDistanceBetweenPoints_hundredth m hs (101 / 100) (101 / 100) 1 1 (by norm_num)
    (by norm_num)
  have hc1 := hs.cos_ge_of_small (101 / 100 * m.Pi / 180) (by nlinarith)
  have hc2 := hs.cos_ge_of_small (1 * m.Pi / 180) (by nlinarith)
  nlinarith

theorem scenario_priceCompat (T : Time) (delay : Duration) :
    priceCompat (scenarioOffer K T) (scenarioRequest K T delay) = GoFloat.fin 1 := by
  simp [priceCompat, maxPricePerSeat, scenarioOffer, scenarioRequest, GoFloat.gt, GoFloat.lt,
    GoFloat.div, GoFloat.ofInt]
  norm_num

theorem scenario_timeTerm_ten (T : Time) :
    Max.max 0 (1 - |(((scenarioOffer K T).DepartureTime
        - (scenarioRequest K T (10 * Minute)).DepartureTime : Int) : K)| / 60000000000 / 30)
      = (2 / 3 : K) := by
  simp [scenarioOffer, scenarioRequest, Minute]
  norm_num

theorem scenario_timeTerm_fortyfive (T : Time) :
    Max.max 0 (1 - |(((scenarioOffer K T).DepartureTime
        - (scenarioRequest K T (45 * Minute)).DepartureTime : Int) : K)| / 60000000000 / 30)
      = (0 : K) := by
  simp [scenarioOffer, scenarioRequest, Minute]
  norm_num

theorem scenario_timeCompat_ten (T : Time) :
    timeCompat (scenarioOffer K T) (scenarioRequest K T (10 * Minute))
      = GoFloat.fin (2 / 3) := by
  rw [timeCompat_eq, scenario_timeTerm_ten]

theorem scenario_timeCompat_fortyfive (T : Time) :
    timeCompat (scenarioOffer K T) (scenarioRequest K T (45 * Minute))
      = GoFloat.fin 0 := by
  rw [timeCompat_eq, scenario_timeTerm_fortyfive]

theorem scenario_price (T : Time) (delay : Duration) :
    GoFloat.mul (scenarioOffer K T).PricePerSeat
        (GoFloat.ofInt (scenarioRequest K T delay).NumPassengers) = GoFloat.fin 20 := by
  simp only [scenarioOffer, scenarioRequest, GoFloat.mul, GoFloat.ofInt]
  norm_num

/-- The score of the scenario with the request ten minutes after the offer. -/
theorem scenario_score_ten (m : GoMath K) (hs : m.Sound) (T : Time) :
    ∃ sc : K, calculateMatchScore (CalculateDistanceBetweenPoints m) (scenarioOffer K T)
        (scenarioRequest K T (10 * Minute)) = GoFloat.fin sc ∧ 6 / 10 < sc := by
  obtain ⟨pd, hpd, -, hpd2⟩ := scenario_pickup m hs T (10 * Minute)
  obtain ⟨dd, hdd, -, hdd2⟩ := scenario_dropoff m hs T (10 * Minute)
  refine ⟨_, calculateMatchScore_formula _ _ _ 5 pd dd 1
    (by simp [scenarioOffer, scenarioRequest]) rfl (by norm_num) hpd (by linarith) hdd
    (by linarith) (scenario_priceCompat T _), ?_⟩
  rw [scenario_timeTerm_ten]
  have hl : 1 - (pd + dd) / (2 * 5) ≤ Max.max 0 (1 - (pd + dd) / (2 * 5)) := le_max_right _ _
  linarith

/-- The score of the scenario with the request 45 minutes after the offer. -/
theorem scenario_score_fortyfive (m : GoMath K) (hs : m.Sound) (T : Time) :
    ∃ sc : K, calculateMatchScore (CalculateDistanceBetweenPoints m) (scenarioOffer K T)
        (scenarioRequest K T (45 * Minute)) = GoFloat.fin sc ∧ sc ≤ 6 / 10 := by
  obtain ⟨pd, hpd, hpd1, hpd2⟩ := scenario_pickup m hs T (45 * Minute)
  obtain ⟨dd, hdd, hdd1, hdd2⟩ := scenario_dropoff m hs T (45 * Minute)
  refine ⟨_, calculateMatchScore_formula _ _ _ 5 pd dd 1
    (by simp [scenarioOffer, scenarioRequest]) rfl (by norm_num) hpd (by linarith) hdd
    (by linarith) (scenario_priceCompat T _), ?_⟩
  rw [scenario_timeTerm_fortyfive]
  have hl : Max.max 0 (1 - (pd + dd) / (2 * 5)) ≤ 7 / 10 :=
    max_le (by norm_num) (by linarith)
  linarith

theorem scenario_findOffer (T : Time) (delay : Duration) :
    FindRideOfferByID (scenarioStore K T delay) none 21 = .ok (some (scenarioOffer K T)) := rfl

theorem scenario_findRequest (T : Time) (delay : Duration) :
    FindRideRequestByID (scenarioStore K T delay) none 11
      = .ok (some (scenarioRequest K T delay)) := rfl

/-- Ten minutes apart, the request is the one candidate of the offer. -/
theorem scenario_candidates_ten (T : Time) :
    FindPotentialMatches (scenarioStore K T (10 * Minute)) none none 21
      = .ok [scenarioRequest K T (10 * Minute)] := by
  rw [FindPotentialMatches_filter _ 21 _ (scenario_findOffer T _)]
  simp [scenarioStore, scenarioRequest, scenarioOffer, Minute]
  have h : ∀ t : Int, t ≤ t + 600000000000 + 1800000000000 := fun t => by omega
  exact h T

/-- Forty-five minutes apart, the offer has no candidate. -/
theorem scenario_candidates_fortyfive (T : Time) :
    FindPotentialMatches (scenarioStore K T (45 * Minute)) none none 21 = .ok [] := by
  rw [FindPotentialMatches_filter _ 21 _ (scenario_findOffer T _)]
  simp [scenarioStore, scenarioRequest, scenarioOffer, Minute]

/-- Forty-five minutes apart, the request has no candidate. -/
theorem scenario_offers_fortyfive (T : Time) :
    FindPotentialOffers (scenarioStore K T (45 * Minute)) none none 11 = .ok [] := by
  rw [FindPotentialOffers_filter _ 11 _ (scenario_findRequest T _)]
  simp [scenarioStore, scenarioRequest, scenarioOffer, Minute]

end ScenarioLemmas

/-! ### The scenario in a store -/

section ScenarioStoreLemmas

variable {K : Type} [LinearOrderedField K]

/-- Ten minutes apart, the stored request is a candidate of the offer. -/
theorem scenario_request_candidate (T : Time) (s : Store K)
    (ho : FindRideOfferByID s none 21 = .ok (some (scenarioOffer K T)))
    (hmem : scenarioRequest K T (10 * Minute) ∈ s.rideRequests) :
    ∃ cands, FindPotentialMatches s none none 21 = .ok cands
      ∧ scenarioRequest K T (10 * Minute) ∈ cands := by
  refine ⟨_, FindPotentialMatches_filter s 21 _ ho, ?_⟩
  rw [List.mem_filter]
  refine ⟨hmem, ?_⟩
  simp [scenarioRequest, scenarioOffer, Minute]
  have h : ∀ t : Int, t ≤ t + 600000000000 + 1800000000000 := fun t => by omega
  exact h T

/-- Ten minutes apart, the stored offer is a candidate of the request. -/
theorem scenario_offer_candidate (T : Time) (s : Store K)
    (hr : FindRideRequestByID s none 11 = .ok (some (scenarioRequest K T (10 * Minute))))
    (hmem : scenarioOffer K T ∈ s.rideOffers) :
    ∃ cands, FindPotentialOffers s none none 11 = .ok cands ∧ scenarioOffer K T ∈ cands := by
  refine ⟨_, FindPotentialOffers_filter s 11 _ hr, ?_⟩
  rw [List.mem_filter]
  refine ⟨hmem, ?_⟩
  simp [scenarioRequest, scenarioOffer, Minute, GoFloat.le, GoFloat.div, GoFloat.ofInt]
  refine ⟨?_, ?_⟩
  · have h : ∀ t : Int, t ≤ t + 600000000000 + 1800000000000 := fun t => by omega
    exact h T
  · norm_num

/-- Forty-five minutes apart, the request is no candidate of the offer. -/
theorem scenario_request_no_candidate (T : Time) (s : Store K)
    (ho : FindRideOfferByID s none 21 = .ok (some (scenarioOffer K T)))
    (cands : List (RideRequest K)) (hc : FindPotentialMatches s none none 21 = .ok cands) :
    scenarioRequest K T (45 * Minute) ∉ cands := by
  rw [FindPotentialMatches_filter s 21 _ ho] at hc
  injection hc with hc
  rw [← hc, List.mem_filter]
  rintro ⟨-, h⟩
  simp [scenarioRequest, scenarioOffer, Minute] at h

/-- Forty-five minutes apart, the offer is no candidate of the request. -/
theorem scenario_offer_no_candidate (T : Time) (s : Store K)
    (hr : FindRideRequestByID s none 11 = .ok (some (scenarioRequest K T (45 * Minute))))
    (cands : List (RideOffer K)) (hc : FindPotentialOffers s none none 11 = .ok cands) :
    scenarioOffer K T ∉ cands := by
  rw [FindPotentialOffers_filter s 11 _ hr] at hc
  injection hc with hc
  rw [← hc, List.mem_filter]
  rintro ⟨-, h⟩
  simp [scenarioRequest, scenarioOffer, Minute] at h

theorem gt_threshold_of_lt (sc : K) (h : 6 / 10 < sc) :
    GoFloat.gt (GoFloat.fin sc) (GoFloat.fin (6 / 10)) = true := by
  simp [GoFloat.gt, GoFloat.lt, h]

theorem not_gt_threshold_of_le (sc : K) (h : sc ≤ 6 / 10) :
    GoFloat.gt (GoFloat.fin sc) (GoFloat.fin (6 / 10)) = false := by
  simp [GoFloat.gt, GoFloat.lt, h]

/-- A match of the stored pair that a loop over pairs containing it adds, when
the score of the pair is above the threshold. -/
theorem pairLoop_creates (dist : DistanceFn K) (s : Store K) (newIDs : Nat → UUID)
    (hinj : Function.Injective newIDs)
    (hfresh : ∀ n, newIDs n ∉ s.rideMatches.map RideMatch.ID)
    (faults : Nat → CandidateFaults) (hcreate : ∀ k, (faults k).createRideMatch = none)
    (ps : List (RideOffer K × RideRequest K)) (offer : RideOffer K) (request : RideRequest K)
    (hmem : (offer, request) ∈ ps)
    (hgt : GoFloat.gt (calculateMatchScore dist offer request) matchThreshold = true) :
    ∃ x ∈ (pairLoop dist newIDs faults 0 s ps).rideMatches,
      x ∉ s.rideMatches ∧ x.RideOfferID = offer.ID ∧ x.RideRequestID = request.ID
      ∧ x.Status = StatusMatched
      ∧ x.MatchScore = calculateMatchScore dist offer request
      ∧ x.Price = GoFloat.mul offer.PricePerSeat (GoFloat.ofInt request.NumPassengers) := by
  obtain ⟨k, hk⟩ := List.getElem?_of_mem hmem
  have h := pairLoop_rideMatches_all dist newIDs faults hinj ps 0 s (fun n _ => hfresh n) k offer
    request hk hgt (hcreate _)
  refine ⟨_, h, ?_, rfl, rfl, rfl, rfl, rfl⟩
  intro hin
  exact hfresh (0 + k) (List.mem_map_of_mem RideMatch.ID hin)

end ScenarioStoreLemmas

section ScenarioClaims

variable {K : Type} [LinearOrderedField K]

/-- C23. The end-to-end scenario, with the functions of `math` taken as the
real ones, in any store that holds the offer (departure `T`, 3 seats, 10 per
seat, detour 5, from (0, 0) to (1, 1)) and the pending request (departure
`T + 10 min`, 2 passengers, budget 25, from (0.01, 0.01) to (1.01, 1.01)):
both haversine distances are finite, at least 0 and below 5; `priceCompat` is
1; `timeCompat` is 2/3; the score is greater than 0.6 as Go compares; the
request is among the candidates of the offer; and a discovery run for the
offer whose lookups and match inserts meet no database error, with fresh
generated IDs, returns `nil` and adds a match of the pair with status
`matched` and price 20. The same holds for a discovery run for the
request. -/
theorem scenario_match_created (m : GoMath K) (hs : m.Sound) (T : Time) (s : Store K)
    (ho : FindRideOfferByID s none 21 = .ok (some (scenarioOffer K T)))
    (hr : FindRideRequestByID s none 11 = .ok (some (scenarioRequest K T (10 * Minute))))
    (newIDs : Nat → UUID) (hinj : Function.Injective newIDs)
    (hfresh : ∀ n, newIDs n ∉ s.rideMatches.map RideMatch.ID)
    (f : DiscoveryFaults) (hf1 : f.findByID = none) (hf2 : f.potentialFirst = none)
    (hf3 : f.potentialFind = none) (hcreate : ∀ k, (f.candidate k).createRideMatch = none) :
    (∃ pd dd : K,
      pickupDistance (CalculateDistanceBetweenPoints m) (scenarioOffer K T)
          (scenarioRequest K T (10 * Minute)) = GoFloat.fin pd
      ∧ dropoffDistance (CalculateDistanceBetweenPoints m) (scenarioOffer K T)
          (scenarioRequest K T (10 * Minute)) = GoFloat.fin dd
      ∧ 0 ≤ pd ∧ pd < 5 ∧ 0 ≤ dd ∧ dd < 5)
    ∧ priceCompat (scenarioOffer K T) (scenarioRequest K T (10 * Minute)) = GoFloat.fin 1
    ∧ timeCompat (scenarioOffer K T) (scenarioRequest K T (10 * Minute)) = GoFloat.fin (2 / 3)
    ∧ GoFloat.gt (calculateMatchScore (CalculateDistanceBetweenPoints m) (scenarioOffer K T)
        (scenarioRequest K T (10 * Minute))) (GoFloat.fin (6 / 10)) = true
    ∧ (∃ cands, FindPotentialMatches s none none 21 = .ok cands
        ∧ scenarioRequest K T (10 * Minute) ∈ cands)
    ∧ (findMatchesForOffer (CalculateDistanceBetweenPoints m) s newIDs f 21).2 = .ok
    ∧ (∃ x ∈ (findMatchesForOffer (CalculateDistanceBetweenPoints m) s newIDs f
          21).1.rideMatches,
        x ∉ s.rideMatches ∧ x.RideOfferID = 21 ∧ x.RideRequestID = 11
        ∧ x.Status = StatusMatched ∧ x.Price = GoFloat.fin 20)
    ∧ (findMatchesForRequest (CalculateDistanceBetweenPoints m) s newIDs f 11).2 = .ok
    ∧ ∃ x ∈ (findMatchesForRequest (CalculateDistanceBetweenPoints m) s newIDs f
          11).1.rideMatches,
        x ∉ s.rideMatches ∧ x.RideOfferID = 21 ∧ x.RideRequestID = 11
        ∧ x.Status = StatusMatched ∧ x.Price = GoFloat.fin 20 := by
  obtain ⟨pd, hpd, hpd1, hpd2⟩ := scenario_pickup m hs T (10 * Minute)
  obtain ⟨dd, hdd, hdd1, hdd2⟩ := scenario_dropoff m hs T (10 * Minute)
  obtain ⟨sc, hsc, hlt⟩ := scenario_score_ten m hs T
  have hgt : GoFloat.gt (calculateMatchScore (CalculateDistanceBetweenPoints m)
      (scenarioOffer K T) (scenarioRequest K T (10 * Minute))) (GoFloat.fin (6 / 10))
      = true := by
    rw [hsc]
    exact gt_threshold_of_lt sc hlt
  obtain ⟨cands, hc, hin⟩ :=
    scenario_request_candidate T s ho (FindRideRequestByID_mem s 11 _ hr).1
  obtain ⟨offers, hc2, hin2⟩ :=
    scenario_offer_candidate T s hr (FindRideOfferByID_mem s 21 _ ho).1
  refine ⟨⟨pd, dd, hpd, hdd, by linarith, by linarith, by linarith, by linarith⟩,
    scenario_priceCompat T _, scenario_timeCompat_ten T, hgt, ⟨cands, hc, hin⟩, ?_, ?_, ?_, ?_⟩
  · rw [findMatchesForOffer_run _ s newIDs f 21 _ cands hf1 hf2 hf3 ho hc]
  · rw [findMatchesForOffer_run _ s newIDs f 21 _ cands hf1 hf2 hf3 ho hc]
    obtain ⟨x, hx, hnew, h1, h2, h3, -, h5⟩ := pairLoop_creates (CalculateDistanceBetweenPoints m)
      s newIDs hinj hfresh f.candidate hcreate (cands.map (fun r => (scenarioOffer K T, r)))
      (scenarioOffer K T) (scenarioRequest K T (10 * Minute))
      (List.mem_map.mpr ⟨_, hin, rfl⟩) hgt
    exact ⟨x, hx, hnew, h1, h2, h3, h5.trans (scenario_price T _)⟩
  · rw [findMatchesForRequest_run _ s newIDs f 11 _ offers hf1 hf2 hf3 hr hc2]
  · rw [findMatchesForRequest_run _ s newIDs f 11 _ offers hf1 hf2 hf3 hr hc2]
    obtain ⟨x, hx, hnew, h1, h2, h3, -, h5⟩ := pairLoop_creates (CalculateDistanceBetweenPoints m)
      s newIDs hinj hfresh f.candidate hcreate
      (offers.map (fun o => (o, scenarioRequest K T (10 * Minute))))
      (scenarioOffer K T) (scenarioRequest K T (10 * Minute))
      (List.mem_map.mpr ⟨_, hin2, rfl⟩) hgt
    exact ⟨x, hx, hnew, h1, h2, h3, h5.trans (scenario_price T _)⟩

/-- C24. The same scenario with the request 45 minutes after the offer, in any
store with unique primary keys that holds the two rows: `timeCompat` is 0; the
score is a finite value of at most 0.6, so the test `score > 0.6` fails; the
request is not among the candidates of the offer and the offer is not among
the candidates of the request; and whatever the generated IDs and database
errors, every match of the pair that is in the table after a run of
`findMatchesForOffer` for the offer, or of `findMatchesForRequest` for the
request, was there before the run. -/
theorem scenario_late_request_unmatched (m : GoMath K) (hs : m.Sound) (T : Time) (s : Store K)
    (hkeys : s.KeysUnique)
    (ho : FindRideOfferByID s none 21 = .ok (some (scenarioOffer K T)))
    (hr : FindRideRequestByID s none 11 = .ok (some (scenarioRequest K T (45 * Minute))))
    (newIDs : Nat → UUID) (f : DiscoveryFaults) :
    timeCompat (scenarioOffer K T) (scenarioRequest K T (45 * Minute)) = GoFloat.fin 0
    ∧ (∃ sc : K, calculateMatchScore (CalculateDistanceBetweenPoints m) (scenarioOffer K T)
        (scenarioRequest K T (45 * Minute)) = GoFloat.fin sc ∧ sc ≤ 6 / 10)
    ∧ GoFloat.gt (calculateMatchScore (CalculateDistanceBetweenPoints m) (scenarioOffer K T)
        (scenarioRequest K T (45 * Minute))) (GoFloat.fin (6 / 10)) = false
    ∧ (∀ cands, FindPotentialMatches s none none 21 = .ok cands →
        scenarioRequest K T (45 * Minute) ∉ cands)
    ∧ (∀ cands, FindPotentialOffers s none none 11 = .ok cands → scenarioOffer K T ∉ cands)
    ∧ (∀ x ∈ (findMatchesForOffer (CalculateDistanceBetweenPoints m) s newIDs f
          21).1.rideMatches,
        x.RideOfferID = 21 → x.RideRequestID = 11 → x ∈ s.rideMatches)
    ∧ ∀ x ∈ (findMatchesForRequest (CalculateDistanceBetweenPoints m) s newIDs f
          11).1.rideMatches,
        x.RideOfferID = 21 → x.RideRequestID = 11 → x ∈ s.rideMatches := by
  obtain ⟨sc, hsc, hle⟩ := scenario_score_fortyfive m hs T
  have hgt : GoFloat.gt (calculateMatchScore (CalculateDistanceBetweenPoints m)
      (scenarioOffer K T) (scenarioRequest K T (45 * Minute))) (GoFloat.fin (6 / 10))
      = false := by
    rw [hsc]
    exact not_gt_threshold_of_le sc hle
  refine ⟨scenario_timeCompat_fortyfive T, ⟨sc, hsc, hle⟩, hgt,
    scenario_request_no_candidate T s ho, scenario_offer_no_candidate T s hr, ?_, ?_⟩
  · intro x hx _ h11
    rcases findMatchesForOffer_cases (CalculateDistanceBetweenPoints m) s newIDs f 21 with
      ⟨h, -⟩ | ⟨offer, cands, ho2, hc, hrun⟩
    · rw [h] at hx
      exact hx
    · rw [hrun] at hx
      rcases pairLoop_rideMatches_only _ newIDs f.candidate _ 0 s x hx with
        h | ⟨k, o, r, hk, -, -, hxk⟩
      · exact h
      · exfalso
        have hmem := mem_of_getElem?_eq_some _ k _ hk
        obtain ⟨r2, hr2, hpair⟩ := List.mem_map.mp hmem
        have hr2eq : r2 = r := congrArg Prod.snd hpair
        rw [hr2eq] at hr2
        have hrs := FindPotentialMatches_subset s 21 cands hc r hr2
        have hid : r.ID = 11 := by
          rw [hxk] at h11
          exact h11
        have hfind := FindRideRequestByID_of_mem s hkeys.2.1 r hrs
        rw [hid, hr] at hfind
        injection hfind with hfind
        injection hfind with hfind
        rw [← hfind] at hr2
        exact scenario_request_no_candidate T s ho cands hc hr2
  · intro x hx h21 _
    rcases findMatchesForRequest_cases (CalculateDistanceBetweenPoints m) s newIDs f 11 with
      ⟨h, -⟩ | ⟨request, cands, hr2, hc, hrun⟩
    · rw [h] at hx
      exact hx
    · rw [hrun] at hx
      rcases pairLoop_rideMatches_only _ newIDs f.candidate _ 0 s x hx with
        h | ⟨k, o, r, hk, -, -, hxk⟩
      · exact h
      · exfalso
        have hmem := mem_of_getElem?_eq_some _ k _ hk
        obtain ⟨o2, ho2, hpair⟩ := List.mem_map.mp hmem
        have ho2eq : o2 = o := congrArg Prod.fst hpair
        rw [ho2eq] at ho2
        have hos := FindPotentialOffers_subset s 11 cands hc o ho2
        have hid : o.ID = 21 := by
          rw [hxk] at h21
          exact h21
        have hfind := FindRideOfferByID_of_mem s hkeys.1 o hos
        rw [hid, ho] at hfind
        injection hfind with hfind
        injection hfind with hfind
        rw [← hfind] at ho2
        exact scenario_offer_no_candidate T s hr cands hc ho2

end ScenarioClaims

/-! ### The scenario with the real functions -/

section ScenarioWitness

/-- C23, for the real functions, `T = 0`, the store that holds just the offer
and the request, the generated IDs 31, 32, ... and no database error. -/
theorem scenario_match_created_witness :
    (∃ pd dd : ℝ,
      pickupDistance
          (CalculateDistanceBetweenPoints
            (⟨Real.pi, Real.sin, Real.cos, Real.sqrt, fun y x => Complex.arg ⟨x, y⟩⟩ : GoMath ℝ))
          (scenarioOffer ℝ 0) (scenarioRequest ℝ 0 (10 * Minute)) = GoFloat.fin pd
      ∧ dropoffDistance
          (CalculateDistanceBetweenPoints
            (⟨Real.pi, Real.sin, Real.cos, Real.sqrt, fun y x => Complex.arg ⟨x, y⟩⟩ : GoMath ℝ))
          (scenarioOffer ℝ 0) (scenarioRequest ℝ 0 (10 * Minute)) = GoFloat.fin dd
      ∧ 0 ≤ pd ∧ pd < 5 ∧ 0 ≤ dd ∧ dd < 5)
    ∧ priceCompat (scenarioOffer ℝ 0) (scenarioRequest ℝ 0 (10 * Minute)) = GoFloat.fin 1
    ∧ timeCompat (scenarioOffer ℝ 0) (scenarioRequest ℝ 0 (10 * Minute)) = GoFloat.fin (2 / 3)
    ∧ GoFloat.gt
        (calculateMatchScore
          (CalculateDistanceBetweenPoints
            (⟨Real.pi, Real.sin, Real.cos, Real.sqrt, fun y x => Complex.arg ⟨x, y⟩⟩ : GoMath ℝ))
          (scenarioOffer ℝ 0) (scenarioRequest ℝ 0 (10 * Minute)))
        (GoFloat.fin (6 / 10)) = true
    ∧ (∃ cands, FindPotentialMatches (scenarioStore ℝ 0 (10 * Minute)) none none 21 = .ok cands
        ∧ scenarioRequest ℝ 0 (10 * Minute) ∈ cands)
    ∧ (findMatchesForOffer
        (CalculateDistanceBetweenPoints
          (⟨Real.pi, Real.sin, Real.cos, Real.sqrt, fun y x => Complex.arg ⟨x, y⟩⟩ : GoMath ℝ))
        (scenarioStore ℝ 0 (10 * Minute)) (fun i => 31 + i) noDiscoveryFaults 21).2 = .ok
    ∧ (∃ x ∈ (findMatchesForOffer
          (CalculateDistanceBetweenPoints
            (⟨Real.pi, Real.sin, Real.cos, Real.sqrt, fun y x => Complex.arg ⟨x, y⟩⟩ : GoMath ℝ))
          (scenarioStore ℝ 0 (10 * Minute)) (fun i => 31 + i) noDiscoveryFaults
          21).1.rideMatches,
        x ∉ (scenarioStore ℝ 0 (10 * Minute)).rideMatches ∧ x.RideOfferID = 21
        ∧ x.RideRequestID = 11 ∧ x.Status = StatusMatched ∧ x.Price = GoFloat.fin 20)
    ∧ (findMatchesForRequest
        (CalculateDistanceBetweenPoints
          (⟨Real.pi, Real.sin, Real.cos, Real.sqrt, fun y x => Complex.arg ⟨x, y⟩⟩ : GoMath ℝ))
        (scenarioStore ℝ 0 (10 * Minute)) (fun i => 31 + i) noDiscoveryFaults 11).2 = .ok
    ∧ ∃ x ∈ (findMatchesForRequest
          (CalculateDistanceBetweenPoints
            (⟨Real.pi, Real.sin, Real.cos, Real.sqrt, fun y x => Complex.arg ⟨x, y⟩⟩ : GoMath ℝ))
          (scenarioStore ℝ 0 (10 * Minute)) (fun i => 31 + i) noDiscoveryFaults
          11).1.rideMatches,
        x ∉ (scenarioStore ℝ 0 (10 * Minute)).rideMatches ∧ x.RideOfferID = 21
        ∧ x.RideRequestID = 11 ∧ x.Status = StatusMatched ∧ x.Price = GoFloat.fin 20 :=
  scenario_match_created _ real_math_sound 0 (scenarioStore ℝ 0 (10 * Minute))
    (scenario_findOffer 0 _) (scenario_findRequest 0 _) (fun i => 31 + i) ids_injective
    (by simp [scenarioStore]) noDiscoveryFaults rfl rfl rfl (fun _ => rfl)

theorem scenarioStore_keysUnique (K : Type) [LinearOrderedField K] (T : Time)
    (delay : Duration) : (scenarioStore K T delay).KeysUnique := by
  simp [Store.KeysUnique, scenarioStore]

/-- C24, for the real functions, `T = 0`, the store that holds just the offer
and the request, the generated IDs 31, 32, ... and no database error. -/
theorem scenario_late_request_unmatched_witness :
    timeCompat (scenarioOffer ℝ 0) (scenarioRequest ℝ 0 (45 * Minute)) = GoFloat.fin 0
    ∧ (∃ sc : ℝ,
        calculateMatchScore
            (CalculateDistanceBetweenPoints
              (⟨Real.pi, Real.sin, Real.cos, Real.sqrt, fun y x => Complex.arg ⟨x, y⟩⟩ : GoMath ℝ))
            (scenarioOffer ℝ 0) (scenarioRequest ℝ 0 (45 * Minute)) = GoFloat.fin sc
        ∧ sc ≤ 6 / 10)
    ∧ GoFloat.gt
        (calculateMatchScore
          (CalculateDistanceBetweenPoints
            (⟨Real.pi, Real.sin, Real.cos, Real.sqrt, fun y x => Complex.arg ⟨x, y⟩⟩ : GoMath ℝ))
          (scenarioOffer ℝ 0) (scenarioRequest ℝ 0 (45 * Minute)))
        (GoFloat.fin (6 / 10)) = false
    ∧ (∀ cands, FindPotentialMatches (scenarioStore ℝ 0 (45 * Minute)) none none 21
          = .ok cands →
        scenarioRequest ℝ 0 (45 * Minute) ∉ cands)
    ∧ (∀ cands, FindPotentialOffers (scenarioStore ℝ 0 (45 * Minute)) none none 11
          = .ok cands →
        scenarioOffer ℝ 0 ∉ cands)
    ∧ (∀ x ∈ (findMatchesForOffer
          (CalculateDistanceBetweenPoints
            (⟨Real.pi, Real.sin, Real.cos, Real.sqrt, fun y x => Complex.arg ⟨x, y⟩⟩ : GoMath ℝ))
          (scenarioStore ℝ 0 (45 * Minute)) (fun i => 31 + i) noDiscoveryFaults
          21).1.rideMatches,
        x.RideOfferID = 21 → x.RideRequestID = 11 →
          x ∈ (scenarioStore ℝ 0 (45 * Minute)).rideMatches)
    ∧ ∀ x ∈ (findMatchesForRequest
          (CalculateDistanceBetweenPoints
            (⟨Real.pi, Real.sin, Real.cos, Real.sqrt, fun y x => Complex.arg ⟨x, y⟩⟩ : GoMath ℝ))
          (scenarioStore ℝ 0 (45 * Minute)) (fun i => 31 + i) noDiscoveryFaults
          11).1.rideMatches,
        x.RideOfferID = 21 → x.RideRequestID = 11 →
          x ∈ (scenarioStore ℝ 0 (45 * Minute)).rideMatches :=
  scenario_late_request_unmatched _ real_math_sound 0 (scenarioStore ℝ 0 (45 * Minute))
    (scenarioStore_keysUnique ℝ 0 _) (scenario_findOffer 0 _) (scenario_findRequest 0 _)
    (fun i => 31 + i) noDiscoveryFaults

end ScenarioWitness

/-! ### The haversine distance in float64 arithmetic -/

section Float64Lemmas

variable {K : Type} [LinearOrderedField K]

theorem float64Overflow_gt : (6371 : K) < float64Overflow K := by
  unfold float64Overflow
  norm_num

theorem float64Pi_pos : (0 : K) < float64Pi K := by
  unfold float64Pi
  norm_num

end Float64Lemmas

section HaversineFloat64Range

variable {K : Type} [LinearOrderedField K]

/-- A coordinate whose product with `math.Pi` overflows has `NaN` for the
difference of its radians with themselves. -/
theorem Float64.radians_overflow (fl : Float64 K) (x : K) (hx : 0 < x)
    (hov : float64Overflow K ≤ x * float64Pi K) :
    fl.sub (fl.div (fl.mul (GoFloat.fin x) (GoFloat.fin (float64Pi K))) (GoFloat.fin 180))
        (fl.div (fl.mul (GoFloat.fin x) (GoFloat.fin (float64Pi K))) (GoFloat.fin 180))
      = GoFloat.nan := by
  have hpos : 0 < x * float64Pi K := mul_pos hx float64Pi_pos
  have h1 : fl.mul (GoFloat.fin x) (GoFloat.fin (float64Pi K)) = GoFloat.pinf := by
    simp [Float64.mul, GoFloat.mul, Float64.ofExact, abs_of_pos hpos, hov, hpos]
  rw [h1]
  have h2 : fl.div GoFloat.pinf (GoFloat.fin 180) = (GoFloat.pinf : GoFloat K) := by
    simp [Float64.div, GoFloat.div, Float64.ofExact]
  rw [h2]
  rfl

/-- When the latitude of the first point, equal to that of the second, has a
product with `math.Pi` that overflows, the float64 result is `NaN`. -/
theorem CalculateDistanceBetweenPointsFloat64_overflow (fl : Float64 K) (lat : K)
    (lng1 lng2 : GoFloat K) (hx : 0 < lat) (hov : float64Overflow K ≤ lat * float64Pi K) :
    CalculateDistanceBetweenPointsFloat64 fl (.fin lat) lng1 (.fin lat) lng2 = GoFloat.nan := by
  unfold CalculateDistanceBetweenPointsFloat64
  dsimp only
  rw [fl.radians_overflow lat hx hov]
  have h1 : fl.div GoFloat.nan (GoFloat.fin 2) = (GoFloat.nan : GoFloat K) := rfl
  have h2 : fl.math.Sin GoFloat.nan = (GoFloat.nan : GoFloat K) := rfl
  have h3 : fl.mul GoFloat.nan GoFloat.nan = (GoFloat.nan : GoFloat K) := rfl
  have h4 : ∀ y : GoFloat K, fl.add GoFloat.nan y = GoFloat.nan := by
    intro y
    cases y <;> rfl
  have h5 : fl.math.Sqrt GoFloat.nan = (GoFloat.nan : GoFloat K) := rfl
  have h6 : ∀ y : GoFloat K, fl.math.Atan2 GoFloat.nan y = GoFloat.nan := by
    intro y
    cases y <;> rfl
  have h7 : ∀ c : K, fl.mul (GoFloat.fin c) GoFloat.nan = GoFloat.nan := by
    intro c
    rfl
  rw [h1, h2, h3, h4, h5, h6, h7, h7]

end HaversineFloat64Range

section HaversineFloat64Symmetry

variable {K : Type} [LinearOrderedField K]

theorem Float64.ofExact_neg (fl : Float64 K) (h : fl.IEEE) (x : GoFloat K) :
    fl.ofExact (GoFloat.neg x) = GoFloat.neg (fl.ofExact x) := by
  cases x with
  | fin z =>
    simp only [GoFloat.neg, Float64.ofExact, abs_neg]
    by_cases hov : float64Overflow K ≤ |z|
    · have hz : z ≠ 0 := by
        intro h0
        rw [h0, abs_zero] at hov
        linarith [float64Overflow_gt (K := K)]
      rcases lt_or_gt_of_ne hz with hneg | hpos
      · simp [hov, GoFloat.neg, hneg, not_lt.mpr hneg.le]
      · simp [hov, GoFloat.neg, hpos, not_lt.mpr hpos.le]
    · simp [hov, GoFloat.neg, h.round_neg]
  | pinf => rfl
  | ninf => rfl
  | nan => rfl

theorem Float64.sub_swap_rounded (fl : Float64 K) (h : fl.IEEE) (x y : GoFloat K) :
    fl.sub x y = GoFloat.neg (fl.sub y x) := by
  rw [Float64.sub, GoFloat.sub_swap, fl.ofExact_neg h]
  rfl

theorem Float64.div_neg_two_rounded (fl : Float64 K) (h : fl.IEEE) (x : GoFloat K) :
    fl.div (GoFloat.neg x) (GoFloat.fin 2) = GoFloat.neg (fl.div x (GoFloat.fin 2)) := by
  rw [Float64.div, GoFloat.div_neg_two, fl.ofExact_neg h]
  rfl

theorem Float64.mul_neg_neg (fl : Float64 K) (x : GoFloat K) :
    fl.mul (GoFloat.neg x) (GoFloat.neg x) = fl.mul x x := by
  rw [Float64.mul, GoFloat.mul_neg_right, GoFloat.mul_neg_left, GoFloat.neg_neg]
  rfl

theorem Float64.mul_neg_right_rounded (fl : Float64 K) (h : fl.IEEE) (x y : GoFloat K) :
    fl.mul x (GoFloat.neg y) = GoFloat.neg (fl.mul x y) := by
  rw [Float64.mul, GoFloat.mul_neg_right, fl.ofExact_neg h]
  rfl

theorem Float64.mul_swap_rounded (fl : Float64 K) (x y : GoFloat K) :
    fl.mul x y = fl.mul y x := by
  rw [Float64.mul, GoFloat.mul_swap]
  rfl

theorem Float64.mul_neg_left_rounded (fl : Float64 K) (h : fl.IEEE) (x y : GoFloat K) :
    fl.mul (GoFloat.neg x) y = GoFloat.neg (fl.mul x y) := by
  rw [fl.mul_swap_rounded, fl.mul_neg_right_rounded h, fl.mul_swap_rounded]

/-- In float64 arithmetic too the distance is symmetric in its two points, for
all coordinates: rounding to nearest commutes with negation and `math.Sin` is
odd, so swapping the points changes the sign of the two sines that are
squared and nothing else. -/
theorem CalculateDistanceBetweenPointsFloat64_symmetric (fl : Float64 K) (h : fl.IEEE)
    (lat1 lng1 lat2 lng2 : GoFloat K) :
    CalculateDistanceBetweenPointsFloat64 fl lat1 lng1 lat2 lng2
      = CalculateDistanceBetweenPointsFloat64 fl lat2 lng2 lat1 lng1 := by
  have hsin : ∀ x y : GoFloat K,
      fl.math.Sin (fl.div (fl.sub x y) (GoFloat.fin 2))
        = GoFloat.neg (fl.math.Sin (fl.div (fl.sub y x) (GoFloat.fin 2))) := by
    intro x y
    rw [fl.sub_swap_rounded h x y, fl.div_neg_two_rounded h, GoMath.Sin_neg fl.math h.sin_neg]
  simp only [CalculateDistanceBetweenPointsFloat64]
  rw [hsin (fl.div (fl.mul lat2 (GoFloat.fin (float64Pi K))) (GoFloat.fin 180))
      (fl.div (fl.mul lat1 (GoFloat.fin (float64Pi K))) (GoFloat.fin 180)),
    hsin (fl.div (fl.mul lng2 (GoFloat.fin (float64Pi K))) (GoFloat.fin 180))
      (fl.div (fl.mul lng1 (GoFloat.fin (float64Pi K))) (GoFloat.fin 180))]
  simp only [fl.mul_neg_neg, fl.mul_neg_right_rounded h, fl.mul_neg_left_rounded h,
    GoFloat.neg_neg]
  rw [fl.mul_swap_rounded
    (fl.math.Cos (fl.div (fl.mul lat1 (GoFloat.fin (float64Pi K))) (GoFloat.fin 180)))
    (fl.math.Cos (fl.div (fl.mul lat2 (GoFloat.fin (float64Pi K))) (GoFloat.fin 180)))]

end HaversineFloat64Symmetry

section HaversineFloat64Claims

variable {K : Type} [LinearOrderedField K]

end HaversineFloat64Claims

section RealFloat64

end RealFloat64

/-! ### The detour bound of stored offers -/

section ClearedDetour

variable {K : Type}

end ClearedDetour

section StoredDetour

variable {K : Type} [LinearOrderedField K]

end StoredDetour

/-! ### The score outside the unit interval -/

section ScoreNaN

variable {K : Type} [LinearOrderedField K]

/-- When the pickup distance is `NaN` and the dropoff distance does not
exceed the detour bound (as Go compares), the score of a pair with enough
seats is `NaN`: the comparison `NaN > bound` is false, so the pair is not
rejected, and `NaN` goes through `locationCompat` and the weighted sum. -/
theorem calculateMatchScore_nan_pickup (dist : DistanceFn K) (offer : RideOffer K)
    (request : RideRequest K) (hseats : offer.AvailableSeats ≥ request.NumPassengers)
    (hpd : pickupDistance dist offer request = GoFloat.nan)
    (hdd : GoFloat.gt (dropoffDistance dist offer request) offer.AllowedDetourKm = false) :
    calculateMatchScore dist offer request = GoFloat.nan := by
  have h1 : ¬ offer.AvailableSeats < request.NumPassengers := not_lt.mpr hseats
  have hgt : GoFloat.gt (pickupDistance dist offer request) offer.AllowedDetourKm = false := by
    rw [hpd]
    cases offer.AllowedDetourKm <;> rfl
  have hloc : locationCompat dist offer request = GoFloat.nan := by
    simp only [locationCompat, hpd]
    cases dropoffDistance dist offer request <;>
      cases GoFloat.mul (GoFloat.fin 2) offer.AllowedDetourKm <;> rfl
  rw [calculateMatchScore, if_neg h1, hgt, hdd, hloc]
  simp only [Bool.or_self, Bool.false_eq_true, if_false]
  cases GoFloat.add (GoFloat.mul (priceCompat offer request) priceWeight)
    (GoFloat.mul (timeCompat offer request) timeWeight) <;> rfl

end ScoreNaN

section ScoreNaNClaims

/-- C11 fails on the code, in float64 arithmetic, for rows the service
accepts. `CreateRideOffer` and `CreateRideRequest` check no coordinate: called
with the four coordinates `2^1023` (a finite `float64`) they return
`overflowOffer` and `overflowRequest`. For this pair both distances are `NaN`
(the products with `math.Pi` overflow), neither `NaN > 5` holds, and the score
is `NaN`, whatever the rounding and the functions of `math` do on finite
values: not a number of [0, 1], both `0 <= score` and `score <= 1` being
false. -/
theorem calculateMatchScore_nan_at_overflow :
    (CreateRideOffer oversellStore0 0 21 noCreateOfferFaults 1 (.fin (2 ^ 1023))
        (.fin (2 ^ 1023)) "A" (.fin (2 ^ 1023)) (.fin (2 ^ 1023)) "B" 1000 3 (.fin 10)
        (.fin 5)).2 = .ok overflowOffer
    ∧ (CreateRideRequest oversellStore0 0 11 noCreateRequestFaults 7 (.fin (2 ^ 1023))
        (.fin (2 ^ 1023)) "A" (.fin (2 ^ 1023)) (.fin (2 ^ 1023)) "B" 1000 2
        (.fin 25)).2 = .ok overflowRequest
    ∧ (∀ fl : Float64 ℚ,
        pickupDistance (CalculateDistanceBetweenPointsFloat64 fl) overflowOffer overflowRequest
            = GoFloat.nan
          ∧ dropoffDistance (CalculateDistanceBetweenPointsFloat64 fl) overflowOffer
            overflowRequest = GoFloat.nan
          ∧ calculateMatchScore (CalculateDistanceBetweenPointsFloat64 fl) overflowOffer
            overflowRequest = GoFloat.nan)
    ∧ GoFloat.le (GoFloat.fin 0) (GoFloat.nan : GoFloat ℚ) = false
    ∧ GoFloat.le (GoFloat.nan : GoFloat ℚ) (GoFloat.fin 1) = false := by
  have hov : float64Overflow ℚ ≤ 2 ^ 1023 * float64Pi ℚ := by
    unfold float64Overflow float64Pi
    norm_num
  have hd : ∀ fl : Float64 ℚ,
      CalculateDistanceBetweenPointsFloat64 fl (.fin (2 ^ 1023)) (.fin (2 ^ 1023))
        (.fin (2 ^ 1023)) (.fin (2 ^ 1023)) = GoFloat.nan :=
    fun fl => CalculateDistanceBetweenPointsFloat64_overflow fl (2 ^ 1023) _ _ (by positivity) hov
  refine ⟨rfl, rfl, fun fl => ⟨hd fl, hd fl, ?_⟩, rfl, rfl⟩
  have h1 : pickupDistance (CalculateDistanceBetweenPointsFloat64 fl) overflowOffer
      overflowRequest = GoFloat.nan := hd fl
  have h2 : dropoffDistance (CalculateDistanceBetweenPointsFloat64 fl) overflowOffer
      overflowRequest = GoFloat.nan := hd fl
  apply calculateMatchScore_nan_pickup _ overflowOffer overflowRequest (by decide) h1
  rw [h2]
  rfl

end ScoreNaNClaims

/-! ### The zero detour bound -/

section ZeroBoundClaims

variable {K : Type} [LinearOrderedField K]

end ZeroBoundClaims

section ZeroBoundWitness

end ZeroBoundWitness

end RideSharing
